import Mathlib

/-!
# libserial: port configuration and open/close/reconfigure state machine

A shallow embedding of `serialport/src/properties.cpp`,
`serialport/src/linux/serialport_impl.cpp`,
`serialport/src/windows/serialport_impl.cpp`, `serialport/src/serialport.cpp` and
`serialport/src/enumerator.cpp`.

Conventions of the embedding.

* The five configuration enumerations are `enum class X : unsigned char`; a value of such
  a type is any 8-bit code (the tests build out-of-range ones with `static_cast`), so each
  enumeration is the type of its underlying code, a natural number, with the named members
  as constants.
* A C++ exception is a value of `Exception`; a `void` member function that may throw
  returns the exception it threw, if any, together with the object state and the native
  calls issued so far: the mutations made before a `throw` stay.
* The operating system is an `Oracle`: it answers every native call from the history of
  all native calls issued so far, the current one included.  Theorems quantify over all
  oracles, that is over every pattern of native successes and failures.
* One entry of a trace is one native call as the source writes it.  On the POSIX target
  every native call goes through `systemCall`, which repeats the call while it is
  interrupted (`EINTR`); an entry stands for the whole `systemCall(...)` expression and
  its result is the first result that is not an interruption.
* The `const` members that read, write, flush and handle control lines have native calls
  and answers of their own kind (`IoCall`, `IoOracle`); they assign no member and contain
  no `throw`, so they return their result and the trace only.
* A run of operations on a handle is a list of `Operation`s performed in order by a caller
  that catches what they throw; statements about every reachable state quantify over all
  runs from a constructed handle and over all oracles.
* Only one platform is active in a build.  What the two implementation files define under
  the same name lives in the namespaces `Linux` and `Windows`; the property tables of
  `properties.cpp`, compiled conditionally, take the `Platform` as an argument.
-/

deriving instance DecidableEq for Except

namespace LibSerial

/-! ## Exceptions -/

/-- The two exception classes the library throws, with the `what()` text. -/
inductive Exception
  | runtime_error (what : String)
  | out_of_range (what : String)
  deriving DecidableEq, Repr

/-- The build target: `__linux__`, or `_WIN32 || _WIN64`. -/
inductive Platform
  | linux
  | windows
  deriving DecidableEq, Repr

/-! ## properties.hpp: enumerations (underlying `unsigned char` codes) -/

abbrev BaudRate := Nat
abbrev CharacterSize := Nat
abbrev FlowControl := Nat
abbrev Parity := Nat
abbrev StopBit := Nat

namespace BaudRate
@[match_pattern] def BAUD_RATE_CUSTOM : BaudRate := 0
@[match_pattern] def BAUD_RATE_50 : BaudRate := 1
@[match_pattern] def BAUD_RATE_75 : BaudRate := 2
@[match_pattern] def BAUD_RATE_110 : BaudRate := 3
@[match_pattern] def BAUD_RATE_134 : BaudRate := 4
@[match_pattern] def BAUD_RATE_150 : BaudRate := 5
@[match_pattern] def BAUD_RATE_200 : BaudRate := 6
@[match_pattern] def BAUD_RATE_300 : BaudRate := 7
@[match_pattern] def BAUD_RATE_600 : BaudRate := 8
@[match_pattern] def BAUD_RATE_1200 : BaudRate := 9
@[match_pattern] def BAUD_RATE_1800 : BaudRate := 10
@[match_pattern] def BAUD_RATE_2400 : BaudRate := 11
@[match_pattern] def BAUD_RATE_4800 : BaudRate := 12
@[match_pattern] def BAUD_RATE_9600 : BaudRate := 13
@[match_pattern] def BAUD_RATE_14400 : BaudRate := 14
@[match_pattern] def BAUD_RATE_19200 : BaudRate := 15
@[match_pattern] def BAUD_RATE_38400 : BaudRate := 16
@[match_pattern] def BAUD_RATE_56000 : BaudRate := 17
@[match_pattern] def BAUD_RATE_57600 : BaudRate := 18
@[match_pattern] def BAUD_RATE_115200 : BaudRate := 19
@[match_pattern] def BAUD_RATE_128000 : BaudRate := 20
@[match_pattern] def BAUD_RATE_230400 : BaudRate := 21
@[match_pattern] def BAUD_RATE_256000 : BaudRate := 22
@[match_pattern] def BAUD_RATE_460800 : BaudRate := 23
@[match_pattern] def BAUD_RATE_500000 : BaudRate := 24
@[match_pattern] def BAUD_RATE_576000 : BaudRate := 25
@[match_pattern] def BAUD_RATE_921600 : BaudRate := 26
@[match_pattern] def BAUD_RATE_1000000 : BaudRate := 27
@[match_pattern] def BAUD_RATE_1152000 : BaudRate := 28
@[match_pattern] def BAUD_RATE_1500000 : BaudRate := 29
@[match_pattern] def BAUD_RATE_2000000 : BaudRate := 30
@[match_pattern] def BAUD_RATE_2500000 : BaudRate := 31
@[match_pattern] def BAUD_RATE_3000000 : BaudRate := 32
@[match_pattern] def BAUD_RATE_3500000 : BaudRate := 33
@[match_pattern] def BAUD_RATE_4000000 : BaudRate := 34
def BAUD_RATE_DEFAULT : BaudRate := BAUD_RATE_115200
def BAUD_RATE_MIN : BaudRate := BAUD_RATE_CUSTOM
def BAUD_RATE_MAX : BaudRate := BAUD_RATE_4000000
end BaudRate

namespace CharacterSize
@[match_pattern] def CHARACTER_SIZE_5 : CharacterSize := 0
@[match_pattern] def CHARACTER_SIZE_6 : CharacterSize := 1
@[match_pattern] def CHARACTER_SIZE_7 : CharacterSize := 2
@[match_pattern] def CHARACTER_SIZE_8 : CharacterSize := 3
def CHARACTER_SIZE_DEFAULT : CharacterSize := CHARACTER_SIZE_8
def CHARACTER_SIZE_MIN : CharacterSize := CHARACTER_SIZE_5
def CHARACTER_SIZE_MAX : CharacterSize := CHARACTER_SIZE_8
end CharacterSize

namespace FlowControl
@[match_pattern] def FLOW_CONTROL_HARDWARE : FlowControl := 0
@[match_pattern] def FLOW_CONTROL_SOFTWARE : FlowControl := 1
@[match_pattern] def FLOW_CONTROL_NONE : FlowControl := 2
def FLOW_CONTROL_DEFAULT : FlowControl := FLOW_CONTROL_NONE
def FLOW_CONTROL_MIN : FlowControl := FLOW_CONTROL_HARDWARE
def FLOW_CONTROL_MAX : FlowControl := FLOW_CONTROL_NONE
end FlowControl

namespace Parity
@[match_pattern] def PARITY_TYPE_NONE : Parity := 0
@[match_pattern] def PARITY_TYPE_ODD : Parity := 1
@[match_pattern] def PARITY_TYPE_EVEN : Parity := 2
@[match_pattern] def PARITY_TYPE_MARK : Parity := 3
@[match_pattern] def PARITY_TYPE_SPACE : Parity := 4
def PARITY_TYPE_DEFAULT : Parity := PARITY_TYPE_NONE
def PARITY_TYPE_MIN : Parity := PARITY_TYPE_NONE
def PARITY_TYPE_MAX : Parity := PARITY_TYPE_SPACE
end Parity

namespace StopBit
@[match_pattern] def STOP_BIT_ONE : StopBit := 0
@[match_pattern] def STOP_BIT_ONE_HALF : StopBit := 1
@[match_pattern] def STOP_BIT_TWO : StopBit := 2
def STOP_BIT_DEFAULT : StopBit := STOP_BIT_ONE
def STOP_BIT_MIN : StopBit := STOP_BIT_ONE
def STOP_BIT_MAX : StopBit := STOP_BIT_TWO
end StopBit

abbrev ControlLine := Nat

namespace ControlLine
def LINE_NONE : ControlLine := 0x00
def LINE_DCD : ControlLine := 0x01
def LINE_DTR : ControlLine := 0x02
def LINE_DSR : ControlLine := 0x04
def LINE_RTS : ControlLine := 0x08
def LINE_CTS : ControlLine := 0x10
def LINE_RI : ControlLine := 0x20
def LINE_ALL : ControlLine := 0x3F
end ControlLine

/-! ## properties.hpp: control characters -/

def NUL : Nat := 0x00
def DC1 : Nat := 0x11
def XON : Nat := DC1
def DC3 : Nat := 0x13
def XOFF : Nat := DC3

/-! ## `<ios>`: open modes

`std::ios_base::openmode` is a bitmask type; the codes are those of libstdc++
(`_S_in = 1 << 3`, `_S_out = 1 << 4`).  The library only compares a mode with `in`, `out`
and `in | out`. -/

abbrev OpenMode := Nat
def ios_base_app : OpenMode := 1
def ios_base_ate : OpenMode := 2
def ios_base_in : OpenMode := 8
def ios_base_out : OpenMode := 16

/-! ## `<termios.h>`, `<fcntl.h>`, `<sys/ioctl.h>`: native constants of the POSIX target

The values are those of the Linux headers (`bits/termios-*.h`, `asm-generic/fcntl.h`,
`asm-generic/ioctls.h`); they are not part of the library. -/

namespace Linux

/- c_iflag -/
def IGNBRK : Nat := 0o0000001
def BRKINT : Nat := 0o0000002
def IGNPAR : Nat := 0o0000004
def PARMRK : Nat := 0o0000010
def INPCK : Nat := 0o0000020
def ISTRIP : Nat := 0o0000040
def INLCR : Nat := 0o0000100
def IGNCR : Nat := 0o0000200
def ICRNL : Nat := 0o0000400
def IUCLC : Nat := 0o0001000
def IXON : Nat := 0o0002000
def IXANY : Nat := 0o0004000
def IXOFF : Nat := 0o0010000
def IMAXBEL : Nat := 0o0020000
def IUTF8 : Nat := 0o0040000

/- c_oflag -/
def OPOST : Nat := 0o0000001
def OLCUC : Nat := 0o0000002
def ONLCR : Nat := 0o0000004
def OCRNL : Nat := 0o0000010
def ONOCR : Nat := 0o0000020
def ONLRET : Nat := 0o0000040
def OFILL : Nat := 0o0000100
def OFDEL : Nat := 0o0000200
def NLDLY : Nat := 0o0000400
def CRDLY : Nat := 0o0003000
def TABDLY : Nat := 0o0014000
def BSDLY : Nat := 0o0020000
def VTDLY : Nat := 0o0040000
def FFDLY : Nat := 0o0100000

/- c_cflag -/
def CSIZE : Nat := 0o0000060
def CS5 : Nat := 0o0000000
def CS6 : Nat := 0o0000020
def CS7 : Nat := 0o0000040
def CS8 : Nat := 0o0000060
def CSTOPB : Nat := 0o0000100
def CREAD : Nat := 0o0000200
def PARENB : Nat := 0o0000400
def PARODD : Nat := 0o0001000
def HUPCL : Nat := 0o0002000
def CLOCAL : Nat := 0o0004000
def CMSPAR : Nat := 0o010000000000
def CRTSCTS : Nat := 0o020000000000

/- c_lflag -/
def ISIG : Nat := 0o0000001
def ICANON : Nat := 0o0000002
def XCASE : Nat := 0o0000004
def ECHO : Nat := 0o0000010
def ECHOE : Nat := 0o0000020
def ECHOK : Nat := 0o0000040
def ECHONL : Nat := 0o0000100
def NOFLSH : Nat := 0o0000200
def TOSTOP : Nat := 0o0000400
def ECHOCTL : Nat := 0o0001000
def ECHOPRT : Nat := 0o0002000
def ECHOKE : Nat := 0o0004000
def FLUSHO : Nat := 0o0010000
def PENDIN : Nat := 0o0040000
def IEXTEN : Nat := 0o0100000

/- c_cc subscripts -/
def NCCS : Nat := 32
def VINTR : Nat := 0
def VQUIT : Nat := 1
def VERASE : Nat := 2
def VKILL : Nat := 3
def VEOF : Nat := 4
def VTIME : Nat := 5
def VMIN : Nat := 6
def VSWTC : Nat := 7
def VSTART : Nat := 8
def VSTOP : Nat := 9
def VSUSP : Nat := 10
def VEOL : Nat := 11
def VREPRINT : Nat := 12
def VDISCARD : Nat := 13
def VWERASE : Nat := 14
def VLNEXT : Nat := 15
def VEOL2 : Nat := 16
def _POSIX_VDISABLE : Nat := 0

/- speeds -/
def CBAUD : Nat := 0o0010017
def CBAUDEX : Nat := 0o0010000
def IBAUD0 : Nat := 0o020000000000
def B0 : Nat := 0o0000000
def B50 : Nat := 0o0000001
def B75 : Nat := 0o0000002
def B110 : Nat := 0o0000003
def B134 : Nat := 0o0000004
def B150 : Nat := 0o0000005
def B200 : Nat := 0o0000006
def B300 : Nat := 0o0000007
def B600 : Nat := 0o0000010
def B1200 : Nat := 0o0000011
def B1800 : Nat := 0o0000012
def B2400 : Nat := 0o0000013
def B4800 : Nat := 0o0000014
def B9600 : Nat := 0o0000015
def B19200 : Nat := 0o0000016
def B38400 : Nat := 0o0000017
def B57600 : Nat := 0o0010001
def B115200 : Nat := 0o0010002
def B230400 : Nat := 0o0010003
def B460800 : Nat := 0o0010004
def B500000 : Nat := 0o0010005
def B576000 : Nat := 0o0010006
def B921600 : Nat := 0o0010007
def B1000000 : Nat := 0o0010010
def B1152000 : Nat := 0o0010011
def B1500000 : Nat := 0o0010012
def B2000000 : Nat := 0o0010013
def B2500000 : Nat := 0o0010014
def B3000000 : Nat := 0o0010015
def B3500000 : Nat := 0o0010016
def B4000000 : Nat := 0o0010017
def __MAX_BAUD : Nat := B4000000

/- tcsetattr actions, open flags, ioctl requests -/
def TCSANOW : Nat := 0
def O_RDONLY : Nat := 0o0
def O_WRONLY : Nat := 0o1
def O_RDWR : Nat := 0o2
def O_NOCTTY : Nat := 0o400
def O_NONBLOCK : Nat := 0o4000
def TIOCEXCL : Nat := 0x540C
def TIOCNXCL : Nat := 0x540D

end Linux

/-! ## `<winbase.h>`: native constants of the Windows target

The values are those of the Windows SDK headers; they are not part of the library. -/

namespace Windows

def CBR_110 : Nat := 110
def CBR_300 : Nat := 300
def CBR_600 : Nat := 600
def CBR_1200 : Nat := 1200
def CBR_2400 : Nat := 2400
def CBR_4800 : Nat := 4800
def CBR_9600 : Nat := 9600
def CBR_14400 : Nat := 14400
def CBR_19200 : Nat := 19200
def CBR_38400 : Nat := 38400
def CBR_56000 : Nat := 56000
def CBR_57600 : Nat := 57600
def CBR_115200 : Nat := 115200
def CBR_128000 : Nat := 128000
def CBR_256000 : Nat := 256000

def NOPARITY : Nat := 0
def ODDPARITY : Nat := 1
def EVENPARITY : Nat := 2
def MARKPARITY : Nat := 3
def SPACEPARITY : Nat := 4
def ONESTOPBIT : Nat := 0
def ONE5STOPBITS : Nat := 1
def TWOSTOPBITS : Nat := 2
def DTR_CONTROL_DISABLE : Nat := 0
def RTS_CONTROL_DISABLE : Nat := 0
def RTS_CONTROL_HANDSHAKE : Nat := 2
def MAXDWORD : Nat := 0xFFFFFFFF
def GENERIC_READ : Nat := 0x80000000
def GENERIC_WRITE : Nat := 0x40000000
def OPEN_EXISTING : Nat := 3

end Windows

/-! ## properties.cpp: support predicates and native values

The conditional compilation (`#ifdef __linux__`, `#if defined(_WIN32) || defined(_WIN64)`)
is the `Platform` argument; the nested `#if __MAX_BAUD > B2000000` is evaluated on the
header constants. -/

open BaudRate CharacterSize FlowControl Parity StopBit in
def isBaudRateSupported (target : Platform) (baudRate : BaudRate) : Bool :=
  match baudRate with
  | BAUD_RATE_110 | BAUD_RATE_300 | BAUD_RATE_600 | BAUD_RATE_1200 | BAUD_RATE_2400
  | BAUD_RATE_4800 | BAUD_RATE_9600 | BAUD_RATE_19200 | BAUD_RATE_38400 | BAUD_RATE_57600
  | BAUD_RATE_115200 => true
  | BAUD_RATE_50 | BAUD_RATE_75 | BAUD_RATE_134 | BAUD_RATE_150 | BAUD_RATE_200
  | BAUD_RATE_1800 | BAUD_RATE_230400 | BAUD_RATE_460800 | BAUD_RATE_500000
  | BAUD_RATE_576000 | BAUD_RATE_921600 | BAUD_RATE_1000000 | BAUD_RATE_1152000
  | BAUD_RATE_1500000 => target == Platform.linux
  | BAUD_RATE_2000000 | BAUD_RATE_2500000 | BAUD_RATE_3000000 | BAUD_RATE_3500000
  | BAUD_RATE_4000000 => target == Platform.linux && decide (Linux.__MAX_BAUD > Linux.B2000000)
  | BAUD_RATE_14400 | BAUD_RATE_56000 | BAUD_RATE_128000 | BAUD_RATE_256000 =>
      target == Platform.windows
  | _ => false

open BaudRate in
def getBaudRateValue (target : Platform) (baudRate : BaudRate) : Except Exception Nat :=
  match target with
  | Platform.linux =>
    match baudRate with
    | BAUD_RATE_50 => .ok Linux.B50
    | BAUD_RATE_75 => .ok Linux.B75
    | BAUD_RATE_110 => .ok Linux.B110
    | BAUD_RATE_134 => .ok Linux.B134
    | BAUD_RATE_150 => .ok Linux.B150
    | BAUD_RATE_200 => .ok Linux.B200
    | BAUD_RATE_300 => .ok Linux.B300
    | BAUD_RATE_600 => .ok Linux.B600
    | BAUD_RATE_1200 => .ok Linux.B1200
    | BAUD_RATE_1800 => .ok Linux.B1800
    | BAUD_RATE_2400 => .ok Linux.B2400
    | BAUD_RATE_4800 => .ok Linux.B4800
    | BAUD_RATE_9600 => .ok Linux.B9600
    | BAUD_RATE_19200 => .ok Linux.B19200
    | BAUD_RATE_38400 => .ok Linux.B38400
    | BAUD_RATE_57600 => .ok Linux.B57600
    | BAUD_RATE_115200 => .ok Linux.B115200
    | BAUD_RATE_230400 => .ok Linux.B230400
    | BAUD_RATE_460800 => .ok Linux.B460800
    | BAUD_RATE_500000 => .ok Linux.B500000
    | BAUD_RATE_576000 => .ok Linux.B576000
    | BAUD_RATE_921600 => .ok Linux.B921600
    | BAUD_RATE_1000000 => .ok Linux.B1000000
    | BAUD_RATE_1152000 => .ok Linux.B1152000
    | BAUD_RATE_1500000 => .ok Linux.B1500000
    | BAUD_RATE_2000000 =>
        if Linux.__MAX_BAUD > Linux.B2000000 then .ok Linux.B2000000
        else .error (.out_of_range "Baud rate out of range")
    | BAUD_RATE_2500000 =>
        if Linux.__MAX_BAUD > Linux.B2000000 then .ok Linux.B2500000
        else .error (.out_of_range "Baud rate out of range")
    | BAUD_RATE_3000000 =>
        if Linux.__MAX_BAUD > Linux.B2000000 then .ok Linux.B3000000
        else .error (.out_of_range "Baud rate out of range")
    | BAUD_RATE_3500000 =>
        if Linux.__MAX_BAUD > Linux.B2000000 then .ok Linux.B3500000
        else .error (.out_of_range "Baud rate out of range")
    | BAUD_RATE_4000000 =>
        if Linux.__MAX_BAUD > Linux.B2000000 then .ok Linux.B4000000
        else .error (.out_of_range "Baud rate out of range")
    | _ => .error (.out_of_range "Baud rate out of range")
  | Platform.windows =>
    match baudRate with
    | BAUD_RATE_110 => .ok Windows.CBR_110
    | BAUD_RATE_300 => .ok Windows.CBR_300
    | BAUD_RATE_600 => .ok Windows.CBR_600
    | BAUD_RATE_1200 => .ok Windows.CBR_1200
    | BAUD_RATE_2400 => .ok Windows.CBR_2400
    | BAUD_RATE_4800 => .ok Windows.CBR_4800
    | BAUD_RATE_9600 => .ok Windows.CBR_9600
    | BAUD_RATE_14400 => .ok Windows.CBR_14400
    | BAUD_RATE_19200 => .ok Windows.CBR_19200
    | BAUD_RATE_38400 => .ok Windows.CBR_38400
    | BAUD_RATE_56000 => .ok Windows.CBR_56000
    | BAUD_RATE_57600 => .ok Windows.CBR_57600
    | BAUD_RATE_115200 => .ok Windows.CBR_115200
    | BAUD_RATE_128000 => .ok Windows.CBR_128000
    | BAUD_RATE_256000 => .ok Windows.CBR_256000
    | _ => .error (.out_of_range "Baud rate out of range")

open CharacterSize in
def isCharacterSizeSupported (characterSize : CharacterSize) : Bool :=
  match characterSize with
  | CHARACTER_SIZE_5 | CHARACTER_SIZE_6 | CHARACTER_SIZE_7 | CHARACTER_SIZE_8 => true
  | _ => false

open CharacterSize in
def getCharacterSizeValue (target : Platform) (characterSize : CharacterSize) :
    Except Exception Nat :=
  match target with
  | Platform.linux =>
    match characterSize with
    | CHARACTER_SIZE_5 => .ok Linux.CS5
    | CHARACTER_SIZE_6 => .ok Linux.CS6
    | CHARACTER_SIZE_7 => .ok Linux.CS7
    | CHARACTER_SIZE_8 => .ok Linux.CS8
    | _ => .error (.out_of_range "Character size out of range")
  | Platform.windows =>
    match characterSize with
    | CHARACTER_SIZE_5 => .ok 5
    | CHARACTER_SIZE_6 => .ok 6
    | CHARACTER_SIZE_7 => .ok 7
    | CHARACTER_SIZE_8 => .ok 8
    | _ => .error (.out_of_range "Character size out of range")

open FlowControl in
def isFlowControlSupported (flowControl : FlowControl) : Bool :=
  match flowControl with
  | FLOW_CONTROL_HARDWARE | FLOW_CONTROL_SOFTWARE | FLOW_CONTROL_NONE => true
  | _ => false

open Parity in
def isParitySupported (parity : Parity) : Bool :=
  match parity with
  | PARITY_TYPE_NONE | PARITY_TYPE_ODD | PARITY_TYPE_EVEN | PARITY_TYPE_MARK
  | PARITY_TYPE_SPACE => true
  | _ => false

open StopBit in
def isStopBitSupported (target : Platform) (stopBit : StopBit) : Bool :=
  match stopBit with
  | STOP_BIT_ONE | STOP_BIT_TWO => true
  | STOP_BIT_ONE_HALF => target == Platform.windows
  | _ => false

/-! ## properties.cpp: literal rates, sizes and names

These functions have no conditional compilation: they are the same on both targets. -/

open BaudRate in
def getBaudRate (baudRate : BaudRate) : Except Exception Nat :=
  match baudRate with
  | BAUD_RATE_50 => .ok 50
  | BAUD_RATE_75 => .ok 75
  | BAUD_RATE_110 => .ok 110
  | BAUD_RATE_134 => .ok 134
  | BAUD_RATE_150 => .ok 150
  | BAUD_RATE_200 => .ok 200
  | BAUD_RATE_300 => .ok 300
  | BAUD_RATE_600 => .ok 600
  | BAUD_RATE_1200 => .ok 1200
  | BAUD_RATE_1800 => .ok 1800
  | BAUD_RATE_2400 => .ok 2400
  | BAUD_RATE_4800 => .ok 4800
  | BAUD_RATE_9600 => .ok 9600
  | BAUD_RATE_14400 => .ok 14400
  | BAUD_RATE_19200 => .ok 19200
  | BAUD_RATE_38400 => .ok 38400
  | BAUD_RATE_56000 => .ok 56000
  | BAUD_RATE_57600 => .ok 57600
  | BAUD_RATE_115200 => .ok 115200
  | BAUD_RATE_128000 => .ok 128000
  | BAUD_RATE_230400 => .ok 230400
  | BAUD_RATE_256000 => .ok 256000
  | BAUD_RATE_460800 => .ok 460800
  | BAUD_RATE_500000 => .ok 500000
  | BAUD_RATE_576000 => .ok 576000
  | BAUD_RATE_921600 => .ok 921600
  | BAUD_RATE_1000000 => .ok 1000000
  | BAUD_RATE_1152000 => .ok 1152000
  | BAUD_RATE_1500000 => .ok 1500000
  | BAUD_RATE_2000000 => .ok 2000000
  | BAUD_RATE_2500000 => .ok 2500000
  | BAUD_RATE_3000000 => .ok 3000000
  | BAUD_RATE_3500000 => .ok 3500000
  | BAUD_RATE_4000000 => .ok 4000000
  | _ => .error (.out_of_range "Baud rate out of range")

open CharacterSize in
def getCharacterSize (characterSize : CharacterSize) : Except Exception Nat :=
  match characterSize with
  | CHARACTER_SIZE_5 => .ok 5
  | CHARACTER_SIZE_6 => .ok 6
  | CHARACTER_SIZE_7 => .ok 7
  | CHARACTER_SIZE_8 => .ok 8
  | _ => .error (.out_of_range "Character size out of range")

open FlowControl in
def getFlowControlName (flowControl : FlowControl) : Except Exception String :=
  match flowControl with
  | FLOW_CONTROL_HARDWARE => .ok "Hardware"
  | FLOW_CONTROL_SOFTWARE => .ok "Software"
  | FLOW_CONTROL_NONE => .ok "None"
  | _ => .error (.out_of_range "Flow control out of range")

open Parity in
def getParityName (parity : Parity) : Except Exception String :=
  match parity with
  | PARITY_TYPE_ODD => .ok "Odd"
  | PARITY_TYPE_EVEN => .ok "Even"
  | PARITY_TYPE_MARK => .ok "Mark"
  | PARITY_TYPE_SPACE => .ok "Space"
  | PARITY_TYPE_NONE => .ok "None"
  | _ => .error (.out_of_range "Parity out of range")

open StopBit in
def getStopBitName (stopBit : StopBit) : Except Exception String :=
  match stopBit with
  | STOP_BIT_ONE_HALF => .ok "One and a half"
  | STOP_BIT_TWO => .ok "Two"
  | STOP_BIT_ONE => .ok "One"
  | _ => .error (.out_of_range "Stop bit out of range")

/-! ## properties.cpp: transmission time of one byte -/

/-- The bit count `bits` that `calculateTime` has built when it reaches its `return`:
"one start, stop and idle bit by default", then the three `switch` statements in the
order of the source. -/
def calculateTimeBits (characterSize : CharacterSize) (parity : Parity) (stopBit : StopBit) :
    Nat :=
  open CharacterSize Parity StopBit in
  let bits : Nat := 3
  let bits := match parity with
    | PARITY_TYPE_ODD | PARITY_TYPE_EVEN | PARITY_TYPE_MARK | PARITY_TYPE_SPACE => bits + 1
    | _ => bits
  let bits := match stopBit with
    | STOP_BIT_TWO | STOP_BIT_ONE_HALF => bits + 1
    | _ => bits
  let bits := match characterSize with
    | CHARACTER_SIZE_5 => bits + 5
    | CHARACTER_SIZE_6 => bits + 6
    | CHARACTER_SIZE_7 => bits + 7
    | _ => bits + 8
  bits

/-- The function `calculateTime(baudRate, characterSize, parity, stopBit)`, in
milliseconds: `(static_cast<double>(bits) * 1000) / getBaudRate(baudRate)`.  The product
and the rate are integers a `double` holds exactly, so the `double` returned is their
quotient rounded once (relative error at most `2^-53`); the value here is the quotient
itself, a rational number.  The only `throw` is the one of `getBaudRate`. -/
def calculateTime (baudRate : BaudRate) (characterSize : CharacterSize) (parity : Parity)
    (stopBit : StopBit) : Except Exception ℚ :=
  let bits := calculateTimeBits characterSize parity stopBit
  match getBaudRate baudRate with
  | .error e => .error e
  | .ok rate => .ok (((bits : ℚ) * 1000) / (rate : ℚ))

/-! ## properties.cpp: control-line operators

An operand is promoted to `int` by `static_cast<unsigned char>` and the operator; `~` is
the complement of the 32-bit pattern; `static_cast<ControlLine>` converts the `int` result
to the 8-bit underlying type. -/

namespace ControlLine

/-- The conversion `static_cast<ControlLine>(...)` of an `int` result to the 8-bit
underlying type. -/
def ofInt (bits : Nat) : ControlLine := bits % 256

/-- The operator `~l`. -/
def operatorNot (l : ControlLine) : ControlLine :=
  ofInt ((0xFFFFFFFF ^^^ l) &&& LINE_ALL)

/-- The operator `l & r`. -/
def operatorAnd (l r : ControlLine) : ControlLine :=
  ofInt (l &&& r)

/-- The operator `l | r`. -/
def operatorOr (l r : ControlLine) : ControlLine :=
  ofInt (l ||| r)

/-- The operator `l ^ r`. -/
def operatorXor (l r : ControlLine) : ControlLine :=
  ofInt ((l ^^^ r) &&& LINE_ALL)

end ControlLine

/-! ## linux/serialport_impl.hpp, linux/serialport_impl.cpp -/

namespace Linux

def INVALID_FILE_DESCRIPTOR : Int := -1

/-- The native settings record `struct termios` of glibc on Linux.  The flag words are
`tcflag_t` and the two speeds `speed_t` (32 bits).  The line discipline `c_line`, which no
function of the library reads or writes, is left out. -/
structure Termios where
  c_iflag : Nat
  c_oflag : Nat
  c_cflag : Nat
  c_lflag : Nat
  c_cc : List Nat
  c_ispeed : Nat
  c_ospeed : Nat
  deriving DecidableEq, Repr

/-- A value-initialised record, `struct termios portSettings{}`. -/
def Termios.zero : Termios :=
  { c_iflag := 0, c_oflag := 0, c_cflag := 0, c_lflag := 0,
    c_cc := List.replicate NCCS 0, c_ispeed := 0, c_ospeed := 0 }

/-- The complement `~mask` of a flag constant in the 32-bit `tcflag_t`. -/
def bitNot (mask : Nat) : Nat := 0xFFFFFFFF ^^^ mask

/-! The speed functions of glibc on Linux (`sysdeps/unix/sysv/linux/speed.c`,
`termios/cfsetspeed.c`), which the translator reaches through `cfsetspeed`.  The speed
lives in the bits `CBAUD | CBAUDEX` of `c_cflag`; the bit `IBAUD0` of `c_iflag` says that
the input speed was set to zero.  Each function returns the record; its `int` result,
`-1` for a value it rejects, is not used by the library. -/

/-- The library call `cfsetospeed(&t, speed)`: a rejected value leaves the record as it
is. -/
def cfsetospeed (t : Termios) (speed : Nat) : Termios :=
  if (speed &&& bitNot CBAUD) != 0 && (speed < B57600 || speed > __MAX_BAUD) then t
  else
    let t := { t with c_ospeed := speed }
    let t := { t with c_cflag := t.c_cflag &&& bitNot (CBAUD ||| CBAUDEX) }
    let t := { t with c_cflag := t.c_cflag ||| speed }
    t

/-- The library call `cfsetispeed(&t, speed)`. -/
def cfsetispeed (t : Termios) (speed : Nat) : Termios :=
  if (speed &&& bitNot CBAUD) != 0 && (speed < B57600 || speed > __MAX_BAUD) then t
  else
    let t := { t with c_ispeed := speed }
    if speed == 0 then { t with c_iflag := t.c_iflag ||| IBAUD0 }
    else
      let t := { t with c_iflag := t.c_iflag &&& bitNot IBAUD0 }
      let t := { t with c_cflag := t.c_cflag &&& bitNot (CBAUD ||| CBAUDEX) }
      let t := { t with c_cflag := t.c_cflag ||| speed }
      t

/-- The library call `cfgetospeed(&t)`. -/
def cfgetospeed (t : Termios) : Nat := t.c_cflag &&& (CBAUD ||| CBAUDEX)

/-- The library call `cfgetispeed(&t)`. -/
def cfgetispeed (t : Termios) : Nat :=
  if t.c_iflag &&& IBAUD0 != 0 then 0 else t.c_cflag &&& (CBAUD ||| CBAUDEX)

/-- The table `speeds[]` of `cfsetspeed`: a rate in baud and its speed constant. -/
def speeds : List (Nat × Nat) :=
  [(0, B0), (50, B50), (75, B75), (110, B110), (134, B134), (150, B150), (200, B200),
   (300, B300), (600, B600), (1200, B1200), (1800, B1800), (2400, B2400), (4800, B4800),
   (9600, B9600), (19200, B19200), (38400, B38400), (57600, B57600), (115200, B115200),
   (230400, B230400), (460800, B460800), (500000, B500000), (576000, B576000),
   (921600, B921600), (1000000, B1000000), (1152000, B1152000), (1500000, B1500000),
   (2000000, B2000000), (2500000, B2500000), (3000000, B3000000), (3500000, B3500000),
   (4000000, B4000000)]

/-- The loop of `cfsetspeed` over the entries of the table from `entries` on: the first
entry whose speed constant or whose rate is `speed` sets both speeds to the constant; with
no such entry the record is left as it is. -/
def cfsetspeedFrom (entries : List (Nat × Nat)) (t : Termios) (speed : Nat) : Termios :=
  match entries with
  | [] => t
  | (value, internal) :: rest =>
    if speed == internal then cfsetospeed (cfsetispeed t speed) speed
    else if speed == value then cfsetospeed (cfsetispeed t internal) internal
    else cfsetspeedFrom rest t speed

/-- The library call `cfsetspeed(&portSettings, speed)`. -/
def cfsetspeed (portSettings : Termios) (speed : Nat) : Termios :=
  cfsetspeedFrom speeds portSettings speed

/-- The native calls the port makes, each with the arguments the source passes. -/
inductive NativeCall
  | open (path : String) (flags : Nat)
  | close (fd : Int)
  | tcgetattr (fd : Int)
  | tcsetattr (fd : Int) (actions : Nat) (settings : Termios)
  | ioctl (fd : Int) (request : Nat)
  | tcdrain (fd : Int)
  deriving DecidableEq, Repr

/-- What a native call gives back: its return value and, for `tcgetattr`, the record it
stores through its pointer argument when it succeeds. -/
structure NativeResult where
  ret : Int
  settings : Termios
  deriving DecidableEq, Repr

abbrev Trace := List NativeCall

/-- The operating system: the answer to the last call of a history of native calls. -/
abbrev Oracle := Trace → NativeResult

/-- The member variables of `SerialPortImpl`. -/
structure SerialPortImpl where
  fileDescriptor : Int
  portSettings : Termios
  openMode : OpenMode
  portName : String
  baudRate : BaudRate
  characterSize : CharacterSize
  flowControl : FlowControl
  parity : Parity
  stopBit : StopBit
  deriving DecidableEq, Repr

/-- The result of a `void` member function: the exception thrown (`none` when it returns),
the object afterwards and the native calls issued so far. -/
structure Outcome where
  exception : Option Exception
  port : SerialPortImpl
  trace : Trace
  deriving DecidableEq, Repr

/-- The constructor `SerialPortImpl(portName, baudRate, ...)`.  The member `portSettings`
is not initialised by it; `uninitialised` is whatever the storage holds. -/
def SerialPortImpl.construct (uninitialised : Termios) (portName : String)
    (baudRate : BaudRate) (characterSize : CharacterSize) (flowControl : FlowControl)
    (parity : Parity) (stopBit : StopBit) : SerialPortImpl :=
  { fileDescriptor := INVALID_FILE_DESCRIPTOR,
    portSettings := uninitialised,
    openMode := ios_base_in ||| ios_base_out,
    portName := portName, baudRate := baudRate, characterSize := characterSize,
    flowControl := flowControl, parity := parity, stopBit := stopBit }

def SerialPortImpl.isOpen (p : SerialPortImpl) : Bool :=
  p.fileDescriptor != INVALID_FILE_DESCRIPTOR

/-- The call `getPortSettings(portSettings)`: `tcgetattr(fileDescriptor, &portSettings) == 0`.
Returns the success flag, the content of the argument afterwards and the trace. -/
def SerialPortImpl.getPortSettings (o : Oracle) (p : SerialPortImpl) (tr : Trace)
    (portSettings : Termios) : Bool × Termios × Trace :=
  let tr := tr ++ [NativeCall.tcgetattr p.fileDescriptor]
  let r := o tr
  (r.ret == 0, if r.ret == 0 then r.settings else portSettings, tr)

/-- The call `setPortSettings(portSettings)`:
`tcsetattr(fileDescriptor, TCSANOW, &portSettings) == 0`. -/
def SerialPortImpl.setPortSettings (o : Oracle) (p : SerialPortImpl) (tr : Trace)
    (portSettings : Termios) : Bool × Trace :=
  let tr := tr ++ [NativeCall.tcsetattr p.fileDescriptor TCSANOW portSettings]
  ((o tr).ret == 0, tr)

/-! The translator `preparePortSettings` is one long function of five parts, headed in
the source by the comments "Input mode flags", "Output mode flags", "Control mode flags",
"Local modes flags" and "Terminal special characters".  Each part is a definition here,
statement by statement in the order of the source: `x &= ~F` is `x &&& bitNot F`,
`x |= F` is `x ||| F`, and a `switch` whose remaining cases share the `default` branch is
a `match` with a wildcard. -/

/-- The part "Input mode flags" of `preparePortSettings`. -/
def SerialPortImpl.prepareInputModeFlags (p : SerialPortImpl) (s : Termios) : Termios :=
  open FlowControl Parity StopBit in
  let s := { s with c_iflag := s.c_iflag &&& bitNot IGNBRK }
  let s := { s with c_iflag := s.c_iflag &&& bitNot BRKINT }
  let s := match p.parity with
    | PARITY_TYPE_EVEN | PARITY_TYPE_ODD => { s with c_iflag := s.c_iflag &&& bitNot IGNPAR }
    | _ => { s with c_iflag := s.c_iflag ||| IGNPAR }
  let s := { s with c_iflag := s.c_iflag &&& bitNot PARMRK }
  let s := match p.parity with
    | PARITY_TYPE_EVEN | PARITY_TYPE_ODD => { s with c_iflag := s.c_iflag ||| INPCK }
    | _ => { s with c_iflag := s.c_iflag &&& bitNot INPCK }
  let s := { s with c_iflag := s.c_iflag &&& bitNot ISTRIP }
  let s := { s with c_iflag := s.c_iflag &&& bitNot INLCR }
  let s := { s with c_iflag := s.c_iflag &&& bitNot IGNCR }
  let s := { s with c_iflag := s.c_iflag &&& bitNot ICRNL }
  let s := { s with c_iflag := s.c_iflag &&& bitNot IUCLC }
  let s := match p.flowControl with
    | FLOW_CONTROL_SOFTWARE => { s with c_iflag := s.c_iflag ||| IXON }
    | _ => { s with c_iflag := s.c_iflag &&& bitNot IXON }
  let s := { s with c_iflag := s.c_iflag &&& bitNot IXANY }
  let s := match p.flowControl with
    | FLOW_CONTROL_SOFTWARE => { s with c_iflag := s.c_iflag ||| IXOFF }
    | _ => { s with c_iflag := s.c_iflag &&& bitNot IXOFF }
  let s := { s with c_iflag := s.c_iflag &&& bitNot IMAXBEL }
  let s := { s with c_iflag := s.c_iflag &&& bitNot IUTF8 }
  s

/-- The part "Output mode flags" of `preparePortSettings`. -/
def SerialPortImpl.prepareOutputModeFlags (s : Termios) : Termios :=
  let s := { s with c_oflag := s.c_oflag &&& bitNot OPOST }
  let s := { s with c_oflag := s.c_oflag &&& bitNot OLCUC }
  let s := { s with c_oflag := s.c_oflag &&& bitNot ONLCR }
  let s := { s with c_oflag := s.c_oflag &&& bitNot OCRNL }
  let s := { s with c_oflag := s.c_oflag &&& bitNot ONOCR }
  let s := { s with c_oflag := s.c_oflag &&& bitNot ONLRET }
  let s := { s with c_oflag := s.c_oflag &&& bitNot OFILL }
  let s := { s with c_oflag := s.c_oflag &&& bitNot OFDEL }
  let s := { s with c_oflag := s.c_oflag &&& bitNot NLDLY }
  let s := { s with c_oflag := s.c_oflag &&& bitNot CRDLY }
  let s := { s with c_oflag := s.c_oflag &&& bitNot TABDLY }
  let s := { s with c_oflag := s.c_oflag &&& bitNot BSDLY }
  let s := { s with c_oflag := s.c_oflag &&& bitNot VTDLY }
  let s := { s with c_oflag := s.c_oflag &&& bitNot FFDLY }
  s

/-- The part "Control mode flags" of `preparePortSettings`, after `cfsetspeed` and after
the character size mask has been cleared and set. -/
def SerialPortImpl.prepareControlModeFlags (p : SerialPortImpl) (s : Termios) : Termios :=
  open FlowControl Parity StopBit in
  let s := match p.stopBit with
    | STOP_BIT_TWO => { s with c_cflag := s.c_cflag ||| CSTOPB }
    | _ => { s with c_cflag := s.c_cflag &&& bitNot CSTOPB }
  let s := { s with c_cflag := s.c_cflag ||| CREAD }
  let s := match p.parity with
    | PARITY_TYPE_EVEN | PARITY_TYPE_ODD | PARITY_TYPE_MARK | PARITY_TYPE_SPACE =>
        { s with c_cflag := s.c_cflag ||| PARENB }
    | _ => { s with c_cflag := s.c_cflag &&& bitNot PARENB }
  let s := match p.parity with
    | PARITY_TYPE_ODD | PARITY_TYPE_MARK => { s with c_cflag := s.c_cflag ||| PARODD }
    | _ => { s with c_cflag := s.c_cflag &&& bitNot PARODD }
  let s := { s with c_cflag := s.c_cflag &&& bitNot HUPCL }
  let s := { s with c_cflag := s.c_cflag ||| CLOCAL }
  let s := match p.parity with
    | PARITY_TYPE_MARK | PARITY_TYPE_SPACE => { s with c_cflag := s.c_cflag ||| CMSPAR }
    | _ => { s with c_cflag := s.c_cflag &&& bitNot CMSPAR }
  let s := match p.flowControl with
    | FLOW_CONTROL_HARDWARE => { s with c_cflag := s.c_cflag ||| CRTSCTS }
    | _ => { s with c_cflag := s.c_cflag &&& bitNot CRTSCTS }
  s

/-- The part "Local modes flags" of `preparePortSettings`. -/
def SerialPortImpl.prepareLocalModeFlags (s : Termios) : Termios :=
  let s := { s with c_lflag := s.c_lflag &&& bitNot ISIG }
  let s := { s with c_lflag := s.c_lflag &&& bitNot ICANON }
  let s := { s with c_lflag := s.c_lflag &&& bitNot XCASE }
  let s := { s with c_lflag := s.c_lflag &&& bitNot ECHO }
  let s := { s with c_lflag := s.c_lflag &&& bitNot ECHOE }
  let s := { s with c_lflag := s.c_lflag &&& bitNot ECHOK }
  let s := { s with c_lflag := s.c_lflag &&& bitNot ECHONL }
  let s := { s with c_lflag := s.c_lflag &&& bitNot NOFLSH }
  let s := { s with c_lflag := s.c_lflag &&& bitNot TOSTOP }
  let s := { s with c_lflag := s.c_lflag &&& bitNot ECHOCTL }
  let s := { s with c_lflag := s.c_lflag &&& bitNot ECHOPRT }
  let s := { s with c_lflag := s.c_lflag &&& bitNot ECHOKE }
  let s := { s with c_lflag := s.c_lflag &&& bitNot FLUSHO }
  let s := { s with c_lflag := s.c_lflag &&& bitNot PENDIN }
  let s := { s with c_lflag := s.c_lflag &&& bitNot IEXTEN }
  s

/-- The part "Terminal special characters" of `preparePortSettings`. -/
def SerialPortImpl.prepareSpecialCharacters (p : SerialPortImpl) (s : Termios) : Termios :=
  open FlowControl Parity StopBit in
  let s := { s with c_cc := s.c_cc.set VDISCARD _POSIX_VDISABLE }
  let s := { s with c_cc := s.c_cc.set VEOF _POSIX_VDISABLE }
  let s := { s with c_cc := s.c_cc.set VEOL _POSIX_VDISABLE }
  let s := { s with c_cc := s.c_cc.set VEOL2 _POSIX_VDISABLE }
  let s := { s with c_cc := s.c_cc.set VERASE _POSIX_VDISABLE }
  let s := { s with c_cc := s.c_cc.set VINTR _POSIX_VDISABLE }
  let s := { s with c_cc := s.c_cc.set VKILL _POSIX_VDISABLE }
  let s := { s with c_cc := s.c_cc.set VLNEXT _POSIX_VDISABLE }
  let s := { s with c_cc := s.c_cc.set VMIN _POSIX_VDISABLE }
  let s := { s with c_cc := s.c_cc.set VQUIT _POSIX_VDISABLE }
  let s := { s with c_cc := s.c_cc.set VREPRINT _POSIX_VDISABLE }
  let s := match p.flowControl with
    | FLOW_CONTROL_SOFTWARE => { s with c_cc := s.c_cc.set VSTART XON }
    | _ => { s with c_cc := s.c_cc.set VSTART _POSIX_VDISABLE }
  let s := match p.flowControl with
    | FLOW_CONTROL_SOFTWARE => { s with c_cc := s.c_cc.set VSTOP XOFF }
    | _ => { s with c_cc := s.c_cc.set VSTOP _POSIX_VDISABLE }
  let s := { s with c_cc := s.c_cc.set VSUSP _POSIX_VDISABLE }
  let s := { s with c_cc := s.c_cc.set VSWTC _POSIX_VDISABLE }
  let s := { s with c_cc := s.c_cc.set VTIME _POSIX_VDISABLE }
  let s := { s with c_cc := s.c_cc.set VWERASE _POSIX_VDISABLE }
  s

/-- The translator `preparePortSettings(portSettings)`: rewrites the record from the stored
configuration.  It throws what `getBaudRateValue` or `getCharacterSizeValue` throws; the
record is then the caller's half-written local, which is not looked at again. -/
def SerialPortImpl.preparePortSettings (p : SerialPortImpl) (portSettings : Termios) :
    Except Exception Termios :=
  let s := p.prepareInputModeFlags portSettings
  let s := SerialPortImpl.prepareOutputModeFlags s
  match getBaudRateValue Platform.linux p.baudRate with
  | .error e => .error e
  | .ok speed =>
    let s := cfsetspeed s speed
    let s := { s with c_cflag := s.c_cflag &&& bitNot CSIZE }
    match getCharacterSizeValue Platform.linux p.characterSize with
    | .error e => .error e
    | .ok size =>
      let s := { s with c_cflag := s.c_cflag ||| (CSIZE &&& size) }
      let s := p.prepareControlModeFlags s
      let s := SerialPortImpl.prepareLocalModeFlags s
      let s := p.prepareSpecialCharacters s
      .ok s

/-- The member `setExclusive(exclusive)`: `false` on a closed port, otherwise whether
`ioctl(fileDescriptor, TIOCEXCL)` (or `TIOCNXCL`) returned 0. -/
def SerialPortImpl.setExclusive (o : Oracle) (p : SerialPortImpl) (tr : Trace)
    (exclusive : Bool) : Bool × Trace :=
  if !p.isOpen then (false, tr)
  else if exclusive then
    let tr := tr ++ [NativeCall.ioctl p.fileDescriptor TIOCEXCL]
    ((o tr).ret == 0, tr)
  else
    let tr := tr ++ [NativeCall.ioctl p.fileDescriptor TIOCNXCL]
    ((o tr).ret == 0, tr)

/-- The member `drain()`: `isOpen() ? (tcdrain(fileDescriptor) == 0) : false`. -/
def SerialPortImpl.drain (o : Oracle) (p : SerialPortImpl) (tr : Trace) : Bool × Trace :=
  if p.isOpen then
    let tr := tr ++ [NativeCall.tcdrain p.fileDescriptor]
    ((o tr).ret == 0, tr)
  else (false, tr)

/-- The `const` member `updatePortSettings()`: reads the device record into a local,
translates it and writes it back.  It changes no member. -/
def SerialPortImpl.updatePortSettings (o : Oracle) (p : SerialPortImpl) (tr : Trace) :
    Option Exception × Trace :=
  if !p.isOpen then (none, tr)
  else
    let got := p.getPortSettings o tr Termios.zero
    if !got.1 then (some (.runtime_error "Unable to get port settings"), got.2.2)
    else
      match p.preparePortSettings got.2.1 with
      | .error e => (some e, got.2.2)
      | .ok portSettings =>
        let set := p.setPortSettings o got.2.2 portSettings
        if !set.1 then (some (.runtime_error "Unable to set port settings"), set.2)
        else (none, set.2)

/-- The member `close()`. -/
def SerialPortImpl.close (o : Oracle) (p : SerialPortImpl) (tr : Trace) : Outcome :=
  if !p.isOpen then ⟨none, p, tr⟩
  else
    let settingsReset := p.setPortSettings o tr p.portSettings
    let tr := settingsReset.2 ++ [NativeCall.close p.fileDescriptor]
    let p := { p with fileDescriptor := INVALID_FILE_DESCRIPTOR }
    if !settingsReset.1 then ⟨some (.runtime_error "Unable to set port settings"), p, tr⟩
    else ⟨none, p, tr⟩

/-- The block "Prepare open mode" of `open(openMode)`: the flags of the native open call,
or `none` where the block throws "Unsupported open mode". -/
def descriptorFlags (openMode : OpenMode) : Option Nat :=
  if openMode == (ios_base_in ||| ios_base_out) then some (O_NOCTTY ||| O_NONBLOCK ||| O_RDWR)
  else if openMode == ios_base_in then some (O_NOCTTY ||| O_NONBLOCK ||| O_RDONLY)
  else if openMode == ios_base_out then some (O_NOCTTY ||| O_NONBLOCK ||| O_WRONLY)
  else none

/-- The member `open(openMode)`.  In the handler `catch(...) { close(); throw; }` an
exception thrown by `close()` leaves the handler in place of the caught one, so `throw;`
is reached only when `close()` returns. -/
def SerialPortImpl.open (o : Oracle) (p : SerialPortImpl) (tr : Trace)
    (openMode : OpenMode) : Outcome :=
  if p.isOpen then ⟨none, p, tr⟩
  else
    match descriptorFlags openMode with
    | none => ⟨some (.runtime_error "Unsupported open mode"), p, tr⟩
    | some descriptorFlags =>
      let p := { p with openMode := openMode }
      let tr := tr ++ [NativeCall.open p.portName descriptorFlags]
      let p := { p with fileDescriptor := (o tr).ret }
      if !p.isOpen then ⟨some (.runtime_error "Unable to open serial port"), p, tr⟩
      else
        let got := p.getPortSettings o tr p.portSettings
        let p := { p with portSettings := got.2.1 }
        if !got.1 then
          let tr := got.2.2 ++ [NativeCall.close p.fileDescriptor]
          let p := { p with fileDescriptor := INVALID_FILE_DESCRIPTOR }
          ⟨some (.runtime_error "Unable to get port settings"), p, tr⟩
        else
          let exclusive := p.setExclusive o got.2.2 true
          if !exclusive.1 then
            ⟨some (.runtime_error "Unable to set exclusive mode"), p, exclusive.2⟩
          else
            match p.updatePortSettings o exclusive.2 with
            | (none, tr) => ⟨none, p, tr⟩
            | (some e, tr) =>
              let closed := p.close o tr
              match closed.exception with
              | some e' => ⟨some e', closed.port, closed.trace⟩
              | none => ⟨some e, closed.port, closed.trace⟩

/-- The member `reopen()`. -/
def SerialPortImpl.reopen (o : Oracle) (p : SerialPortImpl) (tr : Trace) : Outcome :=
  if !p.isOpen then ⟨none, p, tr⟩
  else
    let closed := p.close o tr
    match closed.exception with
    | some e => ⟨some e, closed.port, closed.trace⟩
    | none => closed.port.open o closed.trace closed.port.openMode

/-- The member `setPortName(portName)`. -/
def SerialPortImpl.setPortName (o : Oracle) (p : SerialPortImpl) (tr : Trace)
    (portName : String) : Outcome :=
  let p := { p with portName := portName }
  p.reopen o tr

/-- The member `setBaudRate(baudRate)`. -/
def SerialPortImpl.setBaudRate (o : Oracle) (p : SerialPortImpl) (tr : Trace)
    (baudRate : BaudRate) : Outcome :=
  if !isBaudRateSupported Platform.linux baudRate then
    ⟨some (.out_of_range "Baud rate not supported"), p, tr⟩
  else
    let p := { p with baudRate := baudRate }
    let updated := p.updatePortSettings o tr
    ⟨updated.1, p, updated.2⟩

/-- The member `setCharacterSize(characterSize)`. -/
def SerialPortImpl.setCharacterSize (o : Oracle) (p : SerialPortImpl) (tr : Trace)
    (characterSize : CharacterSize) : Outcome :=
  if !isCharacterSizeSupported characterSize then
    ⟨some (.out_of_range "Character size not supported"), p, tr⟩
  else
    let p := { p with characterSize := characterSize }
    let updated := p.updatePortSettings o tr
    ⟨updated.1, p, updated.2⟩

/-- The member `setFlowControl(flowControl)`. -/
def SerialPortImpl.setFlowControl (o : Oracle) (p : SerialPortImpl) (tr : Trace)
    (flowControl : FlowControl) : Outcome :=
  if !isFlowControlSupported flowControl then
    ⟨some (.out_of_range "Flow control not supported"), p, tr⟩
  else
    let drained := p.drain o tr
    let p := { p with flowControl := flowControl }
    let updated := p.updatePortSettings o drained.2
    ⟨updated.1, p, updated.2⟩

/-- The member `setParity(parity)`. -/
def SerialPortImpl.setParity (o : Oracle) (p : SerialPortImpl) (tr : Trace)
    (parity : Parity) : Outcome :=
  if !isParitySupported parity then
    ⟨some (.out_of_range "Parity not supported"), p, tr⟩
  else
    let drained := p.drain o tr
    let p := { p with parity := parity }
    let updated := p.updatePortSettings o drained.2
    ⟨updated.1, p, updated.2⟩

/-- The member `setStopBit(stopBit)`. -/
def SerialPortImpl.setStopBit (o : Oracle) (p : SerialPortImpl) (tr : Trace)
    (stopBit : StopBit) : Outcome :=
  if !isStopBitSupported Platform.linux stopBit then
    ⟨some (.out_of_range "Stop bit not supported"), p, tr⟩
  else
    let drained := p.drain o tr
    let p := { p with stopBit := stopBit }
    let updated := p.updatePortSettings o drained.2
    ⟨updated.1, p, updated.2⟩

/-- How the call of a `noexcept` function ends: it returns, or an exception reaches its
boundary and `std::terminate` is called. -/
inductive Completion
  | returned
  | terminated
  deriving DecidableEq, Repr

/-- The result of running a destructor. -/
structure Destruction where
  completion : Completion
  port : SerialPortImpl
  trace : Trace
  deriving DecidableEq, Repr

/-- The destructor `SerialPortImpl::~SerialPortImpl() noexcept`:
`try { close(); } catch(...) { }`. -/
def SerialPortImpl.destructor (o : Oracle) (p : SerialPortImpl) (tr : Trace) : Destruction :=
  let closed := p.close o tr
  ⟨Completion.returned, closed.port, closed.trace⟩

/-- The destructor `SerialPort::~SerialPort() noexcept` of serialport.cpp, on the POSIX
target: `impl->close(); impl.reset();`.  The call of `close()` is not inside a `try`, so an
exception it throws reaches the `noexcept` boundary; `impl.reset()` runs the destructor of
the implementation object. -/
def SerialPort.destructor (o : Oracle) (impl : SerialPortImpl) (tr : Trace) : Destruction :=
  let closed := impl.close o tr
  match closed.exception with
  | some _ => ⟨Completion.terminated, closed.port, closed.trace⟩
  | none => closed.port.destructor o closed.trace

end Linux

/-! ## windows/serialport_impl.cpp

The header `windows/serialport_impl.hpp` is not among the sources; the member variables are
those the implementation file uses. -/

namespace Windows

/-- The sentinel `INVALID_HANDLE_VALUE`, `(HANDLE)-1`. -/
def INVALID_FILE_DESCRIPTOR : Int := -1

def SERIAL_PORT_PREFIX : String := "\\\\.\\"

/-- The native settings record `DCB`; one-bit fields are booleans. -/
structure DCB where
  DCBlength : Nat
  BaudRate : Nat
  fBinary : Bool
  fParity : Bool
  fOutxCtsFlow : Bool
  fOutxDsrFlow : Bool
  fDtrControl : Nat
  fDsrSensitivity : Bool
  fTXContinueOnXoff : Bool
  fOutX : Bool
  fInX : Bool
  fErrorChar : Bool
  fNull : Bool
  fRtsControl : Nat
  fAbortOnError : Bool
  fDummy2 : Nat
  wReserved : Nat
  XonLim : Nat
  XoffLim : Nat
  ByteSize : Nat
  Parity : Nat
  StopBits : Nat
  XonChar : Nat
  XoffChar : Nat
  ErrorChar : Nat
  EofChar : Nat
  EvtChar : Nat
  wReserved1 : Nat
  deriving DecidableEq, Repr

/-- A value-initialised record, `struct _DCB portSettings{}`. -/
def DCB.zero : DCB :=
  { DCBlength := 0, BaudRate := 0, fBinary := false, fParity := false,
    fOutxCtsFlow := false, fOutxDsrFlow := false, fDtrControl := 0,
    fDsrSensitivity := false, fTXContinueOnXoff := false, fOutX := false, fInX := false,
    fErrorChar := false, fNull := false, fRtsControl := 0, fAbortOnError := false,
    fDummy2 := 0, wReserved := 0, XonLim := 0, XoffLim := 0, ByteSize := 0, Parity := 0,
    StopBits := 0, XonChar := 0, XoffChar := 0, ErrorChar := 0, EofChar := 0, EvtChar := 0,
    wReserved1 := 0 }

/-- The size `sizeof(DCB)` in bytes. -/
def sizeofDCB : Nat := 28

/-- The native timeout record `COMMTIMEOUTS`. -/
structure COMMTIMEOUTS where
  ReadIntervalTimeout : Nat
  ReadTotalTimeoutMultiplier : Nat
  ReadTotalTimeoutConstant : Nat
  WriteTotalTimeoutMultiplier : Nat
  WriteTotalTimeoutConstant : Nat
  deriving DecidableEq, Repr

/-- A value-initialised record, `COMMTIMEOUTS timeouts{}`. -/
def COMMTIMEOUTS.zero : COMMTIMEOUTS := ⟨0, 0, 0, 0, 0⟩

/-- The native calls the port makes.  `CreateFile` is always called with share mode 0, no
security attributes, `OPEN_EXISTING`, no flags and no template. -/
inductive NativeCall
  | CreateFile (fileName : String) (desiredAccess : Nat)
  | CloseHandle (handle : Int)
  | GetCommState (handle : Int)
  | SetCommState (handle : Int) (settings : DCB)
  | GetCommTimeouts (handle : Int)
  | SetCommTimeouts (handle : Int) (timeouts : COMMTIMEOUTS)
  deriving DecidableEq, Repr

/-- What a native call gives back: the handle of `CreateFile` or the `BOOL` of the others
in `ret`, and the record a successful `GetCommState` or `GetCommTimeouts` stores. -/
structure NativeResult where
  ret : Int
  settings : DCB
  timeouts : COMMTIMEOUTS
  deriving DecidableEq, Repr

abbrev Trace := List NativeCall

/-- The operating system: the answer to the last call of a history of native calls. -/
abbrev Oracle := Trace → NativeResult

/-- The member variables of `SerialPortImpl`. -/
structure SerialPortImpl where
  fileDescriptor : Int
  portSettings : DCB
  timeoutSettings : COMMTIMEOUTS
  openMode : OpenMode
  portName : String
  baudRate : BaudRate
  characterSize : CharacterSize
  flowControl : FlowControl
  parity : Parity
  stopBit : StopBit
  deriving DecidableEq, Repr

/-- The result of a `void` member function: the exception thrown (`none` when it returns),
the object afterwards and the native calls issued so far. -/
structure Outcome where
  exception : Option Exception
  port : SerialPortImpl
  trace : Trace
  deriving DecidableEq, Repr

def SerialPortImpl.isOpen (p : SerialPortImpl) : Bool :=
  p.fileDescriptor != INVALID_FILE_DESCRIPTOR

/-- The call `getPortSettings(portSettings)`: `GetCommState(fileDescriptor, &portSettings)`. -/
def SerialPortImpl.getPortSettings (o : Oracle) (p : SerialPortImpl) (tr : Trace)
    (portSettings : DCB) : Bool × DCB × Trace :=
  let tr := tr ++ [NativeCall.GetCommState p.fileDescriptor]
  let r := o tr
  (r.ret != 0, if r.ret != 0 then r.settings else portSettings, tr)

/-- The call `setPortSettings(portSettings)`: `SetCommState(fileDescriptor, &portSettings)`. -/
def SerialPortImpl.setPortSettings (o : Oracle) (p : SerialPortImpl) (tr : Trace)
    (portSettings : DCB) : Bool × Trace :=
  let tr := tr ++ [NativeCall.SetCommState p.fileDescriptor portSettings]
  ((o tr).ret != 0, tr)

/-- The call `getPortTimeoutSettings(timeoutSettings)`:
`GetCommTimeouts(fileDescriptor, &timeoutSettings)`. -/
def SerialPortImpl.getPortTimeoutSettings (o : Oracle) (p : SerialPortImpl) (tr : Trace)
    (timeoutSettings : COMMTIMEOUTS) : Bool × COMMTIMEOUTS × Trace :=
  let tr := tr ++ [NativeCall.GetCommTimeouts p.fileDescriptor]
  let r := o tr
  (r.ret != 0, if r.ret != 0 then r.timeouts else timeoutSettings, tr)

/-- The call `setPortTimeoutSettings(timeoutSettings)`:
`SetCommTimeouts(fileDescriptor, &timeoutSettings)`. -/
def SerialPortImpl.setPortTimeoutSettings (o : Oracle) (p : SerialPortImpl) (tr : Trace)
    (timeoutSettings : COMMTIMEOUTS) : Bool × Trace :=
  let tr := tr ++ [NativeCall.SetCommTimeouts p.fileDescriptor timeoutSettings]
  ((o tr).ret != 0, tr)

/-- The fields `preparePortSettings` writes after the baud rate and before the byte size,
statement by statement in the order of the source. -/
def SerialPortImpl.prepareFlags (p : SerialPortImpl) (s : DCB) : DCB :=
  open FlowControl Parity in
  let s := { s with fBinary := true }
  let s := match p.parity with
    | PARITY_TYPE_ODD | PARITY_TYPE_EVEN | PARITY_TYPE_MARK | PARITY_TYPE_SPACE =>
        { s with fParity := true }
    | _ => { s with fParity := false }
  let s := match p.flowControl with
    | FLOW_CONTROL_HARDWARE => { s with fOutxCtsFlow := true }
    | _ => { s with fOutxCtsFlow := false }
  let s := { s with fOutxDsrFlow := false }
  let s := { s with fDtrControl := DTR_CONTROL_DISABLE }
  let s := match p.flowControl with
    | FLOW_CONTROL_HARDWARE => { s with fDsrSensitivity := true }
    | _ => { s with fDsrSensitivity := false }
  let s := { s with fTXContinueOnXoff := false }
  let s := match p.flowControl with
    | FLOW_CONTROL_SOFTWARE => { s with fOutX := true }
    | _ => { s with fOutX := false }
  let s := match p.flowControl with
    | FLOW_CONTROL_SOFTWARE => { s with fInX := true }
    | _ => { s with fInX := false }
  let s := { s with fErrorChar := false }
  let s := { s with fNull := false }
  let s := match p.flowControl with
    | FLOW_CONTROL_HARDWARE => { s with fRtsControl := RTS_CONTROL_HANDSHAKE }
    | _ => { s with fRtsControl := RTS_CONTROL_DISABLE }
  let s := { s with fAbortOnError := false }
  let s := { s with wReserved := 0 }
  s

/-- The fields `preparePortSettings` writes after the byte size. -/
def SerialPortImpl.prepareFraming (p : SerialPortImpl) (s : DCB) : DCB :=
  open Parity StopBit in
  let s := match p.parity with
    | PARITY_TYPE_ODD => { s with Parity := ODDPARITY }
    | PARITY_TYPE_EVEN => { s with Parity := EVENPARITY }
    | PARITY_TYPE_MARK => { s with Parity := MARKPARITY }
    | PARITY_TYPE_SPACE => { s with Parity := SPACEPARITY }
    | _ => { s with Parity := NOPARITY }
  let s := match p.stopBit with
    | STOP_BIT_ONE_HALF => { s with StopBits := ONE5STOPBITS }
    | STOP_BIT_TWO => { s with StopBits := TWOSTOPBITS }
    | _ => { s with StopBits := ONESTOPBIT }
  let s := { s with XonChar := XON }
  let s := { s with XoffChar := XOFF }
  let s := { s with ErrorChar := NUL }
  let s := { s with EofChar := NUL }
  let s := { s with EvtChar := NUL }
  s

/-- The translator `preparePortSettings(portSettings)`.  It throws what `getBaudRateValue`
or `getCharacterSizeValue` throws; the record is then the caller's half-written local,
which is not looked at again. -/
def SerialPortImpl.preparePortSettings (p : SerialPortImpl) (portSettings : DCB) :
    Except Exception DCB :=
  let s := { portSettings with DCBlength := sizeofDCB }
  match getBaudRateValue Platform.windows p.baudRate with
  | .error e => .error e
  | .ok rate =>
    let s := { s with BaudRate := rate }
    let s := p.prepareFlags s
    match getCharacterSizeValue Platform.windows p.characterSize with
    | .error e => .error e
    | .ok size =>
      let s := { s with ByteSize := size }
      let s := p.prepareFraming s
      .ok s

/-- The translator `preparePortTimeoutSettings(timeoutSettings)`. -/
def SerialPortImpl.preparePortTimeoutSettings (_p : SerialPortImpl)
    (timeoutSettings : COMMTIMEOUTS) : COMMTIMEOUTS :=
  let t := timeoutSettings
  let t := { t with ReadIntervalTimeout := MAXDWORD }
  let t := { t with ReadTotalTimeoutMultiplier := 0 }
  let t := { t with ReadTotalTimeoutConstant := 0 }
  let t := { t with WriteTotalTimeoutMultiplier := 100 }
  let t := { t with WriteTotalTimeoutConstant := 1000 }
  t

/-- The member `setExclusive(exclusive)`: Windows supports only exclusive ports. -/
def SerialPortImpl.setExclusive (_o : Oracle) (p : SerialPortImpl) (tr : Trace)
    (exclusive : Bool) : Bool × Trace :=
  if !p.isOpen then (false, tr) else (exclusive, tr)

/-- The member `drain()`: not supported on Windows, `return false`. -/
def SerialPortImpl.drain (_o : Oracle) (_p : SerialPortImpl) (tr : Trace) : Bool × Trace :=
  (false, tr)

/-- The `const` member `updatePortSettings()`: reads, translates and writes back the
settings record, then the timeout record.  It changes no member. -/
def SerialPortImpl.updatePortSettings (o : Oracle) (p : SerialPortImpl) (tr : Trace) :
    Option Exception × Trace :=
  if !p.isOpen then (none, tr)
  else
    let got := p.getPortSettings o tr DCB.zero
    if !got.1 then (some (.runtime_error "Unable to get port settings"), got.2.2)
    else
      match p.preparePortSettings got.2.1 with
      | .error e => (some e, got.2.2)
      | .ok portSettings =>
        let set := p.setPortSettings o got.2.2 portSettings
        if !set.1 then (some (.runtime_error "Unable to set port settings"), set.2)
        else
          let gotT := p.getPortTimeoutSettings o set.2 COMMTIMEOUTS.zero
          if !gotT.1 then
            (some (.runtime_error "Unable to get port timeout settings"), gotT.2.2)
          else
            let timeouts := p.preparePortTimeoutSettings gotT.2.1
            let setT := p.setPortTimeoutSettings o gotT.2.2 timeouts
            if !setT.1 then
              (some (.runtime_error "Unable to set port timeout settings"), setT.2)
            else (none, setT.2)

/-- The member `close()`.  `settingsReset &= setPortTimeoutSettings(...)` evaluates its
right-hand side whatever the first result was. -/
def SerialPortImpl.close (o : Oracle) (p : SerialPortImpl) (tr : Trace) : Outcome :=
  if !p.isOpen then ⟨none, p, tr⟩
  else
    let first := p.setPortSettings o tr p.portSettings
    let second := p.setPortTimeoutSettings o first.2 p.timeoutSettings
    let settingsReset := first.1 && second.1
    let tr := second.2 ++ [NativeCall.CloseHandle p.fileDescriptor]
    let p := { p with fileDescriptor := INVALID_FILE_DESCRIPTOR }
    if !settingsReset then ⟨some (.runtime_error "Unable to set port settings"), p, tr⟩
    else ⟨none, p, tr⟩

/-- The block "Prepare open mode" of `open(openMode)`: the access flags of `CreateFile`,
or `none` where the block throws "Unsupported open mode". -/
def accessFlags (openMode : OpenMode) : Option Nat :=
  if openMode == (ios_base_in ||| ios_base_out) then some (GENERIC_READ ||| GENERIC_WRITE)
  else if openMode == ios_base_in then some GENERIC_READ
  else if openMode == ios_base_out then some GENERIC_WRITE
  else none

/-- The member `open(openMode)`.  In the handler `catch(...) { close(); throw; }` an
exception thrown by `close()` leaves the handler in place of the caught one, so `throw;`
is reached only when `close()` returns. -/
def SerialPortImpl.open (o : Oracle) (p : SerialPortImpl) (tr : Trace)
    (openMode : OpenMode) : Outcome :=
  if p.isOpen then ⟨none, p, tr⟩
  else
    match accessFlags openMode with
    | none => ⟨some (.runtime_error "Unsupported open mode"), p, tr⟩
    | some flags =>
      let p := { p with openMode := openMode }
      let fileName := SERIAL_PORT_PREFIX ++ p.portName
      let tr := tr ++ [NativeCall.CreateFile fileName flags]
      let p := { p with fileDescriptor := (o tr).ret }
      if !p.isOpen then ⟨some (.runtime_error "Unable to open serial port"), p, tr⟩
      else
        let got := p.getPortSettings o tr p.portSettings
        let p := { p with portSettings := got.2.1 }
        if !got.1 then
          let tr := got.2.2 ++ [NativeCall.CloseHandle p.fileDescriptor]
          let p := { p with fileDescriptor := INVALID_FILE_DESCRIPTOR }
          ⟨some (.runtime_error "Unable to get port settings"), p, tr⟩
        else
          let gotT := p.getPortTimeoutSettings o got.2.2 p.timeoutSettings
          let p := { p with timeoutSettings := gotT.2.1 }
          if !gotT.1 then
            let tr := gotT.2.2 ++ [NativeCall.CloseHandle p.fileDescriptor]
            let p := { p with fileDescriptor := INVALID_FILE_DESCRIPTOR }
            ⟨some (.runtime_error "Unable to get port timeout settings"), p, tr⟩
          else
            match p.updatePortSettings o gotT.2.2 with
            | (none, tr) => ⟨none, p, tr⟩
            | (some e, tr) =>
              let closed := p.close o tr
              match closed.exception with
              | some e' => ⟨some e', closed.port, closed.trace⟩
              | none => ⟨some e, closed.port, closed.trace⟩

/-- The member `reopen()`. -/
def SerialPortImpl.reopen (o : Oracle) (p : SerialPortImpl) (tr : Trace) : Outcome :=
  if !p.isOpen then ⟨none, p, tr⟩
  else
    let closed := p.close o tr
    match closed.exception with
    | some e => ⟨some e, closed.port, closed.trace⟩
    | none => closed.port.open o closed.trace closed.port.openMode

/-- The member `setPortName(portName)`. -/
def SerialPortImpl.setPortName (o : Oracle) (p : SerialPortImpl) (tr : Trace)
    (portName : String) : Outcome :=
  let p := { p with portName := portName }
  p.reopen o tr

/-- The member `setBaudRate(baudRate)`. -/
def SerialPortImpl.setBaudRate (o : Oracle) (p : SerialPortImpl) (tr : Trace)
    (baudRate : BaudRate) : Outcome :=
  if !isBaudRateSupported Platform.windows baudRate then
    ⟨some (.out_of_range "Baud rate not supported"), p, tr⟩
  else
    let p := { p with baudRate := baudRate }
    let updated := p.updatePortSettings o tr
    ⟨updated.1, p, updated.2⟩

/-- The member `setCharacterSize(characterSize)`. -/
def SerialPortImpl.setCharacterSize (o : Oracle) (p : SerialPortImpl) (tr : Trace)
    (characterSize : CharacterSize) : Outcome :=
  if !isCharacterSizeSupported characterSize then
    ⟨some (.out_of_range "Character size not supported"), p, tr⟩
  else
    let p := { p with characterSize := characterSize }
    let updated := p.updatePortSettings o tr
    ⟨updated.1, p, updated.2⟩

/-- The member `setFlowControl(flowControl)`. -/
def SerialPortImpl.setFlowControl (o : Oracle) (p : SerialPortImpl) (tr : Trace)
    (flowControl : FlowControl) : Outcome :=
  if !isFlowControlSupported flowControl then
    ⟨some (.out_of_range "Flow control not supported"), p, tr⟩
  else
    let drained := p.drain o tr
    let p := { p with flowControl := flowControl }
    let updated := p.updatePortSettings o drained.2
    ⟨updated.1, p, updated.2⟩

/-- The member `setParity(parity)`. -/
def SerialPortImpl.setParity (o : Oracle) (p : SerialPortImpl) (tr : Trace)
    (parity : Parity) : Outcome :=
  if !isParitySupported parity then
    ⟨some (.out_of_range "Parity not supported"), p, tr⟩
  else
    let drained := p.drain o tr
    let p := { p with parity := parity }
    let updated := p.updatePortSettings o drained.2
    ⟨updated.1, p, updated.2⟩

/-- The member `setStopBit(stopBit)`. -/
def SerialPortImpl.setStopBit (o : Oracle) (p : SerialPortImpl) (tr : Trace)
    (stopBit : StopBit) : Outcome :=
  if !isStopBitSupported Platform.windows stopBit then
    ⟨some (.out_of_range "Stop bit not supported"), p, tr⟩
  else
    let drained := p.drain o tr
    let p := { p with stopBit := stopBit }
    let updated := p.updatePortSettings o drained.2
    ⟨updated.1, p, updated.2⟩

end Windows

/-! ## Calls of the five setters

The five setters have one shape: validate, (drain,) store, re-apply.  A `SetterCall` names
one call of one of them, so that a property of "each of the five setters" is one statement
and a sequence of setter calls is a list. -/

/-- One call of one of the five setters, with its argument. -/
inductive SetterCall
  | setBaudRate (baudRate : BaudRate)
  | setCharacterSize (characterSize : CharacterSize)
  | setFlowControl (flowControl : FlowControl)
  | setParity (parity : Parity)
  | setStopBit (stopBit : StopBit)
  deriving DecidableEq, Repr

/-- The support predicate `isXSupported` matching the setter, at the argument of the call. -/
def SetterCall.isSupported (target : Platform) : SetterCall → Bool
  | .setBaudRate v => isBaudRateSupported target v
  | .setCharacterSize v => isCharacterSizeSupported v
  | .setFlowControl v => isFlowControlSupported v
  | .setParity v => isParitySupported v
  | .setStopBit v => isStopBitSupported target v

/-- Whether the setter calls `drain()` before it stores the value. -/
def SetterCall.drains : SetterCall → Bool
  | .setBaudRate _ => false
  | .setCharacterSize _ => false
  | .setFlowControl _ => true
  | .setParity _ => true
  | .setStopBit _ => true

namespace Linux

/-- The call of the setter on the port. -/
def SerialPortImpl.call (o : Oracle) (p : SerialPortImpl) (tr : Trace) : SetterCall → Outcome
  | .setBaudRate v => p.setBaudRate o tr v
  | .setCharacterSize v => p.setCharacterSize o tr v
  | .setFlowControl v => p.setFlowControl o tr v
  | .setParity v => p.setParity o tr v
  | .setStopBit v => p.setStopBit o tr v

/-- The port with the argument of the call stored in the member the setter writes. -/
def SerialPortImpl.store (p : SerialPortImpl) : SetterCall → SerialPortImpl
  | .setBaudRate v => { p with baudRate := v }
  | .setCharacterSize v => { p with characterSize := v }
  | .setFlowControl v => { p with flowControl := v }
  | .setParity v => { p with parity := v }
  | .setStopBit v => { p with stopBit := v }

/-- A sequence of setter calls made by a caller that catches what they throw: each call
starts from the state and the trace the previous one left. -/
def SerialPortImpl.callAll (o : Oracle) (p : SerialPortImpl) (tr : Trace) :
    List SetterCall → SerialPortImpl × Trace
  | [] => (p, tr)
  | c :: cs =>
    let r := p.call o tr c
    r.port.callAll o r.trace cs

end Linux

namespace Windows

/-- The call of the setter on the port. -/
def SerialPortImpl.call (o : Oracle) (p : SerialPortImpl) (tr : Trace) : SetterCall → Outcome
  | .setBaudRate v => p.setBaudRate o tr v
  | .setCharacterSize v => p.setCharacterSize o tr v
  | .setFlowControl v => p.setFlowControl o tr v
  | .setParity v => p.setParity o tr v
  | .setStopBit v => p.setStopBit o tr v

/-- The port with the argument of the call stored in the member the setter writes. -/
def SerialPortImpl.store (p : SerialPortImpl) : SetterCall → SerialPortImpl
  | .setBaudRate v => { p with baudRate := v }
  | .setCharacterSize v => { p with characterSize := v }
  | .setFlowControl v => { p with flowControl := v }
  | .setParity v => { p with parity := v }
  | .setStopBit v => { p with stopBit := v }

/-- A sequence of setter calls made by a caller that catches what they throw: each call
starts from the state and the trace the previous one left. -/
def SerialPortImpl.callAll (o : Oracle) (p : SerialPortImpl) (tr : Trace) :
    List SetterCall → SerialPortImpl × Trace
  | [] => (p, tr)
  | c :: cs =>
    let r := p.call o tr c
    r.port.callAll o r.trace cs

end Windows

/-! ## Example ports and devices

Concrete ports and scripted operating systems, on which the statements below are
evaluated. -/

/-- The default argument of `open()`, `std::ios_base::in | std::ios_base::out`. -/
def readWrite : OpenMode := ios_base_in ||| ios_base_out

namespace Linux

/-- An operating system that answers the calls of a run started from the empty history in
order from a script, the `n`-th call with the `n`-th entry, and `fallback` once the script
is used up. -/
def scripted (script : List NativeResult) (fallback : NativeResult) : Oracle :=
  fun tr => script.getD (tr.length - 1) fallback

/-- A device record in the usual cooked terminal mode, as a freshly plugged port holds. -/
def cookedSettings : Termios :=
  { c_iflag := ICRNL ||| IXON, c_oflag := OPOST ||| ONLCR,
    c_cflag := B9600 ||| CS8 ||| CREAD ||| HUPCL,
    c_lflag := ISIG ||| ICANON ||| ECHO ||| IEXTEN,
    c_cc := [3, 28, 127, 21, 4, 0, 1, 0, 17, 19, 26, 0, 18, 15, 23, 22, 0, 0, 0, 0, 0, 0,
             0, 0, 0, 0, 0, 0, 0, 0, 0, 0],
    c_ispeed := B9600, c_ospeed := B9600 }

/-- A closed port as `SerialPortImpl("/dev/ttyUSB0")` constructs it, with the default
configuration. -/
def defaultPort : SerialPortImpl :=
  SerialPortImpl.construct Termios.zero "/dev/ttyUSB0" BaudRate.BAUD_RATE_DEFAULT
    CharacterSize.CHARACTER_SIZE_DEFAULT FlowControl.FLOW_CONTROL_DEFAULT
    Parity.PARITY_TYPE_DEFAULT StopBit.STOP_BIT_DEFAULT

/-- An open port: descriptor 3, with `cookedSettings` as the snapshot saved at `open()`. -/
def openedPort : SerialPortImpl :=
  { defaultPort with fileDescriptor := 3, portSettings := cookedSettings }

/-- A device on which everything works: the native open returns descriptor 3, every later
call returns 0, and `tcgetattr` stores `cookedSettings`. -/
def healthyDevice : Oracle := scripted [⟨3, Termios.zero⟩] ⟨0, cookedSettings⟩

/-- A device that opens as descriptor 3 and hands out its settings, and on which every
later call fails; the first later call of `open()` is the request for exclusive access. -/
def exclusiveRefused : Oracle :=
  scripted [⟨3, Termios.zero⟩, ⟨0, cookedSettings⟩] ⟨-1, Termios.zero⟩

/-- A device that opens as descriptor 3, hands out its settings and grants exclusive
access, and then fails every call but the last, the native close: the `tcgetattr` of
`updatePortSettings()` fails and so does the `tcsetattr` of the restoration. -/
def applyAndRestoreRefused : Oracle :=
  scripted [⟨3, Termios.zero⟩, ⟨0, cookedSettings⟩, ⟨0, Termios.zero⟩, ⟨-1, Termios.zero⟩,
            ⟨-1, Termios.zero⟩] ⟨0, Termios.zero⟩

/-- A path at which no device answers: every native call fails. -/
def deadDevice : Oracle := scripted [] ⟨-1, Termios.zero⟩

/-- A device that opens as descriptor 3 and fails every later call. -/
def muteDevice : Oracle := scripted [⟨3, Termios.zero⟩] ⟨-1, Termios.zero⟩

/-- A device under an open port that is renamed: it takes back the saved settings and
closes, opens the new path as descriptor 4 and hands out its settings there, and fails
every later call; the first later call of `open()` is the request for exclusive access. -/
def renameExclusiveRefused : Oracle :=
  scripted [⟨0, Termios.zero⟩, ⟨0, Termios.zero⟩, ⟨4, Termios.zero⟩, ⟨0, cookedSettings⟩]
    ⟨-1, Termios.zero⟩

/-- A device under an open port that is renamed, on which everything works: the saved
settings are taken back, the descriptor is closed, the new path opens as descriptor 4 and
every later call returns 0, `tcgetattr` storing `cookedSettings`. -/
def renameGranted : Oracle :=
  scripted [⟨0, Termios.zero⟩, ⟨0, Termios.zero⟩, ⟨4, Termios.zero⟩] ⟨0, cookedSettings⟩

end Linux

namespace Windows

/-- An operating system that answers the calls of a run started from the empty history in
order from a script, the `n`-th call with the `n`-th entry, and `fallback` once the script
is used up. -/
def scripted (script : List NativeResult) (fallback : NativeResult) : Oracle :=
  fun tr => script.getD (tr.length - 1) fallback

/-- A device record as a serial driver holds it before the library touches it. -/
def deviceSettings : DCB :=
  { DCB.zero with
    DCBlength := sizeofDCB, BaudRate := CBR_9600, fBinary := true, fDtrControl := 1,
    fRtsControl := 1, XonLim := 2048, XoffLim := 512, ByteSize := 8, XonChar := 17,
    XoffChar := 19 }

/-- The timeouts of a device before the library touches it. -/
def deviceTimeouts : COMMTIMEOUTS := ⟨50, 10, 1000, 10, 1000⟩

/-- A closed port as `SerialPortImpl("COM1")` constructs it, with the default
configuration; the two snapshot members are not initialised by the constructor. -/
def defaultPort : SerialPortImpl :=
  { fileDescriptor := INVALID_FILE_DESCRIPTOR, portSettings := DCB.zero,
    timeoutSettings := COMMTIMEOUTS.zero, openMode := ios_base_in ||| ios_base_out,
    portName := "COM1", baudRate := BaudRate.BAUD_RATE_DEFAULT,
    characterSize := CharacterSize.CHARACTER_SIZE_DEFAULT,
    flowControl := FlowControl.FLOW_CONTROL_DEFAULT, parity := Parity.PARITY_TYPE_DEFAULT,
    stopBit := StopBit.STOP_BIT_DEFAULT }

/-- An open port: handle 7, with the device records as the snapshots saved at `open()`. -/
def openedPort : SerialPortImpl :=
  { defaultPort with
    fileDescriptor := 7, portSettings := deviceSettings, timeoutSettings := deviceTimeouts }

/-- A device on which everything works: `CreateFile` returns handle 7, every later call
returns TRUE, and the two queries store `deviceSettings` and `deviceTimeouts`. -/
def healthyDevice : Oracle :=
  scripted [⟨7, DCB.zero, COMMTIMEOUTS.zero⟩] ⟨1, deviceSettings, deviceTimeouts⟩

/-- A device that refuses every call: `CreateFile` returns `INVALID_HANDLE_VALUE`, every
other call FALSE. -/
def deadDevice : Oracle :=
  fun tr =>
    match tr.getLast? with
    | some (NativeCall.CreateFile _ _) => ⟨INVALID_FILE_DESCRIPTOR, DCB.zero, COMMTIMEOUTS.zero⟩
    | _ => ⟨0, DCB.zero, COMMTIMEOUTS.zero⟩

/-- A device that opens as handle 7 and hands out its settings, and fails every later
call; the first later call of `open()` is the query of the timeouts. -/
def timeoutsRefused : Oracle :=
  scripted [⟨7, DCB.zero, COMMTIMEOUTS.zero⟩, ⟨1, deviceSettings, COMMTIMEOUTS.zero⟩]
    ⟨0, DCB.zero, COMMTIMEOUTS.zero⟩

end Windows

end LibSerial

namespace LibSerial

/-! ## enumerator.cpp: port names, device paths and the list of ports

A `std::string` is a Lean string; `find` and `replace` work on its list of characters. -/

namespace Linux

/-- The constant `SERIAL_PORT_PREFIX` of linux/properties.hpp. -/
def SERIAL_PORT_PREFIX : String := "/dev/"

/-- The request `TIOCGSERIAL` of `<asm-generic/ioctls.h>`. -/
def TIOCGSERIAL : Nat := 0x541E

end Linux

/-- The constant `SERIAL_PORT_PREFIX` of the target. -/
def SERIAL_PORT_PREFIX (target : Platform) : String :=
  match target with
  | Platform.linux => Linux.SERIAL_PORT_PREFIX
  | Platform.windows => Windows.SERIAL_PORT_PREFIX

/-- Whether the characters of `pattern` stand at the start of `s`. -/
def startsWith : List Char → List Char → Bool
  | _, [] => true
  | [], _ :: _ => false
  | c :: cs, d :: ds => c == d && startsWith cs ds

/-- The call `s.find(pattern)` of `std::string`: the lowest position at which `pattern`
occurs in `s`, and `none` for `std::string::npos`. -/
def stringFind : List Char → List Char → Option Nat
  | [], pattern => if startsWith [] pattern then some 0 else none
  | c :: cs, pattern =>
    if startsWith (c :: cs) pattern then some 0
    else (stringFind cs pattern).map (· + 1)

/-- The call `s.replace(position, count, "")` of `std::string` for a `position` within
`s`: the `count` characters from `position` on (fewer when `s` ends before) are removed. -/
def stringReplaceEmpty (s : List Char) (position count : Nat) : List Char :=
  s.take position ++ s.drop (position + count)

/-- The call `strlen(s)` for a string constant without an embedded NUL. -/
def strlen (s : String) : Nat := s.data.length

namespace Enumerator

/-- The function `Enumerator::serialPortToFileName(serialPort)`. -/
def serialPortToFileName (target : Platform) (serialPort : String) : String :=
  let position := stringFind serialPort.data (SERIAL_PORT_PREFIX target).data
  if position != none then serialPort
  else SERIAL_PORT_PREFIX target ++ serialPort

/-- The function `Enumerator::fileNameToSerialPort(fileName)`. -/
def fileNameToSerialPort (target : Platform) (fileName : String) : String :=
  let serialPort := fileName
  match stringFind serialPort.data (SERIAL_PORT_PREFIX target).data with
  | some position =>
    String.mk (stringReplaceEmpty serialPort.data position (strlen (SERIAL_PORT_PREFIX target)))
  | none => serialPort

/-- The constant `maxSerialPortIndex` of `updateSerialPortList`. -/
def maxSerialPortIndex : Nat := 64

end Enumerator

namespace Linux

/-- The name stems `serialPorts[]` that `updateSerialPortList` probes. -/
def Enumerator.serialPorts : List String := ["ttyUSB", "ttyACM", "ttyS"]

/-- The body of the inner loop of `Enumerator::updateSerialPortList(list)` for one
candidate name: the state is `result`, `list` and the native calls so far.  When the open
succeeds and the query `TIOCGSERIAL` fails, the descriptor is not closed. -/
def Enumerator.probe (o : Oracle) (state : Bool × List String × Trace)
    (serialPort : String) : Bool × List String × Trace :=
  let fileName := LibSerial.Enumerator.serialPortToFileName Platform.linux serialPort
  let tr := state.2.2 ++ [NativeCall.open fileName (O_NOCTTY ||| O_NONBLOCK ||| O_RDWR)]
  let fileDescriptor := (o tr).ret
  if fileDescriptor != INVALID_FILE_DESCRIPTOR then
    let tr := tr ++ [NativeCall.ioctl fileDescriptor TIOCGSERIAL]
    if (o tr).ret != INVALID_FILE_DESCRIPTOR then
      (true, state.2.1 ++ [serialPort], tr ++ [NativeCall.close fileDescriptor])
    else (state.1, state.2.1, tr)
  else (state.1, state.2.1, tr)

/-- The function `Enumerator::updateSerialPortList(list)` on the POSIX target: the
returned `result`, the caller's list afterwards and the native calls. -/
def Enumerator.updateSerialPortList (o : Oracle) (list : List String) (tr : Trace) :
    Bool × List String × Trace :=
  Enumerator.serialPorts.foldl
    (fun state serialPortName =>
      (List.range LibSerial.Enumerator.maxSerialPortIndex).foldl
        (fun state index => Enumerator.probe o state (serialPortName ++ toString index))
        state)
    (false, list, tr)

end Linux

namespace Windows

/-- The body of the loop of `Enumerator::updateSerialPortList(list)` for one candidate
name. -/
def Enumerator.probe (o : Oracle) (state : Bool × List String × Trace)
    (serialPort : String) : Bool × List String × Trace :=
  let fileName := LibSerial.Enumerator.serialPortToFileName Platform.windows serialPort
  let tr := state.2.2 ++ [NativeCall.CreateFile fileName (GENERIC_READ ||| GENERIC_WRITE)]
  let fileDescriptor := (o tr).ret
  if fileDescriptor != INVALID_FILE_DESCRIPTOR then
    (true, state.2.1 ++ [serialPort], tr ++ [NativeCall.CloseHandle fileDescriptor])
  else (state.1, state.2.1, tr)

/-- The function `Enumerator::updateSerialPortList(list)` on the Windows target; the index
runs from 1 to 63. -/
def Enumerator.updateSerialPortList (o : Oracle) (list : List String) (tr : Trace) :
    Bool × List String × Trace :=
  (List.range' 1 (LibSerial.Enumerator.maxSerialPortIndex - 1)).foldl
    (fun state index => Enumerator.probe o state ("COM" ++ toString index))
    (false, list, tr)

end Windows

end LibSerial

namespace LibSerial

/-! ## serialport_impl.cpp: reading, writing, flushing, queues and control lines

These members are `const`: they read `fileDescriptor` and assign no member, and none of
them contains a `throw`.  Their native calls are kept in a trace of their own kind; the
operating system answers a history of such calls with the return value and with what the
call stores through its pointer arguments.  A byte is the code of a `char`. -/

abbrev Bytes := List Nat

/-- The size `sizeof(char)`. -/
def sizeofChar : Nat := 1

/-- The size `chunkSize` of the local array of `read(std::string&)`. -/
def chunkSize : Nat := 64

namespace Linux

def TCIFLUSH : Nat := 0
def TCOFLUSH : Nat := 1
def TCIOFLUSH : Nat := 2
def TIOCOUTQ : Nat := 0x5411
def TIOCINQ : Nat := 0x541B
def TIOCMGET : Nat := 0x5415
def TIOCMBIS : Nat := 0x5416
def TIOCMBIC : Nat := 0x5417
def TIOCM_DTR : Nat := 0x002
def TIOCM_RTS : Nat := 0x004
def TIOCM_CTS : Nat := 0x020
def TIOCM_CAR : Nat := 0x040
def TIOCM_RNG : Nat := 0x080
def TIOCM_DSR : Nat := 0x100
def TIOCM_CD : Nat := TIOCM_CAR
def TIOCM_RI : Nat := TIOCM_RNG

/-- The native calls of the reading, writing and control-line members.  `ioctlGet` is an
`ioctl` whose third argument the system writes, `ioctlSet` one whose third argument it
reads. -/
inductive IoCall
  | read (fd : Int) (count : Nat)
  | write (fd : Int) (data : Bytes)
  | tcflush (fd : Int) (queue : Nat)
  | ioctlGet (fd : Int) (request : Nat)
  | ioctlSet (fd : Int) (request : Nat) (argument : Nat)
  deriving DecidableEq, Repr

/-- What such a call gives back: its return value, the integer it stores through its
pointer argument when it succeeds (`ioctlGet`) and the bytes it stores in the buffer
(`read`, as many as it reports). -/
structure IoResult where
  ret : Int
  value : Nat
  data : Bytes
  deriving DecidableEq, Repr

abbrev IoTrace := List IoCall

abbrev IoOracle := IoTrace → IoResult

/-- The conversion of a signed result to the return type `size_t` (64 bits). -/
def toSize (result : Int) : Nat := (result % 2 ^ 64).toNat

/-- The member `read(buffer, size)`: the returned count, the caller's buffer afterwards and
the trace. -/
def SerialPortImpl.read (o : IoOracle) (p : SerialPortImpl) (tr : IoTrace) (buffer : Bytes)
    (size : Nat) : Nat × Bytes × IoTrace :=
  if p.isOpen then
    let tr := tr ++ [IoCall.read p.fileDescriptor size]
    let r := o tr
    (toSize r.ret, r.data ++ buffer.drop r.data.length, tr)
  else (0, buffer, tr)

/-- How a call of `read(std::string&)` ends: it returns `result`, or
`buffer.append(chunkData, readCount)` throws `std::length_error` because a negative
`readCount` is converted to `size_t`, or the loop is still running when the fuel of the
model is used up.  Each carries the caller's buffer and the trace. -/
inductive StringRead
  | returned (result : Nat) (buffer : Bytes) (trace : IoTrace)
  | length_error (buffer : Bytes) (trace : IoTrace)
  | running (buffer : Bytes) (trace : IoTrace)
  deriving DecidableEq, Repr

/-- The `do ... while (readCount > 0)` loop of `read(std::string&)`, for at most `fuel`
rounds. -/
def SerialPortImpl.readChunks (o : IoOracle) (p : SerialPortImpl) :
    Nat → Int → Bytes → IoTrace → StringRead
  | 0, _, buffer, tr => StringRead.running buffer tr
  | fuel + 1, result, buffer, tr =>
    let tr := tr ++ [IoCall.read p.fileDescriptor chunkSize]
    let r := o tr
    let readCount := r.ret
    if readCount < 0 then StringRead.length_error buffer tr
    else
      let buffer := buffer ++ r.data.take readCount.toNat
      let result := result + readCount
      if readCount > 0 then SerialPortImpl.readChunks o p fuel result buffer tr
      else StringRead.returned (toSize result) buffer tr

/-- The member `read(std::string& buffer)`. -/
def SerialPortImpl.readString (o : IoOracle) (p : SerialPortImpl) (tr : IoTrace)
    (buffer : Bytes) (fuel : Nat) : StringRead :=
  if !p.isOpen then StringRead.returned 0 buffer tr
  else
    let result : Int := 0
    let buffer : Bytes := []
    SerialPortImpl.readChunks o p fuel result buffer tr

/-- The member `write(char data)`; the comparison with `sizeof(data)` is made in
`size_t`. -/
def SerialPortImpl.writeChar (o : IoOracle) (p : SerialPortImpl) (tr : IoTrace)
    (data : Nat) : Bool × IoTrace :=
  if p.isOpen then
    let tr := tr ++ [IoCall.write p.fileDescriptor [data]]
    (toSize (o tr).ret == sizeofChar, tr)
  else (false, tr)

/-- The member `write(buffer, size)`; `data` are the `size` bytes at `buffer`. -/
def SerialPortImpl.write (o : IoOracle) (p : SerialPortImpl) (tr : IoTrace)
    (data : Bytes) : Nat × IoTrace :=
  if p.isOpen then
    let tr := tr ++ [IoCall.write p.fileDescriptor data]
    (toSize (o tr).ret, tr)
  else (0, tr)

/-- The member `write(const std::string& buffer)`. -/
def SerialPortImpl.writeString (o : IoOracle) (p : SerialPortImpl) (tr : IoTrace)
    (buffer : Bytes) : Nat × IoTrace :=
  if p.isOpen then
    let tr := tr ++ [IoCall.write p.fileDescriptor buffer]
    (toSize (o tr).ret, tr)
  else (0, tr)

/-- The member `flushInput()`. -/
def SerialPortImpl.flushInput (o : IoOracle) (p : SerialPortImpl) (tr : IoTrace) :
    Bool × IoTrace :=
  if p.isOpen then
    let tr := tr ++ [IoCall.tcflush p.fileDescriptor TCIFLUSH]
    ((o tr).ret == 0, tr)
  else (false, tr)

/-- The member `flushOutput()`. -/
def SerialPortImpl.flushOutput (o : IoOracle) (p : SerialPortImpl) (tr : IoTrace) :
    Bool × IoTrace :=
  if p.isOpen then
    let tr := tr ++ [IoCall.tcflush p.fileDescriptor TCOFLUSH]
    ((o tr).ret == 0, tr)
  else (false, tr)

/-- The member `flushInputOutput()`. -/
def SerialPortImpl.flushInputOutput (o : IoOracle) (p : SerialPortImpl) (tr : IoTrace) :
    Bool × IoTrace :=
  if p.isOpen then
    let tr := tr ++ [IoCall.tcflush p.fileDescriptor TCIOFLUSH]
    ((o tr).ret == 0, tr)
  else (false, tr)

/-- The member `getInputQueueCount()`. -/
def SerialPortImpl.getInputQueueCount (o : IoOracle) (p : SerialPortImpl) (tr : IoTrace) :
    Nat × IoTrace :=
  if !p.isOpen then (0, tr)
  else
    let tr := tr ++ [IoCall.ioctlGet p.fileDescriptor TIOCINQ]
    let r := o tr
    let value := r.value
    (if r.ret == 0 then value else 0, tr)

/-- The member `getOutputQueueCount()`. -/
def SerialPortImpl.getOutputQueueCount (o : IoOracle) (p : SerialPortImpl) (tr : IoTrace) :
    Nat × IoTrace :=
  if !p.isOpen then (0, tr)
  else
    let tr := tr ++ [IoCall.ioctlGet p.fileDescriptor TIOCOUTQ]
    let r := o tr
    let value := r.value
    (if r.ret == 0 then value else 0, tr)

/-- The member `getNativeControlLine(controlLine)`. -/
def SerialPortImpl.getNativeControlLine (_p : SerialPortImpl) (controlLine : ControlLine) :
    Nat :=
  open ControlLine in
  let result := 0
  let result := if operatorAnd controlLine LINE_DCD == LINE_DCD then result ||| TIOCM_CD
    else result
  let result := if operatorAnd controlLine LINE_DTR == LINE_DTR then result ||| TIOCM_DTR
    else result
  let result := if operatorAnd controlLine LINE_DSR == LINE_DSR then result ||| TIOCM_DSR
    else result
  let result := if operatorAnd controlLine LINE_RTS == LINE_RTS then result ||| TIOCM_RTS
    else result
  let result := if operatorAnd controlLine LINE_CTS == LINE_CTS then result ||| TIOCM_CTS
    else result
  let result := if operatorAnd controlLine LINE_RI == LINE_RI then result ||| TIOCM_RI
    else result
  result

/-- The private member `getControlLine(int controlLine, bool& state)`: the returned result
of the `ioctl`, `state` afterwards and the trace.  The local `status` starts as 0 and holds
what the query stores when it succeeds. -/
def SerialPortImpl.getControlLineNative (o : IoOracle) (p : SerialPortImpl) (tr : IoTrace)
    (controlLine : Nat) : Int × Bool × IoTrace :=
  let tr := tr ++ [IoCall.ioctlGet p.fileDescriptor TIOCMGET]
  let r := o tr
  let status := if r.ret == 0 then r.value else 0
  (r.ret, (status &&& controlLine) == controlLine, tr)

/-- The private member `setControlLine(int controlLine, bool state)`. -/
def SerialPortImpl.setControlLineNative (o : IoOracle) (p : SerialPortImpl) (tr : IoTrace)
    (controlLine : Nat) (state : Bool) : Int × IoTrace :=
  let tr := tr ++ [IoCall.ioctlSet p.fileDescriptor (if state == true then TIOCMBIS
    else TIOCMBIC) controlLine]
  ((o tr).ret, tr)

/-- The member `getControlLine(ControlLine controlLine)`; the result of the private member
is not looked at. -/
def SerialPortImpl.getControlLine (o : IoOracle) (p : SerialPortImpl) (tr : IoTrace)
    (controlLine : ControlLine) : Bool × IoTrace :=
  if !p.isOpen then (false, tr)
  else
    let got := p.getControlLineNative o tr (p.getNativeControlLine controlLine)
    (got.2.1, got.2.2)

/-- The member `setControlLine(ControlLine controlLine, bool state)`. -/
def SerialPortImpl.setControlLine (o : IoOracle) (p : SerialPortImpl) (tr : IoTrace)
    (controlLine : ControlLine) (state : Bool) : Bool × IoTrace :=
  if !p.isOpen then (false, tr)
  else
    let set := p.setControlLineNative o tr (p.getNativeControlLine controlLine) state
    (set.1 == 0, set.2)

end Linux

namespace Windows

def PURGE_TXCLEAR : Nat := 0x0004
def PURGE_RXCLEAR : Nat := 0x0008
def MS_CTS_ON : Nat := 0x0010
def MS_DSR_ON : Nat := 0x0020
def MS_RING_ON : Nat := 0x0040
def MS_RLSD_ON : Nat := 0x0080
def SETRTS : Nat := 3
def CLRRTS : Nat := 4
def SETDTR : Nat := 5
def CLRDTR : Nat := 6

/-- The size `sizeof(DWORD)`. -/
def sizeofDWORD : Nat := 4

/-- The native calls of the reading, writing and control-line members; the calls that take
an `OVERLAPPED` pointer are made with `NULL`. -/
inductive IoCall
  | ReadFile (handle : Int) (count : Nat)
  | WriteFile (handle : Int) (data : Bytes)
  | PurgeComm (handle : Int) (flags : Nat)
  | ClearCommError (handle : Int)
  | GetCommModemStatus (handle : Int)
  | EscapeCommFunction (handle : Int) (function : Nat)
  deriving DecidableEq, Repr

/-- What such a call gives back: its `BOOL` return value, the `DWORD` it stores (bytes
read, bytes written, modem status), the two queue counts of the `COMSTAT` it stores
(`ClearCommError`) and the bytes it stores in the buffer (`ReadFile`). -/
structure IoResult where
  ret : Int
  value : Nat
  cbInQue : Nat
  cbOutQue : Nat
  data : Bytes
  deriving DecidableEq, Repr

abbrev IoTrace := List IoCall

abbrev IoOracle := IoTrace → IoResult

/-- The statement `result &= x` for a `bool result` and a `BOOL x`: the operands are
promoted to `int`, the bitwise and is 1 exactly when `result` is true and the lowest bit
of `x` is set, and it is converted back to `bool`. -/
def andAssign (result : Bool) (x : Int) : Bool := result && (x % 2 != 0)

/-- The member `read(buffer, size)`: the returned count, the caller's buffer afterwards and
the trace. -/
def SerialPortImpl.read (o : IoOracle) (p : SerialPortImpl) (tr : IoTrace) (buffer : Bytes)
    (size : Nat) : Nat × Bytes × IoTrace :=
  if !p.isOpen then (0, buffer, tr)
  else
    let tr := tr ++ [IoCall.ReadFile p.fileDescriptor size]
    let r := o tr
    (if r.ret != 0 then r.value else 0, r.data ++ buffer.drop r.data.length, tr)

/-- How a call of `read(std::string&)` ends: it returns `result`, or the loop is still
running when the fuel of the model is used up. -/
inductive StringRead
  | returned (result : Nat) (buffer : Bytes) (trace : IoTrace)
  | running (buffer : Bytes) (trace : IoTrace)
  deriving DecidableEq, Repr

/-- The `do ... while (readCount > 0)` loop of `read(std::string&)`, for at most `fuel`
rounds. -/
def SerialPortImpl.readChunks (o : IoOracle) (p : SerialPortImpl) :
    Nat → Nat → Bytes → IoTrace → StringRead
  | 0, _, buffer, tr => StringRead.running buffer tr
  | fuel + 1, result, buffer, tr =>
    let tr := tr ++ [IoCall.ReadFile p.fileDescriptor chunkSize]
    let r := o tr
    if r.ret == 0 then StringRead.returned result buffer tr
    else
      let readCount := r.value
      let buffer := buffer ++ r.data.take readCount
      let result := result + readCount
      if readCount > 0 then SerialPortImpl.readChunks o p fuel result buffer tr
      else StringRead.returned result buffer tr

/-- The member `read(std::string& buffer)`. -/
def SerialPortImpl.readString (o : IoOracle) (p : SerialPortImpl) (tr : IoTrace)
    (buffer : Bytes) (fuel : Nat) : StringRead :=
  if !p.isOpen then StringRead.returned 0 buffer tr
  else
    let result : Nat := 0
    let buffer : Bytes := []
    SerialPortImpl.readChunks o p fuel result buffer tr

/-- The member `write(char data)`: the count written is compared with `sizeof(written)`,
the size of the `DWORD written`. -/
def SerialPortImpl.writeChar (o : IoOracle) (p : SerialPortImpl) (tr : IoTrace)
    (data : Nat) : Bool × IoTrace :=
  if !p.isOpen then (false, tr)
  else
    let tr := tr ++ [IoCall.WriteFile p.fileDescriptor [data]]
    let r := o tr
    let written := r.value
    (if r.ret != 0 then written == sizeofDWORD else false, tr)

/-- The member `write(buffer, size)`; `data` are the `size` bytes at `buffer`. -/
def SerialPortImpl.write (o : IoOracle) (p : SerialPortImpl) (tr : IoTrace)
    (data : Bytes) : Nat × IoTrace :=
  if !p.isOpen then (0, tr)
  else
    let tr := tr ++ [IoCall.WriteFile p.fileDescriptor data]
    let r := o tr
    (if r.ret != 0 then r.value else 0, tr)

/-- The member `write(const std::string& buffer)`. -/
def SerialPortImpl.writeString (o : IoOracle) (p : SerialPortImpl) (tr : IoTrace)
    (buffer : Bytes) : Nat × IoTrace :=
  if !p.isOpen then (0, tr)
  else
    let tr := tr ++ [IoCall.WriteFile p.fileDescriptor buffer]
    let r := o tr
    (if r.ret != 0 then r.value else 0, tr)

/-- The member `flushInput()`. -/
def SerialPortImpl.flushInput (o : IoOracle) (p : SerialPortImpl) (tr : IoTrace) :
    Bool × IoTrace :=
  if p.isOpen then
    let tr := tr ++ [IoCall.PurgeComm p.fileDescriptor PURGE_RXCLEAR]
    ((o tr).ret != 0, tr)
  else (false, tr)

/-- The member `flushOutput()`. -/
def SerialPortImpl.flushOutput (o : IoOracle) (p : SerialPortImpl) (tr : IoTrace) :
    Bool × IoTrace :=
  if p.isOpen then
    let tr := tr ++ [IoCall.PurgeComm p.fileDescriptor PURGE_TXCLEAR]
    ((o tr).ret != 0, tr)
  else (false, tr)

/-- The member `flushInputOutput()`. -/
def SerialPortImpl.flushInputOutput (o : IoOracle) (p : SerialPortImpl) (tr : IoTrace) :
    Bool × IoTrace :=
  if p.isOpen then
    let tr := tr ++ [IoCall.PurgeComm p.fileDescriptor (PURGE_RXCLEAR ||| PURGE_TXCLEAR)]
    ((o tr).ret != 0, tr)
  else (false, tr)

/-- The member `getInputQueueCount()`. -/
def SerialPortImpl.getInputQueueCount (o : IoOracle) (p : SerialPortImpl) (tr : IoTrace) :
    Nat × IoTrace :=
  if !p.isOpen then (0, tr)
  else
    let tr := tr ++ [IoCall.ClearCommError p.fileDescriptor]
    let r := o tr
    (if r.ret != 0 then r.cbInQue else 0, tr)

/-- The member `getOutputQueueCount()`. -/
def SerialPortImpl.getOutputQueueCount (o : IoOracle) (p : SerialPortImpl) (tr : IoTrace) :
    Nat × IoTrace :=
  if !p.isOpen then (0, tr)
  else
    let tr := tr ++ [IoCall.ClearCommError p.fileDescriptor]
    let r := o tr
    (if r.ret != 0 then r.cbOutQue else 0, tr)

/-- The member `getControlLine(ControlLine controlLine)`. -/
def SerialPortImpl.getControlLine (o : IoOracle) (p : SerialPortImpl) (tr : IoTrace)
    (controlLine : ControlLine) : Bool × IoTrace :=
  open ControlLine in
  if !p.isOpen then (false, tr)
  else
    let tr := tr ++ [IoCall.GetCommModemStatus p.fileDescriptor]
    let r := o tr
    if !(r.ret != 0) then (false, tr)
    else
      let nativeValue := r.value
      let status := true
      let status := if operatorAnd controlLine LINE_DCD == LINE_DCD then
          status && ((nativeValue &&& MS_RLSD_ON) == MS_RLSD_ON)
        else status
      let status := if operatorAnd controlLine LINE_DSR == LINE_DSR then
          status && ((nativeValue &&& MS_DSR_ON) == MS_DSR_ON)
        else status
      let status := if operatorAnd controlLine LINE_CTS == LINE_CTS then
          status && ((nativeValue &&& MS_CTS_ON) == MS_CTS_ON)
        else status
      let status := if operatorAnd controlLine LINE_RI == LINE_RI then
          status && ((nativeValue &&& MS_RING_ON) == MS_RING_ON)
        else status
      (status, tr)

/-- The member `setControlLine(ControlLine controlLine, bool state)`. -/
def SerialPortImpl.setControlLine (o : IoOracle) (p : SerialPortImpl) (tr : IoTrace)
    (controlLine : ControlLine) (state : Bool) : Bool × IoTrace :=
  open ControlLine in
  if !p.isOpen then (false, tr)
  else
    let result := true
    let step := if operatorAnd controlLine LINE_DTR == LINE_DTR then
        let tr := tr ++ [IoCall.EscapeCommFunction p.fileDescriptor
          (if state then SETDTR else CLRDTR)]
        (andAssign result (o tr).ret, tr)
      else (result, tr)
    let step := if operatorAnd controlLine LINE_RTS == LINE_RTS then
        let tr := step.2 ++ [IoCall.EscapeCommFunction p.fileDescriptor
          (if state then SETRTS else CLRRTS)]
        (andAssign step.1 (o tr).ret, tr)
      else step
    step

end Windows

end LibSerial

namespace LibSerial

/-! ## test_properties.hpp: the settable and the gettable control lines -/

/-- The constant `settable` of the tests, `LINE_DTR | LINE_RTS`. -/
def settable : ControlLine :=
  ControlLine.operatorOr ControlLine.LINE_DTR ControlLine.LINE_RTS

/-- The constant `gettable` of the tests, `LINE_DCD | LINE_DSR | LINE_CTS | LINE_RI`. -/
def gettable : ControlLine :=
  ControlLine.operatorOr
    (ControlLine.operatorOr (ControlLine.operatorOr ControlLine.LINE_DCD ControlLine.LINE_DSR)
      ControlLine.LINE_CTS)
    ControlLine.LINE_RI

/-! ## Example devices for reading, writing and control lines -/

namespace Linux

/-- A device that gives the same answer to every call. -/
def answering (answer : IoResult) : IoOracle := fun _ => answer

end Linux

namespace Windows

/-- A device that gives the same answer to every call. -/
def answering (answer : IoResult) : IoOracle := fun _ => answer

end Windows

end LibSerial

namespace LibSerial

/-! ## What the POSIX translator writes

The flags and characters that occur on the left of an assignment in the POSIX translator
`preparePortSettings`, part by part. -/

namespace Linux

/-- The flags of `c_iflag` that the translator sets or clears: those of the part "Input
mode flags" and `IBAUD0`, which `cfsetspeed` clears. -/
def writtenInputFlags : Nat :=
  IGNBRK ||| BRKINT ||| IGNPAR ||| PARMRK ||| INPCK ||| ISTRIP ||| INLCR ||| IGNCR |||
    ICRNL ||| IUCLC ||| IXON ||| IXANY ||| IXOFF ||| IMAXBEL ||| IUTF8 ||| IBAUD0

/-- The flags of `c_oflag` that the part "Output mode flags" clears. -/
def writtenOutputFlags : Nat :=
  OPOST ||| OLCUC ||| ONLCR ||| OCRNL ||| ONOCR ||| ONLRET ||| OFILL ||| OFDEL ||| NLDLY |||
    CRDLY ||| TABDLY ||| BSDLY ||| VTDLY ||| FFDLY

/-- The flags of `c_cflag` that the translator sets or clears: the speed bits that
`cfsetspeed` writes, the character size mask and the flags of the part "Control mode
flags". -/
def writtenControlFlags : Nat :=
  CBAUD ||| CBAUDEX ||| CSIZE ||| CSTOPB ||| CREAD ||| PARENB ||| PARODD ||| HUPCL |||
    CLOCAL ||| CMSPAR ||| CRTSCTS

/-- The flags of `c_lflag` that the part "Local modes flags" clears. -/
def writtenLocalFlags : Nat :=
  ISIG ||| ICANON ||| XCASE ||| ECHO ||| ECHOE ||| ECHOK ||| ECHONL ||| NOFLSH ||| TOSTOP |||
    ECHOCTL ||| ECHOPRT ||| ECHOKE ||| FLUSHO ||| PENDIN ||| IEXTEN

/-- The indices of `c_cc` that the part "Terminal special characters" assigns, in the
order of the source. -/
def writtenCharacters : List Nat :=
  [VDISCARD, VEOF, VEOL, VEOL2, VERASE, VINTR, VKILL, VLNEXT, VMIN, VQUIT, VREPRINT, VSTART,
    VSTOP, VSUSP, VSWTC, VTIME, VWERASE]

/-- The flags of `c_iflag` that the part "Input mode flags" leaves set: the two `switch`
statements on the parity and the two on the flow control, with the branch that sets a
flag. -/
def SerialPortImpl.inputFlags (p : SerialPortImpl) : Nat :=
  (if p.parity = Parity.PARITY_TYPE_EVEN ∨ p.parity = Parity.PARITY_TYPE_ODD
    then INPCK else IGNPAR) |||
  (if p.flowControl = FlowControl.FLOW_CONTROL_SOFTWARE then IXON ||| IXOFF else 0)

/-- The flags of `c_cflag` that the part "Control mode flags" leaves set: `CREAD` and
`CLOCAL` always, the others by the branch of their `switch` that sets the flag. -/
def SerialPortImpl.controlFlags (p : SerialPortImpl) : Nat :=
  (if p.stopBit = StopBit.STOP_BIT_TWO then CSTOPB else 0) ||| CREAD |||
  (if p.parity = Parity.PARITY_TYPE_EVEN ∨ p.parity = Parity.PARITY_TYPE_ODD ∨
      p.parity = Parity.PARITY_TYPE_MARK ∨ p.parity = Parity.PARITY_TYPE_SPACE
    then PARENB else 0) |||
  (if p.parity = Parity.PARITY_TYPE_ODD ∨ p.parity = Parity.PARITY_TYPE_MARK
    then PARODD else 0) ||| CLOCAL |||
  (if p.parity = Parity.PARITY_TYPE_MARK ∨ p.parity = Parity.PARITY_TYPE_SPACE
    then CMSPAR else 0) |||
  (if p.flowControl = FlowControl.FLOW_CONTROL_HARDWARE then CRTSCTS else 0)

/-- The character that the part "Terminal special characters" assigns to the index. -/
def SerialPortImpl.specialCharacter (p : SerialPortImpl) (index : Nat) : Nat :=
  if p.flowControl = FlowControl.FLOW_CONTROL_SOFTWARE then
    (if index = VSTART then XON else if index = VSTOP then XOFF else _POSIX_VDISABLE)
  else _POSIX_VDISABLE

end Linux

/-! ## Sequences of operations on a handle

The operations that write members of the handle: `open`, `close`, `setExclusive`,
`setPortName` and the five setters.  A run is a list of them, made by a caller that catches
what they throw: each operation starts from the state and the trace the previous one
left. -/

/-- One call of one of the operations, with its argument. -/
inductive Operation
  | open (openMode : OpenMode)
  | close
  | setExclusive (exclusive : Bool)
  | setPortName (portName : String)
  | set (call : SetterCall)
  deriving DecidableEq, Repr

namespace Linux

/-- The call of the operation on the port. -/
def SerialPortImpl.perform (o : Oracle) (p : SerialPortImpl) (tr : Trace) :
    Operation → Outcome
  | .open openMode => p.open o tr openMode
  | .close => p.close o tr
  | .setExclusive exclusive => ⟨none, p, (p.setExclusive o tr exclusive).2⟩
  | .setPortName portName => p.setPortName o tr portName
  | .set call => p.call o tr call

/-- The mode passed to the `open()` call that opened the handle, kept beside a run: an
`open(openMode)` on a Closed handle that leaves it Open was passed `openMode`, and the
`reopen()` of `setPortName` on an Open handle that leaves it Open passed the member
`openMode` to `open()`.  Other calls open nothing. -/
def SerialPortImpl.openedWith (o : Oracle) (p : SerialPortImpl) (tr : Trace)
    (before : Option OpenMode) : Operation → Option OpenMode
  | .open openMode =>
    if !p.isOpen && (p.open o tr openMode).port.isOpen then some openMode else before
  | .setPortName portName =>
    if p.isOpen && (p.setPortName o tr portName).port.isOpen then some p.openMode else before
  | _ => before

/-- A run of operations: the port, the trace and the mode passed to the `open()` call that
opened the handle, if one has. -/
def SerialPortImpl.performAll (o : Oracle) (p : SerialPortImpl) (tr : Trace)
    (opened : Option OpenMode) : List Operation → SerialPortImpl × Trace × Option OpenMode
  | [] => (p, tr, opened)
  | op :: ops =>
    let r := p.perform o tr op
    r.port.performAll o r.trace (p.openedWith o tr opened op) ops

/-- The five stored configuration values are all supported on the POSIX target. -/
def SerialPortImpl.configurationSupported (p : SerialPortImpl) : Bool :=
  isBaudRateSupported Platform.linux p.baudRate && isCharacterSizeSupported p.characterSize &&
    isFlowControlSupported p.flowControl && isParitySupported p.parity &&
    isStopBitSupported Platform.linux p.stopBit

end Linux

namespace Windows

/-- The constructor `SerialPortImpl(portName, baudRate, ...)`.  The two snapshot members
are not initialised by it; the arguments `uninitialised` are whatever the storage holds. -/
def SerialPortImpl.construct (uninitialisedSettings : DCB)
    (uninitialisedTimeouts : COMMTIMEOUTS) (portName : String) (baudRate : BaudRate)
    (characterSize : CharacterSize) (flowControl : FlowControl) (parity : Parity)
    (stopBit : StopBit) : SerialPortImpl :=
  { fileDescriptor := INVALID_FILE_DESCRIPTOR,
    portSettings := uninitialisedSettings,
    timeoutSettings := uninitialisedTimeouts,
    openMode := ios_base_in ||| ios_base_out,
    portName := portName, baudRate := baudRate, characterSize := characterSize,
    flowControl := flowControl, parity := parity, stopBit := stopBit }

/-- The call of the operation on the port. -/
def SerialPortImpl.perform (o : Oracle) (p : SerialPortImpl) (tr : Trace) :
    Operation → Outcome
  | .open openMode => p.open o tr openMode
  | .close => p.close o tr
  | .setExclusive exclusive => ⟨none, p, (p.setExclusive o tr exclusive).2⟩
  | .setPortName portName => p.setPortName o tr portName
  | .set call => p.call o tr call

/-- The mode passed to the `open()` call that opened the handle, kept beside a run, as on
the POSIX target. -/
def SerialPortImpl.openedWith (o : Oracle) (p : SerialPortImpl) (tr : Trace)
    (before : Option OpenMode) : Operation → Option OpenMode
  | .open openMode =>
    if !p.isOpen && (p.open o tr openMode).port.isOpen then some openMode else before
  | .setPortName portName =>
    if p.isOpen && (p.setPortName o tr portName).port.isOpen then some p.openMode else before
  | _ => before

/-- A run of operations: the port, the trace and the mode passed to the `open()` call that
opened the handle, if one has. -/
def SerialPortImpl.performAll (o : Oracle) (p : SerialPortImpl) (tr : Trace)
    (opened : Option OpenMode) : List Operation → SerialPortImpl × Trace × Option OpenMode
  | [] => (p, tr, opened)
  | op :: ops =>
    let r := p.perform o tr op
    r.port.performAll o r.trace (p.openedWith o tr opened op) ops

/-- The five stored configuration values are all supported on the Windows target. -/
def SerialPortImpl.configurationSupported (p : SerialPortImpl) : Bool :=
  isBaudRateSupported Platform.windows p.baudRate &&
    isCharacterSizeSupported p.characterSize && isFlowControlSupported p.flowControl &&
    isParitySupported p.parity && isStopBitSupported Platform.windows p.stopBit

end Windows

end LibSerial

/-! ## The discovery of ports, as the specification words it -/

namespace LibSerial

namespace Linux

/-- The candidate names of the POSIX target in the order `updateSerialPortList` probes
them: `ttyUSB0` to `ttyUSB63`, then `ttyACM0` to `ttyACM63`, then `ttyS0` to `ttyS63`. -/
def Enumerator.candidates : List String :=
  (Enumerator.serialPorts.map
    (fun stem => (List.range LibSerial.Enumerator.maxSerialPortIndex).map
      (fun index => stem ++ toString index))).flatten

/-- Whether a candidate is present when it is probed after the native calls `tr`: the
non-blocking open of its device path succeeds and the serial-specific query
`TIOCGSERIAL` on the descriptor succeeds. -/
def Enumerator.present (o : Oracle) (tr : Trace) (serialPort : String) : Bool :=
  let opened := tr ++ [NativeCall.open
    (LibSerial.Enumerator.serialPortToFileName Platform.linux serialPort)
    (O_NOCTTY ||| O_NONBLOCK ||| O_RDWR)]
  (o opened).ret != INVALID_FILE_DESCRIPTOR &&
    (o (opened ++ [NativeCall.ioctl (o opened).ret TIOCGSERIAL])).ret
      != INVALID_FILE_DESCRIPTOR

/-- The native calls made once the candidate has been probed after the calls `tr`. -/
def Enumerator.historyAfter (o : Oracle) (tr : Trace) (serialPort : String) : Trace :=
  (Enumerator.probe o (false, [], tr) serialPort).2.2

/-- The port discovery as the specification words it: of the candidates, probed in order,
each after the native calls of the ones before it, those that are present. -/
def Enumerator.discovered (o : Oracle) : Trace → List String → List String
  | _, [] => []
  | tr, serialPort :: rest =>
    (if Enumerator.present o tr serialPort then [serialPort] else []) ++
      Enumerator.discovered o (Enumerator.historyAfter o tr serialPort) rest

end Linux

namespace Windows

/-- The candidate names of the Windows target in the order `updateSerialPortList` probes
them: `COM1` to `COM63`. -/
def Enumerator.candidates : List String :=
  (List.range' 1 (LibSerial.Enumerator.maxSerialPortIndex - 1)).map
    (fun index => "COM" ++ toString index)

/-- Whether a candidate is present when it is probed after the native calls `tr`: the
open of its device path succeeds. -/
def Enumerator.present (o : Oracle) (tr : Trace) (serialPort : String) : Bool :=
  (o (tr ++ [NativeCall.CreateFile
    (LibSerial.Enumerator.serialPortToFileName Platform.windows serialPort)
    (GENERIC_READ ||| GENERIC_WRITE)])).ret != INVALID_FILE_DESCRIPTOR

/-- The native calls made once the candidate has been probed after the calls `tr`. -/
def Enumerator.historyAfter (o : Oracle) (tr : Trace) (serialPort : String) : Trace :=
  (Enumerator.probe o (false, [], tr) serialPort).2.2

/-- The port discovery as the specification words it: of the candidates, probed in order,
each after the native calls of the ones before it, those that are present. -/
def Enumerator.discovered (o : Oracle) : Trace → List String → List String
  | _, [] => []
  | tr, serialPort :: rest =>
    (if Enumerator.present o tr serialPort then [serialPort] else []) ++
      Enumerator.discovered o (Enumerator.historyAfter o tr serialPort) rest

end Windows

namespace Linux

/-- A machine with two serial ports: `/dev/ttyUSB1` and `/dev/ttyS0` open as descriptor 3
and answer the serial query; `/dev/ttyACM0` opens as descriptor 4 and refuses the query;
no other path opens. -/
def twoPorts : Oracle :=
  fun tr =>
    match tr.getLast? with
    | some (NativeCall.open path _) =>
      if path == "/dev/ttyUSB1" || path == "/dev/ttyS0" then ⟨3, Termios.zero⟩
      else if path == "/dev/ttyACM0" then ⟨4, Termios.zero⟩
      else ⟨-1, Termios.zero⟩
    | some (NativeCall.ioctl fd _) =>
      if fd == 3 then ⟨0, Termios.zero⟩ else ⟨-1, Termios.zero⟩
    | _ => ⟨0, Termios.zero⟩

end Linux

namespace Windows

/-- A machine with two serial ports: the device paths of `COM3` and `COM12` open as
handle 7; no other path opens. -/
def twoPorts : Oracle :=
  fun tr =>
    match tr.getLast? with
    | some (NativeCall.CreateFile path _) =>
      if path == SERIAL_PORT_PREFIX ++ "COM3" ||
          path == SERIAL_PORT_PREFIX ++ "COM12" then
        ⟨7, DCB.zero, COMMTIMEOUTS.zero⟩
      else ⟨INVALID_FILE_DESCRIPTOR, DCB.zero, COMMTIMEOUTS.zero⟩
    | _ => ⟨1, DCB.zero, COMMTIMEOUTS.zero⟩

end Windows

end LibSerial

/-! # Theorems -/

namespace LibSerial

/-! ## Property tables: a supported value has a native value -/

theorem baudRateValue_of_supported (target : Platform) (b : BaudRate)
    (h : isBaudRateSupported target b = true) : ∃ v, getBaudRateValue target b = .ok v := by
  unfold isBaudRateSupported at h
  unfold getBaudRateValue
  split at h <;> cases target <;> simp_all

theorem characterSizeValue_of_supported (target : Platform) (c : CharacterSize)
    (h : isCharacterSizeSupported c = true) :
    ∃ v, getCharacterSizeValue target c = .ok v := by
  unfold isCharacterSizeSupported at h
  unfold getCharacterSizeValue
  split at h <;> cases target <;> simp_all

theorem baudRate_supported_of_value (target : Platform) (b : BaudRate) (v : Nat)
    (h : getBaudRateValue target b = .ok v) : isBaudRateSupported target b = true := by
  unfold getBaudRateValue at h
  unfold isBaudRateSupported
  cases target <;> simp only at h <;> split at h <;> simp_all <;> decide

theorem characterSize_supported_of_value (target : Platform) (c : CharacterSize) (v : Nat)
    (h : getCharacterSizeValue target c = .ok v) : isCharacterSizeSupported c = true := by
  unfold getCharacterSizeValue at h
  unfold isCharacterSizeSupported
  cases target <;> simp only at h <;> split at h <;> simp_all

namespace Linux

/-! ## The setters on the POSIX target -/

theorem updatePortSettings_closed (o : Oracle) (p : SerialPortImpl) (tr : Trace)
    (h : p.isOpen = false) : p.updatePortSettings o tr = (none, tr) := by
  simp [SerialPortImpl.updatePortSettings, h]

theorem drain_closed (o : Oracle) (p : SerialPortImpl) (tr : Trace)
    (h : p.isOpen = false) : p.drain o tr = (false, tr) := by
  simp [SerialPortImpl.drain, h]

theorem call_unsupported (o : Oracle) (p : SerialPortImpl) (tr : Trace) (c : SetterCall)
    (h : c.isSupported Platform.linux = false) :
    ∃ what, p.call o tr c = ⟨some (Exception.out_of_range what), p, tr⟩ := by
  cases c <;> simp [SetterCall.isSupported] at h <;>
    simp [SerialPortImpl.call, SerialPortImpl.setBaudRate, SerialPortImpl.setCharacterSize,
      SerialPortImpl.setFlowControl, SerialPortImpl.setParity, SerialPortImpl.setStopBit, h]

/-! ## `close()` and `open()` on the POSIX target, path by path -/

theorem isOpen_eq_false_iff (p : SerialPortImpl) :
    p.isOpen = false ↔ p.fileDescriptor = INVALID_FILE_DESCRIPTOR := by
  simp [SerialPortImpl.isOpen]

theorem isOpen_eq_true_iff (p : SerialPortImpl) :
    p.isOpen = true ↔ p.fileDescriptor ≠ INVALID_FILE_DESCRIPTOR := by
  simp [SerialPortImpl.isOpen]

theorem close_closed (o : Oracle) (p : SerialPortImpl) (tr : Trace)
    (h : p.isOpen = false) : p.close o tr = ⟨none, p, tr⟩ := by
  simp [SerialPortImpl.close, h]

theorem close_opened (o : Oracle) (p : SerialPortImpl) (tr : Trace)
    (h : p.isOpen = true) :
    p.close o tr =
      ⟨if (o (tr ++ [NativeCall.tcsetattr p.fileDescriptor TCSANOW p.portSettings])).ret = 0
        then none else some (Exception.runtime_error "Unable to set port settings"),
       { p with fileDescriptor := INVALID_FILE_DESCRIPTOR },
       tr ++ [NativeCall.tcsetattr p.fileDescriptor TCSANOW p.portSettings,
              NativeCall.close p.fileDescriptor]⟩ := by
  simp only [SerialPortImpl.close, h, SerialPortImpl.setPortSettings]
  by_cases hr : (o (tr ++ [NativeCall.tcsetattr p.fileDescriptor TCSANOW p.portSettings])).ret = 0
  · simp [hr]
  · simp [hr]

theorem isOpen_invalid (p : SerialPortImpl) :
    ({ p with fileDescriptor := INVALID_FILE_DESCRIPTOR } : SerialPortImpl).isOpen = false := by
  simp [SerialPortImpl.isOpen]

theorem open_opened (o : Oracle) (p : SerialPortImpl) (tr : Trace) (openMode : OpenMode)
    (h : p.isOpen = true) : p.open o tr openMode = ⟨none, p, tr⟩ := by
  simp [SerialPortImpl.open, h]

theorem open_native_open_fails (o : Oracle) (p : SerialPortImpl) (tr : Trace)
    (openMode : OpenMode) (flags : Nat) (hclosed : p.isOpen = false)
    (hflags : descriptorFlags openMode = some flags)
    (hfd : (o (tr ++ [NativeCall.open p.portName flags])).ret = INVALID_FILE_DESCRIPTOR) :
    p.open o tr openMode =
      ⟨some (Exception.runtime_error "Unable to open serial port"),
       { p with openMode := openMode, fileDescriptor := INVALID_FILE_DESCRIPTOR },
       tr ++ [NativeCall.open p.portName flags]⟩ := by
  have hp := (isOpen_eq_false_iff p).1 hclosed
  simp [SerialPortImpl.open, hflags, hfd, SerialPortImpl.isOpen, hp]

theorem open_get_fails (o : Oracle) (p : SerialPortImpl) (tr : Trace)
    (openMode : OpenMode) (flags : Nat) (fd : Int) (hclosed : p.isOpen = false)
    (hflags : descriptorFlags openMode = some flags)
    (hfd : (o (tr ++ [NativeCall.open p.portName flags])).ret = fd)
    (hvalid : fd ≠ INVALID_FILE_DESCRIPTOR)
    (hget : (o (tr ++ [NativeCall.open p.portName flags, NativeCall.tcgetattr fd])).ret ≠ 0) :
    p.open o tr openMode =
      ⟨some (Exception.runtime_error "Unable to get port settings"),
       { p with openMode := openMode, fileDescriptor := INVALID_FILE_DESCRIPTOR },
       tr ++ [NativeCall.open p.portName flags, NativeCall.tcgetattr fd,
              NativeCall.close fd]⟩ := by
  have hp := (isOpen_eq_false_iff p).1 hclosed
  simp [SerialPortImpl.open, hflags, hfd, SerialPortImpl.isOpen, hvalid,
    SerialPortImpl.getPortSettings, hget, hp]

theorem open_exclusive_fails (o : Oracle) (p : SerialPortImpl) (tr : Trace)
    (openMode : OpenMode) (flags : Nat) (fd : Int) (hclosed : p.isOpen = false)
    (hflags : descriptorFlags openMode = some flags)
    (hfd : (o (tr ++ [NativeCall.open p.portName flags])).ret = fd)
    (hvalid : fd ≠ INVALID_FILE_DESCRIPTOR)
    (hget : (o (tr ++ [NativeCall.open p.portName flags, NativeCall.tcgetattr fd])).ret = 0)
    (hexcl : (o (tr ++ [NativeCall.open p.portName flags, NativeCall.tcgetattr fd,
                NativeCall.ioctl fd TIOCEXCL])).ret ≠ 0) :
    p.open o tr openMode =
      ⟨some (Exception.runtime_error "Unable to set exclusive mode"),
       { p with
         openMode := openMode, fileDescriptor := fd,
         portSettings :=
           (o (tr ++ [NativeCall.open p.portName flags, NativeCall.tcgetattr fd])).settings },
       tr ++ [NativeCall.open p.portName flags, NativeCall.tcgetattr fd,
              NativeCall.ioctl fd TIOCEXCL]⟩ := by
  have hp := (isOpen_eq_false_iff p).1 hclosed
  simp [SerialPortImpl.open, hflags, hfd, SerialPortImpl.isOpen, hvalid,
    SerialPortImpl.getPortSettings, hget, SerialPortImpl.setExclusive, hexcl, hp]

/-- Once the descriptor, the snapshot and the exclusive access are obtained, `open()` is
decided by `updatePortSettings()` on the port it has set up. -/
theorem open_reaches_update (o : Oracle) (p : SerialPortImpl) (tr : Trace)
    (openMode : OpenMode) (flags : Nat) (fd : Int) (hclosed : p.isOpen = false)
    (hflags : descriptorFlags openMode = some flags)
    (hfd : (o (tr ++ [NativeCall.open p.portName flags])).ret = fd)
    (hvalid : fd ≠ INVALID_FILE_DESCRIPTOR)
    (hget : (o (tr ++ [NativeCall.open p.portName flags, NativeCall.tcgetattr fd])).ret = 0)
    (hexcl : (o (tr ++ [NativeCall.open p.portName flags, NativeCall.tcgetattr fd,
                NativeCall.ioctl fd TIOCEXCL])).ret = 0)
    (q : SerialPortImpl)
    (hq : q = { p with
                openMode := openMode, fileDescriptor := fd,
                portSettings :=
                  (o (tr ++ [NativeCall.open p.portName flags,
                             NativeCall.tcgetattr fd])).settings }) :
    p.open o tr openMode =
      match q.updatePortSettings o (tr ++ [NativeCall.open p.portName flags,
              NativeCall.tcgetattr fd, NativeCall.ioctl fd TIOCEXCL]) with
      | (none, tr') => ⟨none, q, tr'⟩
      | (some e, tr') =>
        ⟨match (q.close o tr').exception with
          | some e' => some e'
          | none => some e,
         (q.close o tr').port, (q.close o tr').trace⟩ := by
  subst hq
  have hne : (fd != INVALID_FILE_DESCRIPTOR) = true := by simpa using hvalid
  simp only [SerialPortImpl.open, hclosed, Bool.false_eq_true, if_false, hflags]
  simp only [SerialPortImpl.getPortSettings, SerialPortImpl.setExclusive,
    SerialPortImpl.isOpen, List.append_assoc, List.cons_append, List.nil_append, hfd, hget,
    hexcl, hne, beq_self_eq_true, Bool.not_true, Bool.false_eq_true, if_false, if_true]
  split <;> rename_i h <;> simp only [h]
  cases hc : ({ p with
                openMode := openMode, fileDescriptor := fd,
                portSettings :=
                  (o (tr ++ [NativeCall.open p.portName flags,
                             NativeCall.tcgetattr fd])).settings } : SerialPortImpl).close o _
    |>.exception <;> rfl

/-! ## `updatePortSettings()` on the POSIX target, path by path -/

theorem update_get_fails (o : Oracle) (p : SerialPortImpl) (tr : Trace)
    (hopen : p.isOpen = true)
    (hget : (o (tr ++ [NativeCall.tcgetattr p.fileDescriptor])).ret ≠ 0) :
    p.updatePortSettings o tr =
      (some (Exception.runtime_error "Unable to get port settings"),
       tr ++ [NativeCall.tcgetattr p.fileDescriptor]) := by
  simp [SerialPortImpl.updatePortSettings, hopen, SerialPortImpl.getPortSettings, hget]

theorem update_translation_throws (o : Oracle) (p : SerialPortImpl) (tr : Trace)
    (e : Exception) (hopen : p.isOpen = true)
    (hget : (o (tr ++ [NativeCall.tcgetattr p.fileDescriptor])).ret = 0)
    (hprep : p.preparePortSettings
        (o (tr ++ [NativeCall.tcgetattr p.fileDescriptor])).settings = .error e) :
    p.updatePortSettings o tr = (some e, tr ++ [NativeCall.tcgetattr p.fileDescriptor]) := by
  simp [SerialPortImpl.updatePortSettings, hopen, SerialPortImpl.getPortSettings, hget, hprep]

theorem update_set_fails (o : Oracle) (p : SerialPortImpl) (tr : Trace)
    (s : Termios) (hopen : p.isOpen = true)
    (hget : (o (tr ++ [NativeCall.tcgetattr p.fileDescriptor])).ret = 0)
    (hprep : p.preparePortSettings
        (o (tr ++ [NativeCall.tcgetattr p.fileDescriptor])).settings = .ok s)
    (hset : (o (tr ++ [NativeCall.tcgetattr p.fileDescriptor,
                NativeCall.tcsetattr p.fileDescriptor TCSANOW s])).ret ≠ 0) :
    p.updatePortSettings o tr =
      (some (Exception.runtime_error "Unable to set port settings"),
       tr ++ [NativeCall.tcgetattr p.fileDescriptor,
              NativeCall.tcsetattr p.fileDescriptor TCSANOW s]) := by
  simp [SerialPortImpl.updatePortSettings, hopen, SerialPortImpl.getPortSettings, hget, hprep,
    SerialPortImpl.setPortSettings, hset]

theorem update_succeeds (o : Oracle) (p : SerialPortImpl) (tr : Trace)
    (s : Termios) (hopen : p.isOpen = true)
    (hget : (o (tr ++ [NativeCall.tcgetattr p.fileDescriptor])).ret = 0)
    (hprep : p.preparePortSettings
        (o (tr ++ [NativeCall.tcgetattr p.fileDescriptor])).settings = .ok s)
    (hset : (o (tr ++ [NativeCall.tcgetattr p.fileDescriptor,
                NativeCall.tcsetattr p.fileDescriptor TCSANOW s])).ret = 0) :
    p.updatePortSettings o tr =
      (none, tr ++ [NativeCall.tcgetattr p.fileDescriptor,
                    NativeCall.tcsetattr p.fileDescriptor TCSANOW s]) := by
  simp [SerialPortImpl.updatePortSettings, hopen, SerialPortImpl.getPortSettings, hget, hprep,
    SerialPortImpl.setPortSettings, hset]

/-- The translator throws only out of the two native-value tables, so it succeeds when the
stored baud rate and character size have a native value. -/
theorem prepare_ok_of_supported (p : SerialPortImpl) (r : Termios)
    (hb : isBaudRateSupported Platform.linux p.baudRate = true)
    (hc : isCharacterSizeSupported p.characterSize = true) :
    ∃ s, p.preparePortSettings r = .ok s := by
  obtain ⟨speed, hb⟩ := baudRateValue_of_supported _ _ hb
  obtain ⟨size, hc⟩ := characterSizeValue_of_supported Platform.linux _ hc
  simp [SerialPortImpl.preparePortSettings, hb, hc]

/-! ## What a setter call can change -/

/-- A setter call either leaves the port as it is or stores its argument; it never writes
the descriptor or the saved snapshot. -/
theorem call_port (o : Oracle) (p : SerialPortImpl) (tr : Trace) (c : SetterCall) :
    (p.call o tr c).port = p ∨ (p.call o tr c).port = p.store c := by
  cases c <;>
    simp only [SerialPortImpl.call, SerialPortImpl.setBaudRate,
      SerialPortImpl.setCharacterSize, SerialPortImpl.setFlowControl,
      SerialPortImpl.setParity, SerialPortImpl.setStopBit, SerialPortImpl.store] <;>
    split <;> simp

theorem store_fileDescriptor (p : SerialPortImpl) (c : SetterCall) :
    (p.store c).fileDescriptor = p.fileDescriptor := by
  cases c <;> rfl

theorem store_portSettings (p : SerialPortImpl) (c : SetterCall) :
    (p.store c).portSettings = p.portSettings := by
  cases c <;> rfl

theorem store_isOpen (p : SerialPortImpl) (c : SetterCall) :
    (p.store c).isOpen = p.isOpen := by
  cases c <;> rfl

theorem call_fileDescriptor (o : Oracle) (p : SerialPortImpl) (tr : Trace) (c : SetterCall) :
    (p.call o tr c).port.fileDescriptor = p.fileDescriptor := by
  rcases call_port o p tr c with h | h <;> rw [h]
  exact store_fileDescriptor p c

theorem call_portSettings (o : Oracle) (p : SerialPortImpl) (tr : Trace) (c : SetterCall) :
    (p.call o tr c).port.portSettings = p.portSettings := by
  rcases call_port o p tr c with h | h <;> rw [h]
  exact store_portSettings p c

theorem callAll_fileDescriptor (o : Oracle) (cs : List SetterCall) :
    ∀ (p : SerialPortImpl) (tr : Trace),
      (p.callAll o tr cs).1.fileDescriptor = p.fileDescriptor := by
  induction cs with
  | nil => intro p tr; rfl
  | cons c cs ih =>
    intro p tr
    simp only [SerialPortImpl.callAll]
    rw [ih, call_fileDescriptor]

theorem callAll_portSettings (o : Oracle) (cs : List SetterCall) :
    ∀ (p : SerialPortImpl) (tr : Trace),
      (p.callAll o tr cs).1.portSettings = p.portSettings := by
  induction cs with
  | nil => intro p tr; rfl
  | cons c cs ih =>
    intro p tr
    simp only [SerialPortImpl.callAll]
    rw [ih, call_portSettings]

/-- A setter call with a supported value is `drain()` (for three of the five), the store,
and `updatePortSettings()`. -/
theorem call_supported (o : Oracle) (p : SerialPortImpl) (tr : Trace) (c : SetterCall)
    (h : c.isSupported Platform.linux = true) :
    p.call o tr c =
      ⟨((p.store c).updatePortSettings o (if c.drains then (p.drain o tr).2 else tr)).1,
       p.store c,
       ((p.store c).updatePortSettings o (if c.drains then (p.drain o tr).2 else tr)).2⟩ := by
  cases c <;> simp only [SetterCall.isSupported] at h <;>
    simp [SerialPortImpl.call, SerialPortImpl.setBaudRate, SerialPortImpl.setCharacterSize,
      SerialPortImpl.setFlowControl, SerialPortImpl.setParity, SerialPortImpl.setStopBit,
      SerialPortImpl.store, SetterCall.drains, h]

/-! ## What a successful `open()` has done -/

theorem update_returns_inv (o : Oracle) (p : SerialPortImpl) (tr : Trace)
    (hopen : p.isOpen = true) (hok : (p.updatePortSettings o tr).1 = none) :
    ∃ s, (o (tr ++ [NativeCall.tcgetattr p.fileDescriptor])).ret = 0 ∧
      p.preparePortSettings (o (tr ++ [NativeCall.tcgetattr p.fileDescriptor])).settings
        = .ok s ∧
      (o (tr ++ [NativeCall.tcgetattr p.fileDescriptor,
                 NativeCall.tcsetattr p.fileDescriptor TCSANOW s])).ret = 0 ∧
      p.updatePortSettings o tr =
        (none, tr ++ [NativeCall.tcgetattr p.fileDescriptor,
                      NativeCall.tcsetattr p.fileDescriptor TCSANOW s]) := by
  by_cases hget : (o (tr ++ [NativeCall.tcgetattr p.fileDescriptor])).ret = 0
  · cases hprep : p.preparePortSettings
        (o (tr ++ [NativeCall.tcgetattr p.fileDescriptor])).settings with
    | error e =>
      rw [update_translation_throws o p tr e hopen hget hprep] at hok
      simp at hok
    | ok s =>
      by_cases hset : (o (tr ++ [NativeCall.tcgetattr p.fileDescriptor,
                 NativeCall.tcsetattr p.fileDescriptor TCSANOW s])).ret = 0
      · exact ⟨s, hget, rfl, hset, update_succeeds o p tr s hopen hget hprep hset⟩
      · rw [update_set_fails o p tr s hopen hget hprep hset] at hok
        simp at hok
  · rw [update_get_fails o p tr hopen hget] at hok
    simp at hok

theorem open_returns_inv (o : Oracle) (p : SerialPortImpl) (tr : Trace)
    (openMode : OpenMode) (hclosed : p.isOpen = false)
    (hok : (p.open o tr openMode).exception = none) :
    ∃ flags fd s,
      descriptorFlags openMode = some flags ∧
      (o (tr ++ [NativeCall.open p.portName flags])).ret = fd ∧
      fd ≠ INVALID_FILE_DESCRIPTOR ∧
      (o (tr ++ [NativeCall.open p.portName flags, NativeCall.tcgetattr fd])).ret = 0 ∧
      ({ p with
         openMode := openMode, fileDescriptor := fd,
         portSettings :=
           (o (tr ++ [NativeCall.open p.portName flags,
                      NativeCall.tcgetattr fd])).settings } : SerialPortImpl).preparePortSettings
          (o (tr ++ [NativeCall.open p.portName flags, NativeCall.tcgetattr fd,
                     NativeCall.ioctl fd TIOCEXCL, NativeCall.tcgetattr fd])).settings
        = .ok s ∧
      p.open o tr openMode =
        ⟨none,
         { p with
           openMode := openMode, fileDescriptor := fd,
           portSettings :=
             (o (tr ++ [NativeCall.open p.portName flags, NativeCall.tcgetattr fd])).settings },
         tr ++ [NativeCall.open p.portName flags, NativeCall.tcgetattr fd,
                NativeCall.ioctl fd TIOCEXCL, NativeCall.tcgetattr fd,
                NativeCall.tcsetattr fd TCSANOW s]⟩ := by
  cases hflags : descriptorFlags openMode with
  | none =>
    simp [SerialPortImpl.open, hclosed, hflags] at hok
  | some flags =>
    by_cases hfd : (o (tr ++ [NativeCall.open p.portName flags])).ret = INVALID_FILE_DESCRIPTOR
    · rw [open_native_open_fails o p tr openMode flags hclosed hflags hfd] at hok
      simp at hok
    · by_cases hget : (o (tr ++ [NativeCall.open p.portName flags,
          NativeCall.tcgetattr (o (tr ++ [NativeCall.open p.portName flags])).ret])).ret = 0
      · by_cases hexcl : (o (tr ++ [NativeCall.open p.portName flags,
            NativeCall.tcgetattr (o (tr ++ [NativeCall.open p.portName flags])).ret,
            NativeCall.ioctl (o (tr ++ [NativeCall.open p.portName flags])).ret TIOCEXCL])).ret
            = 0
        · have hred := open_reaches_update o p tr openMode flags _ hclosed hflags rfl hfd hget
            hexcl _ rfl
          rw [hred] at hok
          have hq : ({ p with
              openMode := openMode,
              fileDescriptor := (o (tr ++ [NativeCall.open p.portName flags])).ret,
              portSettings :=
                (o (tr ++ [NativeCall.open p.portName flags,
                  NativeCall.tcgetattr (o (tr ++ [NativeCall.open p.portName flags])).ret])).settings }
                : SerialPortImpl).isOpen = true := by
            simpa [SerialPortImpl.isOpen] using hfd
          cases hu : SerialPortImpl.updatePortSettings o _ _ with
          | mk e tr' =>
            rw [hu] at hok
            cases e with
            | some e =>
              simp only at hok
              split at hok <;> simp at hok
            | none =>
              obtain ⟨s, _, hprep, _, hres⟩ := update_returns_inv o _ _ hq (by rw [hu])
              refine ⟨flags, _, s, rfl, rfl, hfd, hget, ?_, ?_⟩
              · simpa using hprep
              · rw [hred, hres]
                simp
        · rw [open_exclusive_fails o p tr openMode flags _ hclosed hflags rfl hfd hget
            hexcl] at hok
          simp at hok
      · rw [open_get_fails o p tr openMode flags _ hclosed hflags rfl hfd hget] at hok
        simp at hok

/-! ## The stored baud rate and character size of an opened port are supported -/

theorem supported_of_prepare_ok (p : SerialPortImpl) (r s : Termios)
    (h : p.preparePortSettings r = .ok s) :
    isBaudRateSupported Platform.linux p.baudRate = true ∧
      isCharacterSizeSupported p.characterSize = true := by
  unfold SerialPortImpl.preparePortSettings at h
  cases hb : getBaudRateValue Platform.linux p.baudRate with
  | error e => simp [hb] at h
  | ok speed =>
    cases hc : getCharacterSizeValue Platform.linux p.characterSize with
    | error e => simp [hb, hc] at h
    | ok size =>
      exact ⟨baudRate_supported_of_value _ _ _ hb, characterSize_supported_of_value _ _ _ hc⟩

/-- A port that `open()` has opened without throwing holds a supported baud rate and
character size: `open()` throws when the translation throws. -/
theorem open_returns_supported (o : Oracle) (p : SerialPortImpl) (tr : Trace)
    (openMode : OpenMode) (hclosed : p.isOpen = false)
    (hok : (p.open o tr openMode).exception = none) :
    isBaudRateSupported Platform.linux (p.open o tr openMode).port.baudRate = true ∧
      isCharacterSizeSupported (p.open o tr openMode).port.characterSize = true := by
  obtain ⟨flags, fd, s, _, _, _, _, hprep, hres⟩ :=
    open_returns_inv o p tr openMode hclosed hok
  rw [hres]
  exact supported_of_prepare_ok _ _ _ hprep

/-- A setter call keeps the stored baud rate and character size supported: it stores
only a value it has validated. -/
theorem call_keeps_supported (o : Oracle) (p : SerialPortImpl) (tr : Trace) (c : SetterCall)
    (h : isBaudRateSupported Platform.linux p.baudRate = true ∧
      isCharacterSizeSupported p.characterSize = true) :
    isBaudRateSupported Platform.linux (p.call o tr c).port.baudRate = true ∧
      isCharacterSizeSupported (p.call o tr c).port.characterSize = true := by
  cases hsup : c.isSupported Platform.linux with
  | false =>
    obtain ⟨what, hw⟩ := call_unsupported o p tr c hsup
    rw [hw]; exact h
  | true =>
    rw [call_supported o p tr c hsup]
    cases c <;> simp_all [SerialPortImpl.store, SetterCall.isSupported]

theorem callAll_keeps_supported (o : Oracle) (cs : List SetterCall) :
    ∀ (p : SerialPortImpl) (tr : Trace),
      (isBaudRateSupported Platform.linux p.baudRate = true ∧
        isCharacterSizeSupported p.characterSize = true) →
      isBaudRateSupported Platform.linux (p.callAll o tr cs).1.baudRate = true ∧
        isCharacterSizeSupported (p.callAll o tr cs).1.characterSize = true := by
  induction cs with
  | nil => intro p tr h; exact h
  | cons c cs ih =>
    intro p tr h
    simp only [SerialPortImpl.callAll]
    exact ih _ _ (call_keeps_supported o p tr c h)

/-! ## Claims about the POSIX target -/

/-- C2 (the code departs from the claim).  On the POSIX target, when `open()` on a Closed
handle has acquired the descriptor `fd` and captured the snapshot and the request for
exclusive access then fails, `open()` throws "Unable to set exclusive mode" and attempts no
restoration, but it does not release the descriptor: the trace ends with the failed
`ioctl`, there is no native `close`, the member `fileDescriptor` keeps `fd` and `isOpen()`
is true. -/
theorem open_exclusive_failure_keeps_descriptor (o : Oracle) (p : SerialPortImpl)
    (tr : Trace) (openMode : OpenMode) (flags : Nat) (fd : Int)
    (hclosed : p.isOpen = false)
    (hflags : descriptorFlags openMode = some flags)
    (hfd : (o (tr ++ [NativeCall.open p.portName flags])).ret = fd)
    (hvalid : fd ≠ INVALID_FILE_DESCRIPTOR)
    (hget : (o (tr ++ [NativeCall.open p.portName flags, NativeCall.tcgetattr fd])).ret = 0)
    (hexcl : (o (tr ++ [NativeCall.open p.portName flags, NativeCall.tcgetattr fd,
                NativeCall.ioctl fd TIOCEXCL])).ret ≠ 0) :
    (p.open o tr openMode).exception
        = some (Exception.runtime_error "Unable to set exclusive mode") ∧
      (p.open o tr openMode).trace
        = tr ++ [NativeCall.open p.portName flags, NativeCall.tcgetattr fd,
                 NativeCall.ioctl fd TIOCEXCL] ∧
      (p.open o tr openMode).port.fileDescriptor = fd ∧
      (p.open o tr openMode).port.isOpen = true := by
  rw [open_exclusive_fails o p tr openMode flags fd hclosed hflags hfd hvalid hget hexcl]
  refine ⟨rfl, rfl, rfl, ?_⟩
  simpa [SerialPortImpl.isOpen] using hvalid

/-- The failing input of C2: `open()` of the default port where the native open returns
descriptor 3, `tcgetattr` succeeds and `ioctl(3, TIOCEXCL)` fails. -/
theorem open_exclusive_failure_keeps_descriptor_witness :
    (defaultPort.open exclusiveRefused [] readWrite).exception
        = some (Exception.runtime_error "Unable to set exclusive mode") ∧
      (defaultPort.open exclusiveRefused [] readWrite).trace
        = [] ++ [NativeCall.open "/dev/ttyUSB0" (O_NOCTTY ||| O_NONBLOCK ||| O_RDWR),
                 NativeCall.tcgetattr 3, NativeCall.ioctl 3 TIOCEXCL] ∧
      (defaultPort.open exclusiveRefused [] readWrite).port.fileDescriptor = 3 ∧
      (defaultPort.open exclusiveRefused [] readWrite).port.isOpen = true :=
  open_exclusive_failure_keeps_descriptor
    exclusiveRefused defaultPort [] readWrite (O_NOCTTY ||| O_NONBLOCK ||| O_RDWR) 3
    (by decide) (by decide) (by decide) (by decide) (by decide) (by decide)

/-- The translator reads only the five configuration members of the port. -/
theorem prepare_of_opening (p : SerialPortImpl) (openMode : OpenMode) (fd : Int)
    (snapshot r : Termios) :
    ({ p with openMode := openMode, fileDescriptor := fd, portSettings := snapshot }
        : SerialPortImpl).preparePortSettings r = p.preparePortSettings r := rfl

/-- C6.  Between a successful `open()` of a Closed handle and the next `close()`, whatever
setter calls are made (returning or throwing), the record that `close()` writes back with
`tcsetattr` is the record that `open()` read from the device with its first `tcgetattr`,
before it applied the configuration. -/
theorem close_writes_back_open_snapshot (o : Oracle) (p : SerialPortImpl) (tr : Trace)
    (openMode : OpenMode) (calls : List SetterCall)
    (hclosed : p.isOpen = false)
    (hok : (p.open o tr openMode).exception = none) :
    ∃ flags fd,
      descriptorFlags openMode = some flags ∧
      (o (tr ++ [NativeCall.open p.portName flags])).ret = fd ∧
      (((p.open o tr openMode).port.callAll o (p.open o tr openMode).trace calls).1.close o
          ((p.open o tr openMode).port.callAll o (p.open o tr openMode).trace calls).2).trace
        = ((p.open o tr openMode).port.callAll o (p.open o tr openMode).trace calls).2 ++
            [NativeCall.tcsetattr fd TCSANOW
               (o (tr ++ [NativeCall.open p.portName flags, NativeCall.tcgetattr fd])).settings,
             NativeCall.close fd] := by
  obtain ⟨flags, fd, s, hflags, hfd, hvalid, _, _, hres⟩ :=
    open_returns_inv o p tr openMode hclosed hok
  refine ⟨flags, fd, hflags, hfd, ?_⟩
  rw [hres]
  simp only
  have hopen : (SerialPortImpl.callAll o
      { p with
        openMode := openMode, fileDescriptor := fd,
        portSettings :=
          (o (tr ++ [NativeCall.open p.portName flags, NativeCall.tcgetattr fd])).settings }
      (tr ++ [NativeCall.open p.portName flags, NativeCall.tcgetattr fd,
              NativeCall.ioctl fd TIOCEXCL, NativeCall.tcgetattr fd,
              NativeCall.tcsetattr fd TCSANOW s]) calls).1.isOpen = true := by
    rw [isOpen_eq_true_iff, callAll_fileDescriptor]
    exact hvalid
  rw [close_opened o _ _ hopen, callAll_fileDescriptor, callAll_portSettings]

/-- An instance of C6: the default port is opened on a device holding `cookedSettings`,
three setter calls follow (the second with an unsupported value, so it throws), and
`close()` writes `cookedSettings` back. -/
theorem close_writes_back_open_snapshot_witness :
    ∃ flags fd,
      descriptorFlags readWrite = some flags ∧
      (healthyDevice ([] ++ [NativeCall.open defaultPort.portName flags])).ret = fd ∧
      (((defaultPort.open healthyDevice [] readWrite).port.callAll healthyDevice
              (defaultPort.open healthyDevice [] readWrite).trace
              [SetterCall.setParity Parity.PARITY_TYPE_EVEN,
               SetterCall.setBaudRate BaudRate.BAUD_RATE_CUSTOM,
               SetterCall.setStopBit StopBit.STOP_BIT_TWO]).1.close healthyDevice
          ((defaultPort.open healthyDevice [] readWrite).port.callAll healthyDevice
              (defaultPort.open healthyDevice [] readWrite).trace
              [SetterCall.setParity Parity.PARITY_TYPE_EVEN,
               SetterCall.setBaudRate BaudRate.BAUD_RATE_CUSTOM,
               SetterCall.setStopBit StopBit.STOP_BIT_TWO]).2).trace
        = ((defaultPort.open healthyDevice [] readWrite).port.callAll healthyDevice
              (defaultPort.open healthyDevice [] readWrite).trace
              [SetterCall.setParity Parity.PARITY_TYPE_EVEN,
               SetterCall.setBaudRate BaudRate.BAUD_RATE_CUSTOM,
               SetterCall.setStopBit StopBit.STOP_BIT_TWO]).2 ++
            [NativeCall.tcsetattr fd TCSANOW
               (healthyDevice ([] ++ [NativeCall.open defaultPort.portName flags,
                                      NativeCall.tcgetattr fd])).settings,
             NativeCall.close fd] :=
  close_writes_back_open_snapshot healthyDevice defaultPort [] readWrite
    [SetterCall.setParity Parity.PARITY_TYPE_EVEN,
     SetterCall.setBaudRate BaudRate.BAUD_RATE_CUSTOM,
     SetterCall.setStopBit StopBit.STOP_BIT_TWO]
    (by decide) (by decide)

/-- C8 (the code departs from the claim).  Destroying an Open `SerialPort` whose settings
restore fails: the forced `close()` writes the snapshot, releases the descriptor and throws;
`SerialPort::~SerialPort() noexcept` calls it outside any `try`, so the exception reaches
the `noexcept` boundary and the program is terminated instead of the destructor completing.
The destructor of the implementation object, `~SerialPortImpl()`, run on the same port,
does discard the error and returns. -/
theorem facade_destructor_terminates_on_restore_failure (o : Oracle)
    (impl : SerialPortImpl) (tr : Trace)
    (hopen : impl.isOpen = true)
    (hrestore : (o (tr ++ [NativeCall.tcsetattr impl.fileDescriptor TCSANOW
                            impl.portSettings])).ret ≠ 0) :
    SerialPort.destructor o impl tr =
        ⟨Completion.terminated,
         { impl with fileDescriptor := INVALID_FILE_DESCRIPTOR },
         tr ++ [NativeCall.tcsetattr impl.fileDescriptor TCSANOW impl.portSettings,
                NativeCall.close impl.fileDescriptor]⟩ ∧
      impl.destructor o tr =
        ⟨Completion.returned,
         { impl with fileDescriptor := INVALID_FILE_DESCRIPTOR },
         tr ++ [NativeCall.tcsetattr impl.fileDescriptor TCSANOW impl.portSettings,
                NativeCall.close impl.fileDescriptor]⟩ := by
  simp [SerialPort.destructor, SerialPortImpl.destructor, close_opened o impl tr hopen,
    hrestore]

/-- The failing input of C8: the open port (descriptor 3) is destroyed on a device that
refuses every call. -/
theorem facade_destructor_terminates_on_restore_failure_witness :
    SerialPort.destructor deadDevice openedPort [] =
        ⟨Completion.terminated,
         { openedPort with fileDescriptor := INVALID_FILE_DESCRIPTOR },
         [] ++ [NativeCall.tcsetattr openedPort.fileDescriptor TCSANOW openedPort.portSettings,
                NativeCall.close openedPort.fileDescriptor]⟩ ∧
      openedPort.destructor deadDevice [] =
        ⟨Completion.returned,
         { openedPort with fileDescriptor := INVALID_FILE_DESCRIPTOR },
         [] ++ [NativeCall.tcsetattr openedPort.fileDescriptor TCSANOW openedPort.portSettings,
                NativeCall.close openedPort.fileDescriptor]⟩ :=
  facade_destructor_terminates_on_restore_failure deadDevice
    openedPort [] (by decide) (by decide)

/-- C4 (the code departs from the claim).  When `open()` on a Closed handle has acquired
the descriptor `fd`, captured the snapshot and obtained exclusive access, and
`updatePortSettings()` then throws `e` (the read failed, the translation threw or the write
failed), `open()` runs `close()`: it issues `tcsetattr` with the snapshot captured in this
same `open()`, releases the descriptor, and the handle ends Closed.  The exception that
leaves `open()` is `e` only when that restoration succeeds; when the restoration fails too,
the exception of `close()`, "Unable to set port settings", leaves the handler and the
original error is lost. -/
theorem open_apply_failure_unwinds (o : Oracle) (p : SerialPortImpl) (tr : Trace)
    (openMode : OpenMode) (flags : Nat) (fd : Int) (e : Exception) (tr' : Trace)
    (hclosed : p.isOpen = false)
    (hflags : descriptorFlags openMode = some flags)
    (hfd : (o (tr ++ [NativeCall.open p.portName flags])).ret = fd)
    (hvalid : fd ≠ INVALID_FILE_DESCRIPTOR)
    (hget : (o (tr ++ [NativeCall.open p.portName flags, NativeCall.tcgetattr fd])).ret = 0)
    (hexcl : (o (tr ++ [NativeCall.open p.portName flags, NativeCall.tcgetattr fd,
                NativeCall.ioctl fd TIOCEXCL])).ret = 0)
    (hupdate : ({ p with
                  openMode := openMode, fileDescriptor := fd,
                  portSettings :=
                    (o (tr ++ [NativeCall.open p.portName flags,
                               NativeCall.tcgetattr fd])).settings }
                : SerialPortImpl).updatePortSettings o
                  (tr ++ [NativeCall.open p.portName flags, NativeCall.tcgetattr fd,
                          NativeCall.ioctl fd TIOCEXCL]) = (some e, tr')) :
    (p.open o tr openMode).trace =
        tr' ++ [NativeCall.tcsetattr fd TCSANOW
                  (o (tr ++ [NativeCall.open p.portName flags,
                             NativeCall.tcgetattr fd])).settings,
                NativeCall.close fd] ∧
      (p.open o tr openMode).port.isOpen = false ∧
      ((o (tr' ++ [NativeCall.tcsetattr fd TCSANOW
                  (o (tr ++ [NativeCall.open p.portName flags,
                             NativeCall.tcgetattr fd])).settings])).ret = 0 →
        (p.open o tr openMode).exception = some e) ∧
      ((o (tr' ++ [NativeCall.tcsetattr fd TCSANOW
                  (o (tr ++ [NativeCall.open p.portName flags,
                             NativeCall.tcgetattr fd])).settings])).ret ≠ 0 →
        (p.open o tr openMode).exception
          = some (Exception.runtime_error "Unable to set port settings")) := by
  have hred := open_reaches_update o p tr openMode flags fd hclosed hflags hfd hvalid hget
    hexcl _ rfl
  rw [hupdate] at hred
  have hq : ({ p with
      openMode := openMode, fileDescriptor := fd,
      portSettings :=
        (o (tr ++ [NativeCall.open p.portName flags, NativeCall.tcgetattr fd])).settings }
        : SerialPortImpl).isOpen = true := by
    simpa [SerialPortImpl.isOpen] using hvalid
  dsimp only at hred
  rw [close_opened o _ tr' hq] at hred
  rw [hred]
  refine ⟨rfl, isOpen_invalid _, ?_, ?_⟩
  · intro h; simp [h]
  · intro h; simp [h]

/-- The failing input of C4: `open()` of the default port on a device that opens as
descriptor 3, hands out its settings and grants exclusive access, then fails the read of
`updatePortSettings()` and the restoring `tcsetattr` of `close()`.  The original error is
"Unable to get port settings"; `open()` throws "Unable to set port settings". -/
theorem open_apply_failure_unwinds_witness :
    (defaultPort.open applyAndRestoreRefused [] readWrite).trace =
        [NativeCall.open "/dev/ttyUSB0" (O_NOCTTY ||| O_NONBLOCK ||| O_RDWR),
         NativeCall.tcgetattr 3, NativeCall.ioctl 3 TIOCEXCL, NativeCall.tcgetattr 3,
         NativeCall.tcsetattr 3 TCSANOW cookedSettings, NativeCall.close 3] ∧
      (defaultPort.open applyAndRestoreRefused [] readWrite).port.isOpen = false ∧
      (defaultPort.open applyAndRestoreRefused [] readWrite).exception
        = some (Exception.runtime_error "Unable to set port settings") ∧
      (defaultPort.open applyAndRestoreRefused [] readWrite).exception
        ≠ some (Exception.runtime_error "Unable to get port settings") := by
  have h := open_apply_failure_unwinds applyAndRestoreRefused defaultPort [] readWrite
    (O_NOCTTY ||| O_NONBLOCK ||| O_RDWR) 3
    (Exception.runtime_error "Unable to get port settings")
    [NativeCall.open "/dev/ttyUSB0" (O_NOCTTY ||| O_NONBLOCK ||| O_RDWR),
     NativeCall.tcgetattr 3, NativeCall.ioctl 3 TIOCEXCL, NativeCall.tcgetattr 3]
    (by decide) (by decide) (by decide) (by decide) (by decide) (by decide) (by decide)
  refine ⟨h.1, h.2.1, h.2.2.2 (by decide), ?_⟩
  rw [h.2.2.2 (by decide)]
  decide

/-- C9.  A setter called with a supported value `v` (the call `c`):
* on a Closed handle stores `v`, makes no native call and leaves the handle Closed;
* on an Open handle whose stored baud rate and character size are supported (as they are
  on every handle a successful `open()` produced), when the native read and write succeed:
  stores `v`, keeps the descriptor, and writes with `tcsetattr` the translation
  `preparePortSettings` of the record just read with `tcgetattr`, under the configuration
  with `v` stored; the setters of flow control, parity and stop bit drain first;
* and when the Closed handle with `v` stored is later opened successfully, the record
  `open()` writes is the translation, under that stored configuration, of the record it
  read last. -/
theorem setter_supported_value_stored_and_applied (o : Oracle) (p : SerialPortImpl)
    (tr : Trace) (c : SetterCall)
    (hsup : c.isSupported Platform.linux = true) :
    (p.isOpen = false →
      p.call o tr c = ⟨none, p.store c, tr⟩ ∧ (p.store c).isOpen = false) ∧
    (p.isOpen = true →
      isBaudRateSupported Platform.linux (p.store c).baudRate = true →
      isCharacterSizeSupported (p.store c).characterSize = true →
      (o ((if c.drains then tr ++ [NativeCall.tcdrain p.fileDescriptor] else tr) ++
            [NativeCall.tcgetattr p.fileDescriptor])).ret = 0 →
      (∀ s,
        (p.store c).preparePortSettings
          (o ((if c.drains then tr ++ [NativeCall.tcdrain p.fileDescriptor] else tr) ++
            [NativeCall.tcgetattr p.fileDescriptor])).settings = .ok s →
        (o ((if c.drains then tr ++ [NativeCall.tcdrain p.fileDescriptor] else tr) ++
            [NativeCall.tcgetattr p.fileDescriptor,
             NativeCall.tcsetattr p.fileDescriptor TCSANOW s])).ret = 0) →
      ∃ s,
        (p.store c).preparePortSettings
          (o ((if c.drains then tr ++ [NativeCall.tcdrain p.fileDescriptor] else tr) ++
            [NativeCall.tcgetattr p.fileDescriptor])).settings = .ok s ∧
        p.call o tr c =
          ⟨none, p.store c,
           (if c.drains then tr ++ [NativeCall.tcdrain p.fileDescriptor] else tr) ++
             [NativeCall.tcgetattr p.fileDescriptor,
              NativeCall.tcsetattr p.fileDescriptor TCSANOW s]⟩ ∧
        (p.store c).isOpen = true ∧
        (p.store c).fileDescriptor = p.fileDescriptor) ∧
    (∀ (tr' : Trace) (openMode : OpenMode),
      p.isOpen = false →
      ((p.store c).open o tr' openMode).exception = none →
      ∃ flags fd s,
        (p.store c).preparePortSettings
          (o (tr' ++ [NativeCall.open p.portName flags, NativeCall.tcgetattr fd,
                      NativeCall.ioctl fd TIOCEXCL, NativeCall.tcgetattr fd])).settings
          = .ok s ∧
        ((p.store c).open o tr' openMode).trace =
          tr' ++ [NativeCall.open p.portName flags, NativeCall.tcgetattr fd,
                  NativeCall.ioctl fd TIOCEXCL, NativeCall.tcgetattr fd,
                  NativeCall.tcsetattr fd TCSANOW s]) := by
  have hcall := call_supported o p tr c hsup
  refine ⟨?_, ?_, ?_⟩
  · intro hclosed
    have hclosed' : (p.store c).isOpen = false := by rw [store_isOpen]; exact hclosed
    refine ⟨?_, hclosed'⟩
    rw [hcall, drain_closed o p tr hclosed]
    simp [updatePortSettings_closed o (p.store c) tr hclosed']
  · intro hopen hb hc hget hset
    have hdrain : (if c.drains then (p.drain o tr).2 else tr)
        = (if c.drains then tr ++ [NativeCall.tcdrain p.fileDescriptor] else tr) := by
      simp [SerialPortImpl.drain, hopen]
    have hopen' : (p.store c).isOpen = true := by rw [store_isOpen]; exact hopen
    have hfd := store_fileDescriptor p c
    obtain ⟨s, hs⟩ := prepare_ok_of_supported (p.store c)
      (o ((if c.drains then tr ++ [NativeCall.tcdrain p.fileDescriptor] else tr) ++
            [NativeCall.tcgetattr p.fileDescriptor])).settings hb hc
    have hupdate := update_succeeds o (p.store c)
      (if c.drains then tr ++ [NativeCall.tcdrain p.fileDescriptor] else tr) s hopen'
      (by rw [hfd]; exact hget) (by rw [hfd]; exact hs) (by rw [hfd]; exact hset s hs)
    rw [hfd] at hupdate
    rw [hdrain, hupdate] at hcall
    exact ⟨s, hs, hcall, hopen', hfd⟩
  · intro tr' openMode hclosed hok
    have hclosed' : (p.store c).isOpen = false := by rw [store_isOpen]; exact hclosed
    obtain ⟨flags, fd, s, _, _, _, _, hprep, hres⟩ :=
      open_returns_inv o (p.store c) tr' openMode hclosed' hok
    have hname : (p.store c).portName = p.portName := by cases c <;> rfl
    rw [hname] at hprep hres
    refine ⟨flags, fd, s, ?_, ?_⟩
    · rw [← hprep]; rfl
    · rw [hres]

/-- An instance of C9: `setParity(PARITY_TYPE_EVEN)` on the default port, Closed, and on
the open port on the healthy device; and `open()` of the default port with the parity
stored. -/
theorem setter_supported_value_stored_and_applied_witness :
    (defaultPort.call healthyDevice [] (SetterCall.setParity Parity.PARITY_TYPE_EVEN) =
        ⟨none, defaultPort.store (SetterCall.setParity Parity.PARITY_TYPE_EVEN), []⟩) ∧
    (∃ s,
      (openedPort.store (SetterCall.setParity Parity.PARITY_TYPE_EVEN)).preparePortSettings
          cookedSettings = .ok s ∧
      openedPort.call healthyDevice [] (SetterCall.setParity Parity.PARITY_TYPE_EVEN) =
        ⟨none, openedPort.store (SetterCall.setParity Parity.PARITY_TYPE_EVEN),
         [NativeCall.tcdrain 3, NativeCall.tcgetattr 3, NativeCall.tcsetattr 3 TCSANOW s]⟩) ∧
    (∃ flags fd s,
      (defaultPort.store (SetterCall.setParity Parity.PARITY_TYPE_EVEN)).preparePortSettings
          cookedSettings = .ok s ∧
      ((defaultPort.store (SetterCall.setParity Parity.PARITY_TYPE_EVEN)).open healthyDevice []
          readWrite).trace =
        [NativeCall.open "/dev/ttyUSB0" flags, NativeCall.tcgetattr fd,
         NativeCall.ioctl fd TIOCEXCL, NativeCall.tcgetattr fd,
         NativeCall.tcsetattr fd TCSANOW s]) := by
  have hclosed := setter_supported_value_stored_and_applied healthyDevice defaultPort []
    (SetterCall.setParity Parity.PARITY_TYPE_EVEN) (by decide)
  have hopened := setter_supported_value_stored_and_applied healthyDevice openedPort []
    (SetterCall.setParity Parity.PARITY_TYPE_EVEN) (by decide)
  refine ⟨(hclosed.1 (by decide)).1, ?_, ?_⟩
  · obtain ⟨s, hs, hcall, _⟩ := hopened.2.1 (by decide) (by decide) (by decide) (by decide)
      (by intro s _; simp [healthyDevice, scripted, SetterCall.drains])
    exact ⟨s, hs, hcall⟩
  · obtain ⟨flags, fd, s, hs, htrace⟩ := hclosed.2.2 [] readWrite (by decide) (by decide)
    exact ⟨flags, fd, s, hs, htrace⟩

end Linux

namespace Windows

/-! ## `close()`, `open()` and the setters on the Windows target, path by path -/

theorem win_isOpen_eq_false_iff (p : SerialPortImpl) :
    p.isOpen = false ↔ p.fileDescriptor = INVALID_FILE_DESCRIPTOR := by
  simp [SerialPortImpl.isOpen]

theorem win_isOpen_eq_true_iff (p : SerialPortImpl) :
    p.isOpen = true ↔ p.fileDescriptor ≠ INVALID_FILE_DESCRIPTOR := by
  simp [SerialPortImpl.isOpen]

theorem win_isOpen_invalid (p : SerialPortImpl) :
    ({ p with fileDescriptor := INVALID_FILE_DESCRIPTOR } : SerialPortImpl).isOpen = false := by
  simp [SerialPortImpl.isOpen]

theorem win_call_unsupported (o : Oracle) (p : SerialPortImpl) (tr : Trace) (c : SetterCall)
    (h : c.isSupported Platform.windows = false) :
    ∃ what, p.call o tr c = ⟨some (Exception.out_of_range what), p, tr⟩ := by
  cases c <;> simp [SetterCall.isSupported] at h <;>
    simp [SerialPortImpl.call, SerialPortImpl.setBaudRate, SerialPortImpl.setCharacterSize,
      SerialPortImpl.setFlowControl, SerialPortImpl.setParity, SerialPortImpl.setStopBit, h]

theorem win_close_closed (o : Oracle) (p : SerialPortImpl) (tr : Trace)
    (h : p.isOpen = false) : p.close o tr = ⟨none, p, tr⟩ := by
  simp [SerialPortImpl.close, h]

theorem win_close_opened (o : Oracle) (p : SerialPortImpl) (tr : Trace)
    (h : p.isOpen = true) :
    p.close o tr =
      ⟨if (o (tr ++ [NativeCall.SetCommState p.fileDescriptor p.portSettings])).ret ≠ 0 ∧
          (o (tr ++ [NativeCall.SetCommState p.fileDescriptor p.portSettings,
                     NativeCall.SetCommTimeouts p.fileDescriptor p.timeoutSettings])).ret ≠ 0
        then none else some (Exception.runtime_error "Unable to set port settings"),
       { p with fileDescriptor := INVALID_FILE_DESCRIPTOR },
       tr ++ [NativeCall.SetCommState p.fileDescriptor p.portSettings,
              NativeCall.SetCommTimeouts p.fileDescriptor p.timeoutSettings,
              NativeCall.CloseHandle p.fileDescriptor]⟩ := by
  simp only [SerialPortImpl.close, h, SerialPortImpl.setPortSettings,
    SerialPortImpl.setPortTimeoutSettings, List.append_assoc, List.cons_append,
    List.nil_append]
  by_cases h1 : (o (tr ++ [NativeCall.SetCommState p.fileDescriptor p.portSettings])).ret = 0
  · simp [h1]
  · by_cases h2 : (o (tr ++ [NativeCall.SetCommState p.fileDescriptor p.portSettings,
        NativeCall.SetCommTimeouts p.fileDescriptor p.timeoutSettings])).ret = 0
    · simp [h1, h2]
    · simp [h1, h2]

theorem win_open_opened (o : Oracle) (p : SerialPortImpl) (tr : Trace) (openMode : OpenMode)
    (h : p.isOpen = true) : p.open o tr openMode = ⟨none, p, tr⟩ := by
  simp [SerialPortImpl.open, h]

theorem win_open_native_open_fails (o : Oracle) (p : SerialPortImpl) (tr : Trace)
    (openMode : OpenMode) (flags : Nat) (hclosed : p.isOpen = false)
    (hflags : accessFlags openMode = some flags)
    (hfd : (o (tr ++ [NativeCall.CreateFile (SERIAL_PORT_PREFIX ++ p.portName) flags])).ret
      = INVALID_FILE_DESCRIPTOR) :
    p.open o tr openMode =
      ⟨some (Exception.runtime_error "Unable to open serial port"),
       { p with openMode := openMode, fileDescriptor := INVALID_FILE_DESCRIPTOR },
       tr ++ [NativeCall.CreateFile (SERIAL_PORT_PREFIX ++ p.portName) flags]⟩ := by
  have hp := (win_isOpen_eq_false_iff p).1 hclosed
  simp [SerialPortImpl.open, hflags, hfd, SerialPortImpl.isOpen, hp]

theorem win_open_get_fails (o : Oracle) (p : SerialPortImpl) (tr : Trace)
    (openMode : OpenMode) (flags : Nat) (fd : Int) (hclosed : p.isOpen = false)
    (hflags : accessFlags openMode = some flags)
    (hfd : (o (tr ++ [NativeCall.CreateFile (SERIAL_PORT_PREFIX ++ p.portName) flags])).ret
      = fd)
    (hvalid : fd ≠ INVALID_FILE_DESCRIPTOR)
    (hget : (o (tr ++ [NativeCall.CreateFile (SERIAL_PORT_PREFIX ++ p.portName) flags,
                NativeCall.GetCommState fd])).ret = 0) :
    p.open o tr openMode =
      ⟨some (Exception.runtime_error "Unable to get port settings"),
       { p with openMode := openMode, fileDescriptor := INVALID_FILE_DESCRIPTOR },
       tr ++ [NativeCall.CreateFile (SERIAL_PORT_PREFIX ++ p.portName) flags,
              NativeCall.GetCommState fd, NativeCall.CloseHandle fd]⟩ := by
  have hp := (win_isOpen_eq_false_iff p).1 hclosed
  simp [SerialPortImpl.open, hflags, hfd, SerialPortImpl.isOpen, hvalid,
    SerialPortImpl.getPortSettings, hget, hp]

theorem win_open_get_timeouts_fails (o : Oracle) (p : SerialPortImpl) (tr : Trace)
    (openMode : OpenMode) (flags : Nat) (fd : Int) (hclosed : p.isOpen = false)
    (hflags : accessFlags openMode = some flags)
    (hfd : (o (tr ++ [NativeCall.CreateFile (SERIAL_PORT_PREFIX ++ p.portName) flags])).ret
      = fd)
    (hvalid : fd ≠ INVALID_FILE_DESCRIPTOR)
    (hget : (o (tr ++ [NativeCall.CreateFile (SERIAL_PORT_PREFIX ++ p.portName) flags,
                NativeCall.GetCommState fd])).ret ≠ 0)
    (hgetT : (o (tr ++ [NativeCall.CreateFile (SERIAL_PORT_PREFIX ++ p.portName) flags,
                NativeCall.GetCommState fd, NativeCall.GetCommTimeouts fd])).ret = 0) :
    p.open o tr openMode =
      ⟨some (Exception.runtime_error "Unable to get port timeout settings"),
       { p with
         openMode := openMode, fileDescriptor := INVALID_FILE_DESCRIPTOR,
         portSettings :=
           (o (tr ++ [NativeCall.CreateFile (SERIAL_PORT_PREFIX ++ p.portName) flags,
                      NativeCall.GetCommState fd])).settings },
       tr ++ [NativeCall.CreateFile (SERIAL_PORT_PREFIX ++ p.portName) flags,
              NativeCall.GetCommState fd, NativeCall.GetCommTimeouts fd,
              NativeCall.CloseHandle fd]⟩ := by
  have hp := (win_isOpen_eq_false_iff p).1 hclosed
  simp [SerialPortImpl.open, hflags, hfd, SerialPortImpl.isOpen, hvalid,
    SerialPortImpl.getPortSettings, hget, SerialPortImpl.getPortTimeoutSettings, hgetT, hp]

end Windows

/-! ## Claims about both targets -/

/-- C1.  Each of `setBaudRate`, `setCharacterSize`, `setFlowControl`, `setParity` and
`setStopBit`, called on a handle in any state with a value the platform does not support
(the matching `isXSupported` is false), throws `std::out_of_range`, issues no native call
(the trace is the one before the call) and leaves the whole object as it was: stored
configuration, port name, remembered open mode, saved snapshot and descriptor.  On the
POSIX target (call `cL`) and on the Windows target (call `cW`). -/
theorem setter_rejects_unsupported_value
    (oL : Linux.Oracle) (pL : Linux.SerialPortImpl) (trL : Linux.Trace) (cL : SetterCall)
    (oW : Windows.Oracle) (pW : Windows.SerialPortImpl) (trW : Windows.Trace)
    (cW : SetterCall)
    (hL : cL.isSupported Platform.linux = false)
    (hW : cW.isSupported Platform.windows = false) :
    (∃ what, pL.call oL trL cL = ⟨some (Exception.out_of_range what), pL, trL⟩) ∧
    (∃ what, pW.call oW trW cW = ⟨some (Exception.out_of_range what), pW, trW⟩) :=
  ⟨Linux.call_unsupported oL pL trL cL hL, Windows.win_call_unsupported oW pW trW cW hW⟩

/-- An instance of C1 on an Open handle: one-and-a-half stop bits on the POSIX target, 50
baud on the Windows target. -/
theorem setter_rejects_unsupported_value_witness :
    (∃ what,
      Linux.openedPort.call Linux.healthyDevice []
          (SetterCall.setStopBit StopBit.STOP_BIT_ONE_HALF)
        = ⟨some (Exception.out_of_range what), Linux.openedPort, []⟩) ∧
    (∃ what,
      Windows.openedPort.call Windows.healthyDevice []
          (SetterCall.setBaudRate BaudRate.BAUD_RATE_50)
        = ⟨some (Exception.out_of_range what), Windows.openedPort, []⟩) :=
  setter_rejects_unsupported_value Linux.healthyDevice Linux.openedPort []
    (SetterCall.setStopBit StopBit.STOP_BIT_ONE_HALF)
    Windows.healthyDevice Windows.openedPort []
    (SetterCall.setBaudRate BaudRate.BAUD_RATE_50) (by decide) (by decide)

/-- C10.  `open(openMode)` on an Open handle, for every `openMode` (also one that is none
of in, out, in|out), makes no native call, does not throw and leaves the object as it was:
descriptor, saved snapshot, remembered open mode and configuration.  In particular, when
an `open()` has left a handle Open, a second `open()` returns with the state and the trace
the first one left: opening twice equals opening once.  On both targets. -/
theorem open_on_open_port_is_noop
    (oL : Linux.Oracle) (pL : Linux.SerialPortImpl) (trL : Linux.Trace)
    (oW : Windows.Oracle) (pW : Windows.SerialPortImpl) (trW : Windows.Trace)
    (openMode : OpenMode)
    (hL : pL.isOpen = true) (hW : pW.isOpen = true) :
    pL.open oL trL openMode = ⟨none, pL, trL⟩ ∧
    pW.open oW trW openMode = ⟨none, pW, trW⟩ ∧
    (∀ (p : Linux.SerialPortImpl) (tr : Linux.Trace) (first : OpenMode),
      (p.open oL tr first).port.isOpen = true →
      (p.open oL tr first).port.open oL (p.open oL tr first).trace openMode
        = ⟨none, (p.open oL tr first).port, (p.open oL tr first).trace⟩) ∧
    (∀ (p : Windows.SerialPortImpl) (tr : Windows.Trace) (first : OpenMode),
      (p.open oW tr first).port.isOpen = true →
      (p.open oW tr first).port.open oW (p.open oW tr first).trace openMode
        = ⟨none, (p.open oW tr first).port, (p.open oW tr first).trace⟩) :=
  ⟨Linux.open_opened oL pL trL openMode hL, Windows.win_open_opened oW pW trW openMode hW,
   fun _ _ _ h => Linux.open_opened oL _ _ openMode h,
   fun _ _ _ h => Windows.win_open_opened oW _ _ openMode h⟩

/-- An instance of C10: the open ports are opened again with the open mode 0, which is not
a supported one; and the default POSIX port is opened twice on the healthy device. -/
theorem open_on_open_port_is_noop_witness :
    Linux.openedPort.open Linux.healthyDevice [] 0 = ⟨none, Linux.openedPort, []⟩ ∧
    Windows.openedPort.open Windows.healthyDevice [] 0 = ⟨none, Windows.openedPort, []⟩ ∧
    (Linux.defaultPort.open Linux.healthyDevice [] readWrite).port.open Linux.healthyDevice
        (Linux.defaultPort.open Linux.healthyDevice [] readWrite).trace 0
      = ⟨none, (Linux.defaultPort.open Linux.healthyDevice [] readWrite).port,
         (Linux.defaultPort.open Linux.healthyDevice [] readWrite).trace⟩ :=
  have h := open_on_open_port_is_noop Linux.healthyDevice Linux.openedPort []
    Windows.healthyDevice Windows.openedPort [] 0 (by decide) (by decide)
  ⟨h.1, h.2.1, h.2.2.1 Linux.defaultPort [] readWrite (by decide)⟩

/-- C3.  `close()` on a Closed handle makes no native call, changes nothing and does not
throw.  `close()` on an Open handle writes every saved snapshot back (on the POSIX target
one `tcsetattr`; on the Windows target `SetCommState` and then `SetCommTimeouts`, the second
whatever the first returned), then releases the native handle, once, and leaves the handle
Closed whatever the restore returned; it throws "Unable to set port settings" if and only
if a restore failed, and the object it leaves when it throws is already Closed. -/
theorem close_restores_releases_and_reports
    (oL : Linux.Oracle) (pL : Linux.SerialPortImpl) (trL : Linux.Trace)
    (oW : Windows.Oracle) (pW : Windows.SerialPortImpl) (trW : Windows.Trace) :
    (pL.isOpen = false → pL.close oL trL = ⟨none, pL, trL⟩) ∧
    (pL.isOpen = true →
      (pL.close oL trL).trace =
        trL ++ [Linux.NativeCall.tcsetattr pL.fileDescriptor Linux.TCSANOW pL.portSettings,
                Linux.NativeCall.close pL.fileDescriptor] ∧
      (pL.close oL trL).port
        = { pL with fileDescriptor := Linux.INVALID_FILE_DESCRIPTOR } ∧
      (pL.close oL trL).port.isOpen = false ∧
      ((pL.close oL trL).exception
          = some (Exception.runtime_error "Unable to set port settings") ↔
        (oL (trL ++ [Linux.NativeCall.tcsetattr pL.fileDescriptor Linux.TCSANOW
                      pL.portSettings])).ret ≠ 0) ∧
      ((pL.close oL trL).exception = none ↔
        (oL (trL ++ [Linux.NativeCall.tcsetattr pL.fileDescriptor Linux.TCSANOW
                      pL.portSettings])).ret = 0)) ∧
    (pW.isOpen = false → pW.close oW trW = ⟨none, pW, trW⟩) ∧
    (pW.isOpen = true →
      (pW.close oW trW).trace =
        trW ++ [Windows.NativeCall.SetCommState pW.fileDescriptor pW.portSettings,
                Windows.NativeCall.SetCommTimeouts pW.fileDescriptor pW.timeoutSettings,
                Windows.NativeCall.CloseHandle pW.fileDescriptor] ∧
      (pW.close oW trW).port
        = { pW with fileDescriptor := Windows.INVALID_FILE_DESCRIPTOR } ∧
      (pW.close oW trW).port.isOpen = false ∧
      ((pW.close oW trW).exception
          = some (Exception.runtime_error "Unable to set port settings") ↔
        ((oW (trW ++ [Windows.NativeCall.SetCommState pW.fileDescriptor
                        pW.portSettings])).ret = 0 ∨
         (oW (trW ++ [Windows.NativeCall.SetCommState pW.fileDescriptor pW.portSettings,
                      Windows.NativeCall.SetCommTimeouts pW.fileDescriptor
                        pW.timeoutSettings])).ret = 0)) ∧
      ((pW.close oW trW).exception = none ↔
        ((oW (trW ++ [Windows.NativeCall.SetCommState pW.fileDescriptor
                        pW.portSettings])).ret ≠ 0 ∧
         (oW (trW ++ [Windows.NativeCall.SetCommState pW.fileDescriptor pW.portSettings,
                      Windows.NativeCall.SetCommTimeouts pW.fileDescriptor
                        pW.timeoutSettings])).ret ≠ 0))) := by
  refine ⟨Linux.close_closed oL pL trL, ?_, Windows.win_close_closed oW pW trW, ?_⟩
  · intro h
    rw [Linux.close_opened oL pL trL h]
    refine ⟨rfl, rfl, Linux.isOpen_invalid pL, ?_, ?_⟩
    · by_cases hr : (oL (trL ++ [Linux.NativeCall.tcsetattr pL.fileDescriptor Linux.TCSANOW
          pL.portSettings])).ret = 0 <;> simp [hr]
    · by_cases hr : (oL (trL ++ [Linux.NativeCall.tcsetattr pL.fileDescriptor Linux.TCSANOW
          pL.portSettings])).ret = 0 <;> simp [hr]
  · intro h
    rw [Windows.win_close_opened oW pW trW h]
    refine ⟨rfl, rfl, Windows.win_isOpen_invalid pW, ?_, ?_⟩
    · by_cases h1 : (oW (trW ++ [Windows.NativeCall.SetCommState pW.fileDescriptor
          pW.portSettings])).ret = 0 <;>
        by_cases h2 : (oW (trW ++ [Windows.NativeCall.SetCommState pW.fileDescriptor
          pW.portSettings, Windows.NativeCall.SetCommTimeouts pW.fileDescriptor
          pW.timeoutSettings])).ret = 0 <;> simp [h1, h2]
    · by_cases h1 : (oW (trW ++ [Windows.NativeCall.SetCommState pW.fileDescriptor
          pW.portSettings])).ret = 0 <;>
        by_cases h2 : (oW (trW ++ [Windows.NativeCall.SetCommState pW.fileDescriptor
          pW.portSettings, Windows.NativeCall.SetCommTimeouts pW.fileDescriptor
          pW.timeoutSettings])).ret = 0 <;> simp [h1, h2]

/-- An instance of C3: the open ports are closed on devices that refuse every call.  Both
Windows snapshots are written, the handle is released and `close()` throws with the port
already Closed; the closed POSIX port then closes again without a call. -/
theorem close_restores_releases_and_reports_witness :
    (Linux.openedPort.close Linux.deadDevice []).trace
        = [Linux.NativeCall.tcsetattr 3 Linux.TCSANOW Linux.cookedSettings,
           Linux.NativeCall.close 3] ∧
      (Linux.openedPort.close Linux.deadDevice []).port.isOpen
        = false ∧
      (Linux.openedPort.close Linux.deadDevice []).exception
        = some (Exception.runtime_error "Unable to set port settings") ∧
      (Windows.openedPort.close Windows.deadDevice []).trace
        = [Windows.NativeCall.SetCommState 7 Windows.deviceSettings,
           Windows.NativeCall.SetCommTimeouts 7 Windows.deviceTimeouts,
           Windows.NativeCall.CloseHandle 7] ∧
      (Windows.openedPort.close Windows.deadDevice []).port.isOpen = false ∧
      (Windows.openedPort.close Windows.deadDevice []).exception
        = some (Exception.runtime_error "Unable to set port settings") ∧
      Linux.defaultPort.close Linux.healthyDevice [] = ⟨none, Linux.defaultPort, []⟩ := by
  have h := close_restores_releases_and_reports Linux.deadDevice
    Linux.openedPort [] Windows.deadDevice Windows.openedPort []
  have hc := close_restores_releases_and_reports Linux.healthyDevice Linux.defaultPort []
    Windows.deadDevice Windows.openedPort []
  obtain ⟨hLt, _, hLo, hLe, _⟩ := h.2.1 (by decide)
  obtain ⟨hWt, _, hWo, hWe, _⟩ := h.2.2.2 (by decide)
  exact ⟨hLt, hLo, hLe.2 (by decide), hWt, hWo, hWe.2 (Or.inl (by decide)),
    hc.1 (by decide)⟩

theorem Linux.with_openMode_of_closed (p : Linux.SerialPortImpl) (openMode : OpenMode)
    (h : p.isOpen = false) :
    ({ p with openMode := openMode, fileDescriptor := Linux.INVALID_FILE_DESCRIPTOR }
      : Linux.SerialPortImpl) = { p with openMode := openMode } := by
  have hp := (Linux.isOpen_eq_false_iff p).1 h
  cases p
  simp_all

theorem Windows.win_with_openMode_of_closed (p : Windows.SerialPortImpl) (openMode : OpenMode)
    (h : p.isOpen = false) :
    ({ p with openMode := openMode, fileDescriptor := Windows.INVALID_FILE_DESCRIPTOR }
      : Windows.SerialPortImpl) = { p with openMode := openMode } := by
  have hp := (Windows.win_isOpen_eq_false_iff p).1 h
  cases p
  simp_all

/-- C5.  `open(openMode)` on a Closed handle with a valid mode (the flags of the native
open are `flagsL`, `flagsW`):
* when the native open fails, it throws "Unable to open serial port" after that one call;
* when the native open returns a handle and the read of the native settings fails, it
  releases that handle and throws "Unable to get port settings";
* on the Windows target, when the settings are read and the read of the native timeouts
  fails, it releases the handle and throws "Unable to get port timeout settings".
In every case `isOpen()` is false afterwards, the trace holds no native set call, and the
stored configuration and port name are those before the call: the object differs from the
one before only in the remembered open mode (and, in the third case, in the settings
snapshot just read). -/
theorem open_failure_before_apply
    (oL : Linux.Oracle) (pL : Linux.SerialPortImpl) (trL : Linux.Trace)
    (oW : Windows.Oracle) (pW : Windows.SerialPortImpl) (trW : Windows.Trace)
    (openMode : OpenMode) (flagsL flagsW : Nat)
    (hclosedL : pL.isOpen = false) (hclosedW : pW.isOpen = false)
    (hflagsL : Linux.descriptorFlags openMode = some flagsL)
    (hflagsW : Windows.accessFlags openMode = some flagsW) :
    ((oL (trL ++ [Linux.NativeCall.open pL.portName flagsL])).ret
        = Linux.INVALID_FILE_DESCRIPTOR →
      pL.open oL trL openMode =
        ⟨some (Exception.runtime_error "Unable to open serial port"),
         { pL with openMode := openMode },
         trL ++ [Linux.NativeCall.open pL.portName flagsL]⟩ ∧
      (pL.open oL trL openMode).port.isOpen = false) ∧
    (∀ fd : Int,
      (oL (trL ++ [Linux.NativeCall.open pL.portName flagsL])).ret = fd →
      fd ≠ Linux.INVALID_FILE_DESCRIPTOR →
      (oL (trL ++ [Linux.NativeCall.open pL.portName flagsL,
                   Linux.NativeCall.tcgetattr fd])).ret ≠ 0 →
      pL.open oL trL openMode =
        ⟨some (Exception.runtime_error "Unable to get port settings"),
         { pL with openMode := openMode },
         trL ++ [Linux.NativeCall.open pL.portName flagsL, Linux.NativeCall.tcgetattr fd,
                 Linux.NativeCall.close fd]⟩ ∧
      (pL.open oL trL openMode).port.isOpen = false) ∧
    ((oW (trW ++ [Windows.NativeCall.CreateFile
                    (Windows.SERIAL_PORT_PREFIX ++ pW.portName) flagsW])).ret
        = Windows.INVALID_FILE_DESCRIPTOR →
      pW.open oW trW openMode =
        ⟨some (Exception.runtime_error "Unable to open serial port"),
         { pW with openMode := openMode },
         trW ++ [Windows.NativeCall.CreateFile
                   (Windows.SERIAL_PORT_PREFIX ++ pW.portName) flagsW]⟩ ∧
      (pW.open oW trW openMode).port.isOpen = false) ∧
    (∀ handle : Int,
      (oW (trW ++ [Windows.NativeCall.CreateFile
                     (Windows.SERIAL_PORT_PREFIX ++ pW.portName) flagsW])).ret = handle →
      handle ≠ Windows.INVALID_FILE_DESCRIPTOR →
      (oW (trW ++ [Windows.NativeCall.CreateFile
                     (Windows.SERIAL_PORT_PREFIX ++ pW.portName) flagsW,
                   Windows.NativeCall.GetCommState handle])).ret = 0 →
      pW.open oW trW openMode =
        ⟨some (Exception.runtime_error "Unable to get port settings"),
         { pW with openMode := openMode },
         trW ++ [Windows.NativeCall.CreateFile
                   (Windows.SERIAL_PORT_PREFIX ++ pW.portName) flagsW,
                 Windows.NativeCall.GetCommState handle,
                 Windows.NativeCall.CloseHandle handle]⟩ ∧
      (pW.open oW trW openMode).port.isOpen = false) ∧
    (∀ handle : Int,
      (oW (trW ++ [Windows.NativeCall.CreateFile
                     (Windows.SERIAL_PORT_PREFIX ++ pW.portName) flagsW])).ret = handle →
      handle ≠ Windows.INVALID_FILE_DESCRIPTOR →
      (oW (trW ++ [Windows.NativeCall.CreateFile
                     (Windows.SERIAL_PORT_PREFIX ++ pW.portName) flagsW,
                   Windows.NativeCall.GetCommState handle])).ret ≠ 0 →
      (oW (trW ++ [Windows.NativeCall.CreateFile
                     (Windows.SERIAL_PORT_PREFIX ++ pW.portName) flagsW,
                   Windows.NativeCall.GetCommState handle,
                   Windows.NativeCall.GetCommTimeouts handle])).ret = 0 →
      pW.open oW trW openMode =
        ⟨some (Exception.runtime_error "Unable to get port timeout settings"),
         { pW with
           openMode := openMode,
           portSettings :=
             (oW (trW ++ [Windows.NativeCall.CreateFile
                            (Windows.SERIAL_PORT_PREFIX ++ pW.portName) flagsW,
                          Windows.NativeCall.GetCommState handle])).settings },
         trW ++ [Windows.NativeCall.CreateFile
                   (Windows.SERIAL_PORT_PREFIX ++ pW.portName) flagsW,
                 Windows.NativeCall.GetCommState handle,
                 Windows.NativeCall.GetCommTimeouts handle,
                 Windows.NativeCall.CloseHandle handle]⟩ ∧
      (pW.open oW trW openMode).port.isOpen = false) := by
  have hpL := (Linux.isOpen_eq_false_iff pL).1 hclosedL
  have hpW := (Windows.win_isOpen_eq_false_iff pW).1 hclosedW
  refine ⟨?_, ?_, ?_, ?_, ?_⟩
  · intro hfd
    rw [Linux.open_native_open_fails oL pL trL openMode flagsL hclosedL hflagsL hfd,
      Linux.with_openMode_of_closed pL openMode hclosedL]
    exact ⟨rfl, hclosedL⟩
  · intro fd hfd hvalid hget
    rw [Linux.open_get_fails oL pL trL openMode flagsL fd hclosedL hflagsL hfd hvalid hget,
      Linux.with_openMode_of_closed pL openMode hclosedL]
    exact ⟨rfl, hclosedL⟩
  · intro hfd
    rw [Windows.win_open_native_open_fails oW pW trW openMode flagsW hclosedW hflagsW hfd,
      Windows.win_with_openMode_of_closed pW openMode hclosedW]
    exact ⟨rfl, hclosedW⟩
  · intro handle hfd hvalid hget
    rw [Windows.win_open_get_fails oW pW trW openMode flagsW handle hclosedW hflagsW hfd hvalid
      hget, Windows.win_with_openMode_of_closed pW openMode hclosedW]
    exact ⟨rfl, hclosedW⟩
  · intro handle hfd hvalid hget hgetT
    rw [Windows.win_open_get_timeouts_fails oW pW trW openMode flagsW handle hclosedW hflagsW hfd
      hvalid hget hgetT]
    refine ⟨?_, ?_⟩
    · cases pW
      simp_all
    · simp [Windows.SerialPortImpl.isOpen]

/-- An instance of C5: the default ports are opened on a path where no device answers
(the native open fails), the POSIX port on a device that opens and then fails the read of
its settings, and the Windows port on a device that fails the read of its timeouts. -/
theorem open_failure_before_apply_witness :
    Linux.defaultPort.open Linux.deadDevice [] readWrite =
        ⟨some (Exception.runtime_error "Unable to open serial port"),
         { Linux.defaultPort with openMode := readWrite },
         [] ++ [Linux.NativeCall.open "/dev/ttyUSB0" 0o4402]⟩ ∧
      Linux.defaultPort.open Linux.muteDevice [] readWrite =
        ⟨some (Exception.runtime_error "Unable to get port settings"),
         { Linux.defaultPort with openMode := readWrite },
         [] ++ [Linux.NativeCall.open "/dev/ttyUSB0" 0o4402, Linux.NativeCall.tcgetattr 3,
                Linux.NativeCall.close 3]⟩ ∧
      (Windows.defaultPort.open Windows.timeoutsRefused [] readWrite).exception =
        some (Exception.runtime_error "Unable to get port timeout settings") ∧
      (Windows.defaultPort.open Windows.timeoutsRefused [] readWrite).trace =
        [Windows.NativeCall.CreateFile "\\\\.\\COM1" 0xC0000000,
         Windows.NativeCall.GetCommState 7, Windows.NativeCall.GetCommTimeouts 7,
         Windows.NativeCall.CloseHandle 7] ∧
      (Windows.defaultPort.open Windows.timeoutsRefused [] readWrite).port.isOpen = false := by
  have hdead := open_failure_before_apply Linux.deadDevice Linux.defaultPort []
    Windows.deadDevice Windows.defaultPort [] readWrite 0o4402 0xC0000000
    (by decide) (by decide) (by decide) (by decide)
  have hmute := open_failure_before_apply Linux.muteDevice Linux.defaultPort []
    Windows.timeoutsRefused Windows.defaultPort [] readWrite 0o4402 0xC0000000
    (by decide) (by decide) (by decide) (by decide)
  obtain ⟨hW, hWo⟩ := hmute.2.2.2.2 7 (by decide) (by decide) (by decide) (by decide)
  refine ⟨(hdead.1 (by decide)).1,
    (hmute.2.1 3 (by decide) (by decide) (by decide)).1, ?_, ?_, hWo⟩
  · rw [hW]
  · rw [hW]; decide

end LibSerial

namespace LibSerial
/-! ## Property tables, all codes -/

theorem baudRateValue_error_shape (target : Platform) (b : BaudRate) (e : Exception)
    (h : getBaudRateValue target b = .error e) :
    e = Exception.out_of_range "Baud rate out of range" := by
  unfold getBaudRateValue at h
  cases target <;> simp only at h <;> split at h <;> simp_all
  all_goals (split at h <;> simp_all)

theorem characterSizeValue_error_shape (target : Platform) (c : CharacterSize)
    (e : Exception) (h : getCharacterSizeValue target c = .error e) :
    e = Exception.out_of_range "Character size out of range" := by
  unfold getCharacterSizeValue at h
  cases target <;> simp only at h <;> split at h <;> simp_all

theorem baudRateValue_throws_iff (target : Platform) (b : BaudRate) :
    (∃ what, getBaudRateValue target b = .error (Exception.out_of_range what)) ↔
      isBaudRateSupported target b = false := by
  constructor
  · rintro ⟨what, h⟩
    cases hs : isBaudRateSupported target b with
    | false => rfl
    | true =>
      obtain ⟨v, hv⟩ := baudRateValue_of_supported target b hs
      rw [hv] at h
      cases h
  · intro hs
    cases hv : getBaudRateValue target b with
    | ok v =>
      rw [baudRate_supported_of_value target b v hv] at hs
      cases hs
    | error e =>
      rw [baudRateValue_error_shape target b e hv]
      exact ⟨_, rfl⟩

theorem characterSizeValue_throws_iff (target : Platform) (c : CharacterSize) :
    (∃ what, getCharacterSizeValue target c = .error (Exception.out_of_range what)) ↔
      isCharacterSizeSupported c = false := by
  constructor
  · rintro ⟨what, h⟩
    cases hs : isCharacterSizeSupported c with
    | false => rfl
    | true =>
      obtain ⟨v, hv⟩ := characterSizeValue_of_supported target c hs
      rw [hv] at h
      cases h
  · intro hs
    cases hv : getCharacterSizeValue target c with
    | ok v =>
      rw [characterSize_supported_of_value target c v hv] at hs
      cases hs
    | error e =>
      rw [characterSizeValue_error_shape target c e hv]
      exact ⟨_, rfl⟩

/-- C15.  On each platform table and for every code `b`, `c` of the underlying type:
`getBaudRateValue(b)` throws `std::out_of_range` if and only if `isBaudRateSupported(b)` is
false, and returns a native value if and only if it is true; the same for
`getCharacterSizeValue(c)` and `isCharacterSizeSupported(c)`.  `BAUD_RATE_CUSTOM` is not
supported and has no native value. -/
theorem native_value_throws_iff_unsupported (target : Platform) (b : BaudRate)
    (c : CharacterSize) :
    ((∃ what, getBaudRateValue target b = .error (Exception.out_of_range what)) ↔
      isBaudRateSupported target b = false) ∧
    ((∃ v, getBaudRateValue target b = .ok v) ↔ isBaudRateSupported target b = true) ∧
    ((∃ what, getCharacterSizeValue target c = .error (Exception.out_of_range what)) ↔
      isCharacterSizeSupported c = false) ∧
    ((∃ v, getCharacterSizeValue target c = .ok v) ↔ isCharacterSizeSupported c = true) ∧
    isBaudRateSupported target BaudRate.BAUD_RATE_CUSTOM = false ∧
    getBaudRateValue target BaudRate.BAUD_RATE_CUSTOM
      = .error (Exception.out_of_range "Baud rate out of range") := by
  refine ⟨baudRateValue_throws_iff target b,
    ⟨fun ⟨v, hv⟩ => baudRate_supported_of_value target b v hv,
     baudRateValue_of_supported target b⟩,
    characterSizeValue_throws_iff target c,
    ⟨fun ⟨v, hv⟩ => characterSize_supported_of_value target c v hv,
     characterSizeValue_of_supported target c⟩, ?_, ?_⟩
  · cases target <;> decide
  · cases target <;> decide

theorem baudRate_error_shape (b : BaudRate) (e : Exception)
    (h : getBaudRate b = .error e) :
    e = Exception.out_of_range "Baud rate out of range" := by
  unfold getBaudRate at h
  split at h <;> simp_all

theorem baudRate_throws_exactly (b : BaudRate) :
    getBaudRate b = .error (Exception.out_of_range "Baud rate out of range") ↔
      (b = BaudRate.BAUD_RATE_CUSTOM ∨ b > BaudRate.BAUD_RATE_MAX) := by
  by_cases h : b ≤ 34
  · interval_cases b <;> decide
  · have h' : 34 < b := Nat.lt_of_not_le h
    have hthrow : getBaudRate b = .error (Exception.out_of_range "Baud rate out of range") := by
      unfold getBaudRate
      split <;> first | (exact absurd h' (by decide)) | rfl
    constructor
    · intro _; exact Or.inr h'
    · intro _; exact hthrow

theorem baudRate_throws_iff (b : BaudRate) :
    (∃ what, getBaudRate b = .error (Exception.out_of_range what)) ↔
      (b = BaudRate.BAUD_RATE_CUSTOM ∨ b > BaudRate.BAUD_RATE_MAX) := by
  constructor
  · rintro ⟨what, h⟩
    have hshape := baudRate_error_shape b _ h
    rw [hshape] at h
    exact (baudRate_throws_exactly b).1 h
  · intro h
    exact ⟨_, (baudRate_throws_exactly b).2 h⟩

open BaudRate in
/-- C16.  `getBaudRate(b)` returns the literal rate `n` for every named member
`BAUD_RATE_n`, from 50 to 4000000, and throws `std::out_of_range` exactly when `b` is
`BAUD_RATE_CUSTOM` or greater than `BAUD_RATE_MAX`.  The function has no conditional
compilation, so it is the same on both platforms; it returns the rate also where the
platform does not support it (14400 on the POSIX table, 50 on the Windows table). -/
theorem getBaudRate_literal_rates (b : BaudRate) :
    (getBaudRate BAUD_RATE_50 = .ok 50 ∧
    getBaudRate BAUD_RATE_75 = .ok 75 ∧
    getBaudRate BAUD_RATE_110 = .ok 110 ∧
    getBaudRate BAUD_RATE_134 = .ok 134 ∧
    getBaudRate BAUD_RATE_150 = .ok 150 ∧
    getBaudRate BAUD_RATE_200 = .ok 200 ∧
    getBaudRate BAUD_RATE_300 = .ok 300 ∧
    getBaudRate BAUD_RATE_600 = .ok 600 ∧
    getBaudRate BAUD_RATE_1200 = .ok 1200 ∧
    getBaudRate BAUD_RATE_1800 = .ok 1800 ∧
    getBaudRate BAUD_RATE_2400 = .ok 2400 ∧
    getBaudRate BAUD_RATE_4800 = .ok 4800 ∧
    getBaudRate BAUD_RATE_9600 = .ok 9600 ∧
    getBaudRate BAUD_RATE_14400 = .ok 14400 ∧
    getBaudRate BAUD_RATE_19200 = .ok 19200 ∧
    getBaudRate BAUD_RATE_38400 = .ok 38400 ∧
    getBaudRate BAUD_RATE_56000 = .ok 56000 ∧
    getBaudRate BAUD_RATE_57600 = .ok 57600 ∧
    getBaudRate BAUD_RATE_115200 = .ok 115200 ∧
    getBaudRate BAUD_RATE_128000 = .ok 128000 ∧
    getBaudRate BAUD_RATE_230400 = .ok 230400 ∧
    getBaudRate BAUD_RATE_256000 = .ok 256000 ∧
    getBaudRate BAUD_RATE_460800 = .ok 460800 ∧
    getBaudRate BAUD_RATE_500000 = .ok 500000 ∧
    getBaudRate BAUD_RATE_576000 = .ok 576000 ∧
    getBaudRate BAUD_RATE_921600 = .ok 921600 ∧
    getBaudRate BAUD_RATE_1000000 = .ok 1000000 ∧
    getBaudRate BAUD_RATE_1152000 = .ok 1152000 ∧
    getBaudRate BAUD_RATE_1500000 = .ok 1500000 ∧
    getBaudRate BAUD_RATE_2000000 = .ok 2000000 ∧
    getBaudRate BAUD_RATE_2500000 = .ok 2500000 ∧
    getBaudRate BAUD_RATE_3000000 = .ok 3000000 ∧
    getBaudRate BAUD_RATE_3500000 = .ok 3500000 ∧
    getBaudRate BAUD_RATE_4000000 = .ok 4000000) ∧
    ((∃ what, getBaudRate b = .error (Exception.out_of_range what)) ↔
      (b = BAUD_RATE_CUSTOM ∨ b > BAUD_RATE_MAX)) ∧
    ((∃ n, getBaudRate b = .ok n) ↔ (BAUD_RATE_50 ≤ b ∧ b ≤ BAUD_RATE_MAX)) ∧
    isBaudRateSupported Platform.linux BAUD_RATE_14400 = false ∧
    isBaudRateSupported Platform.windows BAUD_RATE_50 = false := by
  refine ⟨by repeat' constructor, baudRate_throws_iff b, ?_, by decide, by decide⟩
  constructor
  · rintro ⟨n, hn⟩
    by_cases h : b ≤ 34
    · refine ⟨?_, h⟩
      rcases Nat.eq_zero_or_pos b with h0 | h0
      · subst h0; cases hn
      · exact h0
    · have hthrow := (baudRate_throws_iff b).2 (Or.inr (Nat.lt_of_not_le h))
      obtain ⟨what, hw⟩ := hthrow
      rw [hw] at hn
      cases hn
  · rintro ⟨h1, h2⟩
    cases hv : getBaudRate b with
    | ok n => exact ⟨n, rfl⟩
    | error e =>
      have hshape := baudRate_error_shape b e hv
      have : b = BAUD_RATE_CUSTOM ∨ b > BAUD_RATE_MAX :=
        (baudRate_throws_iff b).1 ⟨_, hshape ▸ hv⟩
      rcases this with h0 | h0
      · rw [h0] at h1; exact absurd h1 (by decide)
      · exact absurd h2 (Nat.not_le_of_lt h0)

theorem baudRateValue_throws_above_max (target : Platform) (b : BaudRate)
    (h : b > BaudRate.BAUD_RATE_MAX) :
    getBaudRateValue target b = .error (Exception.out_of_range "Baud rate out of range") := by
  have h' : 34 < b := h
  unfold getBaudRateValue
  cases target <;> simp only <;> split <;>
    first | (exact absurd h' (by decide)) | rfl

theorem characterSize_tables_throw_above_max (target : Platform) (c : CharacterSize)
    (h : c > CharacterSize.CHARACTER_SIZE_MAX) :
    getCharacterSizeValue target c
        = .error (Exception.out_of_range "Character size out of range") ∧
      getCharacterSize c = .error (Exception.out_of_range "Character size out of range") := by
  have h' : 3 < c := h
  unfold getCharacterSizeValue getCharacterSize
  constructor
  · cases target <;> simp only <;> split <;>
      first | (exact absurd h' (by decide)) | rfl
  · split <;> first | (exact absurd h' (by decide)) | rfl

theorem names_throw_above_max (f : FlowControl) (p : Parity) (s : StopBit) :
    (f > FlowControl.FLOW_CONTROL_MAX →
      getFlowControlName f = .error (Exception.out_of_range "Flow control out of range")) ∧
    (p > Parity.PARITY_TYPE_MAX →
      getParityName p = .error (Exception.out_of_range "Parity out of range")) ∧
    (s > StopBit.STOP_BIT_MAX →
      getStopBitName s = .error (Exception.out_of_range "Stop bit out of range")) := by
  refine ⟨?_, ?_, ?_⟩
  · intro h
    have h' : 2 < f := h
    unfold getFlowControlName
    split <;> first | (exact absurd h' (by decide)) | rfl
  · intro h
    have h' : 4 < p := h
    unfold getParityName
    split <;> first | (exact absurd h' (by decide)) | rfl
  · intro h
    have h' : 2 < s := h
    unfold getStopBitName
    split <;> first | (exact absurd h' (by decide)) | rfl

/-- C17.  `getBaudRateValue`, `getBaudRate`, `getCharacterSizeValue`, `getCharacterSize`,
`getFlowControlName`, `getParityName` and `getStopBitName` each throw `std::out_of_range`
on every code strictly greater than the declared maximum of their enumeration, on both
platform tables.  The three name functions, which are the same on both platforms, return
for the codes within the declared bounds "Hardware"/"Software"/"None",
"None"/"Odd"/"Even"/"Mark"/"Space" and "One"/"One and a half"/"Two", the last also for
one-and-a-half stop bits, which the POSIX table does not support; so they succeed on
every code up to the maximum. -/
theorem getters_throw_above_max_names_within (target : Platform) (b : BaudRate)
    (c : CharacterSize) (f : FlowControl) (p : Parity) (s : StopBit) :
    (b > BaudRate.BAUD_RATE_MAX →
      getBaudRateValue target b
          = .error (Exception.out_of_range "Baud rate out of range") ∧
        getBaudRate b = .error (Exception.out_of_range "Baud rate out of range")) ∧
    (c > CharacterSize.CHARACTER_SIZE_MAX →
      getCharacterSizeValue target c
          = .error (Exception.out_of_range "Character size out of range") ∧
        getCharacterSize c
          = .error (Exception.out_of_range "Character size out of range")) ∧
    (f > FlowControl.FLOW_CONTROL_MAX →
      getFlowControlName f = .error (Exception.out_of_range "Flow control out of range")) ∧
    (p > Parity.PARITY_TYPE_MAX →
      getParityName p = .error (Exception.out_of_range "Parity out of range")) ∧
    (s > StopBit.STOP_BIT_MAX →
      getStopBitName s = .error (Exception.out_of_range "Stop bit out of range")) ∧
    (getFlowControlName FlowControl.FLOW_CONTROL_HARDWARE = .ok "Hardware" ∧
      getFlowControlName FlowControl.FLOW_CONTROL_SOFTWARE = .ok "Software" ∧
      getFlowControlName FlowControl.FLOW_CONTROL_NONE = .ok "None") ∧
    (getParityName Parity.PARITY_TYPE_NONE = .ok "None" ∧
      getParityName Parity.PARITY_TYPE_ODD = .ok "Odd" ∧
      getParityName Parity.PARITY_TYPE_EVEN = .ok "Even" ∧
      getParityName Parity.PARITY_TYPE_MARK = .ok "Mark" ∧
      getParityName Parity.PARITY_TYPE_SPACE = .ok "Space") ∧
    (getStopBitName StopBit.STOP_BIT_ONE = .ok "One" ∧
      getStopBitName StopBit.STOP_BIT_ONE_HALF = .ok "One and a half" ∧
      getStopBitName StopBit.STOP_BIT_TWO = .ok "Two" ∧
      isStopBitSupported Platform.linux StopBit.STOP_BIT_ONE_HALF = false) ∧
    (f ≤ FlowControl.FLOW_CONTROL_MAX → ∃ name, getFlowControlName f = .ok name) ∧
    (p ≤ Parity.PARITY_TYPE_MAX → ∃ name, getParityName p = .ok name) ∧
    (s ≤ StopBit.STOP_BIT_MAX → ∃ name, getStopBitName s = .ok name) := by
  refine ⟨?_, characterSize_tables_throw_above_max target c, (names_throw_above_max f p s).1,
    (names_throw_above_max f p s).2.1, (names_throw_above_max f p s).2.2,
    by decide, by decide, by decide, ?_, ?_, ?_⟩
  · intro h
    exact ⟨baudRateValue_throws_above_max target b h,
      (baudRate_throws_exactly b).2 (Or.inr h)⟩
  · intro h
    have h' : f ≤ 2 := h
    interval_cases f <;> exact ⟨_, rfl⟩
  · intro h
    have h' : p ≤ 4 := h
    interval_cases p <;> exact ⟨_, rfl⟩
  · intro h
    have h' : s ≤ 2 := h
    interval_cases s <;> exact ⟨_, rfl⟩

theorem baudRate_supported_cases (b : BaudRate) (h : 34 < b) :
    isBaudRateSupported Platform.linux b = false ∧
      isBaudRateSupported Platform.windows b = false := by
  unfold isBaudRateSupported
  split <;> first | (exact absurd h (by decide)) | simp

open BaudRate in
theorem baudRate_supported_table (b : BaudRate) :
    ((isBaudRateSupported Platform.linux b = true ∧
        isBaudRateSupported Platform.windows b = true) ↔
      b ∈ [BAUD_RATE_110, BAUD_RATE_300, BAUD_RATE_600, BAUD_RATE_1200,
       BAUD_RATE_2400, BAUD_RATE_4800, BAUD_RATE_9600, BAUD_RATE_19200,
       BAUD_RATE_38400, BAUD_RATE_57600, BAUD_RATE_115200]) ∧
    ((isBaudRateSupported Platform.linux b = false ∧
        isBaudRateSupported Platform.windows b = true) ↔
      b ∈ [BAUD_RATE_14400, BAUD_RATE_56000, BAUD_RATE_128000, BAUD_RATE_256000]) ∧
    ((isBaudRateSupported Platform.linux b = true ∧
        isBaudRateSupported Platform.windows b = false) ↔
      b ∈ [BAUD_RATE_50, BAUD_RATE_75, BAUD_RATE_134, BAUD_RATE_150, BAUD_RATE_200,
       BAUD_RATE_1800, BAUD_RATE_230400, BAUD_RATE_460800, BAUD_RATE_500000,
       BAUD_RATE_576000, BAUD_RATE_921600, BAUD_RATE_1000000, BAUD_RATE_1152000,
       BAUD_RATE_1500000, BAUD_RATE_2000000, BAUD_RATE_2500000,
       BAUD_RATE_3000000, BAUD_RATE_3500000, BAUD_RATE_4000000]) ∧
    ((isBaudRateSupported Platform.linux b = false ∧
        isBaudRateSupported Platform.windows b = false) ↔
      (b = BAUD_RATE_CUSTOM ∨ b > BAUD_RATE_MAX)) := by
  by_cases h : b ≤ 34
  · interval_cases b <;> decide
  · have h' : 34 < b := Nat.lt_of_not_le h
    have hs := baudRate_supported_cases b h'
    have hne : ∀ k, k ≤ 34 → b ≠ k := fun k hk hb => absurd (hb ▸ hk) h
    refine ⟨?_, ?_, ?_, ?_⟩
    · simp only [hs.1, Bool.false_eq_true, false_and, false_iff]
      intro hm
      simp only [List.mem_cons, List.mem_singleton, List.not_mem_nil, or_false] at hm
      rcases hm with hm | hm | hm | hm | hm | hm | hm | hm | hm | hm | hm <;>
        exact hne _ (by decide) hm
    · simp only [hs.2, Bool.false_eq_true, and_false, false_iff]
      intro hm
      simp only [List.mem_cons, List.mem_singleton, List.not_mem_nil, or_false] at hm
      rcases hm with hm | hm | hm | hm <;> exact hne _ (by decide) hm
    · simp only [hs.1, Bool.false_eq_true, false_and, false_iff]
      intro hm
      simp only [List.mem_cons, List.mem_singleton, List.not_mem_nil, or_false] at hm
      rcases hm with hm | hm | hm | hm | hm | hm | hm | hm | hm | hm | hm | hm | hm | hm |
        hm | hm | hm | hm | hm <;> exact hne _ (by decide) hm
    · simp only [hs.1, hs.2, and_self, true_iff]
      exact Or.inr h'

/-- An instance of C17 at the first code above each maximum (POSIX table), and at the last
code within the bounds of the three name functions. -/
theorem getters_throw_above_max_names_within_witness :
    (getBaudRateValue Platform.linux 35
        = .error (Exception.out_of_range "Baud rate out of range") ∧
      getBaudRate 35 = .error (Exception.out_of_range "Baud rate out of range")) ∧
    (getCharacterSizeValue Platform.linux 4
        = .error (Exception.out_of_range "Character size out of range") ∧
      getCharacterSize 4 = .error (Exception.out_of_range "Character size out of range")) ∧
    getFlowControlName 3 = .error (Exception.out_of_range "Flow control out of range") ∧
    getParityName 5 = .error (Exception.out_of_range "Parity out of range") ∧
    getStopBitName 3 = .error (Exception.out_of_range "Stop bit out of range") ∧
    (∃ name, getFlowControlName 2 = .ok name) ∧
    (∃ name, getParityName 4 = .ok name) ∧
    (∃ name, getStopBitName 2 = .ok name) :=
  ⟨(getters_throw_above_max_names_within Platform.linux 35 4 3 5 3).1 (by decide),
   (getters_throw_above_max_names_within Platform.linux 35 4 3 5 3).2.1 (by decide),
   (getters_throw_above_max_names_within Platform.linux 35 4 3 5 3).2.2.1 (by decide),
   (getters_throw_above_max_names_within Platform.linux 35 4 3 5 3).2.2.2.1 (by decide),
   (getters_throw_above_max_names_within Platform.linux 35 4 3 5 3).2.2.2.2.1 (by decide),
   (getters_throw_above_max_names_within Platform.linux 35 4 2 4 2).2.2.2.2.2.2.2.2.1
     (by decide),
   (getters_throw_above_max_names_within Platform.linux 35 4 2 4 2).2.2.2.2.2.2.2.2.2.1
     (by decide),
   (getters_throw_above_max_names_within Platform.linux 35 4 2 4 2).2.2.2.2.2.2.2.2.2.2
     (by decide)⟩

open BaudRate in
/-- C18.  `isBaudRateSupported` is true on both platform tables exactly for the eleven
rates 110, 300, 600, 1200, 2400, 4800, 9600, 19200, 38400, 57600 and 115200; only on the
Windows table exactly for 14400, 56000, 128000 and 256000; only on the POSIX table exactly
for the other nineteen named rates (50, 75, 134, ...); on neither exactly for
`BAUD_RATE_CUSTOM` and the codes above `BAUD_RATE_MAX`.  `isCharacterSizeSupported`,
`isParitySupported` and `isFlowControlSupported` are true exactly for the declared
members; `isStopBitSupported` is true exactly for one and two stop bits on the POSIX table
and exactly for one, one-and-a-half and two on the Windows table. -/
theorem support_tables_per_platform (b : BaudRate) (c : CharacterSize) (p : Parity)
    (f : FlowControl) (s : StopBit) :
    (((isBaudRateSupported Platform.linux b = true ∧
          isBaudRateSupported Platform.windows b = true) ↔
        b ∈ [BAUD_RATE_110, BAUD_RATE_300, BAUD_RATE_600, BAUD_RATE_1200, BAUD_RATE_2400,
          BAUD_RATE_4800, BAUD_RATE_9600, BAUD_RATE_19200, BAUD_RATE_38400,
          BAUD_RATE_57600, BAUD_RATE_115200]) ∧
      ((isBaudRateSupported Platform.linux b = false ∧
          isBaudRateSupported Platform.windows b = true) ↔
        b ∈ [BAUD_RATE_14400, BAUD_RATE_56000, BAUD_RATE_128000, BAUD_RATE_256000]) ∧
      ((isBaudRateSupported Platform.linux b = true ∧
          isBaudRateSupported Platform.windows b = false) ↔
        b ∈ [BAUD_RATE_50, BAUD_RATE_75, BAUD_RATE_134, BAUD_RATE_150, BAUD_RATE_200,
          BAUD_RATE_1800, BAUD_RATE_230400, BAUD_RATE_460800, BAUD_RATE_500000,
          BAUD_RATE_576000, BAUD_RATE_921600, BAUD_RATE_1000000, BAUD_RATE_1152000,
          BAUD_RATE_1500000, BAUD_RATE_2000000, BAUD_RATE_2500000, BAUD_RATE_3000000,
          BAUD_RATE_3500000, BAUD_RATE_4000000]) ∧
      ((isBaudRateSupported Platform.linux b = false ∧
          isBaudRateSupported Platform.windows b = false) ↔
        (b = BAUD_RATE_CUSTOM ∨ b > BAUD_RATE_MAX))) ∧
    (isCharacterSizeSupported c = true ↔
      c ∈ [CharacterSize.CHARACTER_SIZE_5, CharacterSize.CHARACTER_SIZE_6,
        CharacterSize.CHARACTER_SIZE_7, CharacterSize.CHARACTER_SIZE_8]) ∧
    (isParitySupported p = true ↔
      p ∈ [Parity.PARITY_TYPE_NONE, Parity.PARITY_TYPE_ODD, Parity.PARITY_TYPE_EVEN,
        Parity.PARITY_TYPE_MARK, Parity.PARITY_TYPE_SPACE]) ∧
    (isFlowControlSupported f = true ↔
      f ∈ [FlowControl.FLOW_CONTROL_HARDWARE, FlowControl.FLOW_CONTROL_SOFTWARE,
        FlowControl.FLOW_CONTROL_NONE]) ∧
    (isStopBitSupported Platform.linux s = true ↔
      s ∈ [StopBit.STOP_BIT_ONE, StopBit.STOP_BIT_TWO]) ∧
    (isStopBitSupported Platform.windows s = true ↔
      s ∈ [StopBit.STOP_BIT_ONE, StopBit.STOP_BIT_ONE_HALF, StopBit.STOP_BIT_TWO]) := by
  refine ⟨baudRate_supported_table b, ?_, ?_, ?_, ?_, ?_⟩
  · by_cases h : c ≤ 3
    · interval_cases c <;> decide
    · have h' : 3 < c := Nat.lt_of_not_le h
      have hne : ∀ k, k ≤ 3 → c ≠ k := fun k hk hb => absurd (hb ▸ hk) h
      have hs : isCharacterSizeSupported c = false := by
        unfold isCharacterSizeSupported
        split <;> first | (exact absurd h' (by decide)) | rfl
      simp only [hs, Bool.false_eq_true, false_iff]
      intro hm
      simp only [List.mem_cons, List.mem_singleton, List.not_mem_nil, or_false] at hm
      rcases hm with hm | hm | hm | hm <;> exact hne _ (by decide) hm
  · by_cases h : p ≤ 4
    · interval_cases p <;> decide
    · have h' : 4 < p := Nat.lt_of_not_le h
      have hne : ∀ k, k ≤ 4 → p ≠ k := fun k hk hb => absurd (hb ▸ hk) h
      have hs : isParitySupported p = false := by
        unfold isParitySupported
        split <;> first | (exact absurd h' (by decide)) | rfl
      simp only [hs, Bool.false_eq_true, false_iff]
      intro hm
      simp only [List.mem_cons, List.mem_singleton, List.not_mem_nil, or_false] at hm
      rcases hm with hm | hm | hm | hm | hm <;> exact hne _ (by decide) hm
  · by_cases h : f ≤ 2
    · interval_cases f <;> decide
    · have h' : 2 < f := Nat.lt_of_not_le h
      have hne : ∀ k, k ≤ 2 → f ≠ k := fun k hk hb => absurd (hb ▸ hk) h
      have hs : isFlowControlSupported f = false := by
        unfold isFlowControlSupported
        split <;> first | (exact absurd h' (by decide)) | rfl
      simp only [hs, Bool.false_eq_true, false_iff]
      intro hm
      simp only [List.mem_cons, List.mem_singleton, List.not_mem_nil, or_false] at hm
      rcases hm with hm | hm | hm <;> exact hne _ (by decide) hm
  · by_cases h : s ≤ 2
    · interval_cases s <;> decide
    · have h' : 2 < s := Nat.lt_of_not_le h
      have hne : ∀ k, k ≤ 2 → s ≠ k := fun k hk hb => absurd (hb ▸ hk) h
      have hs : isStopBitSupported Platform.linux s = false := by
        unfold isStopBitSupported
        split <;> first | (exact absurd h' (by decide)) | rfl
      simp only [hs, Bool.false_eq_true, false_iff]
      intro hm
      simp only [List.mem_cons, List.mem_singleton, List.not_mem_nil, or_false] at hm
      rcases hm with hm | hm <;> exact hne _ (by decide) hm
  · by_cases h : s ≤ 2
    · interval_cases s <;> decide
    · have h' : 2 < s := Nat.lt_of_not_le h
      have hne : ∀ k, k ≤ 2 → s ≠ k := fun k hk hb => absurd (hb ▸ hk) h
      have hs : isStopBitSupported Platform.windows s = false := by
        unfold isStopBitSupported
        split <;> first | (exact absurd h' (by decide)) | rfl
      simp only [hs, Bool.false_eq_true, false_iff]
      intro hm
      simp only [List.mem_cons, List.mem_singleton, List.not_mem_nil, or_false] at hm
      rcases hm with hm | hm | hm <;> exact hne _ (by decide) hm

/-! ## Control-line operators -/

namespace ControlLine

theorem ofInt_of_lt (n : Nat) (h : n < 256) : ofInt n = n := Nat.mod_eq_of_lt h

theorem and_LINE_ALL_lt (n : Nat) : n &&& LINE_ALL < 256 :=
  Nat.lt_of_le_of_lt Nat.and_le_right (by decide)

theorem operatorNot_eq (l : ControlLine) :
    operatorNot l = LINE_ALL ^^^ (l &&& LINE_ALL) := by
  unfold operatorNot
  rw [ofInt_of_lt _ (and_LINE_ALL_lt _), Nat.and_xor_distrib_right]
  rfl

theorem operatorNot_submask (l : ControlLine) :
    operatorNot l &&& LINE_ALL = operatorNot l := by
  unfold operatorNot
  rw [ofInt_of_lt _ (and_LINE_ALL_lt _), Nat.and_assoc, Nat.and_self]

theorem operatorXor_eq (l r : ControlLine) :
    operatorXor l r = (l ^^^ r) &&& LINE_ALL := by
  unfold operatorXor
  exact ofInt_of_lt _ (and_LINE_ALL_lt _)

theorem submask_lt (S : ControlLine) (h : S &&& LINE_ALL = S) : S < 256 := by
  rw [← h]; exact and_LINE_ALL_lt S

theorem operatorAnd_eq (l r : ControlLine) (hl : l < 256) : operatorAnd l r = l &&& r :=
  ofInt_of_lt _ (Nat.lt_of_le_of_lt Nat.and_le_left hl)

theorem operatorOr_eq (l r : ControlLine) (hl : l < 256) (hr : r < 256) :
    operatorOr l r = l ||| r :=
  ofInt_of_lt _ (@Nat.or_lt_two_pow l r 8 hl hr)

theorem LINE_ALL_testBit (i : Nat) : LINE_ALL.testBit i = decide (i < 6) := by
  have h : LINE_ALL = 2 ^ 6 - 1 := by decide
  rw [h, Nat.testBit_two_pow_sub_one]

theorem xor_submask (S T : ControlLine) (hS : S &&& LINE_ALL = S)
    (hT : T &&& LINE_ALL = T) : (S ^^^ T) &&& LINE_ALL = S ^^^ T := by
  rw [Nat.and_xor_distrib_right, hS, hT]

theorem operatorNot_eq_sub (l : ControlLine) (hl : l < 256) :
    operatorNot l = (255 - l) &&& LINE_ALL := by
  apply Nat.eq_of_testBit_eq
  intro i
  have hsub : ∀ k : Nat, 255 - k = 2 ^ 8 - (k + 1) := by
    intro k; omega
  have h255 : 255 - l = 2 ^ 8 - (l + 1) := hsub l
  rw [operatorNot_eq, Nat.testBit_xor, Nat.testBit_and, Nat.testBit_and, LINE_ALL_testBit,
    h255, Nat.testBit_two_pow_sub_succ (by simpa using hl)]
  by_cases h6 : i < 6
  · have h8 : i < 8 := Nat.lt_trans h6 (by decide)
    simp [h6, h8]
  · simp [h6]

/-- C19.  For every 8-bit control-line value `l`, also one with bits outside `LINE_ALL`,
`~l` has no bit outside `LINE_ALL` (0x3F) and is the complement of `l` within `LINE_ALL`:
it is the 8-bit complement `255 - l` masked against `LINE_ALL`, and bit `i` of `~l` is set
exactly when `i < 6` and bit `i` of `l` is clear.  For all submasks
`S` and `T` of `LINE_ALL`, `~S`, `S & T`, `S | T` and `S ^ T` are submasks of `LINE_ALL`
again. -/
theorem operatorNot_within_LINE_ALL_submasks_closed (l S T : ControlLine) (hl : l < 256)
    (hS : S &&& LINE_ALL = S) (hT : T &&& LINE_ALL = T) :
    operatorNot l &&& LINE_ALL = operatorNot l ∧
    operatorNot l &&& (0xFF ^^^ LINE_ALL) = 0 ∧
    operatorNot l = (255 - l) &&& LINE_ALL ∧
    operatorNot l = LINE_ALL ^^^ (l &&& LINE_ALL) ∧
    (∀ i, (operatorNot l).testBit i = (decide (i < 6) && !l.testBit i)) ∧
    operatorNot S &&& LINE_ALL = operatorNot S ∧
    operatorAnd S T &&& LINE_ALL = operatorAnd S T ∧
    operatorOr S T &&& LINE_ALL = operatorOr S T ∧
    operatorXor S T &&& LINE_ALL = operatorXor S T := by
  have hSlt := submask_lt S hS
  have hTlt := submask_lt T hT
  refine ⟨operatorNot_submask l, ?_, operatorNot_eq_sub l hl, operatorNot_eq l, ?_,
    operatorNot_submask S, ?_, ?_, ?_⟩
  · rw [← operatorNot_submask l, Nat.and_assoc]
    have h0 : LINE_ALL &&& (0xFF ^^^ LINE_ALL) = 0 := by decide
    rw [h0, Nat.and_zero]
  · intro i
    rw [operatorNot_eq, Nat.testBit_xor, Nat.testBit_and, LINE_ALL_testBit]
    cases l.testBit i <;> cases decide (i < 6) <;> rfl
  · rw [operatorAnd_eq S T hSlt, Nat.and_assoc, hT]
  · rw [operatorOr_eq S T hSlt hTlt, Nat.and_distrib_right, hS, hT]
  · rw [operatorXor_eq, Nat.and_assoc, Nat.and_self]

/-- An instance of C19: `l = 0xC5` has the bits 0x40 and 0x80 outside `LINE_ALL`, and
`~l = 0x3A`; `S = LINE_DTR | LINE_RTS`, `T = LINE_RTS | LINE_CTS`. -/
theorem operatorNot_within_LINE_ALL_submasks_closed_witness :
    operatorNot 0xC5 = 0x3A ∧
    (operatorNot 0xC5 &&& LINE_ALL = operatorNot 0xC5 ∧
    operatorNot 0xC5 &&& (0xFF ^^^ LINE_ALL) = 0 ∧
    operatorNot 0xC5 = (255 - 0xC5) &&& LINE_ALL ∧
    operatorNot 0xC5 = LINE_ALL ^^^ (0xC5 &&& LINE_ALL) ∧
    (∀ i, (operatorNot 0xC5).testBit i = (decide (i < 6) && !(0xC5 : Nat).testBit i)) ∧
    operatorNot 0x0A &&& LINE_ALL = operatorNot 0x0A ∧
    operatorAnd 0x0A 0x18 &&& LINE_ALL = operatorAnd 0x0A 0x18 ∧
    operatorOr 0x0A 0x18 &&& LINE_ALL = operatorOr 0x0A 0x18 ∧
    operatorXor 0x0A 0x18 &&& LINE_ALL = operatorXor 0x0A 0x18) :=
  ⟨by decide,
    operatorNot_within_LINE_ALL_submasks_closed 0xC5 0x0A 0x18 (by decide) (by decide)
      (by decide)⟩

/-- The operator `^` is not the plain exclusive or on 8-bit values (against C20): for
`l = 0x40`, an 8-bit value with a bit outside `LINE_ALL`, and `r = LINE_NONE`, the plain
exclusive or of the underlying values is `0x40`, and `l ^ r` is `LINE_NONE`. -/
theorem operatorXor_is_masked :
    (0x40 : ControlLine) < 256 ∧ LINE_NONE < 256 ∧
    (0x40 ^^^ LINE_NONE : Nat) = 0x40 ∧
    operatorXor 0x40 LINE_NONE = LINE_NONE ∧
    operatorXor 0x40 LINE_NONE ≠ (0x40 ^^^ LINE_NONE : Nat) ∧
    ¬ (∀ l r : ControlLine, l < 256 → r < 256 → operatorXor l r = l ^^^ r) := by
  refine ⟨by decide, by decide, by decide, by decide, by decide, ?_⟩
  intro h
  exact absurd (h 0x40 LINE_NONE (by decide) (by decide)) (by decide)

/-- C20, amended.  For all 8-bit control-line values `l` and `r`, also with bits outside
`LINE_ALL`: `l & r` and `l | r` are the plain bitwise AND and OR of the underlying values;
`l ^ r` is the bitwise XOR masked against `LINE_ALL`, and so is the plain XOR when `l`
and `r` are submasks of `LINE_ALL`; `~l` is the 8-bit complement masked against
`LINE_ALL`.  So `^` and `~` mask their result, `&` and `|` do not. -/
theorem operators_and_or_plain_xor_not_masked (l r : ControlLine) (hl : l < 256)
    (hr : r < 256) :
    operatorAnd l r = l &&& r ∧
    operatorOr l r = l ||| r ∧
    operatorXor l r = (l ^^^ r) &&& LINE_ALL ∧
    operatorNot l = (0xFF ^^^ l) &&& LINE_ALL ∧
    (l &&& LINE_ALL = l → r &&& LINE_ALL = r → operatorXor l r = l ^^^ r) := by
  refine ⟨operatorAnd_eq l r hl, operatorOr_eq l r hl hr, operatorXor_eq l r, ?_, ?_⟩
  · rw [operatorNot_eq, Nat.and_xor_distrib_right]
    rfl
  · intro hS hT
    rw [operatorXor_eq, xor_submask l r hS hT]

/-- An instance of the amended C20 with bits outside `LINE_ALL` in both operands:
`l = 0xC5`, `r = 0x93`. -/
theorem operators_and_or_plain_xor_not_masked_witness :
    operatorAnd 0xC5 0x93 = 0x81 ∧ operatorOr 0xC5 0x93 = 0xD7 ∧
    operatorXor 0xC5 0x93 = 0x16 ∧ (0xC5 ^^^ 0x93 : Nat) = 0x56 ∧
    (operatorAnd 0xC5 0x93 = 0xC5 &&& 0x93 ∧
    operatorOr 0xC5 0x93 = 0xC5 ||| 0x93 ∧
    operatorXor 0xC5 0x93 = (0xC5 ^^^ 0x93) &&& LINE_ALL ∧
    operatorNot 0xC5 = (0xFF ^^^ 0xC5) &&& LINE_ALL ∧
    (0xC5 &&& LINE_ALL = 0xC5 → 0x93 &&& LINE_ALL = 0x93 →
      operatorXor 0xC5 0x93 = 0xC5 ^^^ 0x93)) :=
  ⟨by decide, by decide, by decide, by decide,
    operators_and_or_plain_xor_not_masked 0xC5 0x93 (by decide) (by decide)⟩

end ControlLine

/-! ## Transmission time -/

theorem baudRate_at_least_50 (b : BaudRate) (rate : Nat) (h : getBaudRate b = .ok rate) :
    50 ≤ rate := by
  unfold getBaudRate at h
  split at h <;> simp_all <;> omega

theorem calculateTime_throws (b : BaudRate) (cs : CharacterSize) (p : Parity) (sb : StopBit)
    (e : Exception) (h : getBaudRate b = .error e) :
    calculateTime b cs p sb = .error e := by
  unfold calculateTime
  rw [h]

theorem calculateTime_returns (b : BaudRate) (cs : CharacterSize) (p : Parity) (sb : StopBit)
    (rate : Nat) (h : getBaudRate b = .ok rate) :
    calculateTime b cs p sb
      = .ok (((calculateTimeBits cs p sb : Nat) : ℚ) * 1000 / (rate : ℚ)) := by
  unfold calculateTime
  rw [h]

open BaudRate CharacterSize Parity StopBit in
/-- The value of `calculateTime` is not the one of C14: at 9600 baud, 8 data bits, no
parity and one stop bit the function counts 11 bits (start, stop, idle and 8 data bits)
and returns 11 × 1000 / 9600 = 55/48 ≈ 1.1458 ms, which is more than 0.1 ms away from the
(1+8+0+1) × 1000 / 9600 ≈ 1.0417 ms of the claim; and with one-and-a-half stop bits it
counts one bit more than with one stop bit, where the claim counts the same. -/
theorem calculateTime_counts_idle_bit :
    calculateTime BAUD_RATE_9600 CHARACTER_SIZE_8 PARITY_TYPE_NONE STOP_BIT_ONE
      = .ok (55 / 48) ∧
    (55 / 48 : ℚ) = 11 * 1000 / 9600 ∧
    (55 / 48 : ℚ) ≠ (1 + 8 + 0 + 1) * 1000 / 9600 ∧
    (1 / 10 : ℚ) < |55 / 48 - 10417 / 10000| ∧
    calculateTimeBits CHARACTER_SIZE_8 PARITY_TYPE_NONE STOP_BIT_ONE = 11 ∧
    calculateTimeBits CHARACTER_SIZE_8 PARITY_TYPE_NONE STOP_BIT_ONE_HALF = 12 ∧
    calculateTime BAUD_RATE_9600 CHARACTER_SIZE_8 PARITY_TYPE_NONE STOP_BIT_ONE_HALF
      = .ok (5 / 4) := by
  refine ⟨?_, by norm_num, by norm_num, ?_, by decide, by decide, ?_⟩
  · rw [calculateTime_returns BAUD_RATE_9600 _ _ _ 9600 (by decide)]
    have hb : calculateTimeBits CHARACTER_SIZE_8 PARITY_TYPE_NONE STOP_BIT_ONE = 11 := by
      decide
    rw [hb]
    norm_num
  · rw [abs_of_pos (by norm_num)]
    norm_num
  · rw [calculateTime_returns BAUD_RATE_9600 _ _ _ 9600 (by decide)]
    have hb : calculateTimeBits CHARACTER_SIZE_8 PARITY_TYPE_NONE STOP_BIT_ONE_HALF = 12 := by
      decide
    rw [hb]
    norm_num

open BaudRate CharacterSize Parity StopBit in
/-- C14, amended.  `calculateTime(b, cs, p, sb)` throws `std::out_of_range` exactly when
`b` is `BAUD_RATE_CUSTOM` or above `BAUD_RATE_MAX`; otherwise it returns
bits × 1000 / getBaudRate(b) milliseconds with a rate of at least 50, where
bits = 3 (start, stop and idle) + the data bits of `cs` (8 for a code that is no declared
size) + 1 if `p` is odd, even, mark or space + 1 if `sb` is one-and-a-half or two; so
bits lies between 8 and 13.  At 9600 baud, 8 data bits, no parity, one stop bit the value
is 11 × 1000 / 9600 = 55/48 ms, within 1e-3 of 1.1458 ms. -/
theorem calculateTime_formula (b : BaudRate) (cs : CharacterSize) (p : Parity)
    (sb : StopBit) :
    ((∃ what, calculateTime b cs p sb = .error (Exception.out_of_range what)) ↔
      (b = BAUD_RATE_CUSTOM ∨ b > BAUD_RATE_MAX)) ∧
    ((BAUD_RATE_50 ≤ b ∧ b ≤ BAUD_RATE_MAX) →
      ∃ rate, getBaudRate b = .ok rate ∧ 50 ≤ rate ∧
        calculateTime b cs p sb
          = .ok (((calculateTimeBits cs p sb : Nat) : ℚ) * 1000 / (rate : ℚ))) ∧
    calculateTimeBits cs p sb
      = 3
        + (if cs = CHARACTER_SIZE_5 then 5 else if cs = CHARACTER_SIZE_6 then 6
            else if cs = CHARACTER_SIZE_7 then 7 else 8)
        + (if p = PARITY_TYPE_ODD ∨ p = PARITY_TYPE_EVEN ∨ p = PARITY_TYPE_MARK
              ∨ p = PARITY_TYPE_SPACE then 1 else 0)
        + (if sb = STOP_BIT_ONE_HALF ∨ sb = STOP_BIT_TWO then 1 else 0) ∧
    (8 ≤ calculateTimeBits cs p sb ∧ calculateTimeBits cs p sb ≤ 13) ∧
    calculateTime BAUD_RATE_9600 CHARACTER_SIZE_8 PARITY_TYPE_NONE STOP_BIT_ONE
      = .ok (11 * 1000 / 9600) ∧
    |(11 * 1000 / 9600 : ℚ) - 11458 / 10000| ≤ 1 / 1000 := by
  have hbits : calculateTimeBits cs p sb
      = 3
        + (if cs = CHARACTER_SIZE_5 then 5 else if cs = CHARACTER_SIZE_6 then 6
            else if cs = CHARACTER_SIZE_7 then 7 else 8)
        + (if p = PARITY_TYPE_ODD ∨ p = PARITY_TYPE_EVEN ∨ p = PARITY_TYPE_MARK
              ∨ p = PARITY_TYPE_SPACE then 1 else 0)
        + (if sb = STOP_BIT_ONE_HALF ∨ sb = STOP_BIT_TWO then 1 else 0) := by
    unfold calculateTimeBits
    simp only [CHARACTER_SIZE_5, CHARACTER_SIZE_6, CHARACTER_SIZE_7, PARITY_TYPE_ODD,
      PARITY_TYPE_EVEN, PARITY_TYPE_MARK, PARITY_TYPE_SPACE, STOP_BIT_ONE_HALF, STOP_BIT_TWO]
    split <;> split <;> split <;> simp_all
  refine ⟨?_, ?_, hbits, ?_, ?_, ?_⟩
  · constructor
    · rintro ⟨what, h⟩
      cases hv : getBaudRate b with
      | ok rate =>
        rw [calculateTime_returns b cs p sb rate hv] at h
        cases h
      | error e =>
        have hshape := baudRate_error_shape b e hv
        exact (baudRate_throws_iff b).1 ⟨_, hshape ▸ hv⟩
    · intro h
      obtain ⟨what, hw⟩ := (baudRate_throws_iff b).2 h
      exact ⟨what, calculateTime_throws b cs p sb _ hw⟩
  · rintro ⟨h1, h2⟩
    cases hv : getBaudRate b with
    | ok rate =>
      exact ⟨rate, rfl, baudRate_at_least_50 b rate hv,
        calculateTime_returns b cs p sb rate hv⟩
    | error e =>
      have hshape := baudRate_error_shape b e hv
      have : b = BAUD_RATE_CUSTOM ∨ b > BAUD_RATE_MAX :=
        (baudRate_throws_iff b).1 ⟨_, hshape ▸ hv⟩
      rcases this with h0 | h0
      · rw [h0] at h1; exact absurd h1 (by decide)
      · exact absurd h2 (Nat.not_le_of_lt h0)
  · rw [hbits]
    constructor <;> split_ifs <;> omega
  · rw [calculateTime_returns BAUD_RATE_9600 _ _ _ 9600 (by decide)]
    have hb : calculateTimeBits CHARACTER_SIZE_8 PARITY_TYPE_NONE STOP_BIT_ONE = 11 := by
      decide
    rw [hb]
    norm_num
  · rw [abs_of_pos (by norm_num)]
    norm_num

/-! ## `open()` from a Closed handle, `setPortName()` -/

namespace Linux

theorem close_port (o : Oracle) (p : SerialPortImpl) (tr : Trace) :
    (p.close o tr).port = { p with fileDescriptor := INVALID_FILE_DESCRIPTOR } := by
  cases h : p.isOpen with
  | false =>
    rw [close_closed o p tr h]
    have hp := (isOpen_eq_false_iff p).1 h
    cases p
    simp only at hp
    simp [hp]
  | true => rw [close_opened o p tr h]

theorem open_from_closed_cases (o : Oracle) (p : SerialPortImpl) (tr : Trace)
    (openMode : OpenMode) (hclosed : p.isOpen = false) :
    (p.open o tr openMode).port.portName = p.portName ∧
    ((p.open o tr openMode).exception = none →
      (p.open o tr openMode).port.isOpen = true ∧
        (p.open o tr openMode).port.openMode = openMode) ∧
    (∀ e, (p.open o tr openMode).exception = some e →
      (p.open o tr openMode).port.isOpen = false ∨
        (e = Exception.runtime_error "Unable to set exclusive mode" ∧
          (p.open o tr openMode).port.isOpen = true)) := by
  cases hflags : descriptorFlags openMode with
  | none =>
    simp [SerialPortImpl.open, hclosed, hflags]
  | some flags =>
    by_cases hfd : (o (tr ++ [NativeCall.open p.portName flags])).ret = INVALID_FILE_DESCRIPTOR
    · rw [open_native_open_fails o p tr openMode flags hclosed hflags hfd]
      simp [SerialPortImpl.isOpen]
    · by_cases hget : (o (tr ++ [NativeCall.open p.portName flags,
          NativeCall.tcgetattr (o (tr ++ [NativeCall.open p.portName flags])).ret])).ret = 0
      · by_cases hexcl : (o (tr ++ [NativeCall.open p.portName flags,
            NativeCall.tcgetattr (o (tr ++ [NativeCall.open p.portName flags])).ret,
            NativeCall.ioctl (o (tr ++ [NativeCall.open p.portName flags])).ret TIOCEXCL])).ret
            = 0
        · have hred := open_reaches_update o p tr openMode flags _ hclosed hflags rfl hfd hget
            hexcl _ rfl
          rw [hred]
          cases hu : SerialPortImpl.updatePortSettings o _ _ with
          | mk e tr' =>
            cases e with
            | some e =>
              refine ⟨?_, ?_, ?_⟩
              · simp [close_port]
              · intro h
                simp only at h
                split at h <;> cases h
              · intro e' _
                left
                simp [close_port, SerialPortImpl.isOpen]
            | none =>
              simp only
              simpa [SerialPortImpl.isOpen] using hfd
        · rw [open_exclusive_fails o p tr openMode flags _ hclosed hflags rfl hfd hget hexcl]
          simp [SerialPortImpl.isOpen, hfd]
      · rw [open_get_fails o p tr openMode flags _ hclosed hflags rfl hfd hget]
        simp [SerialPortImpl.isOpen]

theorem setPortName_closed (o : Oracle) (p : SerialPortImpl) (tr : Trace) (n : String)
    (h : p.isOpen = false) :
    p.setPortName o tr n = ⟨none, { p with portName := n }, tr⟩ := by
  have hp := (isOpen_eq_false_iff p).1 h
  simp [SerialPortImpl.setPortName, SerialPortImpl.reopen, SerialPortImpl.isOpen, hp]

theorem setPortName_close_throws (o : Oracle) (p : SerialPortImpl) (tr : Trace) (n : String)
    (h : p.isOpen = true)
    (hrestore : (o (tr ++ [NativeCall.tcsetattr p.fileDescriptor TCSANOW
      p.portSettings])).ret ≠ 0) :
    p.setPortName o tr n =
      ⟨some (Exception.runtime_error "Unable to set port settings"),
       { p with portName := n, fileDescriptor := INVALID_FILE_DESCRIPTOR },
       tr ++ [NativeCall.tcsetattr p.fileDescriptor TCSANOW p.portSettings,
              NativeCall.close p.fileDescriptor]⟩ := by
  have hq : ({ p with portName := n } : SerialPortImpl).isOpen = true := h
  simp only [SerialPortImpl.setPortName, SerialPortImpl.reopen, hq, Bool.not_true,
    Bool.false_eq_true, if_false]
  rw [close_opened o _ tr hq]
  simp [hrestore]

theorem setPortName_reopens (o : Oracle) (p : SerialPortImpl) (tr : Trace) (n : String)
    (h : p.isOpen = true)
    (hrestore : (o (tr ++ [NativeCall.tcsetattr p.fileDescriptor TCSANOW
      p.portSettings])).ret = 0) :
    p.setPortName o tr n =
      ({ p with portName := n, fileDescriptor := INVALID_FILE_DESCRIPTOR } :
          SerialPortImpl).open o
        (tr ++ [NativeCall.tcsetattr p.fileDescriptor TCSANOW p.portSettings,
                NativeCall.close p.fileDescriptor]) p.openMode := by
  have hq : ({ p with portName := n } : SerialPortImpl).isOpen = true := h
  simp only [SerialPortImpl.setPortName, SerialPortImpl.reopen, hq, Bool.not_true,
    Bool.false_eq_true, if_false]
  rw [close_opened o _ tr hq]
  simp [hrestore]

end Linux

namespace Windows

theorem win_close_port (o : Oracle) (p : SerialPortImpl) (tr : Trace) :
    (p.close o tr).port = { p with fileDescriptor := INVALID_FILE_DESCRIPTOR } := by
  cases h : p.isOpen with
  | false =>
    rw [win_close_closed o p tr h]
    have hp := (win_isOpen_eq_false_iff p).1 h
    cases p
    simp only at hp
    simp [hp]
  | true => rw [win_close_opened o p tr h]

/-- Once the handle and the two snapshots are obtained, `open()` is decided by
`updatePortSettings()` on the port it has set up. -/
theorem win_open_reaches_update (o : Oracle) (p : SerialPortImpl) (tr : Trace)
    (openMode : OpenMode) (flags : Nat) (fd : Int) (hclosed : p.isOpen = false)
    (hflags : accessFlags openMode = some flags)
    (hfd : (o (tr ++ [NativeCall.CreateFile (SERIAL_PORT_PREFIX ++ p.portName) flags])).ret
      = fd)
    (hvalid : fd ≠ INVALID_FILE_DESCRIPTOR)
    (hget : (o (tr ++ [NativeCall.CreateFile (SERIAL_PORT_PREFIX ++ p.portName) flags,
                NativeCall.GetCommState fd])).ret ≠ 0)
    (hgetT : (o (tr ++ [NativeCall.CreateFile (SERIAL_PORT_PREFIX ++ p.portName) flags,
                NativeCall.GetCommState fd, NativeCall.GetCommTimeouts fd])).ret ≠ 0)
    (q : SerialPortImpl)
    (hq : q = { p with
                openMode := openMode, fileDescriptor := fd,
                portSettings :=
                  (o (tr ++ [NativeCall.CreateFile (SERIAL_PORT_PREFIX ++ p.portName) flags,
                             NativeCall.GetCommState fd])).settings,
                timeoutSettings :=
                  (o (tr ++ [NativeCall.CreateFile (SERIAL_PORT_PREFIX ++ p.portName) flags,
                             NativeCall.GetCommState fd,
                             NativeCall.GetCommTimeouts fd])).timeouts }) :
    p.open o tr openMode =
      match q.updatePortSettings o (tr ++ [NativeCall.CreateFile
              (SERIAL_PORT_PREFIX ++ p.portName) flags,
              NativeCall.GetCommState fd, NativeCall.GetCommTimeouts fd]) with
      | (none, tr') => ⟨none, q, tr'⟩
      | (some e, tr') =>
        ⟨match (q.close o tr').exception with
          | some e' => some e'
          | none => some e,
         (q.close o tr').port, (q.close o tr').trace⟩ := by
  subst hq
  have hne : (fd != INVALID_FILE_DESCRIPTOR) = true := by simpa using hvalid
  have hg : ((o (tr ++ [NativeCall.CreateFile (SERIAL_PORT_PREFIX ++ p.portName) flags,
                NativeCall.GetCommState fd])).ret != 0) = true := by simpa using hget
  have hgT : ((o (tr ++ [NativeCall.CreateFile (SERIAL_PORT_PREFIX ++ p.portName) flags,
                NativeCall.GetCommState fd, NativeCall.GetCommTimeouts fd])).ret != 0)
      = true := by simpa using hgetT
  simp only [SerialPortImpl.open, hclosed, Bool.false_eq_true, if_false, hflags]
  simp only [SerialPortImpl.getPortSettings, SerialPortImpl.getPortTimeoutSettings,
    SerialPortImpl.isOpen, List.append_assoc, List.cons_append, List.nil_append, hfd, hg,
    hgT, hne, Bool.not_true, Bool.false_eq_true, if_false, if_true]
  split <;> rename_i h <;> simp only [h]
  cases hc : ({ p with
                openMode := openMode, fileDescriptor := fd,
                portSettings :=
                  (o (tr ++ [NativeCall.CreateFile (SERIAL_PORT_PREFIX ++ p.portName) flags,
                             NativeCall.GetCommState fd])).settings,
                timeoutSettings :=
                  (o (tr ++ [NativeCall.CreateFile (SERIAL_PORT_PREFIX ++ p.portName) flags,
                             NativeCall.GetCommState fd,
                             NativeCall.GetCommTimeouts fd])).timeouts }
                : SerialPortImpl).close o _
    |>.exception <;> rfl

theorem win_open_from_closed_cases (o : Oracle) (p : SerialPortImpl) (tr : Trace)
    (openMode : OpenMode) (hclosed : p.isOpen = false) :
    (p.open o tr openMode).port.portName = p.portName ∧
    ((p.open o tr openMode).exception = none →
      (p.open o tr openMode).port.isOpen = true ∧
        (p.open o tr openMode).port.openMode = openMode) ∧
    (∀ e, (p.open o tr openMode).exception = some e →
      (p.open o tr openMode).port.isOpen = false) := by
  cases hflags : accessFlags openMode with
  | none =>
    simp [SerialPortImpl.open, hclosed, hflags]
  | some flags =>
    by_cases hfd : (o (tr ++ [NativeCall.CreateFile (SERIAL_PORT_PREFIX ++ p.portName)
        flags])).ret = INVALID_FILE_DESCRIPTOR
    · rw [win_open_native_open_fails o p tr openMode flags hclosed hflags hfd]
      simp [SerialPortImpl.isOpen]
    · by_cases hget : (o (tr ++ [NativeCall.CreateFile (SERIAL_PORT_PREFIX ++ p.portName) flags,
          NativeCall.GetCommState (o (tr ++ [NativeCall.CreateFile
            (SERIAL_PORT_PREFIX ++ p.portName) flags])).ret])).ret = 0
      · rw [win_open_get_fails o p tr openMode flags _ hclosed hflags rfl hfd hget]
        simp [SerialPortImpl.isOpen]
      · by_cases hgetT : (o (tr ++ [NativeCall.CreateFile (SERIAL_PORT_PREFIX ++ p.portName)
            flags,
            NativeCall.GetCommState (o (tr ++ [NativeCall.CreateFile
              (SERIAL_PORT_PREFIX ++ p.portName) flags])).ret,
            NativeCall.GetCommTimeouts (o (tr ++ [NativeCall.CreateFile
              (SERIAL_PORT_PREFIX ++ p.portName) flags])).ret])).ret = 0
        · rw [win_open_get_timeouts_fails o p tr openMode flags _ hclosed hflags rfl hfd hget
            hgetT]
          simp [SerialPortImpl.isOpen]
        · have hred := win_open_reaches_update o p tr openMode flags _ hclosed hflags rfl hfd
            hget hgetT _ rfl
          rw [hred]
          cases hu : SerialPortImpl.updatePortSettings o _ _ with
          | mk e tr' =>
            cases e with
            | some e =>
              refine ⟨?_, ?_, ?_⟩
              · simp [win_close_port]
              · intro h
                simp only at h
                split at h <;> cases h
              · intro e' _
                simp [win_close_port, SerialPortImpl.isOpen]
            | none =>
              simp only
              simpa [SerialPortImpl.isOpen] using hfd

theorem win_setPortName_closed (o : Oracle) (p : SerialPortImpl) (tr : Trace) (n : String)
    (h : p.isOpen = false) :
    p.setPortName o tr n = ⟨none, { p with portName := n }, tr⟩ := by
  have hp := (win_isOpen_eq_false_iff p).1 h
  simp [SerialPortImpl.setPortName, SerialPortImpl.reopen, SerialPortImpl.isOpen, hp]

end Windows

namespace Linux

theorem setPortName_open_cases (o : Oracle) (p : SerialPortImpl) (tr : Trace) (n : String)
    (h : p.isOpen = true)
    (hrestore : (o (tr ++ [NativeCall.tcsetattr p.fileDescriptor TCSANOW
      p.portSettings])).ret = 0) :
    (p.setPortName o tr n).port.portName = n ∧
    ((p.setPortName o tr n).exception = none →
      (p.setPortName o tr n).port.isOpen = true ∧
        (p.setPortName o tr n).port.openMode = p.openMode) ∧
    (∀ e, (p.setPortName o tr n).exception = some e →
      (p.setPortName o tr n).port.isOpen = false ∨
        (e = Exception.runtime_error "Unable to set exclusive mode" ∧
          (p.setPortName o tr n).port.isOpen = true)) := by
  rw [setPortName_reopens o p tr n h hrestore]
  have hc : ({ p with portName := n, fileDescriptor := INVALID_FILE_DESCRIPTOR } :
      SerialPortImpl).isOpen = false := by simp [SerialPortImpl.isOpen]
  exact open_from_closed_cases o
    { p with portName := n, fileDescriptor := INVALID_FILE_DESCRIPTOR } _ p.openMode hc

theorem setPortName_portName (o : Oracle) (p : SerialPortImpl) (tr : Trace) (n : String) :
    (p.setPortName o tr n).port.portName = n := by
  cases h : p.isOpen with
  | false => rw [setPortName_closed o p tr n h]
  | true =>
    by_cases hrestore : (o (tr ++ [NativeCall.tcsetattr p.fileDescriptor TCSANOW
        p.portSettings])).ret = 0
    · exact (setPortName_open_cases o p tr n h hrestore).1
    · rw [setPortName_close_throws o p tr n h hrestore]

theorem setPortName_exclusive_fails (o : Oracle) (p : SerialPortImpl) (tr : Trace)
    (n : String) (flags : Nat) (fd : Int) (h : p.isOpen = true)
    (hrestore : (o (tr ++ [NativeCall.tcsetattr p.fileDescriptor TCSANOW
      p.portSettings])).ret = 0)
    (hflags : descriptorFlags p.openMode = some flags)
    (hfd : (o (tr ++ [NativeCall.tcsetattr p.fileDescriptor TCSANOW p.portSettings,
      NativeCall.close p.fileDescriptor, NativeCall.open n flags])).ret = fd)
    (hvalid : fd ≠ INVALID_FILE_DESCRIPTOR)
    (hget : (o (tr ++ [NativeCall.tcsetattr p.fileDescriptor TCSANOW p.portSettings,
      NativeCall.close p.fileDescriptor, NativeCall.open n flags,
      NativeCall.tcgetattr fd])).ret = 0)
    (hexcl : (o (tr ++ [NativeCall.tcsetattr p.fileDescriptor TCSANOW p.portSettings,
      NativeCall.close p.fileDescriptor, NativeCall.open n flags,
      NativeCall.tcgetattr fd, NativeCall.ioctl fd TIOCEXCL])).ret ≠ 0) :
    p.setPortName o tr n =
      ⟨some (Exception.runtime_error "Unable to set exclusive mode"),
       { p with
         portName := n, fileDescriptor := fd,
         portSettings :=
           (o (tr ++ [NativeCall.tcsetattr p.fileDescriptor TCSANOW p.portSettings,
             NativeCall.close p.fileDescriptor, NativeCall.open n flags,
             NativeCall.tcgetattr fd])).settings },
       tr ++ [NativeCall.tcsetattr p.fileDescriptor TCSANOW p.portSettings,
         NativeCall.close p.fileDescriptor, NativeCall.open n flags,
         NativeCall.tcgetattr fd, NativeCall.ioctl fd TIOCEXCL]⟩ := by
  rw [setPortName_reopens o p tr n h hrestore]
  have hc : ({ p with portName := n, fileDescriptor := INVALID_FILE_DESCRIPTOR } :
      SerialPortImpl).isOpen = false := by simp [SerialPortImpl.isOpen]
  rw [open_exclusive_fails o
    { p with portName := n, fileDescriptor := INVALID_FILE_DESCRIPTOR } _ p.openMode flags fd
    hc hflags (by simpa using hfd) hvalid (by simpa using hget) (by simpa using hexcl)]
  simp

end Linux

namespace Windows

theorem win_setPortName_open (o : Oracle) (p : SerialPortImpl) (tr : Trace) (n : String)
    (h : p.isOpen = true) :
    p.setPortName o tr n =
      match (({ p with portName := n } : SerialPortImpl).close o tr).exception with
      | some e =>
        ⟨some e, { p with portName := n, fileDescriptor := INVALID_FILE_DESCRIPTOR },
          (({ p with portName := n } : SerialPortImpl).close o tr).trace⟩
      | none =>
        ({ p with portName := n, fileDescriptor := INVALID_FILE_DESCRIPTOR } :
            SerialPortImpl).open o
          (({ p with portName := n } : SerialPortImpl).close o tr).trace p.openMode := by
  have hq : ({ p with portName := n } : SerialPortImpl).isOpen = true := h
  simp only [SerialPortImpl.setPortName, SerialPortImpl.reopen, hq, Bool.not_true,
    Bool.false_eq_true, if_false, win_close_port]

theorem win_setPortName_open_cases (o : Oracle) (p : SerialPortImpl) (tr : Trace)
    (n : String) (h : p.isOpen = true) :
    (p.setPortName o tr n).port.portName = n ∧
    ((p.setPortName o tr n).exception = none →
      (p.setPortName o tr n).port.isOpen = true ∧
        (p.setPortName o tr n).port.openMode = p.openMode) ∧
    (∀ e, (p.setPortName o tr n).exception = some e →
      (p.setPortName o tr n).port.isOpen = false) := by
  rw [win_setPortName_open o p tr n h]
  split
  · simp [SerialPortImpl.isOpen]
  · have hc : ({ p with portName := n, fileDescriptor := INVALID_FILE_DESCRIPTOR } :
        SerialPortImpl).isOpen = false := by simp [SerialPortImpl.isOpen]
    exact win_open_from_closed_cases o
      { p with portName := n, fileDescriptor := INVALID_FILE_DESCRIPTOR } _ p.openMode hc

end Windows

/-! ## Claims about the open mode, the port name and the exclusive access -/
/-- C12.  `setPortName(n)` always stores `n` as the port name.  On a Closed handle it does
nothing else.  On an Open handle it performs `close()` and then `open()` with the
remembered mode: when `close()` throws, `open()` is not attempted and the handle is Closed
with `n` stored; when the re-open returns, the handle is Open on `n` with the same mode.
When the re-open throws, the handle is Closed on the Windows target; on the POSIX target
it is Closed unless the refused request for exclusive access is what made it throw, and
then `setPortName` throws "Unable to set exclusive mode" with the handle left Open on the
new descriptor, the request being its last native call. -/
theorem setPortName_stores_name_and_reopens
    (oL : Linux.Oracle) (pL : Linux.SerialPortImpl) (trL : Linux.Trace)
    (oW : Windows.Oracle) (pW : Windows.SerialPortImpl) (trW : Windows.Trace)
    (n : String) :
    ((pL.setPortName oL trL n).port.portName = n ∧
      (pW.setPortName oW trW n).port.portName = n) ∧
    ((pL.isOpen = false → pL.setPortName oL trL n = ⟨none, { pL with portName := n }, trL⟩) ∧
      (pW.isOpen = false →
        pW.setPortName oW trW n = ⟨none, { pW with portName := n }, trW⟩)) ∧
    (pL.isOpen = true →
      (oL (trL ++ [Linux.NativeCall.tcsetattr pL.fileDescriptor Linux.TCSANOW
        pL.portSettings])).ret ≠ 0 →
      pL.setPortName oL trL n =
        ⟨some (Exception.runtime_error "Unable to set port settings"),
         { pL with portName := n, fileDescriptor := Linux.INVALID_FILE_DESCRIPTOR },
         trL ++ [Linux.NativeCall.tcsetattr pL.fileDescriptor Linux.TCSANOW pL.portSettings,
                 Linux.NativeCall.close pL.fileDescriptor]⟩) ∧
    (pL.isOpen = true →
      (oL (trL ++ [Linux.NativeCall.tcsetattr pL.fileDescriptor Linux.TCSANOW
        pL.portSettings])).ret = 0 →
      pL.setPortName oL trL n =
          ({ pL with portName := n, fileDescriptor := Linux.INVALID_FILE_DESCRIPTOR } :
              Linux.SerialPortImpl).open oL
            (trL ++ [Linux.NativeCall.tcsetattr pL.fileDescriptor Linux.TCSANOW
                       pL.portSettings,
                     Linux.NativeCall.close pL.fileDescriptor]) pL.openMode ∧
        ((pL.setPortName oL trL n).exception = none →
          (pL.setPortName oL trL n).port.isOpen = true ∧
            (pL.setPortName oL trL n).port.openMode = pL.openMode) ∧
        (∀ e, (pL.setPortName oL trL n).exception = some e →
          (pL.setPortName oL trL n).port.isOpen = false ∨
            (e = Exception.runtime_error "Unable to set exclusive mode" ∧
              (pL.setPortName oL trL n).port.isOpen = true))) ∧
    (∀ flags fd, pL.isOpen = true →
      (oL (trL ++ [Linux.NativeCall.tcsetattr pL.fileDescriptor Linux.TCSANOW
        pL.portSettings])).ret = 0 →
      Linux.descriptorFlags pL.openMode = some flags →
      (oL (trL ++ [Linux.NativeCall.tcsetattr pL.fileDescriptor Linux.TCSANOW
        pL.portSettings, Linux.NativeCall.close pL.fileDescriptor,
        Linux.NativeCall.open n flags])).ret = fd →
      fd ≠ Linux.INVALID_FILE_DESCRIPTOR →
      (oL (trL ++ [Linux.NativeCall.tcsetattr pL.fileDescriptor Linux.TCSANOW
        pL.portSettings, Linux.NativeCall.close pL.fileDescriptor,
        Linux.NativeCall.open n flags, Linux.NativeCall.tcgetattr fd])).ret = 0 →
      (oL (trL ++ [Linux.NativeCall.tcsetattr pL.fileDescriptor Linux.TCSANOW
        pL.portSettings, Linux.NativeCall.close pL.fileDescriptor,
        Linux.NativeCall.open n flags, Linux.NativeCall.tcgetattr fd,
        Linux.NativeCall.ioctl fd Linux.TIOCEXCL])).ret ≠ 0 →
      (pL.setPortName oL trL n).exception
          = some (Exception.runtime_error "Unable to set exclusive mode") ∧
        (pL.setPortName oL trL n).port.isOpen = true ∧
        (pL.setPortName oL trL n).port.fileDescriptor = fd ∧
        (pL.setPortName oL trL n).trace =
          trL ++ [Linux.NativeCall.tcsetattr pL.fileDescriptor Linux.TCSANOW
            pL.portSettings, Linux.NativeCall.close pL.fileDescriptor,
            Linux.NativeCall.open n flags, Linux.NativeCall.tcgetattr fd,
            Linux.NativeCall.ioctl fd Linux.TIOCEXCL]) ∧
    (pW.isOpen = true →
      (∀ e, (({ pW with portName := n } : Windows.SerialPortImpl).close oW trW).exception
          = some e →
        pW.setPortName oW trW n =
          ⟨some e,
           { pW with portName := n, fileDescriptor := Windows.INVALID_FILE_DESCRIPTOR },
           (({ pW with portName := n } : Windows.SerialPortImpl).close oW trW).trace⟩) ∧
      ((({ pW with portName := n } : Windows.SerialPortImpl).close oW trW).exception
          = none →
        pW.setPortName oW trW n =
          ({ pW with portName := n, fileDescriptor := Windows.INVALID_FILE_DESCRIPTOR } :
              Windows.SerialPortImpl).open oW
            (({ pW with portName := n } : Windows.SerialPortImpl).close oW trW).trace
            pW.openMode) ∧
      ((pW.setPortName oW trW n).exception = none →
        (pW.setPortName oW trW n).port.isOpen = true ∧
          (pW.setPortName oW trW n).port.openMode = pW.openMode) ∧
      (∀ e, (pW.setPortName oW trW n).exception = some e →
        (pW.setPortName oW trW n).port.isOpen = false)) := by
  refine ⟨⟨Linux.setPortName_portName oL pL trL n, ?_⟩,
    ⟨Linux.setPortName_closed oL pL trL n, Windows.win_setPortName_closed oW pW trW n⟩,
    Linux.setPortName_close_throws oL pL trL n, ?_, ?_, ?_⟩
  · cases h : pW.isOpen with
    | false => rw [Windows.win_setPortName_closed oW pW trW n h]
    | true => exact (Windows.win_setPortName_open_cases oW pW trW n h).1
  · intro h hrestore
    exact ⟨Linux.setPortName_reopens oL pL trL n h hrestore,
      (Linux.setPortName_open_cases oL pL trL n h hrestore).2⟩
  · intro flags fd h hrestore hflags hfd hvalid hget hexcl
    rw [Linux.setPortName_exclusive_fails oL pL trL n flags fd h hrestore hflags hfd hvalid
      hget hexcl]
    exact ⟨rfl, by simpa [Linux.SerialPortImpl.isOpen] using hvalid, rfl, rfl⟩
  · intro h
    refine ⟨?_, ?_, (Windows.win_setPortName_open_cases oW pW trW n h).2⟩
    · intro e he
      rw [Windows.win_setPortName_open oW pW trW n h, he]
    · intro he
      rw [Windows.win_setPortName_open oW pW trW n h, he]

/-- The failing instance of C12 on the POSIX target: the open port on descriptor 3 is
renamed to "/dev/ttyUSB1"; the restoration and the native close succeed, the new path
opens as descriptor 4 and hands out its settings, and the request for exclusive access is
refused.  `setPortName` throws "Unable to set exclusive mode" and the handle is left Open
on descriptor 4, with no native close of it.  On the device where every call succeeds the
handle is Open on the new name with the same mode. -/
theorem setPortName_stores_name_and_reopens_witness :
    ((Linux.openedPort.setPortName Linux.renameExclusiveRefused [] "/dev/ttyUSB1").exception
        = some (Exception.runtime_error "Unable to set exclusive mode") ∧
      (Linux.openedPort.setPortName Linux.renameExclusiveRefused []
        "/dev/ttyUSB1").port.isOpen = true ∧
      (Linux.openedPort.setPortName Linux.renameExclusiveRefused []
        "/dev/ttyUSB1").port.fileDescriptor = 4 ∧
      (Linux.openedPort.setPortName Linux.renameExclusiveRefused [] "/dev/ttyUSB1").trace =
        [Linux.NativeCall.tcsetattr 3 Linux.TCSANOW Linux.cookedSettings,
         Linux.NativeCall.close 3,
         Linux.NativeCall.open "/dev/ttyUSB1"
           (Linux.O_NOCTTY ||| Linux.O_NONBLOCK ||| Linux.O_RDWR),
         Linux.NativeCall.tcgetattr 4, Linux.NativeCall.ioctl 4 Linux.TIOCEXCL]) ∧
    (Linux.openedPort.setPortName Linux.renameExclusiveRefused [] "/dev/ttyUSB1").port.portName
      = "/dev/ttyUSB1" ∧
    (Linux.openedPort.setPortName Linux.renameGranted [] "/dev/ttyUSB1").exception = none ∧
    ((Linux.openedPort.setPortName Linux.renameGranted [] "/dev/ttyUSB1").port.isOpen = true ∧
      (Linux.openedPort.setPortName Linux.renameGranted [] "/dev/ttyUSB1").port.openMode
        = readWrite) :=
  ⟨(setPortName_stores_name_and_reopens Linux.renameExclusiveRefused Linux.openedPort []
      Windows.healthyDevice Windows.openedPort [] "/dev/ttyUSB1").2.2.2.2.1
      (Linux.O_NOCTTY ||| Linux.O_NONBLOCK ||| Linux.O_RDWR) 4
      (by decide) (by decide) (by decide) (by decide) (by decide) (by decide) (by decide),
   (setPortName_stores_name_and_reopens Linux.renameExclusiveRefused Linux.openedPort []
      Windows.healthyDevice Windows.openedPort [] "/dev/ttyUSB1").1.1,
   by decide,
   ((setPortName_stores_name_and_reopens Linux.renameGranted Linux.openedPort []
      Windows.healthyDevice Windows.openedPort [] "/dev/ttyUSB1").2.2.2.1
      (by decide) (by decide)).2.1 (by decide)⟩


theorem Linux.descriptorFlags_unsupported (openMode : OpenMode)
    (hin : openMode ≠ ios_base_in) (hout : openMode ≠ ios_base_out)
    (hboth : openMode ≠ (ios_base_in ||| ios_base_out)) :
    Linux.descriptorFlags openMode = none := by
  simp [Linux.descriptorFlags, hin, hout, hboth]

theorem Windows.win_accessFlags_unsupported (openMode : OpenMode)
    (hin : openMode ≠ ios_base_in) (hout : openMode ≠ ios_base_out)
    (hboth : openMode ≠ (ios_base_in ||| ios_base_out)) :
    Windows.accessFlags openMode = none := by
  simp [Windows.accessFlags, hin, hout, hboth]

/-- C11.  `open(openMode)` on a Closed handle with a mode other than `in`, `out` and
`in | out` throws `std::runtime_error("Unsupported open mode")` before any native call (the
trace is the one before the call) and leaves the whole object as it was: Closed, with the
remembered open mode and the configuration unchanged.  On the POSIX target and on the
Windows target. -/
theorem open_rejects_unsupported_mode
    (oL : Linux.Oracle) (pL : Linux.SerialPortImpl) (trL : Linux.Trace)
    (oW : Windows.Oracle) (pW : Windows.SerialPortImpl) (trW : Windows.Trace)
    (openMode : OpenMode)
    (hL : pL.isOpen = false) (hW : pW.isOpen = false)
    (hin : openMode ≠ ios_base_in) (hout : openMode ≠ ios_base_out)
    (hboth : openMode ≠ (ios_base_in ||| ios_base_out)) :
    pL.open oL trL openMode
        = ⟨some (Exception.runtime_error "Unsupported open mode"), pL, trL⟩ ∧
      (pL.open oL trL openMode).port.isOpen = false ∧
      pW.open oW trW openMode
        = ⟨some (Exception.runtime_error "Unsupported open mode"), pW, trW⟩ ∧
      (pW.open oW trW openMode).port.isOpen = false := by
  have h1 : pL.open oL trL openMode
      = ⟨some (Exception.runtime_error "Unsupported open mode"), pL, trL⟩ := by
    simp [Linux.SerialPortImpl.open, hL, Linux.descriptorFlags_unsupported openMode hin hout
      hboth]
  have h2 : pW.open oW trW openMode
      = ⟨some (Exception.runtime_error "Unsupported open mode"), pW, trW⟩ := by
    simp [Windows.SerialPortImpl.open, hW,
      Windows.win_accessFlags_unsupported openMode hin hout hboth]
  refine ⟨h1, ?_, h2, ?_⟩
  · rw [h1]; exact hL
  · rw [h2]; exact hW

/-- An instance of C11: `open(in | ate)` on the default ports, on devices where every
native call would succeed. -/
theorem open_rejects_unsupported_mode_witness :
    Linux.defaultPort.open Linux.healthyDevice [] (ios_base_in ||| ios_base_ate)
        = ⟨some (Exception.runtime_error "Unsupported open mode"), Linux.defaultPort, []⟩ ∧
      (Linux.defaultPort.open Linux.healthyDevice [] (ios_base_in ||| ios_base_ate)).port.isOpen
        = false ∧
      Windows.defaultPort.open Windows.healthyDevice [] (ios_base_in ||| ios_base_ate)
        = ⟨some (Exception.runtime_error "Unsupported open mode"), Windows.defaultPort, []⟩ ∧
      (Windows.defaultPort.open Windows.healthyDevice []
        (ios_base_in ||| ios_base_ate)).port.isOpen = false :=
  open_rejects_unsupported_mode Linux.healthyDevice Linux.defaultPort []
    Windows.healthyDevice Windows.defaultPort [] (ios_base_in ||| ios_base_ate)
    (by decide) (by decide) (by decide) (by decide) (by decide)

/-- C13.  `setExclusive(x)` on a Closed handle returns false for both values of `x` and
makes no native call, on both targets.  On an Open handle the Windows target returns `x`
without a native call; the POSIX target issues `ioctl(fd, TIOCEXCL)` for `x = true` and
`ioctl(fd, TIOCNXCL)` for `x = false`, this one call only, and returns whether it returned
0.  The member has no `throw` and assigns no member, so its result is the returned flag
and the native calls alone. -/
theorem setExclusive_requests_or_refuses
    (oL : Linux.Oracle) (pL : Linux.SerialPortImpl) (trL : Linux.Trace)
    (oW : Windows.Oracle) (pW : Windows.SerialPortImpl) (trW : Windows.Trace) (x : Bool) :
    (pL.isOpen = false → pL.setExclusive oL trL x = (false, trL)) ∧
    (pW.isOpen = false → pW.setExclusive oW trW x = (false, trW)) ∧
    (pW.isOpen = true → pW.setExclusive oW trW x = (x, trW)) ∧
    (pL.isOpen = true →
      pL.setExclusive oL trL true
        = ((oL (trL ++ [Linux.NativeCall.ioctl pL.fileDescriptor Linux.TIOCEXCL])).ret == 0,
           trL ++ [Linux.NativeCall.ioctl pL.fileDescriptor Linux.TIOCEXCL]) ∧
      pL.setExclusive oL trL false
        = ((oL (trL ++ [Linux.NativeCall.ioctl pL.fileDescriptor Linux.TIOCNXCL])).ret == 0,
           trL ++ [Linux.NativeCall.ioctl pL.fileDescriptor Linux.TIOCNXCL])) := by
  refine ⟨?_, ?_, ?_, ?_⟩
  · intro h; simp [Linux.SerialPortImpl.setExclusive, h]
  · intro h; simp [Windows.SerialPortImpl.setExclusive, h]
  · intro h; simp [Windows.SerialPortImpl.setExclusive, h]
  · intro h; simp [Linux.SerialPortImpl.setExclusive, h]

/-- Instances of C13: the closed default ports; the open ports, where the POSIX request
for exclusive access is granted by the healthy device and the request to give it up is
refused by the dead device. -/
theorem setExclusive_requests_or_refuses_witness :
    Linux.defaultPort.setExclusive Linux.healthyDevice [] true = (false, []) ∧
    Windows.defaultPort.setExclusive Windows.healthyDevice [] true = (false, []) ∧
    Windows.openedPort.setExclusive Windows.healthyDevice [] false = (false, []) ∧
    Windows.openedPort.setExclusive Windows.healthyDevice [] true = (true, []) ∧
    Linux.openedPort.setExclusive Linux.healthyDevice [Linux.NativeCall.open "/dev/ttyUSB0" 0]
        true
      = (true, [Linux.NativeCall.open "/dev/ttyUSB0" 0,
                Linux.NativeCall.ioctl 3 Linux.TIOCEXCL]) ∧
    Linux.openedPort.setExclusive Linux.deadDevice [] false
      = (false, [Linux.NativeCall.ioctl 3 Linux.TIOCNXCL]) :=
  ⟨(setExclusive_requests_or_refuses Linux.healthyDevice Linux.defaultPort []
      Windows.healthyDevice Windows.defaultPort [] true).1 (by decide),
   (setExclusive_requests_or_refuses Linux.healthyDevice Linux.defaultPort []
      Windows.healthyDevice Windows.defaultPort [] true).2.1 (by decide),
   (setExclusive_requests_or_refuses Linux.healthyDevice Linux.defaultPort []
      Windows.healthyDevice Windows.openedPort [] false).2.2.1 (by decide),
   (setExclusive_requests_or_refuses Linux.healthyDevice Linux.defaultPort []
      Windows.healthyDevice Windows.openedPort [] true).2.2.1 (by decide),
   ((setExclusive_requests_or_refuses Linux.healthyDevice Linux.openedPort
      [Linux.NativeCall.open "/dev/ttyUSB0" 0]
      Windows.healthyDevice Windows.openedPort [] true).2.2.2 (by decide)).1,
   ((setExclusive_requests_or_refuses Linux.deadDevice Linux.openedPort []
      Windows.healthyDevice Windows.openedPort [] false).2.2.2 (by decide)).2⟩

/-! ## Control-line algebra -/

namespace ControlLine

theorem operatorNot_involutive (S : ControlLine) (hS : S &&& LINE_ALL = S) :
    operatorNot (operatorNot S) = S := by
  rw [operatorNot_eq (operatorNot S), operatorNot_submask S, operatorNot_eq S, hS,
    ← Nat.xor_assoc, Nat.xor_self, Nat.zero_xor]

theorem operatorXor_LINE_ALL (S : ControlLine) :
    operatorXor S LINE_ALL = operatorNot S := by
  rw [operatorXor_eq, operatorNot_eq, Nat.and_xor_distrib_right, Nat.and_self, Nat.xor_comm]

/-- C21.  `~LINE_ALL == LINE_NONE`, `~LINE_NONE == LINE_ALL`, and `~(~S) == S` for every
submask `S` of `LINE_ALL`; for `gettable = LINE_DCD | LINE_DSR | LINE_CTS | LINE_RI` and
`settable = LINE_DTR | LINE_RTS`: `gettable | settable == LINE_ALL`,
`gettable & settable == LINE_NONE`, `~gettable == settable`, `~settable == gettable`,
`gettable ^ settable == LINE_ALL`; and `S ^ LINE_ALL == ~S` for every submask `S`. -/
theorem control_line_mask_algebra (S : ControlLine) (hS : S &&& LINE_ALL = S) :
    operatorNot LINE_ALL = LINE_NONE ∧
    operatorNot LINE_NONE = LINE_ALL ∧
    operatorNot (operatorNot S) = S ∧
    gettable = (LINE_DCD ||| LINE_DSR ||| LINE_CTS ||| LINE_RI) ∧
    settable = (LINE_DTR ||| LINE_RTS) ∧
    operatorOr gettable settable = LINE_ALL ∧
    operatorAnd gettable settable = LINE_NONE ∧
    operatorNot gettable = settable ∧
    operatorNot settable = gettable ∧
    operatorXor gettable settable = LINE_ALL ∧
    operatorXor S LINE_ALL = operatorNot S :=
  ⟨by decide, by decide, operatorNot_involutive S hS, by decide, by decide, by decide,
    by decide, by decide, by decide, by decide, operatorXor_LINE_ALL S⟩

/-- An instance of C21 at the submask `S = LINE_DCD | LINE_RTS | LINE_RI` (0x29), whose
complement is 0x16. -/
theorem control_line_mask_algebra_witness :
    operatorNot 0x29 = 0x16 ∧ operatorNot 0x16 = 0x29 ∧
    (operatorNot LINE_ALL = LINE_NONE ∧
    operatorNot LINE_NONE = LINE_ALL ∧
    operatorNot (operatorNot 0x29) = 0x29 ∧
    gettable = (LINE_DCD ||| LINE_DSR ||| LINE_CTS ||| LINE_RI) ∧
    settable = (LINE_DTR ||| LINE_RTS) ∧
    operatorOr gettable settable = LINE_ALL ∧
    operatorAnd gettable settable = LINE_NONE ∧
    operatorNot gettable = settable ∧
    operatorNot settable = gettable ∧
    operatorXor gettable settable = LINE_ALL ∧
    operatorXor 0x29 LINE_ALL = operatorNot 0x29) :=
  ⟨by decide, by decide, control_line_mask_algebra 0x29 (by decide)⟩

end ControlLine

/-! ## The handshake fields of the Windows translator -/

namespace Windows

theorem win_prepare_ok_of_supported (p : SerialPortImpl) (r : DCB)
    (hb : isBaudRateSupported Platform.windows p.baudRate = true)
    (hc : isCharacterSizeSupported p.characterSize = true) :
    ∃ rate size,
      getBaudRateValue Platform.windows p.baudRate = .ok rate ∧
      getCharacterSizeValue Platform.windows p.characterSize = .ok size ∧
      p.preparePortSettings r =
        .ok (p.prepareFraming
          { p.prepareFlags { r with DCBlength := sizeofDCB, BaudRate := rate } with
            ByteSize := size }) := by
  obtain ⟨rate, hr⟩ := baudRateValue_of_supported Platform.windows p.baudRate hb
  obtain ⟨size, hs⟩ := characterSizeValue_of_supported Platform.windows p.characterSize hc
  exact ⟨rate, size, hr, hs, by simp [SerialPortImpl.preparePortSettings, hr, hs]⟩

theorem win_prepareFraming_keeps_handshake (p : SerialPortImpl) (s : DCB) :
    (p.prepareFraming s).fDtrControl = s.fDtrControl ∧
      (p.prepareFraming s).fRtsControl = s.fRtsControl := by
  unfold SerialPortImpl.prepareFraming
  constructor <;> (simp only; split <;> split <;> rfl)

theorem win_prepareFlags_handshake (p : SerialPortImpl) (s : DCB) :
    (p.prepareFlags s).fDtrControl = DTR_CONTROL_DISABLE ∧
      (p.prepareFlags s).fRtsControl
        = (if p.flowControl = FlowControl.FLOW_CONTROL_HARDWARE then RTS_CONTROL_HANDSHAKE
            else RTS_CONTROL_DISABLE) := by
  unfold SerialPortImpl.prepareFlags
  rcases hfc : p.flowControl with _ | _ | n
  · simp [FlowControl.FLOW_CONTROL_HARDWARE]
  · simp [FlowControl.FLOW_CONTROL_HARDWARE]
  · simp [FlowControl.FLOW_CONTROL_HARDWARE]

/-- With hardware flow control the Windows translator enables the automatic RTS handshake
(against C30): for the default port with `FLOW_CONTROL_HARDWARE` the record it produces
from the device record has `fRtsControl = RTS_CONTROL_HANDSHAKE`, which is not
`RTS_CONTROL_DISABLE`; `fDtrControl` is `DTR_CONTROL_DISABLE`. -/
theorem win_hardware_flow_enables_rts_handshake :
    (({ defaultPort with flowControl := FlowControl.FLOW_CONTROL_HARDWARE } :
        SerialPortImpl).preparePortSettings deviceSettings).map (fun s => s.fRtsControl)
      = .ok RTS_CONTROL_HANDSHAKE ∧
    RTS_CONTROL_HANDSHAKE ≠ RTS_CONTROL_DISABLE ∧
    (({ defaultPort with flowControl := FlowControl.FLOW_CONTROL_HARDWARE } :
        SerialPortImpl).preparePortSettings deviceSettings).map (fun s => s.fDtrControl)
      = .ok DTR_CONTROL_DISABLE := by
  decide

/-- C30, amended.  For every input record and every configuration the Windows translator
accepts (supported baud rate and character size; it throws for the others), it produces a
record in which `fDtrControl` is `DTR_CONTROL_DISABLE`, and `fRtsControl` is
`RTS_CONTROL_HANDSHAKE` when the flow control is hardware and `RTS_CONTROL_DISABLE` for
every other flow-control value: the automatic DTR handshake is always disabled, the
automatic RTS handshake is disabled except with hardware flow control. -/
theorem win_translator_handshake_fields (p : SerialPortImpl) (r : DCB)
    (hb : isBaudRateSupported Platform.windows p.baudRate = true)
    (hc : isCharacterSizeSupported p.characterSize = true) :
    ∃ s, p.preparePortSettings r = .ok s ∧
      s.fDtrControl = DTR_CONTROL_DISABLE ∧
      (p.flowControl = FlowControl.FLOW_CONTROL_HARDWARE →
        s.fRtsControl = RTS_CONTROL_HANDSHAKE) ∧
      (p.flowControl ≠ FlowControl.FLOW_CONTROL_HARDWARE →
        s.fRtsControl = RTS_CONTROL_DISABLE) ∧
      (s.fRtsControl = RTS_CONTROL_DISABLE ↔
        p.flowControl ≠ FlowControl.FLOW_CONTROL_HARDWARE) := by
  obtain ⟨rate, size, _, _, hs⟩ := win_prepare_ok_of_supported p r hb hc
  refine ⟨_, hs, ?_, ?_, ?_, ?_⟩
  · rw [(win_prepareFraming_keeps_handshake p _).1]
    exact (win_prepareFlags_handshake p _).1
  · intro h
    rw [(win_prepareFraming_keeps_handshake p _).2]
    show (p.prepareFlags _).fRtsControl = _
    rw [(win_prepareFlags_handshake p _).2, if_pos h]
  · intro h
    rw [(win_prepareFraming_keeps_handshake p _).2]
    show (p.prepareFlags _).fRtsControl = _
    rw [(win_prepareFlags_handshake p _).2, if_neg h]
  · rw [(win_prepareFraming_keeps_handshake p _).2]
    show (p.prepareFlags _).fRtsControl = _ ↔ _
    rw [(win_prepareFlags_handshake p _).2]
    by_cases h : p.flowControl = FlowControl.FLOW_CONTROL_HARDWARE
    · simp [h, RTS_CONTROL_HANDSHAKE, RTS_CONTROL_DISABLE]
    · simp [h]

/-- Instances of the amended C30: the default port (no flow control) and the default port
with software flow control, translated from the device record. -/
theorem win_translator_handshake_fields_witness :
    (∃ s, defaultPort.preparePortSettings deviceSettings = .ok s ∧
      s.fDtrControl = DTR_CONTROL_DISABLE ∧
      (defaultPort.flowControl = FlowControl.FLOW_CONTROL_HARDWARE →
        s.fRtsControl = RTS_CONTROL_HANDSHAKE) ∧
      (defaultPort.flowControl ≠ FlowControl.FLOW_CONTROL_HARDWARE →
        s.fRtsControl = RTS_CONTROL_DISABLE) ∧
      (s.fRtsControl = RTS_CONTROL_DISABLE ↔
        defaultPort.flowControl ≠ FlowControl.FLOW_CONTROL_HARDWARE)) ∧
    (defaultPort.preparePortSettings deviceSettings).map (fun s => s.fRtsControl)
      = .ok RTS_CONTROL_DISABLE :=
  ⟨win_translator_handshake_fields defaultPort deviceSettings (by decide) (by decide),
    by decide⟩

end Windows

/-! ## Reading, writing and control lines -/

theorem and_eq_right_iff_testBit (s m : Nat) :
    s &&& m = m ↔ ∀ i, m.testBit i = true → s.testBit i = true := by
  constructor
  · intro h i hi
    have := congrArg (fun n => n.testBit i) h
    simp only [Nat.testBit_and, hi, Bool.and_true] at this
    exact this
  · intro h
    apply Nat.eq_of_testBit_eq
    intro i
    rw [Nat.testBit_and]
    cases hm : m.testBit i with
    | false => simp
    | true => simp [h i hm]

theorem and_or_eq_right_iff (s a b : Nat) :
    s &&& (a ||| b) = a ||| b ↔ (s &&& a = a ∧ s &&& b = b) := by
  simp only [and_eq_right_iff_testBit, Nat.testBit_or, Bool.or_eq_true]
  constructor
  · intro h
    exact ⟨fun i hi => h i (Or.inl hi), fun i hi => h i (Or.inr hi)⟩
  · rintro ⟨ha, hb⟩ i (hi | hi)
    · exact ha i hi
    · exact hb i hi

theorem subset_step (s r t : Nat) (c : Prop) [Decidable c] :
    s &&& (if c then r ||| t else r) = (if c then r ||| t else r) ↔
      (s &&& r = r ∧ (c → s &&& t = t)) := by
  by_cases h : c
  · simp [h, and_or_eq_right_iff]
  · simp [h]

theorem status_step (status test : Bool) (c : Prop) [Decidable c] :
    (if c then status && test else status) = true ↔
      (status = true ∧ (c → test = true)) := by
  by_cases h : c <;> simp [h]

namespace Linux

theorem getNativeControlLine_subset (p : SerialPortImpl) (mask : ControlLine) (status : Nat) :
    status &&& p.getNativeControlLine mask = p.getNativeControlLine mask ↔
      ((ControlLine.operatorAnd mask ControlLine.LINE_DCD = ControlLine.LINE_DCD →
          status &&& TIOCM_CD = TIOCM_CD) ∧
       (ControlLine.operatorAnd mask ControlLine.LINE_DTR = ControlLine.LINE_DTR →
          status &&& TIOCM_DTR = TIOCM_DTR) ∧
       (ControlLine.operatorAnd mask ControlLine.LINE_DSR = ControlLine.LINE_DSR →
          status &&& TIOCM_DSR = TIOCM_DSR) ∧
       (ControlLine.operatorAnd mask ControlLine.LINE_RTS = ControlLine.LINE_RTS →
          status &&& TIOCM_RTS = TIOCM_RTS) ∧
       (ControlLine.operatorAnd mask ControlLine.LINE_CTS = ControlLine.LINE_CTS →
          status &&& TIOCM_CTS = TIOCM_CTS) ∧
       (ControlLine.operatorAnd mask ControlLine.LINE_RI = ControlLine.LINE_RI →
          status &&& TIOCM_RI = TIOCM_RI)) := by
  unfold SerialPortImpl.getNativeControlLine
  simp only [beq_iff_eq]
  simp only [subset_step, Nat.and_zero, true_and, and_assoc]

theorem getControlLine_open (o : IoOracle) (p : SerialPortImpl) (tr : IoTrace)
    (mask : ControlLine) (hopen : p.isOpen = true) :
    p.getControlLine o tr mask =
      (((if (o (tr ++ [IoCall.ioctlGet p.fileDescriptor TIOCMGET])).ret = 0 then
            (o (tr ++ [IoCall.ioctlGet p.fileDescriptor TIOCMGET])).value else 0)
          &&& p.getNativeControlLine mask) == p.getNativeControlLine mask,
       tr ++ [IoCall.ioctlGet p.fileDescriptor TIOCMGET]) := by
  simp [SerialPortImpl.getControlLine, SerialPortImpl.getControlLineNative, hopen]

theorem setControlLine_open (o : IoOracle) (p : SerialPortImpl) (tr : IoTrace)
    (mask : ControlLine) (state : Bool) (hopen : p.isOpen = true) :
    p.setControlLine o tr mask state =
      ((o (tr ++ [IoCall.ioctlSet p.fileDescriptor (if state = true then TIOCMBIS
          else TIOCMBIC) (p.getNativeControlLine mask)])).ret == 0,
       tr ++ [IoCall.ioctlSet p.fileDescriptor (if state = true then TIOCMBIS else TIOCMBIC)
          (p.getNativeControlLine mask)]) := by
  simp [SerialPortImpl.setControlLine, SerialPortImpl.setControlLineNative, hopen]

end Linux

namespace Windows

theorem win_getControlLine_open (o : IoOracle) (p : SerialPortImpl) (tr : IoTrace)
    (mask : ControlLine) (hopen : p.isOpen = true)
    (hquery : (o (tr ++ [IoCall.GetCommModemStatus p.fileDescriptor])).ret ≠ 0) :
    (p.getControlLine o tr mask).2 = tr ++ [IoCall.GetCommModemStatus p.fileDescriptor] ∧
    ((p.getControlLine o tr mask).1 = true ↔
      ((ControlLine.operatorAnd mask ControlLine.LINE_DCD = ControlLine.LINE_DCD →
          (o (tr ++ [IoCall.GetCommModemStatus p.fileDescriptor])).value &&& MS_RLSD_ON
            = MS_RLSD_ON) ∧
       (ControlLine.operatorAnd mask ControlLine.LINE_DSR = ControlLine.LINE_DSR →
          (o (tr ++ [IoCall.GetCommModemStatus p.fileDescriptor])).value &&& MS_DSR_ON
            = MS_DSR_ON) ∧
       (ControlLine.operatorAnd mask ControlLine.LINE_CTS = ControlLine.LINE_CTS →
          (o (tr ++ [IoCall.GetCommModemStatus p.fileDescriptor])).value &&& MS_CTS_ON
            = MS_CTS_ON) ∧
       (ControlLine.operatorAnd mask ControlLine.LINE_RI = ControlLine.LINE_RI →
          (o (tr ++ [IoCall.GetCommModemStatus p.fileDescriptor])).value &&& MS_RING_ON
            = MS_RING_ON))) := by
  have hq : ((o (tr ++ [IoCall.GetCommModemStatus p.fileDescriptor])).ret != 0) = true := by
    simpa using hquery
  simp only [SerialPortImpl.getControlLine, hopen, hq, Bool.not_true, Bool.false_eq_true,
    if_false, beq_iff_eq]
  simp only [status_step, true_and, and_assoc, and_self, beq_iff_eq]

end Windows

namespace ControlLine

set_option maxRecDepth 100000 in
theorem settable_part_lines : ∀ mask : Nat, mask < 256 →
    (operatorAnd (operatorAnd mask settable) LINE_DTR == LINE_DTR)
        = (operatorAnd mask LINE_DTR == LINE_DTR) ∧
      (operatorAnd (operatorAnd mask settable) LINE_RTS == LINE_RTS)
        = (operatorAnd mask LINE_RTS == LINE_RTS) ∧
      (operatorAnd (operatorAnd mask settable) LINE_DCD == LINE_DCD) = false ∧
      (operatorAnd (operatorAnd mask settable) LINE_DSR == LINE_DSR) = false ∧
      (operatorAnd (operatorAnd mask settable) LINE_CTS == LINE_CTS) = false ∧
      (operatorAnd (operatorAnd mask settable) LINE_RI == LINE_RI) = false := by
  decide

end ControlLine

namespace Linux

theorem getNativeControlLine_port (p q : SerialPortImpl) (mask : ControlLine) :
    p.getNativeControlLine mask = q.getNativeControlLine mask := rfl

set_option maxRecDepth 100000 in
theorem getNativeControlLine_settable_part : ∀ mask : Nat, mask < 256 →
    (defaultPort.getNativeControlLine mask
        = defaultPort.getNativeControlLine (ControlLine.operatorAnd mask settable) ↔
      (ControlLine.operatorAnd mask ControlLine.LINE_DCD ≠ ControlLine.LINE_DCD ∧
        ControlLine.operatorAnd mask ControlLine.LINE_DSR ≠ ControlLine.LINE_DSR ∧
        ControlLine.operatorAnd mask ControlLine.LINE_CTS ≠ ControlLine.LINE_CTS ∧
        ControlLine.operatorAnd mask ControlLine.LINE_RI ≠ ControlLine.LINE_RI)) := by
  decide

end Linux

namespace Windows

theorem win_setControlLine_open (o : IoOracle) (p : SerialPortImpl) (tr : IoTrace)
    (mask : ControlLine) (state : Bool) (hopen : p.isOpen = true) :
    (p.setControlLine o tr mask state).2 =
      tr ++
        (if ControlLine.operatorAnd mask ControlLine.LINE_DTR = ControlLine.LINE_DTR then
          [IoCall.EscapeCommFunction p.fileDescriptor (if state = true then SETDTR
            else CLRDTR)] else []) ++
        (if ControlLine.operatorAnd mask ControlLine.LINE_RTS = ControlLine.LINE_RTS then
          [IoCall.EscapeCommFunction p.fileDescriptor (if state = true then SETRTS
            else CLRRTS)] else []) := by
  simp only [SerialPortImpl.setControlLine, hopen, Bool.not_true, Bool.false_eq_true,
    if_false, beq_iff_eq]
  by_cases h1 : ControlLine.operatorAnd mask ControlLine.LINE_DTR = ControlLine.LINE_DTR <;>
    by_cases h2 : ControlLine.operatorAnd mask ControlLine.LINE_RTS
      = ControlLine.LINE_RTS <;>
    simp [h1, h2]

theorem win_setControlLine_settable_part (o : IoOracle) (p : SerialPortImpl) (tr : IoTrace)
    (mask : ControlLine) (state : Bool) (hmask : mask < 256) :
    p.setControlLine o tr mask state
      = p.setControlLine o tr (ControlLine.operatorAnd mask settable) state := by
  have h := ControlLine.settable_part_lines mask hmask
  simp only [SerialPortImpl.setControlLine, h.1, h.2.1]

end Windows

/-- On the Windows target `getControlLine` does not look at the output lines (against
C22): on the open port, with a modem status in which no line is asserted, also right
after the port has cleared DTR, `getControlLine(LINE_DTR)` and
`getControlLine(LINE_DTR | LINE_RTS)` return true.  On the POSIX target the same query
with no line asserted returns false. -/
theorem win_getControlLine_ignores_output_lines :
    Windows.openedPort.getControlLine (Windows.answering ⟨1, 0, 0, 0, []⟩) []
        ControlLine.LINE_DTR
      = (true, [Windows.IoCall.GetCommModemStatus 7]) ∧
    (Windows.openedPort.getControlLine (Windows.answering ⟨1, 0, 0, 0, []⟩)
        (Windows.openedPort.setControlLine (Windows.answering ⟨1, 0, 0, 0, []⟩) []
          ControlLine.LINE_DTR false).2 ControlLine.LINE_DTR)
      = (true, [Windows.IoCall.EscapeCommFunction 7 Windows.CLRDTR,
                Windows.IoCall.GetCommModemStatus 7]) ∧
    (Windows.openedPort.getControlLine (Windows.answering ⟨1, 0, 0, 0, []⟩) [] settable).1
      = true ∧
    Linux.openedPort.getControlLine (Linux.answering ⟨0, 0, []⟩) [] ControlLine.LINE_DTR
      = (false, [Linux.IoCall.ioctlGet 3 Linux.TIOCMGET]) := by
  decide

/-- C22, amended.  On an Open handle whose native line-status query succeeds,
`getControlLine(mask)` makes this one query and returns, on the POSIX target, true exactly
when every line named in `mask`, input or output, is asserted in the status the query
stored; on the Windows target, true exactly when every input line (DCD, DSR, CTS, RI)
named in `mask` is asserted in the modem status: the bits DTR and RTS of `mask` are not
looked at there, so a mask of output lines only gives true. -/
theorem getControlLine_requested_lines
    (oL : Linux.IoOracle) (pL : Linux.SerialPortImpl) (trL : Linux.IoTrace)
    (oW : Windows.IoOracle) (pW : Windows.SerialPortImpl) (trW : Windows.IoTrace)
    (mask : ControlLine) (hL : pL.isOpen = true) (hW : pW.isOpen = true)
    (hqL : (oL (trL ++ [Linux.IoCall.ioctlGet pL.fileDescriptor Linux.TIOCMGET])).ret = 0)
    (hqW : (oW (trW ++ [Windows.IoCall.GetCommModemStatus pW.fileDescriptor])).ret ≠ 0) :
    (pL.getControlLine oL trL mask).2
        = trL ++ [Linux.IoCall.ioctlGet pL.fileDescriptor Linux.TIOCMGET] ∧
    ((pL.getControlLine oL trL mask).1 = true ↔
      ((ControlLine.operatorAnd mask ControlLine.LINE_DCD = ControlLine.LINE_DCD →
          (oL (trL ++ [Linux.IoCall.ioctlGet pL.fileDescriptor Linux.TIOCMGET])).value
            &&& Linux.TIOCM_CD = Linux.TIOCM_CD) ∧
       (ControlLine.operatorAnd mask ControlLine.LINE_DTR = ControlLine.LINE_DTR →
          (oL (trL ++ [Linux.IoCall.ioctlGet pL.fileDescriptor Linux.TIOCMGET])).value
            &&& Linux.TIOCM_DTR = Linux.TIOCM_DTR) ∧
       (ControlLine.operatorAnd mask ControlLine.LINE_DSR = ControlLine.LINE_DSR →
          (oL (trL ++ [Linux.IoCall.ioctlGet pL.fileDescriptor Linux.TIOCMGET])).value
            &&& Linux.TIOCM_DSR = Linux.TIOCM_DSR) ∧
       (ControlLine.operatorAnd mask ControlLine.LINE_RTS = ControlLine.LINE_RTS →
          (oL (trL ++ [Linux.IoCall.ioctlGet pL.fileDescriptor Linux.TIOCMGET])).value
            &&& Linux.TIOCM_RTS = Linux.TIOCM_RTS) ∧
       (ControlLine.operatorAnd mask ControlLine.LINE_CTS = ControlLine.LINE_CTS →
          (oL (trL ++ [Linux.IoCall.ioctlGet pL.fileDescriptor Linux.TIOCMGET])).value
            &&& Linux.TIOCM_CTS = Linux.TIOCM_CTS) ∧
       (ControlLine.operatorAnd mask ControlLine.LINE_RI = ControlLine.LINE_RI →
          (oL (trL ++ [Linux.IoCall.ioctlGet pL.fileDescriptor Linux.TIOCMGET])).value
            &&& Linux.TIOCM_RI = Linux.TIOCM_RI))) ∧
    (pW.getControlLine oW trW mask).2
        = trW ++ [Windows.IoCall.GetCommModemStatus pW.fileDescriptor] ∧
    ((pW.getControlLine oW trW mask).1 = true ↔
      ((ControlLine.operatorAnd mask ControlLine.LINE_DCD = ControlLine.LINE_DCD →
          (oW (trW ++ [Windows.IoCall.GetCommModemStatus pW.fileDescriptor])).value
            &&& Windows.MS_RLSD_ON = Windows.MS_RLSD_ON) ∧
       (ControlLine.operatorAnd mask ControlLine.LINE_DSR = ControlLine.LINE_DSR →
          (oW (trW ++ [Windows.IoCall.GetCommModemStatus pW.fileDescriptor])).value
            &&& Windows.MS_DSR_ON = Windows.MS_DSR_ON) ∧
       (ControlLine.operatorAnd mask ControlLine.LINE_CTS = ControlLine.LINE_CTS →
          (oW (trW ++ [Windows.IoCall.GetCommModemStatus pW.fileDescriptor])).value
            &&& Windows.MS_CTS_ON = Windows.MS_CTS_ON) ∧
       (ControlLine.operatorAnd mask ControlLine.LINE_RI = ControlLine.LINE_RI →
          (oW (trW ++ [Windows.IoCall.GetCommModemStatus pW.fileDescriptor])).value
            &&& Windows.MS_RING_ON = Windows.MS_RING_ON))) ∧
    (pL.getControlLine oL trL ControlLine.LINE_NONE).1 = true ∧
    (pW.getControlLine oW trW ControlLine.LINE_NONE).1 = true ∧
    (pW.getControlLine oW trW settable).1 = true := by
  have hLin := Linux.getControlLine_open oL pL trL mask hL
  have hWin := Windows.win_getControlLine_open oW pW trW mask hW hqW
  refine ⟨?_, ?_, hWin.1, hWin.2, ?_, ?_, ?_⟩
  · rw [hLin]
  · rw [hLin]
    simp only [hqL, if_true, beq_iff_eq]
    exact Linux.getNativeControlLine_subset pL mask _
  · rw [Linux.getControlLine_open oL pL trL _ hL]
    simp [Linux.SerialPortImpl.getNativeControlLine, ControlLine.operatorAnd,
      ControlLine.ofInt, ControlLine.LINE_NONE, ControlLine.LINE_DCD, ControlLine.LINE_DTR,
      ControlLine.LINE_DSR, ControlLine.LINE_RTS, ControlLine.LINE_CTS, ControlLine.LINE_RI]
  · rw [(Windows.win_getControlLine_open oW pW trW _ hW hqW).2]
    exact ⟨fun h => absurd h (by decide), fun h => absurd h (by decide),
      fun h => absurd h (by decide), fun h => absurd h (by decide)⟩
  · rw [(Windows.win_getControlLine_open oW pW trW _ hW hqW).2]
    exact ⟨fun h => absurd h (by decide), fun h => absurd h (by decide),
      fun h => absurd h (by decide), fun h => absurd h (by decide)⟩

/-- Instances of the amended C22 on the open ports: with DCD and DSR asserted and nothing
else, `getControlLine(LINE_DCD | LINE_DSR)` is true on both targets and
`getControlLine(LINE_DCD | LINE_CTS)` is false on both. -/
theorem getControlLine_requested_lines_witness :
    (Linux.openedPort.getControlLine (Linux.answering ⟨0, 0x140, []⟩) [] 0x05).1 = true ∧
    (Windows.openedPort.getControlLine (Windows.answering ⟨1, 0xA0, 0, 0, []⟩) [] 0x05).1
      = true ∧
    (Linux.openedPort.getControlLine (Linux.answering ⟨0, 0x140, []⟩) [] 0x11).1 = false ∧
    (Windows.openedPort.getControlLine (Windows.answering ⟨1, 0xA0, 0, 0, []⟩) [] 0x11).1
      = false ∧
    ((Linux.openedPort.getControlLine (Linux.answering ⟨0, 0x140, []⟩) [] 0x05).2
        = [Linux.IoCall.ioctlGet 3 Linux.TIOCMGET] ∧
      (Windows.openedPort.getControlLine (Windows.answering ⟨1, 0xA0, 0, 0, []⟩) [] 0x05).2
        = [Windows.IoCall.GetCommModemStatus 7]) :=
  ⟨by decide, by decide, by decide, by decide,
    (getControlLine_requested_lines (Linux.answering ⟨0, 0x140, []⟩) Linux.openedPort []
      (Windows.answering ⟨1, 0xA0, 0, 0, []⟩) Windows.openedPort [] 0x05
      (by decide) (by decide) (by decide) (by decide)).1,
    (getControlLine_requested_lines (Linux.answering ⟨0, 0x140, []⟩) Linux.openedPort []
      (Windows.answering ⟨1, 0xA0, 0, 0, []⟩) Windows.openedPort [] 0x05
      (by decide) (by decide) (by decide) (by decide)).2.2.1⟩

/-- On the POSIX target the read-only bits of the mask reach the native request (against
C23): `setControlLine(LINE_DCD | LINE_DTR, true)` on the open port issues
`ioctl(3, TIOCMBIS)` with the argument `TIOCM_CD | TIOCM_DTR`, and for the mask
`(LINE_DCD | LINE_DTR) & (LINE_DTR | LINE_RTS)` the argument is `TIOCM_DTR`. -/
theorem setControlLine_passes_read_only_lines :
    Linux.openedPort.setControlLine (Linux.answering ⟨0, 0, []⟩) []
        (ControlLine.operatorOr ControlLine.LINE_DCD ControlLine.LINE_DTR) true
      = (true, [Linux.IoCall.ioctlSet 3 Linux.TIOCMBIS
                  (Linux.TIOCM_CD ||| Linux.TIOCM_DTR)]) ∧
    Linux.openedPort.setControlLine (Linux.answering ⟨0, 0, []⟩) []
        (ControlLine.operatorAnd
          (ControlLine.operatorOr ControlLine.LINE_DCD ControlLine.LINE_DTR) settable) true
      = (true, [Linux.IoCall.ioctlSet 3 Linux.TIOCMBIS Linux.TIOCM_DTR]) ∧
    (Linux.TIOCM_CD ||| Linux.TIOCM_DTR) ≠ Linux.TIOCM_DTR ∧
    (Linux.openedPort.setControlLine (Linux.answering ⟨0, 0, []⟩) []
        (ControlLine.operatorOr ControlLine.LINE_DCD ControlLine.LINE_DTR) true).2
      ≠ (Linux.openedPort.setControlLine (Linux.answering ⟨0, 0, []⟩) []
          (ControlLine.operatorAnd
            (ControlLine.operatorOr ControlLine.LINE_DCD ControlLine.LINE_DTR) settable)
          true).2 := by
  decide

/-- C23, amended.  `setControlLine(mask, state)` on an Open handle, for an 8-bit `mask`.
On the Windows target it issues `EscapeCommFunction` for DTR when `mask` names DTR and
then for RTS when `mask` names RTS, and nothing for the read-only bits: its requests and
its result are those for `mask & (LINE_DTR | LINE_RTS)`.  On the POSIX target it issues
one `ioctl` (`TIOCMBIS` to assert, `TIOCMBIC` to clear) whose argument names every line of
`mask`, the read-only ones included, and returns whether it returned 0; the request is
the one for `mask & (LINE_DTR | LINE_RTS)` exactly when `mask` names none of DCD, DSR, CTS
and RI. -/
theorem setControlLine_native_requests
    (oL : Linux.IoOracle) (pL : Linux.SerialPortImpl) (trL : Linux.IoTrace)
    (oW : Windows.IoOracle) (pW : Windows.SerialPortImpl) (trW : Windows.IoTrace)
    (mask : ControlLine) (state : Bool) (hL : pL.isOpen = true) (hW : pW.isOpen = true)
    (hmask : mask < 256) :
    pW.setControlLine oW trW mask state
        = pW.setControlLine oW trW (ControlLine.operatorAnd mask settable) state ∧
    (pW.setControlLine oW trW mask state).2 =
      trW ++
        (if ControlLine.operatorAnd mask ControlLine.LINE_DTR = ControlLine.LINE_DTR then
          [Windows.IoCall.EscapeCommFunction pW.fileDescriptor
            (if state = true then Windows.SETDTR else Windows.CLRDTR)] else []) ++
        (if ControlLine.operatorAnd mask ControlLine.LINE_RTS = ControlLine.LINE_RTS then
          [Windows.IoCall.EscapeCommFunction pW.fileDescriptor
            (if state = true then Windows.SETRTS else Windows.CLRRTS)] else []) ∧
    pL.setControlLine oL trL mask state =
      ((oL (trL ++ [Linux.IoCall.ioctlSet pL.fileDescriptor
          (if state = true then Linux.TIOCMBIS else Linux.TIOCMBIC)
          (pL.getNativeControlLine mask)])).ret == 0,
       trL ++ [Linux.IoCall.ioctlSet pL.fileDescriptor
          (if state = true then Linux.TIOCMBIS else Linux.TIOCMBIC)
          (pL.getNativeControlLine mask)]) ∧
    (pL.getNativeControlLine mask
        = pL.getNativeControlLine (ControlLine.operatorAnd mask settable) ↔
      (ControlLine.operatorAnd mask ControlLine.LINE_DCD ≠ ControlLine.LINE_DCD ∧
        ControlLine.operatorAnd mask ControlLine.LINE_DSR ≠ ControlLine.LINE_DSR ∧
        ControlLine.operatorAnd mask ControlLine.LINE_CTS ≠ ControlLine.LINE_CTS ∧
        ControlLine.operatorAnd mask ControlLine.LINE_RI ≠ ControlLine.LINE_RI)) ∧
    ((pL.setControlLine oL trL mask state).2
        = (pL.setControlLine oL trL (ControlLine.operatorAnd mask settable) state).2 ↔
      (ControlLine.operatorAnd mask ControlLine.LINE_DCD ≠ ControlLine.LINE_DCD ∧
        ControlLine.operatorAnd mask ControlLine.LINE_DSR ≠ ControlLine.LINE_DSR ∧
        ControlLine.operatorAnd mask ControlLine.LINE_CTS ≠ ControlLine.LINE_CTS ∧
        ControlLine.operatorAnd mask ControlLine.LINE_RI ≠ ControlLine.LINE_RI)) := by
  have hnative : (pL.getNativeControlLine mask
        = pL.getNativeControlLine (ControlLine.operatorAnd mask settable) ↔
      (ControlLine.operatorAnd mask ControlLine.LINE_DCD ≠ ControlLine.LINE_DCD ∧
        ControlLine.operatorAnd mask ControlLine.LINE_DSR ≠ ControlLine.LINE_DSR ∧
        ControlLine.operatorAnd mask ControlLine.LINE_CTS ≠ ControlLine.LINE_CTS ∧
        ControlLine.operatorAnd mask ControlLine.LINE_RI ≠ ControlLine.LINE_RI)) := by
    rw [Linux.getNativeControlLine_port pL Linux.defaultPort,
      Linux.getNativeControlLine_port pL Linux.defaultPort]
    exact Linux.getNativeControlLine_settable_part mask hmask
  refine ⟨Windows.win_setControlLine_settable_part oW pW trW mask state hmask,
    Windows.win_setControlLine_open oW pW trW mask state hW,
    Linux.setControlLine_open oL pL trL mask state hL, hnative, ?_⟩
  rw [Linux.setControlLine_open oL pL trL mask state hL,
    Linux.setControlLine_open oL pL trL _ state hL, ← hnative]
  simp

/-- Instances of the amended C23 on the open ports, for `mask = LINE_ALL` and
`state = false`: the Windows requests are `CLRDTR` and `CLRRTS`; the POSIX request is
`TIOCMBIC` with all six native bits. -/
theorem setControlLine_native_requests_witness :
    (Windows.openedPort.setControlLine (Windows.answering ⟨1, 0, 0, 0, []⟩) []
        ControlLine.LINE_ALL false
      = Windows.openedPort.setControlLine (Windows.answering ⟨1, 0, 0, 0, []⟩) []
          (ControlLine.operatorAnd ControlLine.LINE_ALL settable) false) ∧
    (Windows.openedPort.setControlLine (Windows.answering ⟨1, 0, 0, 0, []⟩) []
        ControlLine.LINE_ALL false)
      = (true, [Windows.IoCall.EscapeCommFunction 7 Windows.CLRDTR,
                Windows.IoCall.EscapeCommFunction 7 Windows.CLRRTS]) ∧
    Linux.openedPort.setControlLine (Linux.answering ⟨0, 0, []⟩) [] ControlLine.LINE_ALL false
      = (true, [Linux.IoCall.ioctlSet 3 Linux.TIOCMBIC 0x1E6]) :=
  ⟨(setControlLine_native_requests (Linux.answering ⟨0, 0, []⟩) Linux.openedPort []
      (Windows.answering ⟨1, 0, 0, 0, []⟩) Windows.openedPort [] ControlLine.LINE_ALL false
      (by decide) (by decide) (by decide)).1,
    by decide, by decide⟩

/-- C24.  On a Closed handle, on both targets: `read(buffer, size)`, `read(string)`,
`write(buffer, size)` and `write(string)` return 0; `write(char)`, `drain`, `flushInput`,
`flushOutput`, `flushInputOutput`, `getControlLine` and `setControlLine` return false;
`getInputQueueCount` and `getOutputQueueCount` return 0.  None of them issues a native
call (the trace is the one before the call), and the two reads leave the caller's buffer
as it was.  On an Open handle whose native queue query fails, both queue counts are 0.
The members are `const` and contain no `throw`: a result and the native calls are all they
produce. -/
theorem closed_port_operations_fail_softly
    (oL : Linux.IoOracle) (pL : Linux.SerialPortImpl) (trL : Linux.IoTrace)
    (nL : Linux.Oracle) (ntrL : Linux.Trace)
    (oW : Windows.IoOracle) (pW : Windows.SerialPortImpl) (trW : Windows.IoTrace)
    (nW : Windows.Oracle) (ntrW : Windows.Trace)
    (buffer data : Bytes) (size fuel char : Nat) (mask : ControlLine) (state : Bool) :
    (pL.isOpen = false →
      pL.read oL trL buffer size = (0, buffer, trL) ∧
      pL.readString oL trL buffer fuel = Linux.StringRead.returned 0 buffer trL ∧
      pL.write oL trL data = (0, trL) ∧
      pL.writeString oL trL data = (0, trL) ∧
      pL.writeChar oL trL char = (false, trL) ∧
      pL.drain nL ntrL = (false, ntrL) ∧
      pL.flushInput oL trL = (false, trL) ∧
      pL.flushOutput oL trL = (false, trL) ∧
      pL.flushInputOutput oL trL = (false, trL) ∧
      pL.getControlLine oL trL mask = (false, trL) ∧
      pL.setControlLine oL trL mask state = (false, trL) ∧
      pL.getInputQueueCount oL trL = (0, trL) ∧
      pL.getOutputQueueCount oL trL = (0, trL)) ∧
    (pW.isOpen = false →
      pW.read oW trW buffer size = (0, buffer, trW) ∧
      pW.readString oW trW buffer fuel = Windows.StringRead.returned 0 buffer trW ∧
      pW.write oW trW data = (0, trW) ∧
      pW.writeString oW trW data = (0, trW) ∧
      pW.writeChar oW trW char = (false, trW) ∧
      pW.drain nW ntrW = (false, ntrW) ∧
      pW.flushInput oW trW = (false, trW) ∧
      pW.flushOutput oW trW = (false, trW) ∧
      pW.flushInputOutput oW trW = (false, trW) ∧
      pW.getControlLine oW trW mask = (false, trW) ∧
      pW.setControlLine oW trW mask state = (false, trW) ∧
      pW.getInputQueueCount oW trW = (0, trW) ∧
      pW.getOutputQueueCount oW trW = (0, trW)) ∧
    (pL.isOpen = true →
      ((oL (trL ++ [Linux.IoCall.ioctlGet pL.fileDescriptor Linux.TIOCINQ])).ret ≠ 0 →
        (pL.getInputQueueCount oL trL).1 = 0) ∧
      ((oL (trL ++ [Linux.IoCall.ioctlGet pL.fileDescriptor Linux.TIOCOUTQ])).ret ≠ 0 →
        (pL.getOutputQueueCount oL trL).1 = 0)) ∧
    (pW.isOpen = true →
      (oW (trW ++ [Windows.IoCall.ClearCommError pW.fileDescriptor])).ret = 0 →
      (pW.getInputQueueCount oW trW).1 = 0 ∧ (pW.getOutputQueueCount oW trW).1 = 0) := by
  refine ⟨?_, ?_, ?_, ?_⟩
  · intro h
    simp [Linux.SerialPortImpl.read, Linux.SerialPortImpl.readString,
      Linux.SerialPortImpl.write, Linux.SerialPortImpl.writeString,
      Linux.SerialPortImpl.writeChar, Linux.SerialPortImpl.drain,
      Linux.SerialPortImpl.flushInput, Linux.SerialPortImpl.flushOutput,
      Linux.SerialPortImpl.flushInputOutput, Linux.SerialPortImpl.getControlLine,
      Linux.SerialPortImpl.setControlLine, Linux.SerialPortImpl.getInputQueueCount,
      Linux.SerialPortImpl.getOutputQueueCount, h]
  · intro h
    simp [Windows.SerialPortImpl.read, Windows.SerialPortImpl.readString,
      Windows.SerialPortImpl.write, Windows.SerialPortImpl.writeString,
      Windows.SerialPortImpl.writeChar, Windows.SerialPortImpl.drain,
      Windows.SerialPortImpl.flushInput, Windows.SerialPortImpl.flushOutput,
      Windows.SerialPortImpl.flushInputOutput, Windows.SerialPortImpl.getControlLine,
      Windows.SerialPortImpl.setControlLine, Windows.SerialPortImpl.getInputQueueCount,
      Windows.SerialPortImpl.getOutputQueueCount, h]
  · intro h
    constructor
    · intro hq
      simp [Linux.SerialPortImpl.getInputQueueCount, h, hq]
    · intro hq
      simp [Linux.SerialPortImpl.getOutputQueueCount, h, hq]
  · intro h hq
    simp [Windows.SerialPortImpl.getInputQueueCount,
      Windows.SerialPortImpl.getOutputQueueCount, h, hq]

/-- Instances of C24: the calls of the closed-port test on the default ports, on devices
that would answer every call with success and data, and the queue counts of the open
ports on devices whose query fails while reporting 5 queued bytes. -/
theorem closed_port_operations_fail_softly_witness :
    (Linux.defaultPort.read (Linux.answering ⟨1, 9, [90]⟩) [] [0] 1 = (0, [0], []) ∧
      Linux.defaultPort.readString (Linux.answering ⟨1, 9, [90]⟩) [] [65] 8
        = Linux.StringRead.returned 0 [65] [] ∧
      Linux.defaultPort.writeChar (Linux.answering ⟨1, 9, [90]⟩) [] 0 = (false, []) ∧
      Linux.defaultPort.getControlLine (Linux.answering ⟨1, 9, [90]⟩) []
        ControlLine.LINE_DCD = (false, []) ∧
      Linux.defaultPort.setControlLine (Linux.answering ⟨1, 9, [90]⟩) []
        ControlLine.LINE_DTR true = (false, [])) ∧
    (Windows.defaultPort.readString (Windows.answering ⟨1, 1, 5, 5, [90]⟩) [] [65] 8
        = Windows.StringRead.returned 0 [65] [] ∧
      Windows.defaultPort.writeChar (Windows.answering ⟨1, 1, 5, 5, [90]⟩) [] 0
        = (false, [])) ∧
    ((Linux.openedPort.getInputQueueCount (Linux.answering ⟨-1, 5, []⟩) []).1 = 0 ∧
      (Linux.openedPort.getOutputQueueCount (Linux.answering ⟨-1, 5, []⟩) []).1 = 0) ∧
    ((Windows.openedPort.getInputQueueCount (Windows.answering ⟨0, 0, 5, 5, []⟩) []).1 = 0 ∧
      (Windows.openedPort.getOutputQueueCount (Windows.answering ⟨0, 0, 5, 5, []⟩) []).1
        = 0) :=
  ⟨by decide, by decide,
    ⟨((closed_port_operations_fail_softly (Linux.answering ⟨-1, 5, []⟩) Linux.openedPort []
        Linux.healthyDevice [] (Windows.answering ⟨0, 0, 5, 5, []⟩) Windows.openedPort []
        Windows.healthyDevice [] [] [] 0 0 0 0 false).2.2.1 (by decide)).1 (by decide),
     ((closed_port_operations_fail_softly (Linux.answering ⟨-1, 5, []⟩) Linux.openedPort []
        Linux.healthyDevice [] (Windows.answering ⟨0, 0, 5, 5, []⟩) Windows.openedPort []
        Windows.healthyDevice [] [] [] 0 0 0 0 false).2.2.1 (by decide)).2 (by decide)⟩,
    (closed_port_operations_fail_softly (Linux.answering ⟨-1, 5, []⟩) Linux.openedPort []
        Linux.healthyDevice [] (Windows.answering ⟨0, 0, 5, 5, []⟩) Windows.openedPort []
        Windows.healthyDevice [] [] [] 0 0 0 0 false).2.2.2 (by decide) (by decide)⟩

namespace Linux

theorem toSize_eq_one_iff (r : Int) (hlo : -(2 ^ 63) ≤ r) (hhi : r < 2 ^ 63) :
    toSize r = 1 ↔ r = 1 := by
  unfold toSize
  constructor
  · intro h
    have h1 : (r % 2 ^ 64).toNat = 1 := h
    have hnn : 0 ≤ r % 2 ^ 64 := Int.emod_nonneg r (by norm_num)
    have h2 : r % 2 ^ 64 = 1 := by
      have := Int.toNat_of_nonneg hnn
      omega
    omega
  · intro h
    subst h
    rfl

end Linux

/-- C25.  `write(char)` on an Open handle.  On the POSIX target it makes one native write
of the one byte and returns true exactly when the write returns 1.  On the Windows target
it makes one `WriteFile` of the one byte and returns true exactly when `WriteFile`
succeeds and reports 4 bytes written, the size of the `DWORD written`: when `WriteFile`
succeeds and reports exactly one byte written it returns false. -/
theorem write_char_result
    (oL : Linux.IoOracle) (pL : Linux.SerialPortImpl) (trL : Linux.IoTrace)
    (oW : Windows.IoOracle) (pW : Windows.SerialPortImpl) (trW : Windows.IoTrace)
    (data : Nat) (hL : pL.isOpen = true) (hW : pW.isOpen = true)
    (hlo : -(2 ^ 63) ≤ (oL (trL ++ [Linux.IoCall.write pL.fileDescriptor [data]])).ret)
    (hhi : (oL (trL ++ [Linux.IoCall.write pL.fileDescriptor [data]])).ret < 2 ^ 63) :
    (pL.writeChar oL trL data).2 = trL ++ [Linux.IoCall.write pL.fileDescriptor [data]] ∧
    ((pL.writeChar oL trL data).1 = true ↔
      (oL (trL ++ [Linux.IoCall.write pL.fileDescriptor [data]])).ret = 1) ∧
    (pW.writeChar oW trW data).2
      = trW ++ [Windows.IoCall.WriteFile pW.fileDescriptor [data]] ∧
    ((pW.writeChar oW trW data).1 = true ↔
      ((oW (trW ++ [Windows.IoCall.WriteFile pW.fileDescriptor [data]])).ret ≠ 0 ∧
        (oW (trW ++ [Windows.IoCall.WriteFile pW.fileDescriptor [data]])).value = 4)) ∧
    ((oW (trW ++ [Windows.IoCall.WriteFile pW.fileDescriptor [data]])).ret ≠ 0 →
      (oW (trW ++ [Windows.IoCall.WriteFile pW.fileDescriptor [data]])).value = 1 →
      (pW.writeChar oW trW data).1 = false) := by
  refine ⟨?_, ?_, ?_, ?_, ?_⟩
  · simp [Linux.SerialPortImpl.writeChar, hL]
  · simp only [Linux.SerialPortImpl.writeChar, hL, if_true, beq_iff_eq, sizeofChar]
    exact Linux.toSize_eq_one_iff _ hlo hhi
  · simp [Windows.SerialPortImpl.writeChar, hW]
  · simp [Windows.SerialPortImpl.writeChar, hW, Windows.sizeofDWORD]
  · intro hret hval
    simp [Windows.SerialPortImpl.writeChar, hW, Windows.sizeofDWORD, hret, hval]

/-- The failing instance of C25: on the open Windows port, `WriteFile` returns TRUE and
reports one byte written, and `write(char)` returns false; on the open POSIX port the
native write returns 1 and `write(char)` returns true. -/
theorem write_char_result_witness :
    Windows.openedPort.writeChar (Windows.answering ⟨1, 1, 0, 0, []⟩) [] 0x5A
      = (false, [Windows.IoCall.WriteFile 7 [0x5A]]) ∧
    Linux.openedPort.writeChar (Linux.answering ⟨1, 0, []⟩) [] 0x5A
      = (true, [Linux.IoCall.write 3 [0x5A]]) ∧
    ((Windows.openedPort.writeChar (Windows.answering ⟨1, 1, 0, 0, []⟩) [] 0x5A).1 = false ∧
      (Linux.openedPort.writeChar (Linux.answering ⟨1, 0, []⟩) [] 0x5A).1 = true) :=
  ⟨by decide, by decide,
    (write_char_result (Linux.answering ⟨1, 0, []⟩) Linux.openedPort []
      (Windows.answering ⟨1, 1, 0, 0, []⟩) Windows.openedPort [] 0x5A
      (by decide) (by decide) (by decide) (by decide)).2.2.2.2 (by decide) (by decide),
    ((write_char_result (Linux.answering ⟨1, 0, []⟩) Linux.openedPort []
      (Windows.answering ⟨1, 1, 0, 0, []⟩) Windows.openedPort [] 0x5A
      (by decide) (by decide) (by decide) (by decide)).2.1).2 (by decide)⟩

/-! ## Port names and device paths -/

theorem startsWith_append (pattern rest : List Char) :
    startsWith (pattern ++ rest) pattern = true := by
  induction pattern with
  | nil => cases rest <;> rfl
  | cons c cs ih => simp [startsWith, ih]

theorem stringFind_append_self (pattern rest : List Char) :
    stringFind (pattern ++ rest) pattern = some 0 := by
  have h := startsWith_append pattern rest
  cases hs : pattern ++ rest with
  | nil =>
    rw [hs] at h
    simp [stringFind, h]
  | cons c cs =>
    rw [hs] at h
    simp [stringFind, h]

theorem SERIAL_PORT_PREFIX_nonempty (target : Platform) :
    0 < (SERIAL_PORT_PREFIX target).data.length := by
  cases target <;> decide

namespace Enumerator

theorem serialPortToFileName_of_found (target : Platform) (x : String) (position : Nat)
    (h : stringFind x.data (SERIAL_PORT_PREFIX target).data = some position) :
    serialPortToFileName target x = x := by
  simp [serialPortToFileName, h]

theorem serialPortToFileName_of_absent (target : Platform) (x : String)
    (h : stringFind x.data (SERIAL_PORT_PREFIX target).data = none) :
    serialPortToFileName target x = SERIAL_PORT_PREFIX target ++ x := by
  simp [serialPortToFileName, h]

theorem stringFind_prefixed (target : Platform) (x : String) :
    stringFind (SERIAL_PORT_PREFIX target ++ x).data (SERIAL_PORT_PREFIX target).data
      = some 0 := by
  rw [String.data_append]
  exact stringFind_append_self _ _

theorem fileNameToSerialPort_of_absent (target : Platform) (x : String)
    (h : stringFind x.data (SERIAL_PORT_PREFIX target).data = none) :
    fileNameToSerialPort target x = x := by
  simp [fileNameToSerialPort, h]

theorem fileNameToSerialPort_prefixed (target : Platform) (x : String) :
    fileNameToSerialPort target (SERIAL_PORT_PREFIX target ++ x) = x := by
  have hf := stringFind_append_self (SERIAL_PORT_PREFIX target).data x.data
  simp only [fileNameToSerialPort, stringReplaceEmpty, strlen, String.data_append, hf,
    List.take_zero, List.nil_append, Nat.zero_add, List.drop_left]

/-- C27.  For every string `x`, `serialPortToFileName(serialPortToFileName(x))` is
`serialPortToFileName(x)`, on both targets: a name in which the platform prefix occurs is
returned as it is, and the result for any other name starts with the prefix. -/
theorem serialPortToFileName_idempotent (target : Platform) (x : String) :
    serialPortToFileName target (serialPortToFileName target x)
      = serialPortToFileName target x := by
  cases h : stringFind x.data (SERIAL_PORT_PREFIX target).data with
  | some position =>
    rw [serialPortToFileName_of_found target x position h,
      serialPortToFileName_of_found target x position h]
  | none =>
    rw [serialPortToFileName_of_absent target x h]
    exact serialPortToFileName_of_found target _ 0 (stringFind_prefixed target x)

/-- C28.  For every name `x` in which the platform prefix does not occur, on both
targets: `serialPortToFileName(x)` is the prefix followed by `x`;
`fileNameToSerialPort(serialPortToFileName(x))` is `x`; `fileNameToSerialPort(x)` is `x`;
and `serialPortToFileName(prefix + x)` is `prefix + x`. -/
theorem name_to_path_and_back (target : Platform) (x : String)
    (h : stringFind x.data (SERIAL_PORT_PREFIX target).data = none) :
    serialPortToFileName target x = SERIAL_PORT_PREFIX target ++ x ∧
    fileNameToSerialPort target (serialPortToFileName target x) = x ∧
    fileNameToSerialPort target x = x ∧
    serialPortToFileName target (SERIAL_PORT_PREFIX target ++ x)
      = SERIAL_PORT_PREFIX target ++ x := by
  refine ⟨serialPortToFileName_of_absent target x h, ?_,
    fileNameToSerialPort_of_absent target x h,
    serialPortToFileName_of_found target _ 0 (stringFind_prefixed target x)⟩
  rw [serialPortToFileName_of_absent target x h]
  exact fileNameToSerialPort_prefixed target x

/-- Instances of C28: the names of the tests, "ttyUSB0" on the POSIX target and "COM1" on
the Windows target. -/
theorem name_to_path_and_back_witness :
    (serialPortToFileName Platform.linux "ttyUSB0" = "/dev/ttyUSB0" ∧
      fileNameToSerialPort Platform.linux "/dev/ttyUSB0" = "ttyUSB0") ∧
    (serialPortToFileName Platform.linux "ttyUSB0"
        = SERIAL_PORT_PREFIX Platform.linux ++ "ttyUSB0" ∧
      fileNameToSerialPort Platform.linux (serialPortToFileName Platform.linux "ttyUSB0")
        = "ttyUSB0" ∧
      fileNameToSerialPort Platform.linux "ttyUSB0" = "ttyUSB0" ∧
      serialPortToFileName Platform.linux (SERIAL_PORT_PREFIX Platform.linux ++ "ttyUSB0")
        = SERIAL_PORT_PREFIX Platform.linux ++ "ttyUSB0") ∧
    (serialPortToFileName Platform.windows "COM1"
        = SERIAL_PORT_PREFIX Platform.windows ++ "COM1" ∧
      fileNameToSerialPort Platform.windows (serialPortToFileName Platform.windows "COM1")
        = "COM1" ∧
      fileNameToSerialPort Platform.windows "COM1" = "COM1" ∧
      serialPortToFileName Platform.windows (SERIAL_PORT_PREFIX Platform.windows ++ "COM1")
        = SERIAL_PORT_PREFIX Platform.windows ++ "COM1") :=
  ⟨by decide, name_to_path_and_back Platform.linux "ttyUSB0" (by decide),
    name_to_path_and_back Platform.windows "COM1" (by decide)⟩

end Enumerator

/-! ## The list of ports -/

theorem foldl_invariant {σ α : Type} (P : σ → Prop) (f : σ → α → σ)
    (h : ∀ s a, P s → P (f s a)) (xs : List α) (s : σ) (hs : P s) : P (xs.foldl f s) := by
  induction xs generalizing s with
  | nil => exact hs
  | cons a as ih => exact ih _ (h s a hs)

theorem foldl_last {σ α : Type} (P : σ → Prop) (f : σ → α → σ) (h : ∀ s a, P (f s a))
    (xs : List α) (s : σ) (hxs : xs ≠ []) : P (xs.foldl f s) := by
  induction xs generalizing s with
  | nil => exact absurd rfl hxs
  | cons a as ih =>
    cases as with
    | nil => exact h s a
    | cons b bs => exact ih (f s a) (by simp)

namespace Linux

theorem probe_finds (o : Oracle) (state : Bool × List String × Trace) (serialPort : String)
    (hopen : ∀ t path flags,
      (o (t ++ [NativeCall.open path flags])).ret ≠ INVALID_FILE_DESCRIPTOR)
    (hquery : ∀ t fd,
      (o (t ++ [NativeCall.ioctl fd TIOCGSERIAL])).ret ≠ INVALID_FILE_DESCRIPTOR) :
    (Enumerator.probe o state serialPort).1 = true := by
  unfold Enumerator.probe
  simp only [bne_iff_ne, ne_eq, hopen, hquery, not_false_eq_true, if_true]

theorem updateSerialPortList_all_ports (o : Oracle) (list : List String) (tr : Trace)
    (hopen : ∀ t path flags,
      (o (t ++ [NativeCall.open path flags])).ret ≠ INVALID_FILE_DESCRIPTOR)
    (hquery : ∀ t fd,
      (o (t ++ [NativeCall.ioctl fd TIOCGSERIAL])).ret ≠ INVALID_FILE_DESCRIPTOR) :
    (Enumerator.updateSerialPortList o list tr).1 = true := by
  unfold Enumerator.updateSerialPortList
  apply foldl_last (fun s : Bool × List String × Trace => s.1 = true)
  · intro s stem
    apply foldl_last (fun s : Bool × List String × Trace => s.1 = true)
    · intro s' index
      exact probe_finds o s' _ hopen hquery
    · decide
  · decide

theorem probe_grows (o : Oracle) (list : List String) (state : Bool × List String × Trace)
    (serialPort : String)
    (h : ∃ found, state.2.1 = list ++ found ∧ (state.1 = true ↔ found ≠ [])) :
    ∃ found, (Enumerator.probe o state serialPort).2.1 = list ++ found ∧
      ((Enumerator.probe o state serialPort).1 = true ↔ found ≠ []) := by
  obtain ⟨found, hl, hr⟩ := h
  unfold Enumerator.probe
  simp only
  split
  · split
    · exact ⟨found ++ [serialPort], by simp [hl], by simp⟩
    · exact ⟨found, hl, hr⟩
  · exact ⟨found, hl, hr⟩

theorem probe_fails (o : Oracle) (list : List String) (state : Bool × List String × Trace)
    (serialPort : String)
    (hdead : ∀ t path flags,
      (o (t ++ [NativeCall.open path flags])).ret = INVALID_FILE_DESCRIPTOR)
    (h : state.1 = false ∧ state.2.1 = list) :
    (Enumerator.probe o state serialPort).1 = false ∧
      (Enumerator.probe o state serialPort).2.1 = list := by
  unfold Enumerator.probe
  simp [hdead, h.1, h.2]

theorem updateSerialPortList_grows (o : Oracle) (list : List String) (tr : Trace) :
    ∃ found, (Enumerator.updateSerialPortList o list tr).2.1 = list ++ found ∧
      ((Enumerator.updateSerialPortList o list tr).1 = true ↔ found ≠ []) := by
  unfold Enumerator.updateSerialPortList
  apply foldl_invariant
    (fun s : Bool × List String × Trace =>
      ∃ found, s.2.1 = list ++ found ∧ (s.1 = true ↔ found ≠ []))
  · intro s stem hs
    apply foldl_invariant
      (fun s : Bool × List String × Trace =>
        ∃ found, s.2.1 = list ++ found ∧ (s.1 = true ↔ found ≠ []))
    · intro s' index hs'
      exact probe_grows o list s' _ hs'
    · exact hs
  · exact ⟨[], by simp, by simp⟩

theorem updateSerialPortList_no_port (o : Oracle) (list : List String) (tr : Trace)
    (hdead : ∀ t path flags,
      (o (t ++ [NativeCall.open path flags])).ret = INVALID_FILE_DESCRIPTOR) :
    (Enumerator.updateSerialPortList o list tr).1 = false ∧
      (Enumerator.updateSerialPortList o list tr).2.1 = list := by
  unfold Enumerator.updateSerialPortList
  apply foldl_invariant
    (fun s : Bool × List String × Trace => s.1 = false ∧ s.2.1 = list)
  · intro s stem hs
    apply foldl_invariant
      (fun s : Bool × List String × Trace => s.1 = false ∧ s.2.1 = list)
    · intro s' index hs'
      exact probe_fails o list s' _ hdead hs'
    · exact hs
  · exact ⟨rfl, rfl⟩

theorem deadDevice_open (t : Trace) (path : String) (flags : Nat) :
    (deadDevice (t ++ [NativeCall.open path flags])).ret = INVALID_FILE_DESCRIPTOR := by
  simp [deadDevice, scripted, INVALID_FILE_DESCRIPTOR]

end Linux

namespace Windows

theorem win_updateSerialPortList_all_ports (o : Oracle) (list : List String) (tr : Trace)
    (hopen : ∀ t path flags,
      (o (t ++ [NativeCall.CreateFile path flags])).ret ≠ INVALID_FILE_DESCRIPTOR) :
    (Enumerator.updateSerialPortList o list tr).1 = true := by
  unfold Enumerator.updateSerialPortList
  apply foldl_last (fun s : Bool × List String × Trace => s.1 = true)
  · intro s index
    unfold Enumerator.probe
    simp [hopen]
  · decide

theorem win_probe_grows (o : Oracle) (list : List String)
    (state : Bool × List String × Trace) (serialPort : String)
    (h : ∃ found, state.2.1 = list ++ found ∧ (state.1 = true ↔ found ≠ [])) :
    ∃ found, (Enumerator.probe o state serialPort).2.1 = list ++ found ∧
      ((Enumerator.probe o state serialPort).1 = true ↔ found ≠ []) := by
  obtain ⟨found, hl, hr⟩ := h
  unfold Enumerator.probe
  simp only
  split
  · exact ⟨found ++ [serialPort], by simp [hl], by simp⟩
  · exact ⟨found, hl, hr⟩

theorem win_probe_fails (o : Oracle) (list : List String)
    (state : Bool × List String × Trace) (serialPort : String)
    (hdead : ∀ t path flags,
      (o (t ++ [NativeCall.CreateFile path flags])).ret = INVALID_FILE_DESCRIPTOR)
    (h : state.1 = false ∧ state.2.1 = list) :
    (Enumerator.probe o state serialPort).1 = false ∧
      (Enumerator.probe o state serialPort).2.1 = list := by
  unfold Enumerator.probe
  simp [hdead, h.1, h.2]

theorem win_updateSerialPortList_grows (o : Oracle) (list : List String) (tr : Trace) :
    ∃ found, (Enumerator.updateSerialPortList o list tr).2.1 = list ++ found ∧
      ((Enumerator.updateSerialPortList o list tr).1 = true ↔ found ≠ []) := by
  unfold Enumerator.updateSerialPortList
  apply foldl_invariant
    (fun s : Bool × List String × Trace =>
      ∃ found, s.2.1 = list ++ found ∧ (s.1 = true ↔ found ≠ []))
  · intro s index hs
    exact win_probe_grows o list s _ hs
  · exact ⟨[], by simp, by simp⟩

theorem win_updateSerialPortList_no_port (o : Oracle) (list : List String) (tr : Trace)
    (hdead : ∀ t path flags,
      (o (t ++ [NativeCall.CreateFile path flags])).ret = INVALID_FILE_DESCRIPTOR) :
    (Enumerator.updateSerialPortList o list tr).1 = false ∧
      (Enumerator.updateSerialPortList o list tr).2.1 = list := by
  unfold Enumerator.updateSerialPortList
  apply foldl_invariant
    (fun s : Bool × List String × Trace => s.1 = false ∧ s.2.1 = list)
  · intro s index hs
    exact win_probe_fails o list s _ hdead hs
  · exact ⟨rfl, rfl⟩

theorem win_deadDevice_open (t : Trace) (path : String) (flags : Nat) :
    (deadDevice (t ++ [NativeCall.CreateFile path flags])).ret
      = INVALID_FILE_DESCRIPTOR := by
  simp [deadDevice]

end Windows

theorem foldl_join_map {σ α β : Type} (f : α → List β) (g : σ → β → σ) (xs : List α)
    (s : σ) : ((xs.map f).flatten).foldl g s = xs.foldl (fun s x => (f x).foldl g s) s := by
  induction xs generalizing s with
  | nil => rfl
  | cons x xs ih => simp [List.foldl_append, ih]

namespace Linux

/-- One step of the loop: the result turns true and the name is appended exactly when the
candidate is present. -/
theorem probe_eq (o : Oracle) (state : Bool × List String × Trace) (serialPort : String) :
    Enumerator.probe o state serialPort =
      (state.1 || Enumerator.present o state.2.2 serialPort,
       state.2.1 ++ (if Enumerator.present o state.2.2 serialPort then [serialPort] else []),
       Enumerator.historyAfter o state.2.2 serialPort) := by
  unfold Enumerator.probe Enumerator.present Enumerator.historyAfter Enumerator.probe
  simp only
  split
  · split
    · simp_all
    · simp_all
  · simp_all

/-- The loop over a list of candidates reports what the discovery reports. -/
theorem foldl_probe_eq (o : Oracle) (cs : List String) :
    ∀ state : Bool × List String × Trace,
      ((cs.foldl (Enumerator.probe o) state).1 =
        (state.1 || !(Enumerator.discovered o state.2.2 cs).isEmpty)) ∧
      (cs.foldl (Enumerator.probe o) state).2.1 =
        state.2.1 ++ Enumerator.discovered o state.2.2 cs := by
  induction cs with
  | nil => intro state; simp [Enumerator.discovered]
  | cons c cs ih =>
    intro state
    simp only [List.foldl_cons]
    obtain ⟨h1, h2⟩ := ih (Enumerator.probe o state c)
    rw [h1, h2, probe_eq]
    simp only [Enumerator.discovered]
    cases hp : Enumerator.present o state.2.2 c <;> simp

theorem updateSerialPortList_eq_fold (o : Oracle) (list : List String) (tr : Trace) :
    Enumerator.updateSerialPortList o list tr =
      Enumerator.candidates.foldl (Enumerator.probe o) (false, list, tr) := by
  unfold Enumerator.updateSerialPortList Enumerator.candidates
  rw [foldl_join_map]
  simp only [List.foldl_map]

theorem discovered_sublist (o : Oracle) (cs : List String) :
    ∀ tr, List.Sublist (Enumerator.discovered o tr cs) cs := by
  induction cs with
  | nil => intro tr; simp [Enumerator.discovered]
  | cons c cs ih =>
    intro tr
    simp only [Enumerator.discovered]
    split
    · exact List.Sublist.cons₂ c (ih _)
    · exact List.Sublist.cons c (ih _)

theorem discovered_stateless (o : Oracle) (fdOf : String → Int) (answer : Int → Int)
    (hopen : ∀ t path flags, (o (t ++ [NativeCall.open path flags])).ret = fdOf path)
    (hquery : ∀ t fd, (o (t ++ [NativeCall.ioctl fd TIOCGSERIAL])).ret = answer fd)
    (cs : List String) :
    ∀ tr, Enumerator.discovered o tr cs = cs.filter (fun serialPort =>
      fdOf (LibSerial.Enumerator.serialPortToFileName Platform.linux serialPort)
          != INVALID_FILE_DESCRIPTOR &&
        answer (fdOf (LibSerial.Enumerator.serialPortToFileName Platform.linux serialPort))
          != INVALID_FILE_DESCRIPTOR) := by
  induction cs with
  | nil => intro tr; simp [Enumerator.discovered]
  | cons c cs ih =>
    intro tr
    simp only [Enumerator.discovered, ih, Enumerator.present, hopen, hquery,
      List.filter_cons]
    split <;> simp

theorem discovered_all (o : Oracle)
    (hopen : ∀ t path flags,
      (o (t ++ [NativeCall.open path flags])).ret ≠ INVALID_FILE_DESCRIPTOR)
    (hquery : ∀ t fd,
      (o (t ++ [NativeCall.ioctl fd TIOCGSERIAL])).ret ≠ INVALID_FILE_DESCRIPTOR)
    (cs : List String) : ∀ tr, Enumerator.discovered o tr cs = cs := by
  induction cs with
  | nil => intro tr; simp [Enumerator.discovered]
  | cons c cs ih =>
    intro tr
    have hp : Enumerator.present o tr c = true := by
      unfold Enumerator.present
      simp only [bne_iff_ne, ne_eq, hopen, hquery, not_false_eq_true, Bool.and_self,
        decide_True, Bool.and_eq_true, and_self]
    simp [Enumerator.discovered, ih, hp]

theorem updateSerialPortList_discovered (o : Oracle) (list : List String) (tr : Trace) :
    (Enumerator.updateSerialPortList o list tr).2.1
        = list ++ Enumerator.discovered o tr Enumerator.candidates ∧
      ((Enumerator.updateSerialPortList o list tr).1 = true ↔
        Enumerator.discovered o tr Enumerator.candidates ≠ []) := by
  rw [updateSerialPortList_eq_fold]
  obtain ⟨h1, h2⟩ := foldl_probe_eq o Enumerator.candidates (false, list, tr)
  refine ⟨h2, ?_⟩
  rw [h1]
  simp [List.isEmpty_iff]

end Linux

namespace Windows

theorem win_probe_eq (o : Oracle) (state : Bool × List String × Trace)
    (serialPort : String) :
    Enumerator.probe o state serialPort =
      (state.1 || Enumerator.present o state.2.2 serialPort,
       state.2.1 ++ (if Enumerator.present o state.2.2 serialPort then [serialPort] else []),
       Enumerator.historyAfter o state.2.2 serialPort) := by
  unfold Enumerator.probe Enumerator.present Enumerator.historyAfter Enumerator.probe
  simp only
  split
  · simp_all
  · simp_all

theorem win_foldl_probe_eq (o : Oracle) (cs : List String) :
    ∀ state : Bool × List String × Trace,
      ((cs.foldl (Enumerator.probe o) state).1 =
        (state.1 || !(Enumerator.discovered o state.2.2 cs).isEmpty)) ∧
      (cs.foldl (Enumerator.probe o) state).2.1 =
        state.2.1 ++ Enumerator.discovered o state.2.2 cs := by
  induction cs with
  | nil => intro state; simp [Enumerator.discovered]
  | cons c cs ih =>
    intro state
    simp only [List.foldl_cons]
    obtain ⟨h1, h2⟩ := ih (Enumerator.probe o state c)
    rw [h1, h2, win_probe_eq]
    simp only [Enumerator.discovered]
    cases hp : Enumerator.present o state.2.2 c <;> simp

theorem win_updateSerialPortList_eq_fold (o : Oracle) (list : List String) (tr : Trace) :
    Enumerator.updateSerialPortList o list tr =
      Enumerator.candidates.foldl (Enumerator.probe o) (false, list, tr) := by
  unfold Enumerator.updateSerialPortList Enumerator.candidates
  simp only [List.foldl_map]

theorem win_discovered_sublist (o : Oracle) (cs : List String) :
    ∀ tr, List.Sublist (Enumerator.discovered o tr cs) cs := by
  induction cs with
  | nil => intro tr; simp [Enumerator.discovered]
  | cons c cs ih =>
    intro tr
    simp only [Enumerator.discovered]
    split
    · exact List.Sublist.cons₂ c (ih _)
    · exact List.Sublist.cons c (ih _)

theorem win_discovered_stateless (o : Oracle) (fdOf : String → Int)
    (hopen : ∀ t path flags, (o (t ++ [NativeCall.CreateFile path flags])).ret = fdOf path)
    (cs : List String) :
    ∀ tr, Enumerator.discovered o tr cs = cs.filter (fun serialPort =>
      fdOf (LibSerial.Enumerator.serialPortToFileName Platform.windows serialPort)
        != INVALID_FILE_DESCRIPTOR) := by
  induction cs with
  | nil => intro tr; simp [Enumerator.discovered]
  | cons c cs ih =>
    intro tr
    simp only [Enumerator.discovered, ih, Enumerator.present, hopen, List.filter_cons]
    split <;> simp

theorem win_discovered_all (o : Oracle)
    (hopen : ∀ t path flags,
      (o (t ++ [NativeCall.CreateFile path flags])).ret ≠ INVALID_FILE_DESCRIPTOR)
    (cs : List String) : ∀ tr, Enumerator.discovered o tr cs = cs := by
  induction cs with
  | nil => intro tr; simp [Enumerator.discovered]
  | cons c cs ih =>
    intro tr
    have hp : Enumerator.present o tr c = true := by
      unfold Enumerator.present
      simp only [bne_iff_ne, ne_eq, hopen, not_false_eq_true]
    simp [Enumerator.discovered, ih, hp]

theorem win_updateSerialPortList_discovered (o : Oracle) (list : List String)
    (tr : Trace) :
    (Enumerator.updateSerialPortList o list tr).2.1
        = list ++ Enumerator.discovered o tr Enumerator.candidates ∧
      ((Enumerator.updateSerialPortList o list tr).1 = true ↔
        Enumerator.discovered o tr Enumerator.candidates ≠ []) := by
  rw [win_updateSerialPortList_eq_fold]
  obtain ⟨h1, h2⟩ := win_foldl_probe_eq o Enumerator.candidates (false, list, tr)
  refine ⟨h2, ?_⟩
  rw [h1]
  simp [List.isEmpty_iff]

end Windows
set_option maxRecDepth 100000 in
theorem candidates_listed :
    Linux.Enumerator.candidates =
      ["ttyUSB0", "ttyUSB1", "ttyUSB2", "ttyUSB3", "ttyUSB4", "ttyUSB5", "ttyUSB6", "ttyUSB7",
       "ttyUSB8", "ttyUSB9", "ttyUSB10", "ttyUSB11", "ttyUSB12", "ttyUSB13", "ttyUSB14",
       "ttyUSB15", "ttyUSB16", "ttyUSB17", "ttyUSB18", "ttyUSB19", "ttyUSB20", "ttyUSB21",
       "ttyUSB22", "ttyUSB23", "ttyUSB24", "ttyUSB25", "ttyUSB26", "ttyUSB27", "ttyUSB28",
       "ttyUSB29", "ttyUSB30", "ttyUSB31", "ttyUSB32", "ttyUSB33", "ttyUSB34", "ttyUSB35",
       "ttyUSB36", "ttyUSB37", "ttyUSB38", "ttyUSB39", "ttyUSB40", "ttyUSB41", "ttyUSB42",
       "ttyUSB43", "ttyUSB44", "ttyUSB45", "ttyUSB46", "ttyUSB47", "ttyUSB48", "ttyUSB49",
       "ttyUSB50", "ttyUSB51", "ttyUSB52", "ttyUSB53", "ttyUSB54", "ttyUSB55", "ttyUSB56",
       "ttyUSB57", "ttyUSB58", "ttyUSB59", "ttyUSB60", "ttyUSB61", "ttyUSB62", "ttyUSB63",
       "ttyACM0", "ttyACM1", "ttyACM2", "ttyACM3", "ttyACM4", "ttyACM5", "ttyACM6", "ttyACM7",
       "ttyACM8", "ttyACM9", "ttyACM10", "ttyACM11", "ttyACM12", "ttyACM13", "ttyACM14",
       "ttyACM15", "ttyACM16", "ttyACM17", "ttyACM18", "ttyACM19", "ttyACM20", "ttyACM21",
       "ttyACM22", "ttyACM23", "ttyACM24", "ttyACM25", "ttyACM26", "ttyACM27", "ttyACM28",
       "ttyACM29", "ttyACM30", "ttyACM31", "ttyACM32", "ttyACM33", "ttyACM34", "ttyACM35",
       "ttyACM36", "ttyACM37", "ttyACM38", "ttyACM39", "ttyACM40", "ttyACM41", "ttyACM42",
       "ttyACM43", "ttyACM44", "ttyACM45", "ttyACM46", "ttyACM47", "ttyACM48", "ttyACM49",
       "ttyACM50", "ttyACM51", "ttyACM52", "ttyACM53", "ttyACM54", "ttyACM55", "ttyACM56",
       "ttyACM57", "ttyACM58", "ttyACM59", "ttyACM60", "ttyACM61", "ttyACM62", "ttyACM63",
       "ttyS0", "ttyS1", "ttyS2", "ttyS3", "ttyS4", "ttyS5", "ttyS6", "ttyS7", "ttyS8",
       "ttyS9", "ttyS10", "ttyS11", "ttyS12", "ttyS13", "ttyS14", "ttyS15", "ttyS16", "ttyS17",
       "ttyS18", "ttyS19", "ttyS20", "ttyS21", "ttyS22", "ttyS23", "ttyS24", "ttyS25",
       "ttyS26", "ttyS27", "ttyS28", "ttyS29", "ttyS30", "ttyS31", "ttyS32", "ttyS33",
       "ttyS34", "ttyS35", "ttyS36", "ttyS37", "ttyS38", "ttyS39", "ttyS40", "ttyS41",
       "ttyS42", "ttyS43", "ttyS44", "ttyS45", "ttyS46", "ttyS47", "ttyS48", "ttyS49",
       "ttyS50", "ttyS51", "ttyS52", "ttyS53", "ttyS54", "ttyS55", "ttyS56", "ttyS57",
       "ttyS58", "ttyS59", "ttyS60", "ttyS61", "ttyS62", "ttyS63"] ∧
    Windows.Enumerator.candidates =
      ["COM1", "COM2", "COM3", "COM4", "COM5", "COM6", "COM7", "COM8", "COM9", "COM10",
       "COM11", "COM12", "COM13", "COM14", "COM15", "COM16", "COM17", "COM18", "COM19",
       "COM20", "COM21", "COM22", "COM23", "COM24", "COM25", "COM26", "COM27", "COM28",
       "COM29", "COM30", "COM31", "COM32", "COM33", "COM34", "COM35", "COM36", "COM37",
       "COM38", "COM39", "COM40", "COM41", "COM42", "COM43", "COM44", "COM45", "COM46",
       "COM47", "COM48", "COM49", "COM50", "COM51", "COM52", "COM53", "COM54", "COM55",
       "COM56", "COM57", "COM58", "COM59", "COM60", "COM61", "COM62", "COM63"] := by
  constructor <;> decide

theorem twoPorts_open (t : Linux.Trace) (path : String) (flags : Nat) :
    (Linux.twoPorts (t ++ [Linux.NativeCall.open path flags])).ret =
      (if path == "/dev/ttyUSB1" || path == "/dev/ttyS0" then 3
       else if path == "/dev/ttyACM0" then 4 else -1) := by
  have hlast : ∀ c, (t ++ [c]).getLast? = some c := by intro c; simp
  unfold Linux.twoPorts
  simp only [hlast]
  split_ifs <;> rfl

theorem twoPorts_query (t : Linux.Trace) (fd : Int) :
    (Linux.twoPorts (t ++ [Linux.NativeCall.ioctl fd Linux.TIOCGSERIAL])).ret =
      (if fd == 3 then 0 else -1) := by
  have hlast : ∀ c, (t ++ [c]).getLast? = some c := by intro c; simp
  unfold Linux.twoPorts
  simp only [hlast]
  split_ifs <;> rfl

theorem win_twoPorts_open (t : Windows.Trace) (path : String) (flags : Nat) :
    (Windows.twoPorts (t ++ [Windows.NativeCall.CreateFile path flags])).ret =
      (if path == Windows.SERIAL_PORT_PREFIX ++ "COM3" ||
          path == Windows.SERIAL_PORT_PREFIX ++ "COM12" then 7
       else Windows.INVALID_FILE_DESCRIPTOR) := by
  have hlast : ∀ c, (t ++ [c]).getLast? = some c := by intro c; simp
  unfold Windows.twoPorts
  simp only [hlast]
  split_ifs <;> rfl

/-- On a system without any port `updateSerialPortList` returns false (against C29):
where every native open fails, on the POSIX and on the Windows target, the result is
false; the caller's list is as it was. -/
theorem updateSerialPortList_false_without_ports :
    (Linux.Enumerator.updateSerialPortList Linux.deadDevice ["ttyUSB7"] []).1 = false ∧
    (Linux.Enumerator.updateSerialPortList Linux.deadDevice ["ttyUSB7"] []).2.1
      = ["ttyUSB7"] ∧
    (Windows.Enumerator.updateSerialPortList Windows.deadDevice ["COM7"] []).1 = false ∧
    (Windows.Enumerator.updateSerialPortList Windows.deadDevice ["COM7"] []).2.1
      = ["COM7"] :=
  ⟨(Linux.updateSerialPortList_no_port _ _ _ Linux.deadDevice_open).1,
   (Linux.updateSerialPortList_no_port _ _ _ Linux.deadDevice_open).2,
   (Windows.win_updateSerialPortList_no_port _ _ _ Windows.win_deadDevice_open).1,
   (Windows.win_updateSerialPortList_no_port _ _ _ Windows.win_deadDevice_open).2⟩

/-- C29, amended.  On both targets `updateSerialPortList` probes the candidate names in
order (`ttyUSB0` to `ttyUSB63`, `ttyACM0` to `ttyACM63`, `ttyS0` to `ttyS63` on the POSIX
target, `COM1` to `COM63` on Windows) and appends to the caller's list, in that order,
exactly the names of the candidates that are present when they are probed: those whose
native open succeeds and, on the POSIX target, whose `TIOCGSERIAL` query then succeeds.
It returns true exactly when it appended at least one name.  The appended names are a
sublist of the candidates; on a system whose answers do not depend on the calls made
before, they are the candidates filtered by the answer of the open (and of the query).
When none of the probed candidates can be opened it returns false and leaves the list
unchanged; when every candidate opens (and answers the serial query of the POSIX target)
it returns true and appends every candidate. -/
theorem updateSerialPortList_appends_present_candidates (oL : Linux.Oracle)
    (trL : Linux.Trace) (oW : Windows.Oracle) (trW : Windows.Trace) (list : List String) :
    ((Linux.Enumerator.updateSerialPortList oL list trL).2.1
        = list ++ Linux.Enumerator.discovered oL trL Linux.Enumerator.candidates ∧
      ((Linux.Enumerator.updateSerialPortList oL list trL).1 = true ↔
        Linux.Enumerator.discovered oL trL Linux.Enumerator.candidates ≠ []) ∧
      List.Sublist (Linux.Enumerator.discovered oL trL Linux.Enumerator.candidates)
        Linux.Enumerator.candidates ∧
      (∀ (fdOf : String → Int) (answer : Int → Int),
        (∀ t path flags, (oL (t ++ [Linux.NativeCall.open path flags])).ret = fdOf path) →
        (∀ t fd, (oL (t ++ [Linux.NativeCall.ioctl fd Linux.TIOCGSERIAL])).ret
          = answer fd) →
        Linux.Enumerator.discovered oL trL Linux.Enumerator.candidates =
          Linux.Enumerator.candidates.filter (fun serialPort =>
            fdOf (Enumerator.serialPortToFileName Platform.linux serialPort)
                != Linux.INVALID_FILE_DESCRIPTOR &&
              answer (fdOf (Enumerator.serialPortToFileName Platform.linux serialPort))
                != Linux.INVALID_FILE_DESCRIPTOR))) ∧
    ((Windows.Enumerator.updateSerialPortList oW list trW).2.1
        = list ++ Windows.Enumerator.discovered oW trW Windows.Enumerator.candidates ∧
      ((Windows.Enumerator.updateSerialPortList oW list trW).1 = true ↔
        Windows.Enumerator.discovered oW trW Windows.Enumerator.candidates ≠ []) ∧
      List.Sublist (Windows.Enumerator.discovered oW trW Windows.Enumerator.candidates)
        Windows.Enumerator.candidates ∧
      (∀ (fdOf : String → Int),
        (∀ t path flags, (oW (t ++ [Windows.NativeCall.CreateFile path flags])).ret
          = fdOf path) →
        Windows.Enumerator.discovered oW trW Windows.Enumerator.candidates =
          Windows.Enumerator.candidates.filter (fun serialPort =>
            fdOf (Enumerator.serialPortToFileName Platform.windows serialPort)
              != Windows.INVALID_FILE_DESCRIPTOR))) ∧
    (Linux.Enumerator.candidates =
      ["ttyUSB0", "ttyUSB1", "ttyUSB2", "ttyUSB3", "ttyUSB4", "ttyUSB5", "ttyUSB6", "ttyUSB7",
       "ttyUSB8", "ttyUSB9", "ttyUSB10", "ttyUSB11", "ttyUSB12", "ttyUSB13", "ttyUSB14",
       "ttyUSB15", "ttyUSB16", "ttyUSB17", "ttyUSB18", "ttyUSB19", "ttyUSB20", "ttyUSB21",
       "ttyUSB22", "ttyUSB23", "ttyUSB24", "ttyUSB25", "ttyUSB26", "ttyUSB27", "ttyUSB28",
       "ttyUSB29", "ttyUSB30", "ttyUSB31", "ttyUSB32", "ttyUSB33", "ttyUSB34", "ttyUSB35",
       "ttyUSB36", "ttyUSB37", "ttyUSB38", "ttyUSB39", "ttyUSB40", "ttyUSB41", "ttyUSB42",
       "ttyUSB43", "ttyUSB44", "ttyUSB45", "ttyUSB46", "ttyUSB47", "ttyUSB48", "ttyUSB49",
       "ttyUSB50", "ttyUSB51", "ttyUSB52", "ttyUSB53", "ttyUSB54", "ttyUSB55", "ttyUSB56",
       "ttyUSB57", "ttyUSB58", "ttyUSB59", "ttyUSB60", "ttyUSB61", "ttyUSB62", "ttyUSB63",
       "ttyACM0", "ttyACM1", "ttyACM2", "ttyACM3", "ttyACM4", "ttyACM5", "ttyACM6", "ttyACM7",
       "ttyACM8", "ttyACM9", "ttyACM10", "ttyACM11", "ttyACM12", "ttyACM13", "ttyACM14",
       "ttyACM15", "ttyACM16", "ttyACM17", "ttyACM18", "ttyACM19", "ttyACM20", "ttyACM21",
       "ttyACM22", "ttyACM23", "ttyACM24", "ttyACM25", "ttyACM26", "ttyACM27", "ttyACM28",
       "ttyACM29", "ttyACM30", "ttyACM31", "ttyACM32", "ttyACM33", "ttyACM34", "ttyACM35",
       "ttyACM36", "ttyACM37", "ttyACM38", "ttyACM39", "ttyACM40", "ttyACM41", "ttyACM42",
       "ttyACM43", "ttyACM44", "ttyACM45", "ttyACM46", "ttyACM47", "ttyACM48", "ttyACM49",
       "ttyACM50", "ttyACM51", "ttyACM52", "ttyACM53", "ttyACM54", "ttyACM55", "ttyACM56",
       "ttyACM57", "ttyACM58", "ttyACM59", "ttyACM60", "ttyACM61", "ttyACM62", "ttyACM63",
       "ttyS0", "ttyS1", "ttyS2", "ttyS3", "ttyS4", "ttyS5", "ttyS6", "ttyS7", "ttyS8",
       "ttyS9", "ttyS10", "ttyS11", "ttyS12", "ttyS13", "ttyS14", "ttyS15", "ttyS16", "ttyS17",
       "ttyS18", "ttyS19", "ttyS20", "ttyS21", "ttyS22", "ttyS23", "ttyS24", "ttyS25",
       "ttyS26", "ttyS27", "ttyS28", "ttyS29", "ttyS30", "ttyS31", "ttyS32", "ttyS33",
       "ttyS34", "ttyS35", "ttyS36", "ttyS37", "ttyS38", "ttyS39", "ttyS40", "ttyS41",
       "ttyS42", "ttyS43", "ttyS44", "ttyS45", "ttyS46", "ttyS47", "ttyS48", "ttyS49",
       "ttyS50", "ttyS51", "ttyS52", "ttyS53", "ttyS54", "ttyS55", "ttyS56", "ttyS57",
       "ttyS58", "ttyS59", "ttyS60", "ttyS61", "ttyS62", "ttyS63"] ∧
    Windows.Enumerator.candidates =
      ["COM1", "COM2", "COM3", "COM4", "COM5", "COM6", "COM7", "COM8", "COM9", "COM10",
       "COM11", "COM12", "COM13", "COM14", "COM15", "COM16", "COM17", "COM18", "COM19",
       "COM20", "COM21", "COM22", "COM23", "COM24", "COM25", "COM26", "COM27", "COM28",
       "COM29", "COM30", "COM31", "COM32", "COM33", "COM34", "COM35", "COM36", "COM37",
       "COM38", "COM39", "COM40", "COM41", "COM42", "COM43", "COM44", "COM45", "COM46",
       "COM47", "COM48", "COM49", "COM50", "COM51", "COM52", "COM53", "COM54", "COM55",
       "COM56", "COM57", "COM58", "COM59", "COM60", "COM61", "COM62", "COM63"]) ∧
    ((∀ t path flags, (oL (t ++ [Linux.NativeCall.open path flags])).ret
        = Linux.INVALID_FILE_DESCRIPTOR) →
      (Linux.Enumerator.updateSerialPortList oL list trL).1 = false ∧
        (Linux.Enumerator.updateSerialPortList oL list trL).2.1 = list) ∧
    ((∀ t path flags, (oW (t ++ [Windows.NativeCall.CreateFile path flags])).ret
        = Windows.INVALID_FILE_DESCRIPTOR) →
      (Windows.Enumerator.updateSerialPortList oW list trW).1 = false ∧
        (Windows.Enumerator.updateSerialPortList oW list trW).2.1 = list) ∧
    ((∀ t path flags, (oL (t ++ [Linux.NativeCall.open path flags])).ret
        ≠ Linux.INVALID_FILE_DESCRIPTOR) →
      (∀ t fd, (oL (t ++ [Linux.NativeCall.ioctl fd Linux.TIOCGSERIAL])).ret
        ≠ Linux.INVALID_FILE_DESCRIPTOR) →
      (Linux.Enumerator.updateSerialPortList oL list trL).1 = true ∧
        (Linux.Enumerator.updateSerialPortList oL list trL).2.1
          = list ++ Linux.Enumerator.candidates) ∧
    ((∀ t path flags, (oW (t ++ [Windows.NativeCall.CreateFile path flags])).ret
        ≠ Windows.INVALID_FILE_DESCRIPTOR) →
      (Windows.Enumerator.updateSerialPortList oW list trW).1 = true ∧
        (Windows.Enumerator.updateSerialPortList oW list trW).2.1
          = list ++ Windows.Enumerator.candidates) :=
  ⟨⟨(Linux.updateSerialPortList_discovered oL list trL).1,
    (Linux.updateSerialPortList_discovered oL list trL).2,
    Linux.discovered_sublist oL _ trL,
    fun fdOf answer hopen hquery =>
      Linux.discovered_stateless oL fdOf answer hopen hquery _ trL⟩,
   ⟨(Windows.win_updateSerialPortList_discovered oW list trW).1,
    (Windows.win_updateSerialPortList_discovered oW list trW).2,
    Windows.win_discovered_sublist oW _ trW,
    fun fdOf hopen => Windows.win_discovered_stateless oW fdOf hopen _ trW⟩,
   candidates_listed,
   Linux.updateSerialPortList_no_port oL list trL,
   Windows.win_updateSerialPortList_no_port oW list trW,
   fun hopen hquery =>
     ⟨Linux.updateSerialPortList_all_ports oL list trL hopen hquery, by
       rw [(Linux.updateSerialPortList_discovered oL list trL).1,
         Linux.discovered_all oL hopen hquery]⟩,
   fun hopen =>
     ⟨Windows.win_updateSerialPortList_all_ports oW list trW hopen, by
       rw [(Windows.win_updateSerialPortList_discovered oW list trW).1,
         Windows.win_discovered_all oW hopen]⟩⟩

theorem updateSerialPortList_appends_present_candidates_witness :
    (Linux.Enumerator.updateSerialPortList Linux.twoPorts ["ttyUSB7"] []).1 = true ∧
    (Linux.Enumerator.updateSerialPortList Linux.twoPorts ["ttyUSB7"] []).2.1
      = ["ttyUSB7", "ttyUSB1", "ttyS0"] ∧
    (Windows.Enumerator.updateSerialPortList Windows.twoPorts ["COM7"] []).1 = true ∧
    (Windows.Enumerator.updateSerialPortList Windows.twoPorts ["COM7"] []).2.1
      = ["COM7", "COM3", "COM12"] := by
  obtain ⟨⟨hl1, hl2, -, hl3⟩, -, ⟨hcl, hcw⟩, -⟩ :=
    updateSerialPortList_appends_present_candidates Linux.twoPorts [] Windows.twoPorts []
      ["ttyUSB7"]
  obtain ⟨-, ⟨hw1, hw2, -, hw3⟩, -⟩ :=
    updateSerialPortList_appends_present_candidates Linux.twoPorts [] Windows.twoPorts []
      ["COM7"]
  have hl := hl3 _ _ twoPorts_open twoPorts_query
  have hw := hw3 _ win_twoPorts_open
  rw [hcl] at hl
  rw [hcw] at hw
  have hl' : Linux.Enumerator.discovered Linux.twoPorts [] Linux.Enumerator.candidates
      = ["ttyUSB1", "ttyS0"] := hl.trans (by decide)
  have hw' : Windows.Enumerator.discovered Windows.twoPorts [] Windows.Enumerator.candidates
      = ["COM3", "COM12"] := hw.trans (by decide)
  rw [hl'] at hl1 hl2
  rw [hw'] at hw1 hw2
  exact ⟨hl2.mpr (by simp), hl1, hw2.mpr (by simp), hw1⟩

/-! ## Flag words: keep some bits, set some bits -/

/-- Two keep masks that differ only on bits that are set anyway give the same word. -/
theorem keep_absorb (x k v k' v' : Nat) (hv : v = v') (h : k ||| v = k' ||| v) :
    (x &&& k) ||| v = (x &&& k') ||| v' := by
  subst hv
  apply Nat.eq_of_testBit_eq
  intro i
  have hi := congrArg (fun n => n.testBit i) h
  simp only [Nat.testBit_or, Nat.testBit_and] at hi ⊢
  cases hx : x.testBit i <;> cases hk : k.testBit i <;> cases hk' : k'.testBit i <;>
    cases hv : v.testBit i <;> simp_all

/-- Testing a written flag: the kept bits do not reach it. -/
theorem keep_set_written (x k v m c : Nat) (hk : k &&& m = 0) (hv : v &&& m = c) :
    ((x &&& k) ||| v) &&& m = c := by
  rw [Nat.and_distrib_right, Nat.and_assoc, hk, hv]; simp

/-- Testing a flag that is not written: the word keeps what it held. -/
theorem keep_set_kept (x k v m : Nat) (hk : k &&& m = m) (hv : v &&& m = 0) :
    ((x &&& k) ||| v) &&& m = x &&& m := by
  rw [Nat.and_distrib_right, Nat.and_assoc, hk, hv]; simp

/-- Keeping and setting twice is keeping and setting once. -/
theorem keep_set_idem (x k v : Nat) : (((x &&& k) ||| v) &&& k) ||| v = (x &&& k) ||| v := by
  apply Nat.eq_of_testBit_eq
  intro i
  simp only [Nat.testBit_or, Nat.testBit_and]
  cases x.testBit i <;> cases k.testBit i <;> cases v.testBit i <;> rfl

/-- The written bits of a kept-and-set word do not depend on the word. -/
theorem keep_set_independent (x y k v m : Nat) (hk : k &&& m = 0) :
    ((x &&& k) ||| v) &&& m = ((y &&& k) ||| v) &&& m := by
  rw [keep_set_written x k v m (v &&& m) hk rfl, keep_set_written y k v m (v &&& m) hk rfl]

namespace Linux

/-! ## The POSIX translator, part by part -/

/-- The part "Input mode flags" clears the flags it names and leaves `inputFlags` set;
it keeps `IBAUD0`. -/
theorem prepareInputModeFlags_eq (p : SerialPortImpl) (s : Termios) :
    p.prepareInputModeFlags s =
      { s with c_iflag :=
        (s.c_iflag &&& (bitNot writtenInputFlags ||| IBAUD0)) ||| p.inputFlags } := by
  unfold SerialPortImpl.prepareInputModeFlags SerialPortImpl.inputFlags
  rcases hpar : p.parity with _ | _ | _ | _ | _ | n <;>
    rcases hfc : p.flowControl with _ | _ | _ | m <;>
    simp [Parity.PARITY_TYPE_EVEN, Parity.PARITY_TYPE_ODD,
      FlowControl.FLOW_CONTROL_SOFTWARE] <;>
    simp only [Nat.and_distrib_right, Nat.and_assoc, Nat.or_assoc] <;>
    refine keep_absorb _ _ _ _ _ ?_ ?_ <;> decide

theorem prepareOutputModeFlags_eq (s : Termios) :
    SerialPortImpl.prepareOutputModeFlags s =
      { s with c_oflag := s.c_oflag &&& bitNot writtenOutputFlags } := by
  unfold SerialPortImpl.prepareOutputModeFlags
  simp only [Nat.and_assoc]
  refine congrArg (fun w => { s with c_oflag := s.c_oflag &&& w }) ?_
  decide

theorem prepareLocalModeFlags_eq (s : Termios) :
    SerialPortImpl.prepareLocalModeFlags s =
      { s with c_lflag := s.c_lflag &&& bitNot writtenLocalFlags } := by
  unfold SerialPortImpl.prepareLocalModeFlags
  simp only [Nat.and_assoc]
  refine congrArg (fun w => { s with c_lflag := s.c_lflag &&& w }) ?_
  decide

/-- The part "Control mode flags" keeps the speed bits, the character size and the flags
it does not name, and leaves `controlFlags` set. -/
theorem prepareControlModeFlags_eq (p : SerialPortImpl) (s : Termios) :
    p.prepareControlModeFlags s =
      { s with c_cflag :=
        (s.c_cflag &&& (bitNot writtenControlFlags ||| CSIZE ||| CBAUD ||| CBAUDEX)) |||
          p.controlFlags } := by
  unfold SerialPortImpl.prepareControlModeFlags SerialPortImpl.controlFlags
  rcases hpar : p.parity with _ | _ | _ | _ | _ | n <;>
    rcases hfc : p.flowControl with _ | _ | _ | m <;>
    rcases hsb : p.stopBit with _ | _ | _ | k <;>
    simp [Parity.PARITY_TYPE_EVEN, Parity.PARITY_TYPE_ODD, Parity.PARITY_TYPE_MARK,
      Parity.PARITY_TYPE_SPACE, FlowControl.FLOW_CONTROL_HARDWARE, StopBit.STOP_BIT_TWO] <;>
    simp only [Nat.and_distrib_right, Nat.and_assoc, Nat.or_assoc] <;>
    refine keep_absorb _ _ _ _ _ ?_ ?_ <;> decide


theorem prepareSpecialCharacters_eq (p : SerialPortImpl) (s : Termios) :
    p.prepareSpecialCharacters s =
      { s with c_cc := (p.prepareSpecialCharacters s).c_cc } := by
  unfold SerialPortImpl.prepareSpecialCharacters
  rcases hfc : p.flowControl with _ | _ | _ | m <;> simp [FlowControl.FLOW_CONTROL_SOFTWARE]

theorem prepareSpecialCharacters_length (p : SerialPortImpl) (s : Termios) :
    (p.prepareSpecialCharacters s).c_cc.length = s.c_cc.length := by
  unfold SerialPortImpl.prepareSpecialCharacters
  rcases hfc : p.flowControl with _ | _ | _ | m <;> simp [FlowControl.FLOW_CONTROL_SOFTWARE]

theorem prepareSpecialCharacters_written (p : SerialPortImpl) (s : Termios) (i : Nat)
    (hi : i ∈ writtenCharacters) (hlen : i < s.c_cc.length) :
    (p.prepareSpecialCharacters s).c_cc[i]? =
      some (p.specialCharacter i) := by
  unfold SerialPortImpl.prepareSpecialCharacters SerialPortImpl.specialCharacter
  simp only [writtenCharacters, List.mem_cons, List.mem_singleton, List.not_mem_nil,
    or_false] at hi
  rcases hfc : p.flowControl with _ | _ | _ | m <;>
    rcases hi with h | h | h | h | h | h | h | h | h | h | h | h | h | h | h | h | h <;>
    subst h <;>
    simp [FlowControl.FLOW_CONTROL_SOFTWARE, List.getElem?_set, VDISCARD, VEOF, VEOL, VEOL2,
      VERASE, VINTR, VKILL, VLNEXT, VMIN, VQUIT, VREPRINT, VSTART, VSTOP, VSUSP, VSWTC, VTIME,
      VWERASE, _POSIX_VDISABLE] at hlen ⊢ <;>
    first | omega | (intro h0; rw [h0] at hlen; exact absurd hlen (by simp))

theorem prepareSpecialCharacters_kept (p : SerialPortImpl) (s : Termios) (i : Nat)
    (hi : i ∉ writtenCharacters) :
    (p.prepareSpecialCharacters s).c_cc[i]? = s.c_cc[i]? := by
  unfold SerialPortImpl.prepareSpecialCharacters
  simp only [writtenCharacters, List.mem_cons, List.mem_singleton, List.not_mem_nil,
    or_false, not_or, VDISCARD, VEOF, VEOL, VEOL2,
      VERASE, VINTR, VKILL, VLNEXT, VMIN, VQUIT, VREPRINT, VSTART, VSTOP, VSUSP, VSWTC, VTIME,
      VWERASE] at hi
  obtain ⟨h1, h2, h3, h4, h5, h6, h7, h8, h9, h10, h11, h12, h13, h14, h15, h16, h17⟩ := hi
  rcases hfc : p.flowControl with _ | _ | _ | m <;>
    simp [FlowControl.FLOW_CONTROL_SOFTWARE, List.getElem?_set, VDISCARD, VEOF, VEOL, VEOL2,
      VERASE, VINTR, VKILL, VLNEXT, VMIN, VQUIT, VREPRINT, VSTART, VSTOP, VSUSP, VSWTC, VTIME,
      VWERASE, Ne.symm h1, Ne.symm h2, Ne.symm h3, Ne.symm h4, Ne.symm h5, Ne.symm h6,
      Ne.symm h7, Ne.symm h8, Ne.symm h9, Ne.symm h10, Ne.symm h11, Ne.symm h12, Ne.symm h13,
      Ne.symm h14, Ne.symm h15, Ne.symm h16, Ne.symm h17]


end Linux

namespace Linux

/-- The native character size of the POSIX target is one of the four size constants. -/
theorem characterSizeValue_cases (c : CharacterSize) (size : Nat)
    (h : getCharacterSizeValue Platform.linux c = .ok size) :
    (c = CharacterSize.CHARACTER_SIZE_5 ∧ size = CS5) ∨
    (c = CharacterSize.CHARACTER_SIZE_6 ∧ size = CS6) ∨
    (c = CharacterSize.CHARACTER_SIZE_7 ∧ size = CS7) ∨
    (c = CharacterSize.CHARACTER_SIZE_8 ∧ size = CS8) := by
  rcases c with _ | _ | _ | _ | n <;>
    simp [getCharacterSizeValue, CharacterSize.CHARACTER_SIZE_5,
      CharacterSize.CHARACTER_SIZE_6, CharacterSize.CHARACTER_SIZE_7,
      CharacterSize.CHARACTER_SIZE_8] at h ⊢ <;> exact h.symm

/-- The character size mask of a supported size is the native size constant itself. -/
theorem characterSize_within_CSIZE (c : CharacterSize) (size : Nat)
    (h : getCharacterSizeValue Platform.linux c = .ok size) : CSIZE &&& size = size := by
  rcases characterSizeValue_cases c size h with ⟨_, h⟩ | ⟨_, h⟩ | ⟨_, h⟩ | ⟨_, h⟩ <;>
    subst h <;> decide

/-- The native speed of a supported baud rate is one of the speed constants `B50` to
`B4000000`. -/
theorem baudRateValue_in_table (b : BaudRate) (speed : Nat)
    (h : getBaudRateValue Platform.linux b = .ok speed) :
    speed ∈ [B50, B75, B110, B134, B150, B200, B300, B600, B1200, B1800, B2400, B4800,
      B9600, B19200, B38400, B57600, B115200, B230400, B460800, B500000, B576000, B921600,
      B1000000, B1152000, B1500000, B2000000, B2500000, B3000000, B3500000, B4000000] := by
  unfold getBaudRateValue at h
  simp only at h
  split at h
  all_goals
    first
      | (cases h; decide)
      | cases h

/-- On a speed constant of the table `cfsetspeed` stores the constant in both speed fields
and in the speed bits of `c_cflag`, and clears `IBAUD0`. -/
theorem cfsetspeed_in_table (t : Termios) (speed : Nat)
    (h : speed ∈ [B50, B75, B110, B134, B150, B200, B300, B600, B1200, B1800, B2400, B4800,
      B9600, B19200, B38400, B57600, B115200, B230400, B460800, B500000, B576000, B921600,
      B1000000, B1152000, B1500000, B2000000, B2500000, B3000000, B3500000, B4000000]) :
    cfsetspeed t speed =
      { t with
        c_iflag := t.c_iflag &&& bitNot IBAUD0,
        c_cflag := (t.c_cflag &&& bitNot (CBAUD ||| CBAUDEX)) ||| speed,
        c_ispeed := speed, c_ospeed := speed } := by
  have hvalid : ((speed &&& bitNot CBAUD) != 0 && (speed < B57600 || speed > __MAX_BAUD))
      = false := by
    simp only [List.mem_cons, List.mem_singleton, List.not_mem_nil, or_false] at h
    rcases h with h | h | h | h | h | h | h | h | h | h | h | h | h | h | h | h | h | h | h |
      h | h | h | h | h | h | h | h | h | h | h <;> subst h <;> decide
  have hne : (speed == 0) = false := by
    simp only [List.mem_cons, List.mem_singleton, List.not_mem_nil, or_false] at h
    rcases h with h | h | h | h | h | h | h | h | h | h | h | h | h | h | h | h | h | h | h |
      h | h | h | h | h | h | h | h | h | h | h <;> subst h <;> decide
  have hset : cfsetospeed (cfsetispeed t speed) speed =
      { t with
        c_iflag := t.c_iflag &&& bitNot IBAUD0,
        c_cflag := (t.c_cflag &&& bitNot (CBAUD ||| CBAUDEX)) ||| speed,
        c_ispeed := speed, c_ospeed := speed } := by
    simp only [cfsetospeed, cfsetispeed, hvalid, hne, Bool.false_eq_true, if_false]
    congr 1
    apply Nat.eq_of_testBit_eq
    intro i
    simp only [Nat.testBit_or, Nat.testBit_and]
    cases t.c_cflag.testBit i <;> cases (bitNot (CBAUD ||| CBAUDEX)).testBit i <;>
      cases speed.testBit i <;> rfl
  rw [← hset]
  simp only [List.mem_cons, List.mem_singleton, List.not_mem_nil, or_false] at h
  rcases h with h | h | h | h | h | h | h | h | h | h | h | h | h | h | h | h | h | h | h |
    h | h | h | h | h | h | h | h | h | h | h <;> subst h <;>
    simp [cfsetspeed, speeds, cfsetspeedFrom, B0, B50, B75, B110, B134, B150, B200, B300,
      B600, B1200, B1800, B2400, B4800, B9600, B19200, B38400, B57600, B115200, B230400,
      B460800, B500000, B576000, B921600, B1000000, B1152000, B1500000, B2000000, B2500000,
      B3000000, B3500000, B4000000]

/-- The characters the part "Terminal special characters" leaves depend on the characters
of the record only. -/
theorem prepareSpecialCharacters_congr (p : SerialPortImpl) (s t : Termios)
    (h : s.c_cc = t.c_cc) :
    (p.prepareSpecialCharacters s).c_cc = (p.prepareSpecialCharacters t).c_cc := by
  unfold SerialPortImpl.prepareSpecialCharacters
  rcases hfc : p.flowControl with _ | _ | _ | m <;>
    simp [FlowControl.FLOW_CONTROL_SOFTWARE, h]

/-- A speed constant of the table lies within the speed bits. -/
theorem speed_within_CBAUD (speed : Nat)
    (h : speed ∈ [B50, B75, B110, B134, B150, B200, B300, B600, B1200, B1800, B2400, B4800,
      B9600, B19200, B38400, B57600, B115200, B230400, B460800, B500000, B576000, B921600,
      B1000000, B1152000, B1500000, B2000000, B2500000, B3000000, B3500000, B4000000]) :
    speed &&& (CBAUD ||| CBAUDEX) = speed := by
  simp only [List.mem_cons, List.mem_singleton, List.not_mem_nil, or_false] at h
  rcases h with h | h | h | h | h | h | h | h | h | h | h | h | h | h | h | h | h | h | h |
    h | h | h | h | h | h | h | h | h | h | h <;> subst h <;> decide

/-- The translator on a supported configuration: every flag word keeps the bits that are
not written and holds the flags of the configuration, the speed bits of `c_cflag` and the
two speed fields hold the native speed, and the characters are those of the part
"Terminal special characters". -/
theorem preparePortSettings_eq (p : SerialPortImpl) (r : Termios) (speed size : Nat)
    (hb : getBaudRateValue Platform.linux p.baudRate = .ok speed)
    (hc : getCharacterSizeValue Platform.linux p.characterSize = .ok size) :
    p.preparePortSettings r = .ok
      { c_iflag := (r.c_iflag &&& bitNot writtenInputFlags) ||| p.inputFlags,
        c_oflag := r.c_oflag &&& bitNot writtenOutputFlags,
        c_cflag := (r.c_cflag &&& bitNot writtenControlFlags) |||
          (speed ||| (size ||| p.controlFlags)),
        c_lflag := r.c_lflag &&& bitNot writtenLocalFlags,
        c_cc := (p.prepareSpecialCharacters r).c_cc,
        c_ispeed := speed, c_ospeed := speed } := by
  have hsize := characterSize_within_CSIZE _ _ hc
  have hspeed := speed_within_CBAUD _ (baudRateValue_in_table _ _ hb)
  have hinput : ∀ x v : Nat, v &&& bitNot IBAUD0 = v →
      ((x &&& (bitNot writtenInputFlags ||| IBAUD0)) ||| v) &&& bitNot IBAUD0 =
        (x &&& bitNot writtenInputFlags) ||| v := by
    intro x v hv
    have h2 : (bitNot writtenInputFlags ||| IBAUD0) &&& bitNot IBAUD0 =
        bitNot writtenInputFlags := by decide
    rw [Nat.and_distrib_right, Nat.and_assoc, h2, hv]
  have hkeep : ∀ x v : Nat,
      (((((x &&& bitNot (CBAUD ||| CBAUDEX)) ||| speed) &&& bitNot CSIZE) ||| size) &&&
          (bitNot writtenControlFlags ||| CSIZE ||| CBAUD ||| CBAUDEX)) ||| v =
        (x &&& bitNot writtenControlFlags) ||| (speed ||| (size ||| v)) := by
    intro x v
    have h1 : size &&& (bitNot writtenControlFlags ||| CSIZE ||| CBAUD ||| CBAUDEX) = size := by
      rcases characterSizeValue_cases _ _ hc with ⟨_, h⟩ | ⟨_, h⟩ | ⟨_, h⟩ | ⟨_, h⟩ <;>
        subst h <;> decide
    have h2 : bitNot (CBAUD ||| CBAUDEX) &&&
        (bitNot CSIZE &&& (bitNot writtenControlFlags ||| CSIZE ||| CBAUD ||| CBAUDEX)) =
        bitNot writtenControlFlags := by decide
    have h3 : speed &&&
        (bitNot CSIZE &&& (bitNot writtenControlFlags ||| CSIZE ||| CBAUD ||| CBAUDEX)) =
        speed := by
      rw [← hspeed, Nat.and_assoc]
      exact congrArg (speed &&& ·) (by decide)
    rw [Nat.and_distrib_right, Nat.and_distrib_right, Nat.and_distrib_right, Nat.and_assoc,
      Nat.and_assoc, Nat.and_assoc, h1, h2, h3, Nat.or_assoc, Nat.or_assoc]
  have hflags : p.inputFlags &&& bitNot IBAUD0 = p.inputFlags := by
    unfold SerialPortImpl.inputFlags
    rcases hpar : p.parity with _ | _ | _ | _ | _ | n <;>
      rcases hfc : p.flowControl with _ | _ | _ | m <;>
      simp [Parity.PARITY_TYPE_EVEN, Parity.PARITY_TYPE_ODD,
        FlowControl.FLOW_CONTROL_SOFTWARE] <;>
      decide
  unfold SerialPortImpl.preparePortSettings
  simp only [hb, hc, hsize, prepareInputModeFlags_eq, prepareOutputModeFlags_eq,
    prepareControlModeFlags_eq, prepareLocalModeFlags_eq,
    cfsetspeed_in_table _ _ (baudRateValue_in_table _ _ hb)]
  rw [prepareSpecialCharacters_eq]
  simp only [hkeep, hinput _ _ hflags]
  exact congrArg Except.ok (congrArg (fun cc => Termios.mk _ _ _ _ cc _ _)
    (prepareSpecialCharacters_congr p _ _ rfl))

/-- The speed and the size that a returning translation has looked up. -/
theorem values_of_prepare_ok (p : SerialPortImpl) (r r' : Termios)
    (h : p.preparePortSettings r = .ok r') :
    ∃ speed size, getBaudRateValue Platform.linux p.baudRate = .ok speed ∧
      getCharacterSizeValue Platform.linux p.characterSize = .ok size := by
  obtain ⟨hb, hc⟩ := supported_of_prepare_ok p r r' h
  obtain ⟨speed, hb⟩ := baudRateValue_of_supported _ _ hb
  obtain ⟨size, hc⟩ := characterSizeValue_of_supported Platform.linux _ hc
  exact ⟨speed, size, hb, hc⟩

/-- A written flag of `c_iflag` is, after the translator, what the configuration says. -/
theorem input_flag_of_ok (p : SerialPortImpl) (r r' : Termios) (flag : Nat)
    (h : p.preparePortSettings r = .ok r')
    (hk : bitNot writtenInputFlags &&& flag = 0) :
    r'.c_iflag &&& flag = p.inputFlags &&& flag := by
  obtain ⟨speed, size, hb, hc⟩ := values_of_prepare_ok p r r' h
  rw [preparePortSettings_eq p r speed size hb hc] at h
  injection h with h
  subst h
  exact keep_set_written _ _ _ _ _ hk rfl

/-- A written flag of `c_oflag` is cleared after the translator. -/
theorem output_flag_of_ok (p : SerialPortImpl) (r r' : Termios) (flag : Nat)
    (h : p.preparePortSettings r = .ok r')
    (hk : bitNot writtenOutputFlags &&& flag = 0) :
    r'.c_oflag &&& flag = 0 := by
  obtain ⟨speed, size, hb, hc⟩ := values_of_prepare_ok p r r' h
  rw [preparePortSettings_eq p r speed size hb hc] at h
  injection h with h
  subst h
  show (r.c_oflag &&& bitNot writtenOutputFlags) &&& flag = 0
  rw [Nat.and_assoc, hk]; simp

/-- A written flag of `c_lflag` is cleared after the translator. -/
theorem local_flag_of_ok (p : SerialPortImpl) (r r' : Termios) (flag : Nat)
    (h : p.preparePortSettings r = .ok r')
    (hk : bitNot writtenLocalFlags &&& flag = 0) :
    r'.c_lflag &&& flag = 0 := by
  obtain ⟨speed, size, hb, hc⟩ := values_of_prepare_ok p r r' h
  rw [preparePortSettings_eq p r speed size hb hc] at h
  injection h with h
  subst h
  show (r.c_lflag &&& bitNot writtenLocalFlags) &&& flag = 0
  rw [Nat.and_assoc, hk]; simp

/-- A value within a mask has no bit in common with a flag outside the mask. -/
theorem and_eq_zero_of_within (a m f : Nat) (ha : a &&& m = a) (hm : m &&& f = 0) :
    a &&& f = 0 := by
  rw [← ha, Nat.and_assoc, hm]; simp

/-- The flags of `controlFlags` lie outside the character size mask and the speed bits. -/
theorem controlFlags_outside (p : SerialPortImpl) :
    p.controlFlags &&& CSIZE = 0 ∧ p.controlFlags &&& (CBAUD ||| CBAUDEX) = 0 := by
  unfold SerialPortImpl.controlFlags
  rcases hpar : p.parity with _ | _ | _ | _ | _ | n <;>
    rcases hfc : p.flowControl with _ | _ | _ | m <;>
    rcases hsb : p.stopBit with _ | _ | _ | k <;>
    simp [Parity.PARITY_TYPE_EVEN, Parity.PARITY_TYPE_ODD, Parity.PARITY_TYPE_MARK,
      Parity.PARITY_TYPE_SPACE, FlowControl.FLOW_CONTROL_HARDWARE, StopBit.STOP_BIT_TWO] <;>
    decide

/-- The flags of `inputFlags` do not include `IBAUD0`. -/
theorem inputFlags_outside (p : SerialPortImpl) : p.inputFlags &&& IBAUD0 = 0 := by
  unfold SerialPortImpl.inputFlags
  rcases hpar : p.parity with _ | _ | _ | _ | _ | n <;>
    rcases hfc : p.flowControl with _ | _ | _ | m <;>
    simp [Parity.PARITY_TYPE_EVEN, Parity.PARITY_TYPE_ODD,
      FlowControl.FLOW_CONTROL_SOFTWARE] <;>
    decide

/-- A written flag of `c_cflag` outside the speed bits and the character size mask is,
after the translator, what the configuration says. -/
theorem control_flag_of_ok (p : SerialPortImpl) (r r' : Termios) (flag : Nat)
    (h : p.preparePortSettings r = .ok r')
    (hk : bitNot writtenControlFlags &&& flag = 0) (hs : CSIZE &&& flag = 0)
    (hbaud : (CBAUD ||| CBAUDEX) &&& flag = 0) :
    r'.c_cflag &&& flag = p.controlFlags &&& flag := by
  obtain ⟨speed, size, hb, hc⟩ := values_of_prepare_ok p r r' h
  rw [preparePortSettings_eq p r speed size hb hc] at h
  injection h with h
  subst h
  refine keep_set_written _ _ _ _ _ hk ?_
  have hsize : size &&& flag = 0 :=
    and_eq_zero_of_within size CSIZE flag
      (by rw [Nat.and_comm]; exact characterSize_within_CSIZE _ _ hc) hs
  have hspeed : speed &&& flag = 0 :=
    and_eq_zero_of_within speed _ flag
      (speed_within_CBAUD _ (baudRateValue_in_table _ _ hb)) hbaud
  rw [Nat.and_distrib_right, Nat.and_distrib_right, hsize, hspeed]
  simp

/-- After the translator the character size mask holds the native size constant, the
speed bits of `c_cflag` and the two speed fields hold the native speed, and `IBAUD0` is
cleared. -/
theorem size_and_speed_of_ok (p : SerialPortImpl) (r r' : Termios) (speed size : Nat)
    (hb : getBaudRateValue Platform.linux p.baudRate = .ok speed)
    (hc : getCharacterSizeValue Platform.linux p.characterSize = .ok size)
    (h : p.preparePortSettings r = .ok r') :
    r'.c_cflag &&& CSIZE = size ∧ r'.c_cflag &&& (CBAUD ||| CBAUDEX) = speed ∧
      r'.c_iflag &&& IBAUD0 = 0 ∧ r'.c_ispeed = speed ∧ r'.c_ospeed = speed := by
  rw [preparePortSettings_eq p r speed size hb hc] at h
  injection h with h
  subst h
  have hsize := characterSize_within_CSIZE _ _ hc
  have hspeed := speed_within_CBAUD _ (baudRateValue_in_table _ _ hb)
  obtain ⟨hcf1, hcf2⟩ := controlFlags_outside p
  refine ⟨keep_set_written _ _ _ _ _ (by decide) ?_,
    keep_set_written _ _ _ _ _ (by decide) ?_,
    keep_set_written _ _ _ _ _ (by decide) (inputFlags_outside p), rfl, rfl⟩
  · have h1 : speed &&& CSIZE = 0 :=
      and_eq_zero_of_within speed _ CSIZE hspeed (by decide)
    rw [Nat.and_distrib_right, Nat.and_distrib_right, hcf1, h1, Nat.and_comm size CSIZE,
      hsize]
    simp
  · have h1 : size &&& (CBAUD ||| CBAUDEX) = 0 :=
      and_eq_zero_of_within size CSIZE _ (by rw [Nat.and_comm]; exact hsize) (by decide)
    rw [Nat.and_distrib_right, Nat.and_distrib_right, hcf2, h1, hspeed]
    simp

/-- The characters after the translator: the written ones are those of the configuration,
the others are kept, and the array keeps its length. -/
theorem characters_of_ok (p : SerialPortImpl) (r r' : Termios)
    (h : p.preparePortSettings r = .ok r') :
    r'.c_cc = (p.prepareSpecialCharacters r).c_cc := by
  obtain ⟨speed, size, hb, hc⟩ := values_of_prepare_ok p r r' h
  rw [preparePortSettings_eq p r speed size hb hc] at h
  injection h with h
  subst h
  rfl

end Linux

namespace Windows

/-- The flag fields after the translator, from the configuration. -/
theorem win_prepareFlags_eq (p : SerialPortImpl) (s : DCB) :
    p.prepareFlags s =
      { s with
        fBinary := true,
        fParity := decide (p.parity = Parity.PARITY_TYPE_ODD ∨
          p.parity = Parity.PARITY_TYPE_EVEN ∨ p.parity = Parity.PARITY_TYPE_MARK ∨
          p.parity = Parity.PARITY_TYPE_SPACE),
        fOutxCtsFlow := decide (p.flowControl = FlowControl.FLOW_CONTROL_HARDWARE),
        fOutxDsrFlow := false,
        fDtrControl := DTR_CONTROL_DISABLE,
        fDsrSensitivity := decide (p.flowControl = FlowControl.FLOW_CONTROL_HARDWARE),
        fTXContinueOnXoff := false,
        fOutX := decide (p.flowControl = FlowControl.FLOW_CONTROL_SOFTWARE),
        fInX := decide (p.flowControl = FlowControl.FLOW_CONTROL_SOFTWARE),
        fErrorChar := false,
        fNull := false,
        fRtsControl := if p.flowControl = FlowControl.FLOW_CONTROL_HARDWARE
          then RTS_CONTROL_HANDSHAKE else RTS_CONTROL_DISABLE,
        fAbortOnError := false,
        wReserved := 0 } := by
  unfold SerialPortImpl.prepareFlags
  rcases hpar : p.parity with _ | _ | _ | _ | _ | n <;>
    rcases hfc : p.flowControl with _ | _ | _ | m <;>
    simp [Parity.PARITY_TYPE_EVEN, Parity.PARITY_TYPE_ODD, Parity.PARITY_TYPE_MARK,
      Parity.PARITY_TYPE_SPACE, FlowControl.FLOW_CONTROL_HARDWARE,
      FlowControl.FLOW_CONTROL_SOFTWARE]

/-- The framing fields after the translator, from the configuration. -/
theorem win_prepareFraming_eq (p : SerialPortImpl) (s : DCB) :
    p.prepareFraming s =
      { s with
        Parity := if p.parity = Parity.PARITY_TYPE_ODD then ODDPARITY
          else if p.parity = Parity.PARITY_TYPE_EVEN then EVENPARITY
          else if p.parity = Parity.PARITY_TYPE_MARK then MARKPARITY
          else if p.parity = Parity.PARITY_TYPE_SPACE then SPACEPARITY else NOPARITY,
        StopBits := if p.stopBit = StopBit.STOP_BIT_ONE_HALF then ONE5STOPBITS
          else if p.stopBit = StopBit.STOP_BIT_TWO then TWOSTOPBITS else ONESTOPBIT,
        XonChar := XON,
        XoffChar := XOFF,
        ErrorChar := NUL,
        EofChar := NUL,
        EvtChar := NUL } := by
  unfold SerialPortImpl.prepareFraming
  rcases hpar : p.parity with _ | _ | _ | _ | _ | n <;>
    rcases hsb : p.stopBit with _ | _ | _ | k <;>
    simp [Parity.PARITY_TYPE_EVEN, Parity.PARITY_TYPE_ODD, Parity.PARITY_TYPE_MARK,
      Parity.PARITY_TYPE_SPACE, StopBit.STOP_BIT_TWO, StopBit.STOP_BIT_ONE_HALF]

/-- The Windows translator on a supported configuration: length, rate, flag fields, byte
size and framing fields, in the order of the source. -/
theorem win_preparePortSettings_eq (p : SerialPortImpl) (r : DCB) (rate size : Nat)
    (hb : getBaudRateValue Platform.windows p.baudRate = .ok rate)
    (hc : getCharacterSizeValue Platform.windows p.characterSize = .ok size) :
    p.preparePortSettings r = .ok
      (p.prepareFraming
        { p.prepareFlags { r with DCBlength := sizeofDCB, BaudRate := rate } with
          ByteSize := size }) := by
  unfold SerialPortImpl.preparePortSettings
  simp only [hb, hc]

/-- The rate and the size that a returning translation has looked up. -/
theorem win_values_of_prepare_ok (p : SerialPortImpl) (r r' : DCB)
    (h : p.preparePortSettings r = .ok r') :
    ∃ rate size, getBaudRateValue Platform.windows p.baudRate = .ok rate ∧
      getCharacterSizeValue Platform.windows p.characterSize = .ok size := by
  unfold SerialPortImpl.preparePortSettings at h
  cases hb : getBaudRateValue Platform.windows p.baudRate with
  | error e => simp [hb] at h
  | ok rate =>
    cases hc : getCharacterSizeValue Platform.windows p.characterSize with
    | error e => simp [hb, hc] at h
    | ok size => exact ⟨rate, size, rfl, rfl⟩

end Windows

/-! ## The two translators and the parity of received characters -/

namespace Linux

/-- The part of `inputFlags` under the two parity flags and the two flow-control flags. -/
theorem inputFlags_bits (p : SerialPortImpl) :
    p.inputFlags &&& INPCK =
        (if p.parity = Parity.PARITY_TYPE_EVEN ∨ p.parity = Parity.PARITY_TYPE_ODD
          then INPCK else 0) ∧
      p.inputFlags &&& IGNPAR =
        (if p.parity = Parity.PARITY_TYPE_EVEN ∨ p.parity = Parity.PARITY_TYPE_ODD
          then 0 else IGNPAR) ∧
      p.inputFlags &&& IXON =
        (if p.flowControl = FlowControl.FLOW_CONTROL_SOFTWARE then IXON else 0) ∧
      p.inputFlags &&& IXOFF =
        (if p.flowControl = FlowControl.FLOW_CONTROL_SOFTWARE then IXOFF else 0) ∧
      p.inputFlags &&& (IGNBRK ||| BRKINT ||| PARMRK ||| ISTRIP ||| INLCR ||| IGNCR |||
        ICRNL ||| IUCLC ||| IXANY ||| IMAXBEL ||| IUTF8) = 0 := by
  unfold SerialPortImpl.inputFlags
  rcases hpar : p.parity with _ | _ | _ | _ | _ | n <;>
    rcases hfc : p.flowControl with _ | _ | _ | m <;>
    simp [Parity.PARITY_TYPE_EVEN, Parity.PARITY_TYPE_ODD,
      FlowControl.FLOW_CONTROL_SOFTWARE] <;>
    decide

/-- The part of `controlFlags` under each flag the part "Control mode flags" writes. -/
theorem controlFlags_bits (p : SerialPortImpl) :
    p.controlFlags &&& CSTOPB = (if p.stopBit = StopBit.STOP_BIT_TWO then CSTOPB else 0) ∧
      p.controlFlags &&& CREAD = CREAD ∧
      p.controlFlags &&& PARENB =
        (if p.parity = Parity.PARITY_TYPE_EVEN ∨ p.parity = Parity.PARITY_TYPE_ODD ∨
            p.parity = Parity.PARITY_TYPE_MARK ∨ p.parity = Parity.PARITY_TYPE_SPACE
          then PARENB else 0) ∧
      p.controlFlags &&& PARODD =
        (if p.parity = Parity.PARITY_TYPE_ODD ∨ p.parity = Parity.PARITY_TYPE_MARK
          then PARODD else 0) ∧
      p.controlFlags &&& HUPCL = 0 ∧
      p.controlFlags &&& CLOCAL = CLOCAL ∧
      p.controlFlags &&& CMSPAR =
        (if p.parity = Parity.PARITY_TYPE_MARK ∨ p.parity = Parity.PARITY_TYPE_SPACE
          then CMSPAR else 0) ∧
      p.controlFlags &&& CRTSCTS =
        (if p.flowControl = FlowControl.FLOW_CONTROL_HARDWARE then CRTSCTS else 0) := by
  unfold SerialPortImpl.controlFlags
  rcases hpar : p.parity with _ | _ | _ | _ | _ | n <;>
    rcases hfc : p.flowControl with _ | _ | _ | m <;>
    rcases hsb : p.stopBit with _ | _ | _ | k <;>
    simp [Parity.PARITY_TYPE_EVEN, Parity.PARITY_TYPE_ODD, Parity.PARITY_TYPE_MARK,
      Parity.PARITY_TYPE_SPACE, FlowControl.FLOW_CONTROL_HARDWARE, StopBit.STOP_BIT_TWO] <;>
    decide

end Linux

/-- C31 (the code departs from the claim).  Whatever the records held, the POSIX translator
enables input parity checking (`INPCK` set and `IGNPAR` cleared) exactly for even and odd
parity, while the Windows translator sets `fParity` exactly for odd, even, mark and space
parity.  The two agree for every parity value other than mark and space; for mark and
space parity Windows checks the received parity and POSIX leaves `INPCK` cleared and
`IGNPAR` set. -/
theorem posix_parity_check_misses_mark_and_space
    (pL : Linux.SerialPortImpl) (pW : Windows.SerialPortImpl)
    (rL sL : Linux.Termios) (rW sW : Windows.DCB)
    (hparity : pL.parity = pW.parity)
    (hL : pL.preparePortSettings rL = .ok sL)
    (hW : pW.preparePortSettings rW = .ok sW) :
    ((sL.c_iflag &&& Linux.INPCK = Linux.INPCK ∧ sL.c_iflag &&& Linux.IGNPAR = 0) ↔
        (pL.parity = Parity.PARITY_TYPE_EVEN ∨ pL.parity = Parity.PARITY_TYPE_ODD)) ∧
      (sW.fParity = true ↔
        (pW.parity = Parity.PARITY_TYPE_ODD ∨ pW.parity = Parity.PARITY_TYPE_EVEN ∨
          pW.parity = Parity.PARITY_TYPE_MARK ∨ pW.parity = Parity.PARITY_TYPE_SPACE)) ∧
      ((pL.parity ≠ Parity.PARITY_TYPE_MARK ∧ pL.parity ≠ Parity.PARITY_TYPE_SPACE) →
        ((sL.c_iflag &&& Linux.INPCK = Linux.INPCK ∧ sL.c_iflag &&& Linux.IGNPAR = 0) ↔
          sW.fParity = true)) ∧
      ((pL.parity = Parity.PARITY_TYPE_MARK ∨ pL.parity = Parity.PARITY_TYPE_SPACE) →
        sW.fParity = true ∧ sL.c_iflag &&& Linux.INPCK = 0 ∧
          sL.c_iflag &&& Linux.IGNPAR = Linux.IGNPAR) := by
  have hinpck := Linux.input_flag_of_ok pL rL sL Linux.INPCK hL (by decide)
  have hignpar := Linux.input_flag_of_ok pL rL sL Linux.IGNPAR hL (by decide)
  rw [(Linux.inputFlags_bits pL).1] at hinpck
  rw [(Linux.inputFlags_bits pL).2.1] at hignpar
  obtain ⟨rate, size, hb, hc⟩ := Windows.win_values_of_prepare_ok pW rW sW hW
  rw [Windows.win_preparePortSettings_eq pW rW rate size hb hc,
    Windows.win_prepareFraming_eq, Windows.win_prepareFlags_eq] at hW
  injection hW with hW
  subst hW
  rw [hinpck, hignpar, ← hparity]
  rcases hpar : pL.parity with _ | _ | _ | _ | _ | n <;>
    simp [Parity.PARITY_TYPE_EVEN, Parity.PARITY_TYPE_ODD, Parity.PARITY_TYPE_MARK,
      Parity.PARITY_TYPE_SPACE, Linux.INPCK, Linux.IGNPAR]

/-- C31, evaluated: with mark parity on the default ports, the Windows translator sets
`fParity` and the POSIX translator clears `INPCK` and sets `IGNPAR`. -/
theorem posix_parity_check_misses_mark_and_space_witness :
    ∃ (sL : Linux.Termios) (sW : Windows.DCB),
      Linux.SerialPortImpl.preparePortSettings
          { Linux.defaultPort with parity := Parity.PARITY_TYPE_MARK }
          Linux.cookedSettings = .ok sL ∧
      Windows.SerialPortImpl.preparePortSettings
          { Windows.defaultPort with parity := Parity.PARITY_TYPE_MARK }
          Windows.deviceSettings = .ok sW ∧
      sW.fParity = true ∧ sL.c_iflag &&& Linux.INPCK = 0 ∧
        sL.c_iflag &&& Linux.IGNPAR = Linux.IGNPAR := by
  obtain ⟨sL, hL⟩ := Linux.prepare_ok_of_supported
    { Linux.defaultPort with parity := Parity.PARITY_TYPE_MARK } Linux.cookedSettings
    (by decide) (by decide)
  obtain ⟨rate, size, hb, hc, hW⟩ := Windows.win_prepare_ok_of_supported
    { Windows.defaultPort with parity := Parity.PARITY_TYPE_MARK } Windows.deviceSettings
    (by decide) (by decide)
  exact ⟨sL, _, hL, hW,
    (posix_parity_check_misses_mark_and_space _ _ _ _ _ _ rfl hL hW).2.2.2 (Or.inl rfl)⟩

/-! ## The POSIX translator: flow control, framing and raw mode -/

namespace Linux

/-- Every named index of `c_cc` is assigned by the part "Terminal special characters". -/
theorem named_character_written (i : Nat) (h : i ≤ VEOL2) : i ∈ writtenCharacters := by
  have h16 : i ≤ 16 := h
  interval_cases i <;> decide

/-- The characters at `VSTART` and `VSTOP` after the translator on a full array. -/
theorem start_stop_of_ok (p : SerialPortImpl) (r s : Termios)
    (hlen : r.c_cc.length = NCCS) (h : p.preparePortSettings r = .ok s) :
    s.c_cc[VSTART]? = some (if p.flowControl = FlowControl.FLOW_CONTROL_SOFTWARE
        then XON else _POSIX_VDISABLE) ∧
      s.c_cc[VSTOP]? = some (if p.flowControl = FlowControl.FLOW_CONTROL_SOFTWARE
        then XOFF else _POSIX_VDISABLE) := by
  rw [characters_of_ok p r s h]
  rw [prepareSpecialCharacters_written p r VSTART (by decide) (by rw [hlen]; decide),
    prepareSpecialCharacters_written p r VSTOP (by decide) (by rw [hlen]; decide)]
  unfold SerialPortImpl.specialCharacter
  constructor <;> split <;> simp [VSTART, VSTOP]

/-- C32.  For every input termios record (with its `NCCS` characters) and every
configuration the POSIX translator accepts (it throws on an unsupported baud rate or
character size and produces no record), the record produced has `IXON` and `IXOFF` set
if and only if the flow control is software and `CRTSCTS` set if and only if it is
hardware, so the software and hardware bits are never set together; `VSTART` is XON
(0x11) and `VSTOP` is XOFF (0x13) if and only if the flow control is software, and both
are `_POSIX_VDISABLE` otherwise. -/
theorem translator_flow_control_bits (p : SerialPortImpl) (r : Termios)
    (hb : isBaudRateSupported Platform.linux p.baudRate = true)
    (hc : isCharacterSizeSupported p.characterSize = true)
    (hlen : r.c_cc.length = NCCS) :
    ∃ s, p.preparePortSettings r = .ok s ∧
      (s.c_iflag &&& IXON = IXON ↔ p.flowControl = FlowControl.FLOW_CONTROL_SOFTWARE) ∧
      (s.c_iflag &&& IXOFF = IXOFF ↔ p.flowControl = FlowControl.FLOW_CONTROL_SOFTWARE) ∧
      (s.c_cflag &&& CRTSCTS = CRTSCTS ↔
        p.flowControl = FlowControl.FLOW_CONTROL_HARDWARE) ∧
      ¬ ((s.c_iflag &&& IXON = IXON ∨ s.c_iflag &&& IXOFF = IXOFF) ∧
        s.c_cflag &&& CRTSCTS = CRTSCTS) ∧
      (s.c_cc[VSTART]? = some XON ↔ p.flowControl = FlowControl.FLOW_CONTROL_SOFTWARE) ∧
      (s.c_cc[VSTOP]? = some XOFF ↔ p.flowControl = FlowControl.FLOW_CONTROL_SOFTWARE) ∧
      (p.flowControl ≠ FlowControl.FLOW_CONTROL_SOFTWARE →
        s.c_cc[VSTART]? = some _POSIX_VDISABLE ∧ s.c_cc[VSTOP]? = some _POSIX_VDISABLE) := by
  obtain ⟨s, h⟩ := prepare_ok_of_supported p r hb hc
  have hixon := input_flag_of_ok p r s IXON h (by decide)
  have hixoff := input_flag_of_ok p r s IXOFF h (by decide)
  have hcrtscts := control_flag_of_ok p r s CRTSCTS h (by decide) (by decide) (by decide)
  rw [(inputFlags_bits p).2.2.1] at hixon
  rw [(inputFlags_bits p).2.2.2.1] at hixoff
  rw [(controlFlags_bits p).2.2.2.2.2.2.2] at hcrtscts
  obtain ⟨hstart, hstop⟩ := start_stop_of_ok p r s hlen h
  refine ⟨s, h, ?_⟩
  rw [hixon, hixoff, hcrtscts, hstart, hstop]
  rcases hfc : p.flowControl with _ | _ | _ | m <;>
    simp [FlowControl.FLOW_CONTROL_SOFTWARE, FlowControl.FLOW_CONTROL_HARDWARE, IXON, IXOFF,
      CRTSCTS, XON, XOFF, DC1, DC3, _POSIX_VDISABLE]

/-- C32 on the default port with software flow control and a cooked device record: the
two software bits are set, the hardware bit is not, and the two characters are XON and
XOFF. -/
theorem translator_flow_control_bits_witness :
    ∃ s, SerialPortImpl.preparePortSettings
        { defaultPort with flowControl := FlowControl.FLOW_CONTROL_SOFTWARE }
        cookedSettings = .ok s ∧
      s.c_iflag &&& IXON = IXON ∧ s.c_iflag &&& IXOFF = IXOFF ∧
      ¬ s.c_cflag &&& CRTSCTS = CRTSCTS ∧
      s.c_cc[VSTART]? = some XON ∧ s.c_cc[VSTOP]? = some XOFF := by
  obtain ⟨s, h, h1, h2, h3, _, h5, h6, _⟩ := translator_flow_control_bits
    { defaultPort with flowControl := FlowControl.FLOW_CONTROL_SOFTWARE } cookedSettings
    (by decide) (by decide) (by decide)
  exact ⟨s, h, h1.2 rfl, h2.2 rfl, fun hx => absurd (h3.1 hx) (by decide), h5.2 rfl,
    h6.2 rfl⟩

/-- C33.  For every input termios record and every supported configuration, after the
POSIX translator the character size mask of `c_cflag` holds `CS5`, `CS6`, `CS7` or `CS8`
for the character size 5, 6, 7 or 8; `CSTOPB` is set if and only if the stop bit is two;
`PARENB` is set if and only if the parity is not none; `PARODD` is set if and only if the
parity is odd or mark; `CMSPAR` is set if and only if the parity is mark or space; and the
speed is the one `getBaudRateValue` gives for the baud rate: it is what `cfgetospeed` and
`cfgetispeed` read from the record (the speed bits of `c_cflag`, with `IBAUD0` cleared)
and what the two speed fields hold. -/
theorem translator_framing_bits (p : SerialPortImpl) (r : Termios)
    (hb : isBaudRateSupported Platform.linux p.baudRate = true)
    (hc : isCharacterSizeSupported p.characterSize = true)
    (hp : isParitySupported p.parity = true) :
    ∃ s, p.preparePortSettings r = .ok s ∧
      (p.characterSize = CharacterSize.CHARACTER_SIZE_5 → s.c_cflag &&& CSIZE = CS5) ∧
      (p.characterSize = CharacterSize.CHARACTER_SIZE_6 → s.c_cflag &&& CSIZE = CS6) ∧
      (p.characterSize = CharacterSize.CHARACTER_SIZE_7 → s.c_cflag &&& CSIZE = CS7) ∧
      (p.characterSize = CharacterSize.CHARACTER_SIZE_8 → s.c_cflag &&& CSIZE = CS8) ∧
      (s.c_cflag &&& CSTOPB = CSTOPB ↔ p.stopBit = StopBit.STOP_BIT_TWO) ∧
      (s.c_cflag &&& PARENB = PARENB ↔ p.parity ≠ Parity.PARITY_TYPE_NONE) ∧
      (s.c_cflag &&& PARODD = PARODD ↔
        (p.parity = Parity.PARITY_TYPE_ODD ∨ p.parity = Parity.PARITY_TYPE_MARK)) ∧
      (s.c_cflag &&& CMSPAR = CMSPAR ↔
        (p.parity = Parity.PARITY_TYPE_MARK ∨ p.parity = Parity.PARITY_TYPE_SPACE)) ∧
      getBaudRateValue Platform.linux p.baudRate = .ok (cfgetospeed s) ∧
      cfgetispeed s = cfgetospeed s ∧
      s.c_cflag &&& (CBAUD ||| CBAUDEX) = cfgetospeed s ∧
      s.c_iflag &&& IBAUD0 = 0 ∧
      s.c_ospeed = cfgetospeed s ∧ s.c_ispeed = cfgetospeed s := by
  obtain ⟨s, h⟩ := prepare_ok_of_supported p r hb hc
  obtain ⟨speed, size, hbv, hcv⟩ := values_of_prepare_ok p r s h
  obtain ⟨hsize, hspeed, hibaud, hispeed, hospeed⟩ :=
    size_and_speed_of_ok p r s speed size hbv hcv h
  have hget : cfgetospeed s = speed := hspeed
  have hstop := control_flag_of_ok p r s CSTOPB h (by decide) (by decide) (by decide)
  have hparenb := control_flag_of_ok p r s PARENB h (by decide) (by decide) (by decide)
  have hparodd := control_flag_of_ok p r s PARODD h (by decide) (by decide) (by decide)
  have hcmspar := control_flag_of_ok p r s CMSPAR h (by decide) (by decide) (by decide)
  rw [(controlFlags_bits p).1] at hstop
  rw [(controlFlags_bits p).2.2.1] at hparenb
  rw [(controlFlags_bits p).2.2.2.1] at hparodd
  rw [(controlFlags_bits p).2.2.2.2.2.2.1] at hcmspar
  refine ⟨s, h, ?_, ?_, ?_, ?_, ?_, ?_, ?_, ?_, ?_, ?_, rfl, hibaud, ?_, ?_⟩
  · intro h5
    rcases characterSizeValue_cases _ _ hcv with ⟨hx, hy⟩ | ⟨hx, hy⟩ | ⟨hx, hy⟩ | ⟨hx, hy⟩ <;>
      first
        | (rw [h5] at hx; exact absurd hx (by decide))
        | (rw [hsize, hy])
  · intro h6
    rcases characterSizeValue_cases _ _ hcv with ⟨hx, hy⟩ | ⟨hx, hy⟩ | ⟨hx, hy⟩ | ⟨hx, hy⟩ <;>
      first
        | (rw [h6] at hx; exact absurd hx (by decide))
        | (rw [hsize, hy])
  · intro h7
    rcases characterSizeValue_cases _ _ hcv with ⟨hx, hy⟩ | ⟨hx, hy⟩ | ⟨hx, hy⟩ | ⟨hx, hy⟩ <;>
      first
        | (rw [h7] at hx; exact absurd hx (by decide))
        | (rw [hsize, hy])
  · intro h8
    rcases characterSizeValue_cases _ _ hcv with ⟨hx, hy⟩ | ⟨hx, hy⟩ | ⟨hx, hy⟩ | ⟨hx, hy⟩ <;>
      first
        | (rw [h8] at hx; exact absurd hx (by decide))
        | (rw [hsize, hy])
  · rw [hstop]
    rcases hsb : p.stopBit with _ | _ | _ | k <;> simp [StopBit.STOP_BIT_TWO, CSTOPB]
  · rw [hparenb]
    rcases hpar : p.parity with _ | _ | _ | _ | _ | n <;>
      simp [Parity.PARITY_TYPE_EVEN, Parity.PARITY_TYPE_ODD, Parity.PARITY_TYPE_MARK,
        Parity.PARITY_TYPE_SPACE, Parity.PARITY_TYPE_NONE, PARENB]
    rw [hpar] at hp
    simp [isParitySupported] at hp
  · rw [hparodd]
    rcases hpar : p.parity with _ | _ | _ | _ | _ | n <;>
      simp [Parity.PARITY_TYPE_ODD, Parity.PARITY_TYPE_MARK, PARODD]
  · rw [hcmspar]
    rcases hpar : p.parity with _ | _ | _ | _ | _ | n <;>
      simp [Parity.PARITY_TYPE_SPACE, Parity.PARITY_TYPE_MARK, CMSPAR]
  · rw [hget]; exact hbv
  · unfold cfgetispeed
    rw [hibaud]
    rfl
  · rw [hget]; exact hospeed
  · rw [hget]; exact hispeed

/-- C33 on a port set to 57600 baud, 7 bits, mark parity and two stop bits, from a cooked
device record. -/
theorem translator_framing_bits_witness :
    ∃ s, SerialPortImpl.preparePortSettings
        { defaultPort with
          baudRate := BaudRate.BAUD_RATE_57600,
          characterSize := CharacterSize.CHARACTER_SIZE_7,
          parity := Parity.PARITY_TYPE_MARK, stopBit := StopBit.STOP_BIT_TWO }
        cookedSettings = .ok s ∧
      s.c_cflag &&& CSIZE = CS7 ∧ s.c_cflag &&& CSTOPB = CSTOPB ∧
      s.c_cflag &&& PARENB = PARENB ∧ s.c_cflag &&& PARODD = PARODD ∧
      s.c_cflag &&& CMSPAR = CMSPAR ∧ s.c_cflag &&& (CBAUD ||| CBAUDEX) = B57600 := by
  obtain ⟨s, h, _, _, h7, _, hstop, hparenb, hparodd, hcmspar, hspeed, _, hbits, _⟩ :=
    translator_framing_bits
      { defaultPort with
        baudRate := BaudRate.BAUD_RATE_57600,
        characterSize := CharacterSize.CHARACTER_SIZE_7,
        parity := Parity.PARITY_TYPE_MARK, stopBit := StopBit.STOP_BIT_TWO }
      cookedSettings (by decide) (by decide) (by decide)
  refine ⟨s, h, h7 rfl, hstop.2 rfl, hparenb.2 (by decide), hparodd.2 (Or.inr rfl),
    hcmspar.2 (Or.inl rfl), ?_⟩
  have hv : getBaudRateValue Platform.linux BaudRate.BAUD_RATE_57600 = .ok B57600 := by decide
  rw [show getBaudRateValue Platform.linux
    ({ defaultPort with
        baudRate := BaudRate.BAUD_RATE_57600,
        characterSize := CharacterSize.CHARACTER_SIZE_7,
        parity := Parity.PARITY_TYPE_MARK, stopBit := StopBit.STOP_BIT_TWO } :
      SerialPortImpl).baudRate = .ok B57600 from hv] at hspeed
  injection hspeed with hspeed
  rw [hbits]
  exact hspeed.symm

/-- C34.  For every input termios record (with its `NCCS` characters) and every
configuration the POSIX translator accepts, the record produced is in raw mode whatever
the input held: `ICANON`, `ISIG`, `IEXTEN`, every echo bit and `OPOST` are cleared; the
input translation bits are cleared; `HUPCL` is cleared and `CLOCAL` and `CREAD` are set;
every named special character other than `VSTART` and `VSTOP` is `_POSIX_VDISABLE`; and
`VMIN` and `VTIME` are 0. -/
theorem translator_raw_mode (p : SerialPortImpl) (r : Termios)
    (hb : isBaudRateSupported Platform.linux p.baudRate = true)
    (hc : isCharacterSizeSupported p.characterSize = true)
    (hlen : r.c_cc.length = NCCS) :
    ∃ s, p.preparePortSettings r = .ok s ∧
      s.c_lflag &&& (ICANON ||| ISIG ||| IEXTEN) = 0 ∧
      s.c_lflag &&&
        (ECHO ||| ECHOE ||| ECHOK ||| ECHONL ||| ECHOCTL ||| ECHOPRT ||| ECHOKE) = 0 ∧
      s.c_oflag &&& OPOST = 0 ∧
      s.c_iflag &&& (IGNBRK ||| BRKINT ||| PARMRK ||| ISTRIP ||| INLCR ||| IGNCR ||| ICRNL |||
        IUCLC ||| IXANY) = 0 ∧
      s.c_cflag &&& HUPCL = 0 ∧
      s.c_cflag &&& CLOCAL = CLOCAL ∧
      s.c_cflag &&& CREAD = CREAD ∧
      (∀ i, i ≤ VEOL2 → i ≠ VSTART → i ≠ VSTOP → s.c_cc[i]? = some _POSIX_VDISABLE) ∧
      s.c_cc[VMIN]? = some 0 ∧ s.c_cc[VTIME]? = some 0 := by
  obtain ⟨s, h⟩ := prepare_ok_of_supported p r hb hc
  have hchars : ∀ i, i ≤ VEOL2 → i ≠ VSTART → i ≠ VSTOP →
      s.c_cc[i]? = some _POSIX_VDISABLE := by
    intro i hi hstart hstop
    rw [characters_of_ok p r s h,
      prepareSpecialCharacters_written p r i (named_character_written i hi)
        (by rw [hlen]; exact Nat.lt_of_le_of_lt hi (by decide))]
    unfold SerialPortImpl.specialCharacter
    simp [hstart, hstop]
  have hinput := input_flag_of_ok p r s
    (IGNBRK ||| BRKINT ||| PARMRK ||| ISTRIP ||| INLCR ||| IGNCR ||| ICRNL ||| IUCLC ||| IXANY)
    h (by decide)
  have hbits : p.inputFlags &&& (IGNBRK ||| BRKINT ||| PARMRK ||| ISTRIP ||| INLCR |||
      IGNCR ||| ICRNL ||| IUCLC ||| IXANY) = 0 := by
    unfold SerialPortImpl.inputFlags
    rcases hpar : p.parity with _ | _ | _ | _ | _ | n <;>
      rcases hfc : p.flowControl with _ | _ | _ | m <;>
      simp [Parity.PARITY_TYPE_EVEN, Parity.PARITY_TYPE_ODD,
        FlowControl.FLOW_CONTROL_SOFTWARE] <;>
      decide
  have hhupcl := control_flag_of_ok p r s HUPCL h (by decide) (by decide) (by decide)
  have hclocal := control_flag_of_ok p r s CLOCAL h (by decide) (by decide) (by decide)
  have hcread := control_flag_of_ok p r s CREAD h (by decide) (by decide) (by decide)
  rw [(controlFlags_bits p).2.2.2.2.1] at hhupcl
  rw [(controlFlags_bits p).2.2.2.2.2.1] at hclocal
  rw [(controlFlags_bits p).2.1] at hcread
  exact ⟨s, h,
    local_flag_of_ok p r s _ h (by decide),
    local_flag_of_ok p r s _ h (by decide),
    output_flag_of_ok p r s _ h (by decide),
    hinput.trans hbits, hhupcl, hclocal, hcread, hchars,
    hchars VMIN (by decide) (by decide) (by decide),
    hchars VTIME (by decide) (by decide) (by decide)⟩

/-- C34 on the default port and a cooked device record, which holds `ICANON`, `ISIG`,
`ECHO`, `IEXTEN`, `OPOST`, `ICRNL` and `HUPCL` and the usual control characters. -/
theorem translator_raw_mode_witness :
    ∃ s, SerialPortImpl.preparePortSettings defaultPort cookedSettings = .ok s ∧
      s.c_lflag &&& (ICANON ||| ISIG ||| IEXTEN) = 0 ∧
      s.c_oflag &&& OPOST = 0 ∧
      s.c_cflag &&& HUPCL = 0 ∧
      s.c_cc[VINTR]? = some _POSIX_VDISABLE ∧
      s.c_cc[VMIN]? = some 0 ∧ s.c_cc[VTIME]? = some 0 := by
  obtain ⟨s, h, h1, _, h3, _, h5, _, _, h8, h9, h10⟩ :=
    translator_raw_mode defaultPort cookedSettings (by decide) (by decide) (by decide)
  exact ⟨s, h, h1, h3, h5, h8 VINTR (by decide) (by decide) (by decide), h9, h10⟩

end Linux

/-! ## The Windows translator: fields and timeouts -/

namespace Windows

/-- The native character size of the Windows target is the number of bits. -/
theorem win_characterSizeValue_cases (c : CharacterSize) (size : Nat)
    (h : getCharacterSizeValue Platform.windows c = .ok size) :
    (c = CharacterSize.CHARACTER_SIZE_5 ∧ size = 5) ∨
    (c = CharacterSize.CHARACTER_SIZE_6 ∧ size = 6) ∨
    (c = CharacterSize.CHARACTER_SIZE_7 ∧ size = 7) ∨
    (c = CharacterSize.CHARACTER_SIZE_8 ∧ size = 8) := by
  rcases c with _ | _ | _ | _ | n <;>
    simp [getCharacterSizeValue, CharacterSize.CHARACTER_SIZE_5,
      CharacterSize.CHARACTER_SIZE_6, CharacterSize.CHARACTER_SIZE_7,
      CharacterSize.CHARACTER_SIZE_8] at h ⊢ <;> exact h.symm

/-- The timeout translator writes all five fields, whatever the record held. -/
theorem win_preparePortTimeoutSettings_eq (p : SerialPortImpl) (t : COMMTIMEOUTS) :
    p.preparePortTimeoutSettings t = ⟨MAXDWORD, 0, 0, 100, 1000⟩ := rfl

/-- C35.  For every input `DCB` and `COMMTIMEOUTS` record and every supported
configuration, the Windows translator yields: `BaudRate` the value of `getBaudRateValue`;
`ByteSize` 5, 6, 7 or 8; `fParity` true if and only if the parity is not none, with
`Parity` one of `NOPARITY`, `ODDPARITY`, `EVENPARITY`, `MARKPARITY`, `SPACEPARITY`;
`StopBits` one of `ONESTOPBIT`, `ONE5STOPBITS`, `TWOSTOPBITS`; `fOutxCtsFlow` true if and
only if the flow control is hardware; `fOutX` and `fInX` true if and only if it is
software; `fBinary` true; and the timeouts `MAXDWORD`, 0, 0, 100 and 1000, so that the
total timeout of a write of `n` bytes is `100 * n + 1000` ms. -/
theorem win_translator_fields (p : SerialPortImpl) (r : DCB) (t : COMMTIMEOUTS)
    (hb : isBaudRateSupported Platform.windows p.baudRate = true)
    (hc : isCharacterSizeSupported p.characterSize = true)
    (hp : isParitySupported p.parity = true) :
    ∃ s, p.preparePortSettings r = .ok s ∧
      getBaudRateValue Platform.windows p.baudRate = .ok s.BaudRate ∧
      (p.characterSize = CharacterSize.CHARACTER_SIZE_5 → s.ByteSize = 5) ∧
      (p.characterSize = CharacterSize.CHARACTER_SIZE_6 → s.ByteSize = 6) ∧
      (p.characterSize = CharacterSize.CHARACTER_SIZE_7 → s.ByteSize = 7) ∧
      (p.characterSize = CharacterSize.CHARACTER_SIZE_8 → s.ByteSize = 8) ∧
      (s.fParity = true ↔ p.parity ≠ Parity.PARITY_TYPE_NONE) ∧
      (p.parity = Parity.PARITY_TYPE_NONE → s.Parity = NOPARITY) ∧
      (p.parity = Parity.PARITY_TYPE_ODD → s.Parity = ODDPARITY) ∧
      (p.parity = Parity.PARITY_TYPE_EVEN → s.Parity = EVENPARITY) ∧
      (p.parity = Parity.PARITY_TYPE_MARK → s.Parity = MARKPARITY) ∧
      (p.parity = Parity.PARITY_TYPE_SPACE → s.Parity = SPACEPARITY) ∧
      (p.stopBit = StopBit.STOP_BIT_ONE → s.StopBits = ONESTOPBIT) ∧
      (p.stopBit = StopBit.STOP_BIT_ONE_HALF → s.StopBits = ONE5STOPBITS) ∧
      (p.stopBit = StopBit.STOP_BIT_TWO → s.StopBits = TWOSTOPBITS) ∧
      (s.fOutxCtsFlow = true ↔ p.flowControl = FlowControl.FLOW_CONTROL_HARDWARE) ∧
      (s.fOutX = true ↔ p.flowControl = FlowControl.FLOW_CONTROL_SOFTWARE) ∧
      (s.fInX = true ↔ p.flowControl = FlowControl.FLOW_CONTROL_SOFTWARE) ∧
      s.fBinary = true ∧
      p.preparePortTimeoutSettings t =
        { ReadIntervalTimeout := MAXDWORD, ReadTotalTimeoutMultiplier := 0,
          ReadTotalTimeoutConstant := 0, WriteTotalTimeoutMultiplier := 100,
          WriteTotalTimeoutConstant := 1000 } ∧
      (∀ n : Nat, (p.preparePortTimeoutSettings t).WriteTotalTimeoutMultiplier * n +
        (p.preparePortTimeoutSettings t).WriteTotalTimeoutConstant = 100 * n + 1000) := by
  obtain ⟨rate, hbv⟩ := baudRateValue_of_supported Platform.windows p.baudRate hb
  obtain ⟨size, hcv⟩ := characterSizeValue_of_supported Platform.windows p.characterSize hc
  have h := win_preparePortSettings_eq p r rate size hbv hcv
  rw [win_prepareFraming_eq, win_prepareFlags_eq] at h
  refine ⟨_, h, hbv, ?_, ?_, ?_, ?_, ?_, ?_, ?_, ?_, ?_, ?_, ?_, ?_, ?_, ?_, ?_, ?_, rfl,
    rfl, fun n => rfl⟩
  · intro h5
    rcases win_characterSizeValue_cases _ _ hcv with
      ⟨hx, hy⟩ | ⟨hx, hy⟩ | ⟨hx, hy⟩ | ⟨hx, hy⟩ <;>
      first
        | (rw [h5] at hx; exact absurd hx (by decide))
        | exact hy
  · intro h6
    rcases win_characterSizeValue_cases _ _ hcv with
      ⟨hx, hy⟩ | ⟨hx, hy⟩ | ⟨hx, hy⟩ | ⟨hx, hy⟩ <;>
      first
        | (rw [h6] at hx; exact absurd hx (by decide))
        | exact hy
  · intro h7
    rcases win_characterSizeValue_cases _ _ hcv with
      ⟨hx, hy⟩ | ⟨hx, hy⟩ | ⟨hx, hy⟩ | ⟨hx, hy⟩ <;>
      first
        | (rw [h7] at hx; exact absurd hx (by decide))
        | exact hy
  · intro h8
    rcases win_characterSizeValue_cases _ _ hcv with
      ⟨hx, hy⟩ | ⟨hx, hy⟩ | ⟨hx, hy⟩ | ⟨hx, hy⟩ <;>
      first
        | (rw [h8] at hx; exact absurd hx (by decide))
        | exact hy
  · rcases hpar : p.parity with _ | _ | _ | _ | _ | n <;>
      simp [Parity.PARITY_TYPE_EVEN, Parity.PARITY_TYPE_ODD, Parity.PARITY_TYPE_MARK,
        Parity.PARITY_TYPE_SPACE, Parity.PARITY_TYPE_NONE]
    rw [hpar] at hp
    simp [isParitySupported] at hp
  all_goals
    first
      | (intro hv
         simp [hv, Parity.PARITY_TYPE_EVEN, Parity.PARITY_TYPE_ODD, Parity.PARITY_TYPE_MARK,
           Parity.PARITY_TYPE_SPACE, Parity.PARITY_TYPE_NONE, StopBit.STOP_BIT_ONE,
           StopBit.STOP_BIT_ONE_HALF, StopBit.STOP_BIT_TWO])
      | simp

/-- C35 on the default port set to 19200 baud, 7 bits, even parity, two stop bits and
hardware flow control, from the records of a device. -/
theorem win_translator_fields_witness :
    ∃ s, SerialPortImpl.preparePortSettings
        { defaultPort with
          baudRate := BaudRate.BAUD_RATE_19200,
          characterSize := CharacterSize.CHARACTER_SIZE_7,
          flowControl := FlowControl.FLOW_CONTROL_HARDWARE,
          parity := Parity.PARITY_TYPE_EVEN, stopBit := StopBit.STOP_BIT_TWO }
        deviceSettings = .ok s ∧
      s.ByteSize = 7 ∧ s.fParity = true ∧ s.Parity = EVENPARITY ∧
      s.StopBits = TWOSTOPBITS ∧ s.fOutxCtsFlow = true ∧ s.fBinary = true ∧
      SerialPortImpl.preparePortTimeoutSettings defaultPort deviceTimeouts =
        ⟨MAXDWORD, 0, 0, 100, 1000⟩ := by
  obtain ⟨s, h, _, _, _, h7, _, hpar, _, _, heven, _, _, _, _, htwo, hcts, _, _, hbin, ht, _⟩ :=
    win_translator_fields
      { defaultPort with
        baudRate := BaudRate.BAUD_RATE_19200,
        characterSize := CharacterSize.CHARACTER_SIZE_7,
        flowControl := FlowControl.FLOW_CONTROL_HARDWARE,
        parity := Parity.PARITY_TYPE_EVEN, stopBit := StopBit.STOP_BIT_TWO }
      deviceSettings deviceTimeouts (by decide) (by decide) (by decide)
  exact ⟨s, h, h7 rfl, hpar.2 (by decide), heven rfl, htwo rfl, hcts.2 rfl, hbin, ht⟩

end Windows

/-! ## The translators are idempotent and write values of the configuration -/

namespace Linux

/-- The part "Terminal special characters" assigns again what it has assigned. -/
theorem prepareSpecialCharacters_idem (p : SerialPortImpl) (r s : Termios)
    (h : s.c_cc = (p.prepareSpecialCharacters r).c_cc) :
    (p.prepareSpecialCharacters s).c_cc = s.c_cc := by
  apply List.ext_getElem?
  intro i
  have hlen : s.c_cc.length = r.c_cc.length := by
    rw [h, prepareSpecialCharacters_length]
  by_cases hi : i ∈ writtenCharacters
  · by_cases hl : i < s.c_cc.length
    · rw [prepareSpecialCharacters_written p s i hi hl, h,
        prepareSpecialCharacters_written p r i hi (hlen ▸ hl)]
    · have h1 : (p.prepareSpecialCharacters s).c_cc.length ≤ i := by
        rw [prepareSpecialCharacters_length]; exact Nat.le_of_not_lt hl
      rw [List.getElem?_eq_none h1, List.getElem?_eq_none (Nat.le_of_not_lt hl)]
  · exact prepareSpecialCharacters_kept p s i hi

/-- The POSIX translator is idempotent: translating a translated record changes
nothing. -/
theorem preparePortSettings_idem (p : SerialPortImpl) (r s : Termios)
    (h : p.preparePortSettings r = .ok s) : p.preparePortSettings s = .ok s := by
  obtain ⟨speed, size, hb, hc⟩ := values_of_prepare_ok p r s h
  have hcc := characters_of_ok p r s h
  rw [preparePortSettings_eq p r speed size hb hc] at h
  injection h with h
  rw [preparePortSettings_eq p s speed size hb hc, prepareSpecialCharacters_idem p r s hcc]
  subst h
  simp only [keep_set_idem, Nat.and_assoc, Nat.and_self]

/-- What the POSIX translator writes does not depend on the record it is given: two
translations under one configuration agree on every written flag, on the two speed fields
and on every written character. -/
theorem preparePortSettings_independent (p : SerialPortImpl) (r₁ r₂ s₁ s₂ : Termios)
    (h₁ : p.preparePortSettings r₁ = .ok s₁) (h₂ : p.preparePortSettings r₂ = .ok s₂) :
    s₁.c_iflag &&& writtenInputFlags = s₂.c_iflag &&& writtenInputFlags ∧
      s₁.c_oflag &&& writtenOutputFlags = s₂.c_oflag &&& writtenOutputFlags ∧
      s₁.c_cflag &&& writtenControlFlags = s₂.c_cflag &&& writtenControlFlags ∧
      s₁.c_lflag &&& writtenLocalFlags = s₂.c_lflag &&& writtenLocalFlags ∧
      s₁.c_ispeed = s₂.c_ispeed ∧ s₁.c_ospeed = s₂.c_ospeed ∧
      (∀ i, i ∈ writtenCharacters → i < r₁.c_cc.length → i < r₂.c_cc.length →
        s₁.c_cc[i]? = s₂.c_cc[i]?) := by
  obtain ⟨speed, size, hb, hc⟩ := values_of_prepare_ok p r₁ s₁ h₁
  have hcc₁ := characters_of_ok p r₁ s₁ h₁
  have hcc₂ := characters_of_ok p r₂ s₂ h₂
  rw [preparePortSettings_eq p r₁ speed size hb hc] at h₁
  rw [preparePortSettings_eq p r₂ speed size hb hc] at h₂
  injection h₁ with h₁
  injection h₂ with h₂
  refine ⟨?_, ?_, ?_, ?_, ?_, ?_, ?_⟩
  · rw [← h₁, ← h₂]; exact keep_set_independent _ _ _ _ _ (by decide)
  · rw [← h₁, ← h₂]
    show (r₁.c_oflag &&& bitNot writtenOutputFlags) &&& writtenOutputFlags =
      (r₂.c_oflag &&& bitNot writtenOutputFlags) &&& writtenOutputFlags
    rw [Nat.and_assoc, Nat.and_assoc,
      show bitNot writtenOutputFlags &&& writtenOutputFlags = 0 by decide]
    simp
  · rw [← h₁, ← h₂]; exact keep_set_independent _ _ _ _ _ (by decide)
  · rw [← h₁, ← h₂]
    show (r₁.c_lflag &&& bitNot writtenLocalFlags) &&& writtenLocalFlags =
      (r₂.c_lflag &&& bitNot writtenLocalFlags) &&& writtenLocalFlags
    rw [Nat.and_assoc, Nat.and_assoc,
      show bitNot writtenLocalFlags &&& writtenLocalFlags = 0 by decide]
    simp
  · rw [← h₁, ← h₂]
  · rw [← h₁, ← h₂]
  · intro i hi hl₁ hl₂
    rw [hcc₁, hcc₂, prepareSpecialCharacters_written p r₁ i hi hl₁,
      prepareSpecialCharacters_written p r₂ i hi hl₂]

end Linux

namespace Windows

/-- The Windows translator is idempotent. -/
theorem win_preparePortSettings_idem (p : SerialPortImpl) (r s : DCB)
    (h : p.preparePortSettings r = .ok s) : p.preparePortSettings s = .ok s := by
  obtain ⟨rate, size, hb, hc⟩ := win_values_of_prepare_ok p r s h
  rw [win_preparePortSettings_eq p r rate size hb hc, win_prepareFraming_eq,
    win_prepareFlags_eq] at h
  injection h with h
  rw [win_preparePortSettings_eq p s rate size hb hc, win_prepareFraming_eq,
    win_prepareFlags_eq]
  subst h
  rfl

/-- Two translations under one configuration differ at most in the four fields the
Windows translator does not write: `fDummy2`, `XonLim`, `XoffLim` and `wReserved1`. -/
theorem win_preparePortSettings_independent (p : SerialPortImpl) (r₁ r₂ s₁ s₂ : DCB)
    (h₁ : p.preparePortSettings r₁ = .ok s₁) (h₂ : p.preparePortSettings r₂ = .ok s₂) :
    s₂ = { s₁ with fDummy2 := r₂.fDummy2, XonLim := r₂.XonLim, XoffLim := r₂.XoffLim,
                   wReserved1 := r₂.wReserved1 } := by
  obtain ⟨rate, size, hb, hc⟩ := win_values_of_prepare_ok p r₁ s₁ h₁
  rw [win_preparePortSettings_eq p r₁ rate size hb hc, win_prepareFraming_eq,
    win_prepareFlags_eq] at h₁
  rw [win_preparePortSettings_eq p r₂ rate size hb hc, win_prepareFraming_eq,
    win_prepareFlags_eq] at h₂
  injection h₁ with h₁
  injection h₂ with h₂
  subst h₁ h₂
  rfl

end Windows

/-- C40.  For every supported configuration and every input native record, each of the
three translators returns and is idempotent, and what it writes is determined by the
configuration alone: two POSIX translations agree on every written flag of the four flag
words (the speed bits of `c_cflag` and `IBAUD0` of `c_iflag`, which `cfsetspeed` writes,
included), on the two speed fields and on every written character; two Windows
translations differ at most in the four fields the translator does not write; and the
timeout translator gives one record whatever it is given. -/
theorem translators_idempotent_and_input_independent
    (pL : Linux.SerialPortImpl) (pW : Windows.SerialPortImpl)
    (hbL : isBaudRateSupported Platform.linux pL.baudRate = true)
    (hcL : isCharacterSizeSupported pL.characterSize = true)
    (hbW : isBaudRateSupported Platform.windows pW.baudRate = true)
    (hcW : isCharacterSizeSupported pW.characterSize = true) :
    (∀ r, ∃ s, pL.preparePortSettings r = .ok s ∧ pL.preparePortSettings s = .ok s) ∧
    (∀ r₁ r₂, ∃ s₁ s₂,
      pL.preparePortSettings r₁ = .ok s₁ ∧ pL.preparePortSettings r₂ = .ok s₂ ∧
      s₁.c_iflag &&& Linux.writtenInputFlags = s₂.c_iflag &&& Linux.writtenInputFlags ∧
      s₁.c_oflag &&& Linux.writtenOutputFlags = s₂.c_oflag &&& Linux.writtenOutputFlags ∧
      s₁.c_cflag &&& Linux.writtenControlFlags = s₂.c_cflag &&& Linux.writtenControlFlags ∧
      s₁.c_lflag &&& Linux.writtenLocalFlags = s₂.c_lflag &&& Linux.writtenLocalFlags ∧
      s₁.c_ispeed = s₂.c_ispeed ∧ s₁.c_ospeed = s₂.c_ospeed ∧
      (∀ i, i ∈ Linux.writtenCharacters → i < r₁.c_cc.length → i < r₂.c_cc.length →
        s₁.c_cc[i]? = s₂.c_cc[i]?)) ∧
    (∀ r, ∃ s, pW.preparePortSettings r = .ok s ∧ pW.preparePortSettings s = .ok s) ∧
    (∀ r₁ r₂, ∃ s₁ s₂,
      pW.preparePortSettings r₁ = .ok s₁ ∧ pW.preparePortSettings r₂ = .ok s₂ ∧
      s₂ = { s₁ with fDummy2 := r₂.fDummy2, XonLim := r₂.XonLim, XoffLim := r₂.XoffLim,
                     wReserved1 := r₂.wReserved1 }) ∧
    (∀ t, pW.preparePortTimeoutSettings (pW.preparePortTimeoutSettings t) =
      pW.preparePortTimeoutSettings t) ∧
    (∀ t₁ t₂, pW.preparePortTimeoutSettings t₁ = pW.preparePortTimeoutSettings t₂) := by
  refine ⟨?_, ?_, ?_, ?_, fun _ => rfl, fun _ _ => rfl⟩
  · intro r
    obtain ⟨s, h⟩ := Linux.prepare_ok_of_supported pL r hbL hcL
    exact ⟨s, h, Linux.preparePortSettings_idem pL r s h⟩
  · intro r₁ r₂
    obtain ⟨s₁, h₁⟩ := Linux.prepare_ok_of_supported pL r₁ hbL hcL
    obtain ⟨s₂, h₂⟩ := Linux.prepare_ok_of_supported pL r₂ hbL hcL
    exact ⟨s₁, s₂, h₁, h₂, Linux.preparePortSettings_independent pL r₁ r₂ s₁ s₂ h₁ h₂⟩
  · intro r
    obtain ⟨_, _, _, _, h⟩ := Windows.win_prepare_ok_of_supported pW r hbW hcW
    exact ⟨_, h, Windows.win_preparePortSettings_idem pW r _ h⟩
  · intro r₁ r₂
    obtain ⟨_, _, _, _, h₁⟩ := Windows.win_prepare_ok_of_supported pW r₁ hbW hcW
    obtain ⟨_, _, _, _, h₂⟩ := Windows.win_prepare_ok_of_supported pW r₂ hbW hcW
    exact ⟨_, _, h₁, h₂, Windows.win_preparePortSettings_independent pW r₁ r₂ _ _ h₁ h₂⟩

/-- C40 on the default ports: translating the cooked record and the zero record gives
records that agree on the written control flags, and translating the device timeouts
twice is translating them once. -/
theorem translators_idempotent_and_input_independent_witness :
    (∃ s, Linux.SerialPortImpl.preparePortSettings Linux.defaultPort Linux.cookedSettings
        = .ok s ∧
      Linux.SerialPortImpl.preparePortSettings Linux.defaultPort s = .ok s) ∧
    (∃ s₁ s₂,
      Linux.SerialPortImpl.preparePortSettings Linux.defaultPort Linux.cookedSettings
        = .ok s₁ ∧
      Linux.SerialPortImpl.preparePortSettings Linux.defaultPort Linux.Termios.zero
        = .ok s₂ ∧
      s₁.c_cflag &&& Linux.writtenControlFlags = s₂.c_cflag &&& Linux.writtenControlFlags) ∧
    (∃ s, Windows.SerialPortImpl.preparePortSettings Windows.defaultPort
        Windows.deviceSettings = .ok s ∧
      Windows.SerialPortImpl.preparePortSettings Windows.defaultPort s = .ok s) := by
  have h := translators_idempotent_and_input_independent Linux.defaultPort
    Windows.defaultPort (by decide) (by decide) (by decide) (by decide)
  obtain ⟨s₁, s₂, h₁, h₂, _, _, hc, _⟩ := h.2.1 Linux.cookedSettings Linux.Termios.zero
  exact ⟨h.1 Linux.cookedSettings, ⟨s₁, s₂, h₁, h₂, hc⟩, h.2.2.1 Windows.deviceSettings⟩

/-! ## The native calls of `updatePortSettings()` and `open()` -/

namespace Linux

/-- The native calls of `updatePortSettings()`: nothing on a closed port, otherwise a
`tcgetattr` and then at most a `tcsetattr`, both on the descriptor of the port. -/
theorem update_trace (o : Oracle) (p : SerialPortImpl) (tr : Trace) :
    (p.updatePortSettings o tr).2 = tr ∨
    (p.updatePortSettings o tr).2 = tr ++ [NativeCall.tcgetattr p.fileDescriptor] ∨
    ∃ s, (p.updatePortSettings o tr).2 =
      tr ++ [NativeCall.tcgetattr p.fileDescriptor,
             NativeCall.tcsetattr p.fileDescriptor TCSANOW s] := by
  cases hopen : p.isOpen with
  | false => left; rw [updatePortSettings_closed o p tr hopen]
  | true =>
    by_cases hget : (o (tr ++ [NativeCall.tcgetattr p.fileDescriptor])).ret = 0
    · cases hprep : p.preparePortSettings
          (o (tr ++ [NativeCall.tcgetattr p.fileDescriptor])).settings with
      | error e => right; left; rw [update_translation_throws o p tr e hopen hget hprep]
      | ok s =>
        right; right
        refine ⟨s, ?_⟩
        by_cases hset : (o (tr ++ [NativeCall.tcgetattr p.fileDescriptor,
            NativeCall.tcsetattr p.fileDescriptor TCSANOW s])).ret = 0
        · rw [update_succeeds o p tr s hopen hget hprep hset]
        · rw [update_set_fails o p tr s hopen hget hprep hset]
    · right; left; rw [update_get_fails o p tr hopen hget]

/-- The native calls of `open(openMode)` on a Closed handle with a supported mode: first
the native open of the stored port name, and no other native open after it. -/
theorem open_trace (o : Oracle) (p : SerialPortImpl) (tr : Trace) (openMode : OpenMode)
    (flags : Nat) (hclosed : p.isOpen = false)
    (hflags : descriptorFlags openMode = some flags) :
    ∃ rest, (p.open o tr openMode).trace = tr ++ NativeCall.open p.portName flags :: rest ∧
      ∀ c ∈ rest, ∀ path fl, c ≠ NativeCall.open path fl := by
  by_cases hfd : (o (tr ++ [NativeCall.open p.portName flags])).ret = INVALID_FILE_DESCRIPTOR
  · rw [open_native_open_fails o p tr openMode flags hclosed hflags hfd]
    exact ⟨[], rfl, by simp⟩
  · by_cases hget : (o (tr ++ [NativeCall.open p.portName flags,
        NativeCall.tcgetattr (o (tr ++ [NativeCall.open p.portName flags])).ret])).ret = 0
    · by_cases hexcl : (o (tr ++ [NativeCall.open p.portName flags,
          NativeCall.tcgetattr (o (tr ++ [NativeCall.open p.portName flags])).ret,
          NativeCall.ioctl (o (tr ++ [NativeCall.open p.portName flags])).ret TIOCEXCL])).ret
          = 0
      · rw [open_reaches_update o p tr openMode flags _ hclosed hflags rfl hfd hget hexcl _ rfl]
        generalize hq : ({ p with
            openMode := openMode,
            fileDescriptor := (o (tr ++ [NativeCall.open p.portName flags])).ret,
            portSettings := (o (tr ++ [NativeCall.open p.portName flags,
              NativeCall.tcgetattr (o (tr ++ [NativeCall.open p.portName flags])).ret])).settings }
            : SerialPortImpl) = q
        have hqfd : q.fileDescriptor = (o (tr ++ [NativeCall.open p.portName flags])).ret := by
          rw [← hq]
        have hqopen : q.isOpen = true := by
          rw [isOpen_eq_true_iff, hqfd]; exact hfd
        generalize htr0 : tr ++ [NativeCall.open p.portName flags,
          NativeCall.tcgetattr (o (tr ++ [NativeCall.open p.portName flags])).ret,
          NativeCall.ioctl (o (tr ++ [NativeCall.open p.portName flags])).ret TIOCEXCL] = tr0
        have hupd := update_trace o q tr0
        rcases hu : q.updatePortSettings o tr0 with ⟨e, tr'⟩
        rw [hu] at hupd
        simp only at hupd
        have htr' : ∃ more, tr' = tr0 ++ more ∧
            ∀ c ∈ more, ∀ path fl, c ≠ NativeCall.open path fl := by
          rcases hupd with h | h | ⟨s, h⟩
          · exact ⟨[], by simp [h], by simp⟩
          · exact ⟨_, h, by simp⟩
          · exact ⟨_, h, by simp⟩
        obtain ⟨more, hmore, hno⟩ := htr'
        cases e with
        | none =>
          refine ⟨[NativeCall.tcgetattr (o (tr ++ [NativeCall.open p.portName flags])).ret,
            NativeCall.ioctl (o (tr ++ [NativeCall.open p.portName flags])).ret TIOCEXCL]
            ++ more, ?_, ?_⟩
          · simp [hmore, ← htr0]
          · intro c hc
            rcases List.mem_append.1 hc with h | h
            · simp at h; rcases h with h | h <;> simp [h]
            · exact hno c h
        | some e =>
          refine ⟨[NativeCall.tcgetattr (o (tr ++ [NativeCall.open p.portName flags])).ret,
            NativeCall.ioctl (o (tr ++ [NativeCall.open p.portName flags])).ret TIOCEXCL]
            ++ more ++ [NativeCall.tcsetattr q.fileDescriptor TCSANOW q.portSettings,
              NativeCall.close q.fileDescriptor], ?_, ?_⟩
          · show (q.close o tr').trace = _
            rw [close_opened o q tr' hqopen]
            simp [hmore, ← htr0]
          · intro c hc
            rcases List.mem_append.1 hc with h | h
            · rcases List.mem_append.1 h with h | h
              · simp at h; rcases h with h | h <;> simp [h]
              · exact hno c h
            · simp at h; rcases h with h | h <;> simp [h]
      · rw [open_exclusive_fails o p tr openMode flags _ hclosed hflags rfl hfd hget hexcl]
        exact ⟨[NativeCall.tcgetattr (o (tr ++ [NativeCall.open p.portName flags])).ret,
          NativeCall.ioctl (o (tr ++ [NativeCall.open p.portName flags])).ret TIOCEXCL],
          rfl, by simp⟩
    · rw [open_get_fails o p tr openMode flags _ hclosed hflags rfl hfd hget]
      exact ⟨[NativeCall.tcgetattr (o (tr ++ [NativeCall.open p.portName flags])).ret,
          NativeCall.close (o (tr ++ [NativeCall.open p.portName flags])).ret],
          rfl, by simp⟩

end Linux

namespace Windows

/-- The native calls of `updatePortSettings()` on the Windows target: queries and writes
of the two records on the handle of the port, nothing else. -/
theorem win_update_trace (o : Oracle) (p : SerialPortImpl) (tr : Trace) :
    ∃ more, (p.updatePortSettings o tr).2 = tr ++ more ∧
      ∀ c ∈ more, c = NativeCall.GetCommState p.fileDescriptor ∨
        (∃ s, c = NativeCall.SetCommState p.fileDescriptor s) ∨
        c = NativeCall.GetCommTimeouts p.fileDescriptor ∨
        (∃ t, c = NativeCall.SetCommTimeouts p.fileDescriptor t) := by
  unfold SerialPortImpl.updatePortSettings
  split
  · exact ⟨[], by simp, by simp⟩
  · dsimp only
    split
    · exact ⟨[NativeCall.GetCommState p.fileDescriptor], rfl, by simp⟩
    · split
      · exact ⟨[NativeCall.GetCommState p.fileDescriptor], rfl, by simp⟩
      · rename_i s hs
        split
        · exact ⟨[NativeCall.GetCommState p.fileDescriptor,
            NativeCall.SetCommState p.fileDescriptor s],
            by simp [SerialPortImpl.getPortSettings, SerialPortImpl.setPortSettings],
            by simp⟩
        · split
          · exact ⟨[NativeCall.GetCommState p.fileDescriptor,
              NativeCall.SetCommState p.fileDescriptor s,
              NativeCall.GetCommTimeouts p.fileDescriptor],
              by simp [SerialPortImpl.getPortSettings, SerialPortImpl.setPortSettings,
                SerialPortImpl.getPortTimeoutSettings],
              by simp⟩
          · split <;>
              exact ⟨[NativeCall.GetCommState p.fileDescriptor,
                NativeCall.SetCommState p.fileDescriptor s,
                NativeCall.GetCommTimeouts p.fileDescriptor,
                NativeCall.SetCommTimeouts p.fileDescriptor
                  (p.preparePortTimeoutSettings
                    (p.getPortTimeoutSettings o
                      (p.setPortSettings o (p.getPortSettings o tr DCB.zero).2.2 s).2
                      COMMTIMEOUTS.zero).2.1)],
                by simp [SerialPortImpl.getPortSettings, SerialPortImpl.setPortSettings,
                  SerialPortImpl.getPortTimeoutSettings,
                  SerialPortImpl.setPortTimeoutSettings],
                by simp⟩

/-- The native calls of `open(openMode)` on a Closed handle with a supported mode, on the
Windows target: first `CreateFile` on the prefix followed by the stored port name, and no
other `CreateFile` after it. -/
theorem win_open_trace (o : Oracle) (p : SerialPortImpl) (tr : Trace) (openMode : OpenMode)
    (flags : Nat) (hclosed : p.isOpen = false)
    (hflags : accessFlags openMode = some flags) :
    ∃ rest, (p.open o tr openMode).trace =
        tr ++ NativeCall.CreateFile (SERIAL_PORT_PREFIX ++ p.portName) flags :: rest ∧
      ∀ c ∈ rest, ∀ path fl, c ≠ NativeCall.CreateFile path fl := by
  generalize hname : SERIAL_PORT_PREFIX ++ p.portName = fileName
  generalize hfdv : (o (tr ++ [NativeCall.CreateFile fileName flags])).ret = fd
  by_cases hfd : fd = INVALID_FILE_DESCRIPTOR
  · rw [win_open_native_open_fails o p tr openMode flags hclosed hflags
      (by rw [hname, hfdv, hfd])]
    exact ⟨[], by simp [hname], by simp⟩
  · by_cases hget : (o (tr ++ [NativeCall.CreateFile fileName flags,
        NativeCall.GetCommState fd])).ret = 0
    · rw [win_open_get_fails o p tr openMode flags fd hclosed hflags (by rw [hname, hfdv]) hfd
        (by rw [hname]; exact hget)]
      exact ⟨[NativeCall.GetCommState fd, NativeCall.CloseHandle fd], by simp [hname],
        by simp⟩
    · by_cases hgetT : (o (tr ++ [NativeCall.CreateFile fileName flags,
          NativeCall.GetCommState fd, NativeCall.GetCommTimeouts fd])).ret = 0
      · rw [win_open_get_timeouts_fails o p tr openMode flags fd hclosed hflags
          (by rw [hname, hfdv]) hfd (by rw [hname]; exact hget) (by rw [hname]; exact hgetT)]
        exact ⟨[NativeCall.GetCommState fd, NativeCall.GetCommTimeouts fd,
          NativeCall.CloseHandle fd], by simp [hname], by simp⟩
      · rw [win_open_reaches_update o p tr openMode flags fd hclosed hflags
          (by rw [hname, hfdv]) hfd (by rw [hname]; exact hget) (by rw [hname]; exact hgetT)
          _ rfl]
        rw [hname]
        generalize hq : ({ p with
            openMode := openMode, fileDescriptor := fd,
            portSettings := (o (tr ++ [NativeCall.CreateFile fileName flags,
              NativeCall.GetCommState fd])).settings,
            timeoutSettings := (o (tr ++ [NativeCall.CreateFile fileName flags,
              NativeCall.GetCommState fd, NativeCall.GetCommTimeouts fd])).timeouts }
            : SerialPortImpl) = q
        have hqfd : q.fileDescriptor = fd := by rw [← hq]
        have hqopen : q.isOpen = true := by
          rw [win_isOpen_eq_true_iff, hqfd]; exact hfd
        generalize htr0 : tr ++ [NativeCall.CreateFile fileName flags,
          NativeCall.GetCommState fd, NativeCall.GetCommTimeouts fd] = tr0
        obtain ⟨more, hmore, hcalls⟩ := win_update_trace o q tr0
        have hno : ∀ c ∈ more, ∀ path fl, c ≠ NativeCall.CreateFile path fl := by
          intro c hc path fl
          rcases hcalls c hc with h | ⟨s, h⟩ | h | ⟨t, h⟩ <;> simp [h]
        rcases hu : q.updatePortSettings o tr0 with ⟨e, tr'⟩
        rw [hu] at hmore
        simp only at hmore
        cases e with
        | none =>
          refine ⟨[NativeCall.GetCommState fd, NativeCall.GetCommTimeouts fd] ++ more, ?_, ?_⟩
          · simp [hmore, ← htr0]
          · intro c hc
            rcases List.mem_append.1 hc with h | h
            · simp at h; rcases h with h | h <;> simp [h]
            · exact hno c h
        | some e =>
          refine ⟨[NativeCall.GetCommState fd, NativeCall.GetCommTimeouts fd]
            ++ more ++ [NativeCall.SetCommState q.fileDescriptor q.portSettings,
              NativeCall.SetCommTimeouts q.fileDescriptor q.timeoutSettings,
              NativeCall.CloseHandle q.fileDescriptor], ?_, ?_⟩
          · show (q.close o tr').trace = _
            rw [win_close_opened o q tr' hqopen]
            simp [hmore, ← htr0]
          · intro c hc
            rcases List.mem_append.1 hc with h | h
            · rcases List.mem_append.1 h with h | h
              · simp at h; rcases h with h | h <;> simp [h]
              · exact hno c h
            · simp at h; rcases h with h | h | h <;> simp [h]

end Windows

/-! ## The path `open()` passes to the native open call -/

/-- A name with the prefix put in front is not the name. -/
theorem prefixed_ne (target : Platform) (x : String) : SERIAL_PORT_PREFIX target ++ x ≠ x := by
  intro h
  have hlen := congrArg (fun s : String => s.data.length) h
  simp only [String.data_append, List.length_append] at hlen
  have hpos := SERIAL_PORT_PREFIX_nonempty target
  omega

/-- When the stored name is the converted name: on the POSIX target, where `open()`
passes the name itself, exactly when the name contains the prefix. -/
theorem name_is_converted_iff (x : String) :
    x = Enumerator.serialPortToFileName Platform.linux x ↔
      stringFind x.data (SERIAL_PORT_PREFIX Platform.linux).data ≠ none := by
  cases h : stringFind x.data (SERIAL_PORT_PREFIX Platform.linux).data with
  | none =>
    rw [Enumerator.serialPortToFileName_of_absent _ _ h]
    simp only [ne_eq, not_true_eq_false, iff_false]
    exact fun hx => prefixed_ne _ _ hx.symm
  | some position =>
    rw [Enumerator.serialPortToFileName_of_found _ _ _ h]
    simp

/-- When the prefixed name is the converted name: on the Windows target, where `open()`
puts the prefix in front, exactly when the name does not contain the prefix. -/
theorem prefixed_is_converted_iff (x : String) :
    SERIAL_PORT_PREFIX Platform.windows ++ x =
        Enumerator.serialPortToFileName Platform.windows x ↔
      stringFind x.data (SERIAL_PORT_PREFIX Platform.windows).data = none := by
  cases h : stringFind x.data (SERIAL_PORT_PREFIX Platform.windows).data with
  | none =>
    rw [Enumerator.serialPortToFileName_of_absent _ _ h]
    simp
  | some position =>
    rw [Enumerator.serialPortToFileName_of_found _ _ _ h]
    simp only [reduceCtorEq, iff_false]
    exact prefixed_ne _ _

/-- C37, as stated, fails on both targets.  A POSIX port named `ttyUSB0` passes
`ttyUSB0` to the native open, not the converted `/dev/ttyUSB0`; a Windows port whose name
already carries the prefix has the prefix put in front once more, where the conversion
returns the name itself. -/
theorem open_passes_name_unconverted :
    (Linux.SerialPortImpl.open Linux.healthyDevice
        { Linux.defaultPort with portName := "ttyUSB0" } [] readWrite).trace.head? =
      some (Linux.NativeCall.open "ttyUSB0"
        (Linux.O_NOCTTY ||| Linux.O_NONBLOCK ||| Linux.O_RDWR)) ∧
    Enumerator.serialPortToFileName Platform.linux "ttyUSB0" = "/dev/ttyUSB0" ∧
    (Windows.SerialPortImpl.open Windows.healthyDevice
        { Windows.defaultPort with portName := "\\\\.\\COM1" } [] readWrite).trace.head? =
      some (Windows.NativeCall.CreateFile "\\\\.\\\\\\.\\COM1"
        (Windows.GENERIC_READ ||| Windows.GENERIC_WRITE)) ∧
    Enumerator.serialPortToFileName Platform.windows "\\\\.\\COM1" = "\\\\.\\COM1" := by
  decide

/-- C37 (amended).  On a Closed handle and with a supported mode, `open()` issues one
native open call, the first call it makes: on the POSIX target with the stored port name
itself, on the Windows target with the platform prefix followed by the stored port name,
whatever the name holds.  The path is that of the naming conversion
`serialPortToFileName(portName)` exactly when, on the POSIX target, the name contains the
prefix and, on the Windows target, it does not. -/
theorem open_passes_stored_name
    (oL : Linux.Oracle) (pL : Linux.SerialPortImpl) (trL : Linux.Trace)
    (oW : Windows.Oracle) (pW : Windows.SerialPortImpl) (trW : Windows.Trace)
    (openMode : OpenMode) (flagsL flagsW : Nat)
    (hclosedL : pL.isOpen = false) (hclosedW : pW.isOpen = false)
    (hflagsL : Linux.descriptorFlags openMode = some flagsL)
    (hflagsW : Windows.accessFlags openMode = some flagsW) :
    (∃ rest, (pL.open oL trL openMode).trace =
        trL ++ Linux.NativeCall.open pL.portName flagsL :: rest ∧
      ∀ c ∈ rest, ∀ path fl, c ≠ Linux.NativeCall.open path fl) ∧
    (∃ rest, (pW.open oW trW openMode).trace =
        trW ++ Windows.NativeCall.CreateFile (Windows.SERIAL_PORT_PREFIX ++ pW.portName)
          flagsW :: rest ∧
      ∀ c ∈ rest, ∀ path fl, c ≠ Windows.NativeCall.CreateFile path fl) ∧
    (pL.portName = Enumerator.serialPortToFileName Platform.linux pL.portName ↔
      stringFind pL.portName.data (SERIAL_PORT_PREFIX Platform.linux).data ≠ none) ∧
    (Windows.SERIAL_PORT_PREFIX ++ pW.portName =
        Enumerator.serialPortToFileName Platform.windows pW.portName ↔
      stringFind pW.portName.data (SERIAL_PORT_PREFIX Platform.windows).data = none) :=
  ⟨Linux.open_trace oL pL trL openMode flagsL hclosedL hflagsL,
   Windows.win_open_trace oW pW trW openMode flagsW hclosedW hflagsW,
   name_is_converted_iff pL.portName, prefixed_is_converted_iff pW.portName⟩

/-- C37 (amended) on the default ports, `/dev/ttyUSB0` and `COM1`, for which the path
passed is the converted name on both targets. -/
theorem open_passes_stored_name_witness :
    (∃ rest, (Linux.SerialPortImpl.open Linux.healthyDevice Linux.defaultPort []
        readWrite).trace =
        [] ++ Linux.NativeCall.open "/dev/ttyUSB0"
          (Linux.O_NOCTTY ||| Linux.O_NONBLOCK ||| Linux.O_RDWR) :: rest ∧
      ∀ c ∈ rest, ∀ path fl, c ≠ Linux.NativeCall.open path fl) ∧
    (∃ rest, (Windows.SerialPortImpl.open Windows.healthyDevice Windows.defaultPort []
        readWrite).trace =
        [] ++ Windows.NativeCall.CreateFile "\\\\.\\COM1"
          (Windows.GENERIC_READ ||| Windows.GENERIC_WRITE) :: rest ∧
      ∀ c ∈ rest, ∀ path fl, c ≠ Windows.NativeCall.CreateFile path fl) ∧
    "/dev/ttyUSB0" = Enumerator.serialPortToFileName Platform.linux "/dev/ttyUSB0" ∧
    "\\\\.\\COM1" = Enumerator.serialPortToFileName Platform.windows "COM1" := by
  have h := open_passes_stored_name Linux.healthyDevice Linux.defaultPort []
    Windows.healthyDevice Windows.defaultPort [] readWrite
    (Linux.O_NOCTTY ||| Linux.O_NONBLOCK ||| Linux.O_RDWR)
    (Windows.GENERIC_READ ||| Windows.GENERIC_WRITE) (by decide) (by decide) (by decide)
    (by decide)
  exact ⟨h.1, h.2.1, h.2.2.1.2 (by decide), h.2.2.2.2 (by decide)⟩

/-! ## The setters and `drain()` -/

namespace Windows

/-- A setter call with a supported argument on the Windows target: the value is stored
and the settings are re-applied; `drain()` adds no native call. -/
theorem win_call_supported (o : Oracle) (p : SerialPortImpl) (tr : Trace) (c : SetterCall)
    (h : c.isSupported Platform.windows = true) :
    p.call o tr c =
      ⟨((p.store c).updatePortSettings o tr).1, p.store c,
       ((p.store c).updatePortSettings o tr).2⟩ := by
  cases c <;> simp only [SetterCall.isSupported] at h <;>
    simp [SerialPortImpl.call, SerialPortImpl.setBaudRate, SerialPortImpl.setCharacterSize,
      SerialPortImpl.setFlowControl, SerialPortImpl.setParity, SerialPortImpl.setStopBit,
      SerialPortImpl.store, SerialPortImpl.drain, h]

theorem win_store_fileDescriptor (p : SerialPortImpl) (c : SetterCall) :
    (p.store c).fileDescriptor = p.fileDescriptor := by
  cases c <;> rfl

/-- A setter call on the Windows target either leaves the port as it is or stores its
argument. -/
theorem win_call_port (o : Oracle) (p : SerialPortImpl) (tr : Trace) (c : SetterCall) :
    (p.call o tr c).port = p ∨ (p.call o tr c).port = p.store c := by
  cases hsup : c.isSupported Platform.windows with
  | false =>
    obtain ⟨what, hw⟩ := win_call_unsupported o p tr c hsup
    left; rw [hw]
  | true => right; rw [win_call_supported o p tr c hsup]

/-- On an Open handle `updatePortSettings()` starts with the query of the settings; what
follows are writes and the query of the timeouts. -/
theorem win_update_trace_open (o : Oracle) (p : SerialPortImpl) (tr : Trace)
    (hopen : p.isOpen = true) :
    ∃ more, (p.updatePortSettings o tr).2 =
        tr ++ NativeCall.GetCommState p.fileDescriptor :: more ∧
      ∀ c ∈ more, (∃ s, c = NativeCall.SetCommState p.fileDescriptor s) ∨
        c = NativeCall.GetCommTimeouts p.fileDescriptor ∨
        (∃ t, c = NativeCall.SetCommTimeouts p.fileDescriptor t) := by
  unfold SerialPortImpl.updatePortSettings
  split
  · rename_i h
    rw [hopen] at h
    exact absurd h (by decide)
  · dsimp only
    split
    · exact ⟨[], rfl, by simp⟩
    · split
      · exact ⟨[], rfl, by simp⟩
      · rename_i s hs
        split
        · exact ⟨[NativeCall.SetCommState p.fileDescriptor s],
            by simp [SerialPortImpl.getPortSettings, SerialPortImpl.setPortSettings],
            by simp⟩
        · split
          · exact ⟨[NativeCall.SetCommState p.fileDescriptor s,
              NativeCall.GetCommTimeouts p.fileDescriptor],
              by simp [SerialPortImpl.getPortSettings, SerialPortImpl.setPortSettings,
                SerialPortImpl.getPortTimeoutSettings],
              by simp⟩
          · split <;>
              exact ⟨[NativeCall.SetCommState p.fileDescriptor s,
                NativeCall.GetCommTimeouts p.fileDescriptor,
                NativeCall.SetCommTimeouts p.fileDescriptor
                  (p.preparePortTimeoutSettings
                    (p.getPortTimeoutSettings o
                      (p.setPortSettings o (p.getPortSettings o tr DCB.zero).2.2 s).2
                      COMMTIMEOUTS.zero).2.1)],
                by simp [SerialPortImpl.getPortSettings, SerialPortImpl.setPortSettings,
                  SerialPortImpl.getPortTimeoutSettings,
                  SerialPortImpl.setPortTimeoutSettings],
                by simp⟩

theorem win_store_isOpen (p : SerialPortImpl) (c : SetterCall) :
    (p.store c).isOpen = p.isOpen := by
  cases c <;> rfl

end Windows

/-- C36, as stated, fails on the Windows target.  `setParity` with a supported value on an
Open Windows handle starts with the query of the native settings: `drain()` is not
supported there and issues no native call, so nothing waits for the queued output.  On
the POSIX target the same call starts with `tcdrain`. -/
theorem win_setter_does_not_drain :
    (Windows.SerialPortImpl.call Windows.healthyDevice Windows.openedPort []
        (SetterCall.setParity Parity.PARITY_TYPE_EVEN)).trace.head? =
      some (Windows.NativeCall.GetCommState 7) ∧
    Windows.SerialPortImpl.drain Windows.healthyDevice Windows.openedPort [] = (false, []) ∧
    (Linux.SerialPortImpl.call Linux.healthyDevice Linux.openedPort []
        (SetterCall.setParity Parity.PARITY_TYPE_EVEN)).trace.head? =
      some (Linux.NativeCall.tcdrain 3) := by
  decide

/-- C36 (amended).  On an Open handle and with a supported value: on the POSIX target
`setFlowControl`, `setParity` and `setStopBit` first call `tcdrain` on the descriptor and
then read the native settings, while `setBaudRate` and `setCharacterSize` read them at
once; on the Windows target every setter reads them at once, and no call of it waits for
the output.  On both targets the other native calls of a setter are writes and queries of
the settings on the descriptor of the port, which the setter leaves as it is: no native
close, no native open. -/
theorem setters_drain_on_posix_and_keep_the_handle
    (oL : Linux.Oracle) (pL : Linux.SerialPortImpl) (trL : Linux.Trace)
    (oW : Windows.Oracle) (pW : Windows.SerialPortImpl) (trW : Windows.Trace)
    (cL cW : SetterCall) (hopenL : pL.isOpen = true) (hopenW : pW.isOpen = true)
    (hsupL : cL.isSupported Platform.linux = true)
    (hsupW : cW.isSupported Platform.windows = true) :
    (∃ more, (pL.call oL trL cL).trace =
        trL ++ (if cL.drains then [Linux.NativeCall.tcdrain pL.fileDescriptor] else []) ++
          Linux.NativeCall.tcgetattr pL.fileDescriptor :: more ∧
      ∀ x ∈ more, ∃ s, x = Linux.NativeCall.tcsetattr pL.fileDescriptor Linux.TCSANOW s) ∧
    (pL.call oL trL cL).port.fileDescriptor = pL.fileDescriptor ∧
    (∃ more, (pW.call oW trW cW).trace =
        trW ++ Windows.NativeCall.GetCommState pW.fileDescriptor :: more ∧
      ∀ x ∈ more, (∃ s, x = Windows.NativeCall.SetCommState pW.fileDescriptor s) ∨
        x = Windows.NativeCall.GetCommTimeouts pW.fileDescriptor ∨
        (∃ t, x = Windows.NativeCall.SetCommTimeouts pW.fileDescriptor t)) ∧
    (pW.call oW trW cW).port.fileDescriptor = pW.fileDescriptor := by
  refine ⟨?_, Linux.call_fileDescriptor oL pL trL cL, ?_, ?_⟩
  · rw [Linux.call_supported oL pL trL cL hsupL]
    have hdrain : (pL.drain oL trL).2 = trL ++ [Linux.NativeCall.tcdrain pL.fileDescriptor] := by
      simp [Linux.SerialPortImpl.drain, hopenL]
    have hstore := Linux.store_isOpen pL cL
    rw [hopenL] at hstore
    have hfd := Linux.store_fileDescriptor pL cL
    generalize htr0 : (if cL.drains = true then (pL.drain oL trL).2 else trL) = tr0
    have htr0' : tr0 = trL ++
        (if cL.drains then [Linux.NativeCall.tcdrain pL.fileDescriptor] else []) := by
      rw [← htr0]
      cases cL.drains <;> simp [hdrain]
    show ∃ more, ((pL.store cL).updatePortSettings oL tr0).2 = _ ∧ _
    rcases Linux.update_trace oL (pL.store cL) tr0 with h | h | ⟨s, h⟩
    · exfalso
      have hlen := congrArg List.length h
      by_cases hget : (oL (tr0 ++ [Linux.NativeCall.tcgetattr (pL.store cL).fileDescriptor])).ret = 0
      · cases hprep : (pL.store cL).preparePortSettings
            (oL (tr0 ++ [Linux.NativeCall.tcgetattr (pL.store cL).fileDescriptor])).settings with
        | error e =>
          rw [Linux.update_translation_throws oL _ tr0 e hstore hget hprep] at hlen
          simp at hlen
        | ok s =>
          by_cases hset : (oL (tr0 ++ [Linux.NativeCall.tcgetattr (pL.store cL).fileDescriptor,
              Linux.NativeCall.tcsetattr (pL.store cL).fileDescriptor Linux.TCSANOW s])).ret = 0
          · rw [Linux.update_succeeds oL _ tr0 s hstore hget hprep hset] at hlen
            simp at hlen
          · rw [Linux.update_set_fails oL _ tr0 s hstore hget hprep hset] at hlen
            simp at hlen
      · rw [Linux.update_get_fails oL _ tr0 hstore hget] at hlen
        simp at hlen
    · exact ⟨[], by rw [h, hfd, htr0'], by simp⟩
    · exact ⟨[Linux.NativeCall.tcsetattr pL.fileDescriptor Linux.TCSANOW s],
        by rw [h, hfd, htr0'], by simp⟩
  · rw [Windows.win_call_supported oW pW trW cW hsupW]
    obtain ⟨more, hmore, hcalls⟩ := Windows.win_update_trace_open oW (pW.store cW) trW
      (by rw [Windows.win_store_isOpen]; exact hopenW)
    rw [Windows.win_store_fileDescriptor] at hcalls hmore
    exact ⟨more, hmore, hcalls⟩
  · rcases Windows.win_call_port oW pW trW cW with h | h <;> rw [h]
    exact Windows.win_store_fileDescriptor pW cW

/-- C36 (amended) on the open example ports, for `setStopBit(STOP_BIT_TWO)` on the POSIX
target and `setStopBit(STOP_BIT_ONE_HALF)`, a value of the Windows target only, on the
Windows target. -/
theorem setters_drain_on_posix_and_keep_the_handle_witness :
    (∃ more, (Linux.SerialPortImpl.call Linux.healthyDevice Linux.openedPort []
        (SetterCall.setStopBit StopBit.STOP_BIT_TWO)).trace =
        [] ++ [Linux.NativeCall.tcdrain 3] ++ Linux.NativeCall.tcgetattr 3 :: more ∧
      ∀ x ∈ more, ∃ s, x = Linux.NativeCall.tcsetattr 3 Linux.TCSANOW s) ∧
    (Linux.SerialPortImpl.call Linux.healthyDevice Linux.openedPort []
        (SetterCall.setStopBit StopBit.STOP_BIT_TWO)).port.fileDescriptor = 3 ∧
    (∃ more, (Windows.SerialPortImpl.call Windows.healthyDevice Windows.openedPort []
        (SetterCall.setStopBit StopBit.STOP_BIT_ONE_HALF)).trace =
        [] ++ Windows.NativeCall.GetCommState 7 :: more ∧
      ∀ x ∈ more, (∃ s, x = Windows.NativeCall.SetCommState 7 s) ∨
        x = Windows.NativeCall.GetCommTimeouts 7 ∨
        (∃ t, x = Windows.NativeCall.SetCommTimeouts 7 t)) ∧
    (Windows.SerialPortImpl.call Windows.healthyDevice Windows.openedPort []
        (SetterCall.setStopBit StopBit.STOP_BIT_ONE_HALF)).port.fileDescriptor = 7 :=
  setters_drain_on_posix_and_keep_the_handle Linux.healthyDevice Linux.openedPort []
    Windows.healthyDevice Windows.openedPort [] (SetterCall.setStopBit StopBit.STOP_BIT_TWO)
    (SetterCall.setStopBit StopBit.STOP_BIT_ONE_HALF)
    (by decide) (by decide) (by decide) (by decide)

/-! ## Runs of operations: the stored configuration and the remembered mode -/

/-- A runtime error with another text is not "Unsupported open mode". -/
theorem message_ne (what : String) (h : what ≠ "Unsupported open mode") :
    some (Exception.runtime_error what) ≠
      some (Exception.runtime_error "Unsupported open mode") := by
  intro hx
  injection hx with hx
  injection hx with hx
  exact h hx

namespace Linux

/-- The modes `open()` accepts are `in | out`, `in` and `out`. -/
theorem descriptorFlags_ne_none_iff (openMode : OpenMode) :
    descriptorFlags openMode ≠ none ↔
      (openMode = (ios_base_in ||| ios_base_out) ∨ openMode = ios_base_in ∨
        openMode = ios_base_out) := by
  unfold descriptorFlags
  simp only [beq_iff_eq]
  split_ifs <;> simp_all

/-- What `open()` writes: nothing, or the mode (a supported one), the descriptor and the
snapshot. -/
theorem open_port_shape (o : Oracle) (p : SerialPortImpl) (tr : Trace)
    (openMode : OpenMode) :
    (p.open o tr openMode).port = p ∨
      (descriptorFlags openMode ≠ none ∧ p.isOpen = false ∧
        ∃ fd ps, (p.open o tr openMode).port =
          { p with openMode := openMode, fileDescriptor := fd, portSettings := ps }) := by
  cases hopen : p.isOpen with
  | true => left; rw [open_opened o p tr openMode hopen]
  | false =>
    have hclosed := hopen
    cases hflags : descriptorFlags openMode with
    | none => left; simp [SerialPortImpl.open, hclosed, hflags]
    | some flags =>
      right
      refine ⟨by simp, rfl, ?_⟩
      by_cases hfd : (o (tr ++ [NativeCall.open p.portName flags])).ret
          = INVALID_FILE_DESCRIPTOR
      · rw [open_native_open_fails o p tr openMode flags hclosed hflags hfd]
        exact ⟨INVALID_FILE_DESCRIPTOR, p.portSettings, rfl⟩
      · by_cases hget : (o (tr ++ [NativeCall.open p.portName flags,
            NativeCall.tcgetattr (o (tr ++ [NativeCall.open p.portName flags])).ret])).ret = 0
        · by_cases hexcl : (o (tr ++ [NativeCall.open p.portName flags,
              NativeCall.tcgetattr (o (tr ++ [NativeCall.open p.portName flags])).ret,
              NativeCall.ioctl (o (tr ++ [NativeCall.open p.portName flags])).ret
                TIOCEXCL])).ret = 0
          · have hred := open_reaches_update o p tr openMode flags _ hclosed hflags rfl hfd
              hget hexcl _ rfl
            rw [hred]
            cases hu : SerialPortImpl.updatePortSettings o _ _ with
            | mk e tr' =>
              cases e with
              | some e =>
                simp only [close_port]
                exact ⟨_, _, rfl⟩
              | none => exact ⟨_, _, rfl⟩
          · rw [open_exclusive_fails o p tr openMode flags _ hclosed hflags rfl hfd hget hexcl]
            exact ⟨_, _, rfl⟩
        · rw [open_get_fails o p tr openMode flags _ hclosed hflags rfl hfd hget]
          exact ⟨INVALID_FILE_DESCRIPTOR, p.portSettings, rfl⟩

/-- What `setPortName()` writes: the name, and through `reopen()` the descriptor and the
snapshot; the remembered mode is passed to `open()` and stays. -/
theorem setPortName_port_shape (o : Oracle) (p : SerialPortImpl) (tr : Trace) (n : String) :
    ∃ fd ps, (p.setPortName o tr n).port =
      { p with portName := n, fileDescriptor := fd, portSettings := ps } := by
  cases hopen : p.isOpen with
  | false =>
    rw [setPortName_closed o p tr n hopen]
    exact ⟨p.fileDescriptor, p.portSettings, rfl⟩
  | true =>
    by_cases hrestore : (o (tr ++ [NativeCall.tcsetattr p.fileDescriptor TCSANOW
        p.portSettings])).ret = 0
    · rw [setPortName_reopens o p tr n hopen hrestore]
      rcases open_port_shape o
        ({ p with portName := n, fileDescriptor := INVALID_FILE_DESCRIPTOR } : SerialPortImpl)
        (tr ++ [NativeCall.tcsetattr p.fileDescriptor TCSANOW p.portSettings,
                NativeCall.close p.fileDescriptor]) p.openMode with h | ⟨_, _, fd, ps, h⟩
      · rw [h]; exact ⟨INVALID_FILE_DESCRIPTOR, p.portSettings, rfl⟩
      · rw [h]; exact ⟨fd, ps, rfl⟩
    · rw [setPortName_close_throws o p tr n hopen hrestore]
      exact ⟨INVALID_FILE_DESCRIPTOR, p.portSettings, rfl⟩

/-- The translator throws `out_of_range` only. -/
theorem prepare_error_shape (p : SerialPortImpl) (r : Termios) (e : Exception)
    (h : p.preparePortSettings r = .error e) : ∃ what, e = Exception.out_of_range what := by
  unfold SerialPortImpl.preparePortSettings at h
  cases hb : getBaudRateValue Platform.linux p.baudRate with
  | error e' =>
    simp only [hb] at h
    injection h with h
    subst h
    exact ⟨_, baudRateValue_error_shape _ _ _ hb⟩
  | ok speed =>
    cases hc : getCharacterSizeValue Platform.linux p.characterSize with
    | error e' =>
      simp only [hb, hc] at h
      injection h with h
      subst h
      exact ⟨_, characterSizeValue_error_shape _ _ _ hc⟩
    | ok size => simp [hb, hc] at h

/-- What `updatePortSettings()` throws is not "Unsupported open mode". -/
theorem update_exception_ne (o : Oracle) (p : SerialPortImpl) (tr : Trace) :
    (p.updatePortSettings o tr).1 ≠
      some (Exception.runtime_error "Unsupported open mode") := by
  cases hopen : p.isOpen with
  | false => rw [updatePortSettings_closed o p tr hopen]; simp
  | true =>
    by_cases hget : (o (tr ++ [NativeCall.tcgetattr p.fileDescriptor])).ret = 0
    · cases hprep : p.preparePortSettings
          (o (tr ++ [NativeCall.tcgetattr p.fileDescriptor])).settings with
      | error e =>
        rw [update_translation_throws o p tr e hopen hget hprep]
        obtain ⟨what, hw⟩ := prepare_error_shape p _ e hprep
        simp [hw]
      | ok s =>
        by_cases hset : (o (tr ++ [NativeCall.tcgetattr p.fileDescriptor,
            NativeCall.tcsetattr p.fileDescriptor TCSANOW s])).ret = 0
        · rw [update_succeeds o p tr s hopen hget hprep hset]; simp
        · rw [update_set_fails o p tr s hopen hget hprep hset]
          exact message_ne _ (by decide)
    · rw [update_get_fails o p tr hopen hget]
      exact message_ne _ (by decide)

/-- What `close()` throws is not "Unsupported open mode". -/
theorem close_exception_ne (o : Oracle) (p : SerialPortImpl) (tr : Trace) :
    (p.close o tr).exception ≠ some (Exception.runtime_error "Unsupported open mode") := by
  cases hopen : p.isOpen with
  | false => rw [close_closed o p tr hopen]; simp
  | true =>
    rw [close_opened o p tr hopen]
    simp only
    split
    · simp
    · exact message_ne _ (by decide)

/-- With a mode `open()` accepts, what `open()` throws is not "Unsupported open mode". -/
theorem open_exception_ne (o : Oracle) (p : SerialPortImpl) (tr : Trace)
    (openMode : OpenMode) (h : descriptorFlags openMode ≠ none) :
    (p.open o tr openMode).exception ≠
      some (Exception.runtime_error "Unsupported open mode") := by
  cases hopen : p.isOpen with
  | true => rw [open_opened o p tr openMode hopen]; simp
  | false =>
    have hclosed := hopen
    cases hflags : descriptorFlags openMode with
    | none => exact absurd hflags h
    | some flags =>
      by_cases hfd : (o (tr ++ [NativeCall.open p.portName flags])).ret
          = INVALID_FILE_DESCRIPTOR
      · rw [open_native_open_fails o p tr openMode flags hclosed hflags hfd]
        exact message_ne _ (by decide)
      · by_cases hget : (o (tr ++ [NativeCall.open p.portName flags,
            NativeCall.tcgetattr (o (tr ++ [NativeCall.open p.portName flags])).ret])).ret = 0
        · by_cases hexcl : (o (tr ++ [NativeCall.open p.portName flags,
              NativeCall.tcgetattr (o (tr ++ [NativeCall.open p.portName flags])).ret,
              NativeCall.ioctl (o (tr ++ [NativeCall.open p.portName flags])).ret
                TIOCEXCL])).ret = 0
          · have hred := open_reaches_update o p tr openMode flags _ hclosed hflags rfl hfd
              hget hexcl _ rfl
            rw [hred]
            have hupd := update_exception_ne o
              ({ p with
                  openMode := openMode,
                  fileDescriptor := (o (tr ++ [NativeCall.open p.portName flags])).ret,
                  portSettings := (o (tr ++ [NativeCall.open p.portName flags,
                    NativeCall.tcgetattr
                      (o (tr ++ [NativeCall.open p.portName flags])).ret])).settings }
                : SerialPortImpl)
              (tr ++ [NativeCall.open p.portName flags,
                NativeCall.tcgetattr (o (tr ++ [NativeCall.open p.portName flags])).ret,
                NativeCall.ioctl (o (tr ++ [NativeCall.open p.portName flags])).ret TIOCEXCL])
            cases hu : SerialPortImpl.updatePortSettings o _ _ with
            | mk e tr' =>
              rw [hu] at hupd
              cases e with
              | some e =>
                simp only
                have hcl := close_exception_ne o
                  ({ p with
                      openMode := openMode,
                      fileDescriptor := (o (tr ++ [NativeCall.open p.portName flags])).ret,
                      portSettings := (o (tr ++ [NativeCall.open p.portName flags,
                        NativeCall.tcgetattr
                          (o (tr ++ [NativeCall.open p.portName flags])).ret])).settings }
                    : SerialPortImpl) tr'
                split
                · rename_i e' he'
                  rw [he'] at hcl
                  exact hcl
                · exact hupd
              | none => simp
          · rw [open_exclusive_fails o p tr openMode flags _ hclosed hflags rfl hfd hget hexcl]
            exact message_ne _ (by decide)
        · rw [open_get_fails o p tr openMode flags _ hclosed hflags rfl hfd hget]
          exact message_ne _ (by decide)

/-- With a remembered mode that `open()` accepts, the re-open of `setPortName()` does not
throw "Unsupported open mode". -/
theorem setPortName_exception_ne (o : Oracle) (p : SerialPortImpl) (tr : Trace) (n : String)
    (h : descriptorFlags p.openMode ≠ none) :
    (p.setPortName o tr n).exception ≠
      some (Exception.runtime_error "Unsupported open mode") := by
  cases hopen : p.isOpen with
  | false => rw [setPortName_closed o p tr n hopen]; simp
  | true =>
    by_cases hrestore : (o (tr ++ [NativeCall.tcsetattr p.fileDescriptor TCSANOW
        p.portSettings])).ret = 0
    · rw [setPortName_reopens o p tr n hopen hrestore]
      exact open_exception_ne o _ _ p.openMode h
    · rw [setPortName_close_throws o p tr n hopen hrestore]
      exact message_ne _ (by decide)

theorem store_openMode (p : SerialPortImpl) (c : SetterCall) :
    (p.store c).openMode = p.openMode := by
  cases c <;> rfl

/-- A setter call keeps all five stored values supported: it stores only a value it has
validated. -/
theorem call_keeps_configuration (o : Oracle) (p : SerialPortImpl) (tr : Trace)
    (c : SetterCall) (h : p.configurationSupported = true) :
    (p.call o tr c).port.configurationSupported = true := by
  cases hsup : c.isSupported Platform.linux with
  | false =>
    obtain ⟨what, hw⟩ := call_unsupported o p tr c hsup
    rw [hw]; exact h
  | true =>
    rw [call_supported o p tr c hsup]
    cases c <;>
      simp_all [SerialPortImpl.store, SetterCall.isSupported,
        SerialPortImpl.configurationSupported]

/-- An operation keeps all five stored values supported. -/
theorem perform_keeps_configuration (o : Oracle) (p : SerialPortImpl) (tr : Trace)
    (op : Operation) (h : p.configurationSupported = true) :
    (p.perform o tr op).port.configurationSupported = true := by
  rcases op with openMode | _ | exclusive | portName | call
  · rcases open_port_shape o p tr openMode with hs | ⟨_, _, fd, ps, hs⟩ <;>
      simp only [SerialPortImpl.perform, hs] <;> exact h
  · simp only [SerialPortImpl.perform, close_port]; exact h
  · exact h
  · obtain ⟨fd, ps, hs⟩ := setPortName_port_shape o p tr portName
    simp only [SerialPortImpl.perform, hs]; exact h
  · exact call_keeps_configuration o p tr call h

/-- A run of operations keeps all five stored values supported. -/
theorem performAll_keeps_configuration (o : Oracle) (ops : List Operation) :
    ∀ (p : SerialPortImpl) (tr : Trace) (opened : Option OpenMode),
      p.configurationSupported = true →
      (p.performAll o tr opened ops).1.configurationSupported = true := by
  induction ops with
  | nil => intro p tr opened h; exact h
  | cons op ops ih =>
    intro p tr opened h
    simp only [SerialPortImpl.performAll]
    exact ih _ _ _ (perform_keeps_configuration o p tr op h)

/-- An operation keeps the remembered mode one that `open()` accepts, and keeps the
record of the mode that opened the handle: while the handle is Open the remembered mode
is the recorded one. -/
theorem perform_keeps_mode (o : Oracle) (p : SerialPortImpl) (tr : Trace)
    (opened : Option OpenMode) (op : Operation)
    (h : descriptorFlags p.openMode ≠ none ∧ (p.isOpen = true → opened = some p.openMode)) :
    descriptorFlags (p.perform o tr op).port.openMode ≠ none ∧
      ((p.perform o tr op).port.isOpen = true →
        p.openedWith o tr opened op = some (p.perform o tr op).port.openMode) := by
  obtain ⟨hmode, hrec⟩ := h
  rcases op with openMode | _ | exclusive | portName | call
  · simp only [SerialPortImpl.perform, SerialPortImpl.openedWith]
    rcases open_port_shape o p tr openMode with hs | ⟨hm, hclosed, fd, ps, hs⟩
    · rw [hs]
      refine ⟨hmode, fun hopen => ?_⟩
      simp [hopen, hrec hopen]
    · rw [hs]
      refine ⟨hm, fun hopen => ?_⟩
      simp [hclosed, hopen]
  · simp only [SerialPortImpl.perform, SerialPortImpl.openedWith, close_port]
    exact ⟨hmode, fun hopen => absurd hopen (by simp [SerialPortImpl.isOpen])⟩
  · exact ⟨hmode, hrec⟩
  · simp only [SerialPortImpl.perform, SerialPortImpl.openedWith]
    obtain ⟨fd, ps, hs⟩ := setPortName_port_shape o p tr portName
    cases hopen : p.isOpen with
    | false =>
      rw [setPortName_closed o p tr portName hopen]
      refine ⟨hmode, fun hx => ?_⟩
      rw [show ({ p with portName := portName } : SerialPortImpl).isOpen = p.isOpen from rfl,
        hopen] at hx
      exact absurd hx (by decide)
    | true =>
      rw [hs]
      refine ⟨hmode, fun hx => ?_⟩
      simp [hx]
  · simp only [SerialPortImpl.perform, SerialPortImpl.openedWith]
    have hfd := call_fileDescriptor o p tr call
    have hom : (p.call o tr call).port.openMode = p.openMode := by
      rcases call_port o p tr call with hc | hc <;> rw [hc]
      exact store_openMode p call
    rw [hom]
    refine ⟨hmode, fun hx => hrec ?_⟩
    rw [isOpen_eq_true_iff] at hx ⊢
    rw [← hfd]; exact hx

/-- A run of operations keeps the remembered mode one that `open()` accepts and equal to
the recorded mode while the handle is Open. -/
theorem performAll_keeps_mode (o : Oracle) (ops : List Operation) :
    ∀ (p : SerialPortImpl) (tr : Trace) (opened : Option OpenMode),
      (descriptorFlags p.openMode ≠ none ∧ (p.isOpen = true → opened = some p.openMode)) →
      descriptorFlags (p.performAll o tr opened ops).1.openMode ≠ none ∧
        ((p.performAll o tr opened ops).1.isOpen = true →
          (p.performAll o tr opened ops).2.2 = some (p.performAll o tr opened ops).1.openMode) := by
  induction ops with
  | nil => intro p tr opened h; exact h
  | cons op ops ih =>
    intro p tr opened h
    simp only [SerialPortImpl.performAll]
    exact ih _ _ _ (perform_keeps_mode o p tr opened op h)

end Linux

namespace Windows

/-- The modes `open()` accepts on the Windows target are `in | out`, `in` and `out`. -/
theorem win_accessFlags_ne_none_iff (openMode : OpenMode) :
    accessFlags openMode ≠ none ↔
      (openMode = (ios_base_in ||| ios_base_out) ∨ openMode = ios_base_in ∨
        openMode = ios_base_out) := by
  unfold accessFlags
  simp only [beq_iff_eq]
  split_ifs <;> simp_all

/-- What `open()` writes on the Windows target: nothing, or the mode (a supported one),
the handle and the two snapshots. -/
theorem win_open_port_shape (o : Oracle) (p : SerialPortImpl) (tr : Trace)
    (openMode : OpenMode) :
    (p.open o tr openMode).port = p ∨
      (accessFlags openMode ≠ none ∧ p.isOpen = false ∧
        ∃ fd ps ts, (p.open o tr openMode).port =
          { p with openMode := openMode, fileDescriptor := fd, portSettings := ps,
                   timeoutSettings := ts }) := by
  cases hopen : p.isOpen with
  | true => left; rw [win_open_opened o p tr openMode hopen]
  | false =>
    have hclosed := hopen
    cases hflags : accessFlags openMode with
    | none => left; simp [SerialPortImpl.open, hclosed, hflags]
    | some flags =>
      right
      refine ⟨by simp, rfl, ?_⟩
      generalize hfdv : (o (tr ++ [NativeCall.CreateFile (SERIAL_PORT_PREFIX ++ p.portName)
        flags])).ret = fd
      by_cases hfd : fd = INVALID_FILE_DESCRIPTOR
      · rw [win_open_native_open_fails o p tr openMode flags hclosed hflags
          (by rw [hfdv, hfd])]
        exact ⟨INVALID_FILE_DESCRIPTOR, p.portSettings, p.timeoutSettings, rfl⟩
      · by_cases hget : (o (tr ++ [NativeCall.CreateFile (SERIAL_PORT_PREFIX ++ p.portName)
            flags, NativeCall.GetCommState fd])).ret = 0
        · rw [win_open_get_fails o p tr openMode flags fd hclosed hflags hfdv hfd hget]
          exact ⟨INVALID_FILE_DESCRIPTOR, p.portSettings, p.timeoutSettings, rfl⟩
        · by_cases hgetT : (o (tr ++ [NativeCall.CreateFile
              (SERIAL_PORT_PREFIX ++ p.portName) flags,
              NativeCall.GetCommState fd, NativeCall.GetCommTimeouts fd])).ret = 0
          · rw [win_open_get_timeouts_fails o p tr openMode flags fd hclosed hflags hfdv hfd
              hget hgetT]
            exact ⟨INVALID_FILE_DESCRIPTOR, _, p.timeoutSettings, rfl⟩
          · rw [win_open_reaches_update o p tr openMode flags fd hclosed hflags hfdv hfd
              hget hgetT _ rfl]
            cases hu : SerialPortImpl.updatePortSettings o _ _ with
            | mk e tr' =>
              cases e with
              | some e =>
                simp only [win_close_port]
                exact ⟨_, _, _, rfl⟩
              | none => exact ⟨_, _, _, rfl⟩

/-- What `setPortName()` writes on the Windows target: the name, and through `reopen()`
the handle and the snapshots; the remembered mode is passed to `open()` and stays. -/
theorem win_setPortName_port_shape (o : Oracle) (p : SerialPortImpl) (tr : Trace)
    (n : String) :
    ∃ fd ps ts, (p.setPortName o tr n).port =
      { p with portName := n, fileDescriptor := fd, portSettings := ps,
               timeoutSettings := ts } := by
  cases hopen : p.isOpen with
  | false =>
    rw [win_setPortName_closed o p tr n hopen]
    exact ⟨p.fileDescriptor, p.portSettings, p.timeoutSettings, rfl⟩
  | true =>
    rw [win_setPortName_open o p tr n hopen]
    split
    · exact ⟨INVALID_FILE_DESCRIPTOR, p.portSettings, p.timeoutSettings, rfl⟩
    · rcases win_open_port_shape o
        ({ p with portName := n, fileDescriptor := INVALID_FILE_DESCRIPTOR } : SerialPortImpl)
        (({ p with portName := n } : SerialPortImpl).close o tr).trace p.openMode
        with h | ⟨_, _, fd, ps, ts, h⟩
      · rw [h]; exact ⟨INVALID_FILE_DESCRIPTOR, p.portSettings, p.timeoutSettings, rfl⟩
      · rw [h]; exact ⟨fd, ps, ts, rfl⟩

/-- The Windows translator throws `out_of_range` only. -/
theorem win_prepare_error_shape (p : SerialPortImpl) (r : DCB) (e : Exception)
    (h : p.preparePortSettings r = .error e) : ∃ what, e = Exception.out_of_range what := by
  unfold SerialPortImpl.preparePortSettings at h
  cases hb : getBaudRateValue Platform.windows p.baudRate with
  | error e' =>
    simp only [hb] at h
    injection h with h
    subst h
    exact ⟨_, baudRateValue_error_shape _ _ _ hb⟩
  | ok speed =>
    cases hc : getCharacterSizeValue Platform.windows p.characterSize with
    | error e' =>
      simp only [hb, hc] at h
      injection h with h
      subst h
      exact ⟨_, characterSizeValue_error_shape _ _ _ hc⟩
    | ok size => simp [hb, hc] at h

/-- What `updatePortSettings()` throws is not "Unsupported open mode". -/
theorem win_update_exception_ne (o : Oracle) (p : SerialPortImpl) (tr : Trace) :
    (p.updatePortSettings o tr).1 ≠
      some (Exception.runtime_error "Unsupported open mode") := by
  unfold SerialPortImpl.updatePortSettings
  split
  · simp
  · dsimp only
    split
    · exact message_ne _ (by decide)
    · split
      · rename_i e he
        obtain ⟨what, hw⟩ := win_prepare_error_shape p _ e he
        simp [hw]
      · split
        · exact message_ne _ (by decide)
        · split
          · exact message_ne _ (by decide)
          · split
            · exact message_ne _ (by decide)
            · simp

/-- What `close()` throws is not "Unsupported open mode". -/
theorem win_close_exception_ne (o : Oracle) (p : SerialPortImpl) (tr : Trace) :
    (p.close o tr).exception ≠ some (Exception.runtime_error "Unsupported open mode") := by
  cases hopen : p.isOpen with
  | false => rw [win_close_closed o p tr hopen]; simp
  | true =>
    rw [win_close_opened o p tr hopen]
    simp only
    split
    · simp
    · exact message_ne _ (by decide)

/-- With a mode `open()` accepts, what `open()` throws is not "Unsupported open mode". -/
theorem win_open_exception_ne (o : Oracle) (p : SerialPortImpl) (tr : Trace)
    (openMode : OpenMode) (h : accessFlags openMode ≠ none) :
    (p.open o tr openMode).exception ≠
      some (Exception.runtime_error "Unsupported open mode") := by
  cases hopen : p.isOpen with
  | true => rw [win_open_opened o p tr openMode hopen]; simp
  | false =>
    have hclosed := hopen
    cases hflags : accessFlags openMode with
    | none => exact absurd hflags h
    | some flags =>
      generalize hfdv : (o (tr ++ [NativeCall.CreateFile (SERIAL_PORT_PREFIX ++ p.portName)
        flags])).ret = fd
      by_cases hfd : fd = INVALID_FILE_DESCRIPTOR
      · rw [win_open_native_open_fails o p tr openMode flags hclosed hflags
          (by rw [hfdv, hfd])]
        exact message_ne _ (by decide)
      · by_cases hget : (o (tr ++ [NativeCall.CreateFile (SERIAL_PORT_PREFIX ++ p.portName)
            flags, NativeCall.GetCommState fd])).ret = 0
        · rw [win_open_get_fails o p tr openMode flags fd hclosed hflags hfdv hfd hget]
          exact message_ne _ (by decide)
        · by_cases hgetT : (o (tr ++ [NativeCall.CreateFile
              (SERIAL_PORT_PREFIX ++ p.portName) flags,
              NativeCall.GetCommState fd, NativeCall.GetCommTimeouts fd])).ret = 0
          · rw [win_open_get_timeouts_fails o p tr openMode flags fd hclosed hflags hfdv hfd
              hget hgetT]
            exact message_ne _ (by decide)
          · rw [win_open_reaches_update o p tr openMode flags fd hclosed hflags hfdv hfd
              hget hgetT _ rfl]
            generalize hq : ({ p with
                openMode := openMode, fileDescriptor := fd,
                portSettings := (o (tr ++ [NativeCall.CreateFile
                  (SERIAL_PORT_PREFIX ++ p.portName) flags,
                  NativeCall.GetCommState fd])).settings,
                timeoutSettings := (o (tr ++ [NativeCall.CreateFile
                  (SERIAL_PORT_PREFIX ++ p.portName) flags,
                  NativeCall.GetCommState fd, NativeCall.GetCommTimeouts fd])).timeouts }
                : SerialPortImpl) = q
            generalize htr0 : tr ++ [NativeCall.CreateFile (SERIAL_PORT_PREFIX ++ p.portName)
              flags, NativeCall.GetCommState fd, NativeCall.GetCommTimeouts fd] = tr0
            have hupd := win_update_exception_ne o q tr0
            rcases hu : q.updatePortSettings o tr0 with ⟨e, tr'⟩
            rw [hu] at hupd
            cases e with
            | some e =>
              simp only
              have hcl := win_close_exception_ne o q tr'
              split
              · rename_i e' he'
                rw [he'] at hcl
                exact hcl
              · exact hupd
            | none => simp

/-- With a remembered mode that `open()` accepts, the re-open of `setPortName()` does not
throw "Unsupported open mode". -/
theorem win_setPortName_exception_ne (o : Oracle) (p : SerialPortImpl) (tr : Trace)
    (n : String) (h : accessFlags p.openMode ≠ none) :
    (p.setPortName o tr n).exception ≠
      some (Exception.runtime_error "Unsupported open mode") := by
  cases hopen : p.isOpen with
  | false => rw [win_setPortName_closed o p tr n hopen]; simp
  | true =>
    rw [win_setPortName_open o p tr n hopen]
    split
    · rename_i e he
      have hcl := win_close_exception_ne o ({ p with portName := n } : SerialPortImpl) tr
      rw [he] at hcl
      exact hcl
    · exact win_open_exception_ne o _ _ p.openMode h

theorem win_store_openMode (p : SerialPortImpl) (c : SetterCall) :
    (p.store c).openMode = p.openMode := by
  cases c <;> rfl

theorem win_call_fileDescriptor (o : Oracle) (p : SerialPortImpl) (tr : Trace)
    (c : SetterCall) : (p.call o tr c).port.fileDescriptor = p.fileDescriptor := by
  rcases win_call_port o p tr c with h | h <;> rw [h]
  exact win_store_fileDescriptor p c

/-- A setter call keeps all five stored values supported on the Windows target. -/
theorem win_call_keeps_configuration (o : Oracle) (p : SerialPortImpl) (tr : Trace)
    (c : SetterCall) (h : p.configurationSupported = true) :
    (p.call o tr c).port.configurationSupported = true := by
  cases hsup : c.isSupported Platform.windows with
  | false =>
    obtain ⟨what, hw⟩ := win_call_unsupported o p tr c hsup
    rw [hw]; exact h
  | true =>
    rw [win_call_supported o p tr c hsup]
    cases c <;>
      simp_all [SerialPortImpl.store, SetterCall.isSupported,
        SerialPortImpl.configurationSupported]

/-- An operation keeps all five stored values supported on the Windows target. -/
theorem win_perform_keeps_configuration (o : Oracle) (p : SerialPortImpl) (tr : Trace)
    (op : Operation) (h : p.configurationSupported = true) :
    (p.perform o tr op).port.configurationSupported = true := by
  rcases op with openMode | _ | exclusive | portName | call
  · rcases win_open_port_shape o p tr openMode with hs | ⟨_, _, fd, ps, ts, hs⟩ <;>
      simp only [SerialPortImpl.perform, hs] <;> exact h
  · simp only [SerialPortImpl.perform, win_close_port]; exact h
  · exact h
  · obtain ⟨fd, ps, ts, hs⟩ := win_setPortName_port_shape o p tr portName
    simp only [SerialPortImpl.perform, hs]; exact h
  · exact win_call_keeps_configuration o p tr call h

/-- A run of operations keeps all five stored values supported on the Windows target. -/
theorem win_performAll_keeps_configuration (o : Oracle) (ops : List Operation) :
    ∀ (p : SerialPortImpl) (tr : Trace) (opened : Option OpenMode),
      p.configurationSupported = true →
      (p.performAll o tr opened ops).1.configurationSupported = true := by
  induction ops with
  | nil => intro p tr opened h; exact h
  | cons op ops ih =>
    intro p tr opened h
    simp only [SerialPortImpl.performAll]
    exact ih _ _ _ (win_perform_keeps_configuration o p tr op h)

/-- An operation keeps the remembered mode one that `open()` accepts, and equal to the
recorded mode while the handle is Open, on the Windows target. -/
theorem win_perform_keeps_mode (o : Oracle) (p : SerialPortImpl) (tr : Trace)
    (opened : Option OpenMode) (op : Operation)
    (h : accessFlags p.openMode ≠ none ∧ (p.isOpen = true → opened = some p.openMode)) :
    accessFlags (p.perform o tr op).port.openMode ≠ none ∧
      ((p.perform o tr op).port.isOpen = true →
        p.openedWith o tr opened op = some (p.perform o tr op).port.openMode) := by
  obtain ⟨hmode, hrec⟩ := h
  rcases op with openMode | _ | exclusive | portName | call
  · simp only [SerialPortImpl.perform, SerialPortImpl.openedWith]
    rcases win_open_port_shape o p tr openMode with hs | ⟨hm, hclosed, fd, ps, ts, hs⟩
    · rw [hs]
      refine ⟨hmode, fun hopen => ?_⟩
      simp [hopen, hrec hopen]
    · rw [hs]
      refine ⟨hm, fun hopen => ?_⟩
      simp [hclosed, hopen]
  · simp only [SerialPortImpl.perform, SerialPortImpl.openedWith, win_close_port]
    exact ⟨hmode, fun hopen => absurd hopen (by simp [SerialPortImpl.isOpen])⟩
  · exact ⟨hmode, hrec⟩
  · simp only [SerialPortImpl.perform, SerialPortImpl.openedWith]
    obtain ⟨fd, ps, ts, hs⟩ := win_setPortName_port_shape o p tr portName
    cases hopen : p.isOpen with
    | false =>
      rw [win_setPortName_closed o p tr portName hopen]
      refine ⟨hmode, fun hx => ?_⟩
      rw [show ({ p with portName := portName } : SerialPortImpl).isOpen = p.isOpen from rfl,
        hopen] at hx
      exact absurd hx (by decide)
    | true =>
      rw [hs]
      refine ⟨hmode, fun hx => ?_⟩
      simp [hx]
  · simp only [SerialPortImpl.perform, SerialPortImpl.openedWith]
    have hfd := win_call_fileDescriptor o p tr call
    have hom : (p.call o tr call).port.openMode = p.openMode := by
      rcases win_call_port o p tr call with hc | hc <;> rw [hc]
      exact win_store_openMode p call
    rw [hom]
    refine ⟨hmode, fun hx => hrec ?_⟩
    rw [win_isOpen_eq_true_iff] at hx ⊢
    rw [← hfd]; exact hx

/-- A run of operations keeps the remembered mode one that `open()` accepts and equal to
the recorded mode while the handle is Open, on the Windows target. -/
theorem win_performAll_keeps_mode (o : Oracle) (ops : List Operation) :
    ∀ (p : SerialPortImpl) (tr : Trace) (opened : Option OpenMode),
      (accessFlags p.openMode ≠ none ∧ (p.isOpen = true → opened = some p.openMode)) →
      accessFlags (p.performAll o tr opened ops).1.openMode ≠ none ∧
        ((p.performAll o tr opened ops).1.isOpen = true →
          (p.performAll o tr opened ops).2.2 = some (p.performAll o tr opened ops).1.openMode) := by
  induction ops with
  | nil => intro p tr opened h; exact h
  | cons op ops ih =>
    intro p tr opened h
    simp only [SerialPortImpl.performAll]
    exact ih _ _ _ (win_perform_keeps_mode o p tr opened op h)

end Windows

/-- C38.  A handle constructed with five values that are all supported on its target
holds five supported values after every sequence of operations (`open`, `close`,
`setExclusive`, `setPortName` and the five setters, whether they return or throw), and
the translator then returns on every record.  The constructor validates nothing: it
stores the values it is given, and the translator throws `out_of_range` on a handle
constructed with the custom baud rate. -/
theorem configuration_stays_supported
    (oL : Linux.Oracle) (uL : Linux.Termios) (oW : Windows.Oracle) (uW : Windows.DCB)
    (uT : Windows.COMMTIMEOUTS) (nameL nameW : String)
    (bL bW : BaudRate) (cL cW : CharacterSize) (fL fW : FlowControl) (paL paW : Parity)
    (sL sW : StopBit) (opsL opsW : List Operation)
    (hL : (isBaudRateSupported Platform.linux bL && isCharacterSizeSupported cL &&
      isFlowControlSupported fL && isParitySupported paL &&
      isStopBitSupported Platform.linux sL) = true)
    (hW : (isBaudRateSupported Platform.windows bW && isCharacterSizeSupported cW &&
      isFlowControlSupported fW && isParitySupported paW &&
      isStopBitSupported Platform.windows sW) = true) :
    (((Linux.SerialPortImpl.construct uL nameL bL cL fL paL sL).performAll oL [] none
        opsL).1.configurationSupported = true ∧
      ∀ r, ∃ s, ((Linux.SerialPortImpl.construct uL nameL bL cL fL paL sL).performAll oL []
        none opsL).1.preparePortSettings r = .ok s) ∧
    (((Windows.SerialPortImpl.construct uW uT nameW bW cW fW paW sW).performAll oW [] none
        opsW).1.configurationSupported = true ∧
      ∀ r, ∃ s, ((Windows.SerialPortImpl.construct uW uT nameW bW cW fW paW sW).performAll oW
        [] none opsW).1.preparePortSettings r = .ok s) ∧
    (∀ (b : BaudRate) (c : CharacterSize) (f : FlowControl) (pa : Parity) (s : StopBit),
      (Linux.SerialPortImpl.construct uL nameL b c f pa s).baudRate = b ∧
      (Linux.SerialPortImpl.construct uL nameL b c f pa s).characterSize = c ∧
      (Linux.SerialPortImpl.construct uL nameL b c f pa s).flowControl = f ∧
      (Linux.SerialPortImpl.construct uL nameL b c f pa s).parity = pa ∧
      (Linux.SerialPortImpl.construct uL nameL b c f pa s).stopBit = s ∧
      (Windows.SerialPortImpl.construct uW uT nameW b c f pa s).baudRate = b ∧
      (Windows.SerialPortImpl.construct uW uT nameW b c f pa s).characterSize = c ∧
      (Windows.SerialPortImpl.construct uW uT nameW b c f pa s).flowControl = f ∧
      (Windows.SerialPortImpl.construct uW uT nameW b c f pa s).parity = pa ∧
      (Windows.SerialPortImpl.construct uW uT nameW b c f pa s).stopBit = s) ∧
    (∀ r, (Linux.SerialPortImpl.construct uL nameL BaudRate.BAUD_RATE_CUSTOM cL fL paL
        sL).preparePortSettings r = .error (Exception.out_of_range "Baud rate out of range")) ∧
    (∀ r, (Windows.SerialPortImpl.construct uW uT nameW BaudRate.BAUD_RATE_CUSTOM cW fW paW
        sW).preparePortSettings r =
      .error (Exception.out_of_range "Baud rate out of range")) := by
  have hkL := Linux.performAll_keeps_configuration oL opsL
    (Linux.SerialPortImpl.construct uL nameL bL cL fL paL sL) [] none hL
  have hkW := Windows.win_performAll_keeps_configuration oW opsW
    (Windows.SerialPortImpl.construct uW uT nameW bW cW fW paW sW) [] none hW
  refine ⟨⟨hkL, fun r => ?_⟩, ⟨hkW, fun r => ?_⟩,
    fun b c f pa s => ⟨rfl, rfl, rfl, rfl, rfl, rfl, rfl, rfl, rfl, rfl⟩, fun r => ?_,
    fun r => ?_⟩
  · simp only [Linux.SerialPortImpl.configurationSupported, Bool.and_eq_true] at hkL
    exact Linux.prepare_ok_of_supported _ r hkL.1.1.1.1 hkL.1.1.1.2
  · simp only [Windows.SerialPortImpl.configurationSupported, Bool.and_eq_true] at hkW
    obtain ⟨_, _, _, _, h⟩ := Windows.win_prepare_ok_of_supported _ r hkW.1.1.1.1 hkW.1.1.1.2
    exact ⟨_, h⟩
  · simp [Linux.SerialPortImpl.preparePortSettings, Linux.SerialPortImpl.construct,
      getBaudRateValue, BaudRate.BAUD_RATE_CUSTOM]
  · simp [Windows.SerialPortImpl.preparePortSettings, Windows.SerialPortImpl.construct,
      getBaudRateValue, BaudRate.BAUD_RATE_CUSTOM]

/-- C38 on handles constructed with the default values, after a run that opens the port,
calls a setter with an unsupported value (which throws), a setter with a supported value,
renames the port and closes it. -/
theorem configuration_stays_supported_witness :
    ((Linux.SerialPortImpl.construct Linux.Termios.zero "/dev/ttyUSB0"
        BaudRate.BAUD_RATE_DEFAULT CharacterSize.CHARACTER_SIZE_DEFAULT
        FlowControl.FLOW_CONTROL_DEFAULT Parity.PARITY_TYPE_DEFAULT
        StopBit.STOP_BIT_DEFAULT).performAll Linux.healthyDevice [] none
        [Operation.open readWrite,
         Operation.set (SetterCall.setBaudRate BaudRate.BAUD_RATE_CUSTOM),
         Operation.set (SetterCall.setParity Parity.PARITY_TYPE_EVEN),
         Operation.setPortName "/dev/ttyUSB1", Operation.close]).1.configurationSupported
      = true ∧
    ((Windows.SerialPortImpl.construct Windows.DCB.zero Windows.COMMTIMEOUTS.zero "COM1"
        BaudRate.BAUD_RATE_DEFAULT CharacterSize.CHARACTER_SIZE_DEFAULT
        FlowControl.FLOW_CONTROL_DEFAULT Parity.PARITY_TYPE_DEFAULT
        StopBit.STOP_BIT_ONE_HALF).performAll Windows.healthyDevice [] none
        [Operation.open readWrite,
         Operation.set (SetterCall.setBaudRate BaudRate.BAUD_RATE_CUSTOM),
         Operation.set (SetterCall.setParity Parity.PARITY_TYPE_EVEN),
         Operation.setPortName "COM2", Operation.close]).1.configurationSupported
      = true := by
  have h := configuration_stays_supported Linux.healthyDevice Linux.Termios.zero
    Windows.healthyDevice Windows.DCB.zero Windows.COMMTIMEOUTS.zero "/dev/ttyUSB0" "COM1"
    BaudRate.BAUD_RATE_DEFAULT BaudRate.BAUD_RATE_DEFAULT
    CharacterSize.CHARACTER_SIZE_DEFAULT CharacterSize.CHARACTER_SIZE_DEFAULT
    FlowControl.FLOW_CONTROL_DEFAULT FlowControl.FLOW_CONTROL_DEFAULT
    Parity.PARITY_TYPE_DEFAULT Parity.PARITY_TYPE_DEFAULT
    StopBit.STOP_BIT_DEFAULT StopBit.STOP_BIT_ONE_HALF
    [Operation.open readWrite,
     Operation.set (SetterCall.setBaudRate BaudRate.BAUD_RATE_CUSTOM),
     Operation.set (SetterCall.setParity Parity.PARITY_TYPE_EVEN),
     Operation.setPortName "/dev/ttyUSB1", Operation.close]
    [Operation.open readWrite,
     Operation.set (SetterCall.setBaudRate BaudRate.BAUD_RATE_CUSTOM),
     Operation.set (SetterCall.setParity Parity.PARITY_TYPE_EVEN),
     Operation.setPortName "COM2", Operation.close]
    (by decide) (by decide)
  exact ⟨h.1.1, h.2.1.1⟩

/-- C39.  In every state that a run of operations reaches from a constructed handle and in
which the handle is Open, the remembered open mode is one of `in | out`, `in` and `out`
and is the mode passed to the `open()` call that opened the handle; and in every state
the run reaches, `setPortName` does not throw "Unsupported open mode".  On both
targets. -/
theorem remembered_mode_is_the_opening_mode
    (oL : Linux.Oracle) (uL : Linux.Termios) (oW : Windows.Oracle) (uW : Windows.DCB)
    (uT : Windows.COMMTIMEOUTS) (nameL nameW : String)
    (bL bW : BaudRate) (cL cW : CharacterSize) (fL fW : FlowControl) (paL paW : Parity)
    (sL sW : StopBit) (opsL opsW : List Operation) :
    (((Linux.SerialPortImpl.construct uL nameL bL cL fL paL sL).performAll oL [] none
        opsL).1.isOpen = true →
      (((Linux.SerialPortImpl.construct uL nameL bL cL fL paL sL).performAll oL [] none
          opsL).1.openMode = (ios_base_in ||| ios_base_out) ∨
        ((Linux.SerialPortImpl.construct uL nameL bL cL fL paL sL).performAll oL [] none
          opsL).1.openMode = ios_base_in ∨
        ((Linux.SerialPortImpl.construct uL nameL bL cL fL paL sL).performAll oL [] none
          opsL).1.openMode = ios_base_out) ∧
      ((Linux.SerialPortImpl.construct uL nameL bL cL fL paL sL).performAll oL [] none
          opsL).2.2 =
        some ((Linux.SerialPortImpl.construct uL nameL bL cL fL paL sL).performAll oL []
          none opsL).1.openMode) ∧
    (∀ n, (((Linux.SerialPortImpl.construct uL nameL bL cL fL paL sL).performAll oL [] none
        opsL).1.setPortName oL
        ((Linux.SerialPortImpl.construct uL nameL bL cL fL paL sL).performAll oL [] none
          opsL).2.1 n).exception ≠
      some (Exception.runtime_error "Unsupported open mode")) ∧
    (((Windows.SerialPortImpl.construct uW uT nameW bW cW fW paW sW).performAll oW [] none
        opsW).1.isOpen = true →
      (((Windows.SerialPortImpl.construct uW uT nameW bW cW fW paW sW).performAll oW [] none
          opsW).1.openMode = (ios_base_in ||| ios_base_out) ∨
        ((Windows.SerialPortImpl.construct uW uT nameW bW cW fW paW sW).performAll oW [] none
          opsW).1.openMode = ios_base_in ∨
        ((Windows.SerialPortImpl.construct uW uT nameW bW cW fW paW sW).performAll oW [] none
          opsW).1.openMode = ios_base_out) ∧
      ((Windows.SerialPortImpl.construct uW uT nameW bW cW fW paW sW).performAll oW [] none
          opsW).2.2 =
        some ((Windows.SerialPortImpl.construct uW uT nameW bW cW fW paW sW).performAll oW []
          none opsW).1.openMode) ∧
    (∀ n, (((Windows.SerialPortImpl.construct uW uT nameW bW cW fW paW sW).performAll oW []
        none opsW).1.setPortName oW
        ((Windows.SerialPortImpl.construct uW uT nameW bW cW fW paW sW).performAll oW [] none
          opsW).2.1 n).exception ≠
      some (Exception.runtime_error "Unsupported open mode")) := by
  have hL := Linux.performAll_keeps_mode oL opsL
    (Linux.SerialPortImpl.construct uL nameL bL cL fL paL sL) [] none
    ⟨by show Linux.descriptorFlags (ios_base_in ||| ios_base_out) ≠ none; decide,
     fun h => absurd h (by
      show ¬ (Linux.INVALID_FILE_DESCRIPTOR != Linux.INVALID_FILE_DESCRIPTOR) = true
      decide)⟩
  have hW := Windows.win_performAll_keeps_mode oW opsW
    (Windows.SerialPortImpl.construct uW uT nameW bW cW fW paW sW) [] none
    ⟨by show Windows.accessFlags (ios_base_in ||| ios_base_out) ≠ none; decide,
     fun h => absurd h (by
      show ¬ (Windows.INVALID_FILE_DESCRIPTOR != Windows.INVALID_FILE_DESCRIPTOR) = true
      decide)⟩
  exact ⟨fun h => ⟨(Linux.descriptorFlags_ne_none_iff _).1 hL.1, hL.2 h⟩,
    fun n => Linux.setPortName_exception_ne oL _ _ n hL.1,
    fun h => ⟨(Windows.win_accessFlags_ne_none_iff _).1 hW.1, hW.2 h⟩,
    fun n => Windows.win_setPortName_exception_ne oW _ _ n hW.1⟩

/-- C39 on the default handles, opened for reading only and then renamed: both are Open
and the recorded mode is `in`. -/
theorem remembered_mode_is_the_opening_mode_witness :
    ((Linux.SerialPortImpl.construct Linux.Termios.zero "/dev/ttyUSB0"
        BaudRate.BAUD_RATE_DEFAULT CharacterSize.CHARACTER_SIZE_DEFAULT
        FlowControl.FLOW_CONTROL_DEFAULT Parity.PARITY_TYPE_DEFAULT
        StopBit.STOP_BIT_DEFAULT).performAll Linux.healthyDevice [] none
        [Operation.open ios_base_in, Operation.setPortName "/dev/ttyUSB1"]).1.isOpen = true ∧
    ((Linux.SerialPortImpl.construct Linux.Termios.zero "/dev/ttyUSB0"
        BaudRate.BAUD_RATE_DEFAULT CharacterSize.CHARACTER_SIZE_DEFAULT
        FlowControl.FLOW_CONTROL_DEFAULT Parity.PARITY_TYPE_DEFAULT
        StopBit.STOP_BIT_DEFAULT).performAll Linux.healthyDevice [] none
        [Operation.open ios_base_in, Operation.setPortName "/dev/ttyUSB1"]).2.2 =
      some ios_base_in ∧
    ((Windows.SerialPortImpl.construct Windows.DCB.zero Windows.COMMTIMEOUTS.zero "COM1"
        BaudRate.BAUD_RATE_DEFAULT CharacterSize.CHARACTER_SIZE_DEFAULT
        FlowControl.FLOW_CONTROL_DEFAULT Parity.PARITY_TYPE_DEFAULT
        StopBit.STOP_BIT_DEFAULT).performAll Windows.healthyDevice [] none
        [Operation.open ios_base_in, Operation.setPortName "COM2"]).2.2 =
      some ios_base_in := by
  have h := remembered_mode_is_the_opening_mode Linux.healthyDevice Linux.Termios.zero
    Windows.healthyDevice Windows.DCB.zero Windows.COMMTIMEOUTS.zero "/dev/ttyUSB0" "COM1"
    BaudRate.BAUD_RATE_DEFAULT BaudRate.BAUD_RATE_DEFAULT
    CharacterSize.CHARACTER_SIZE_DEFAULT CharacterSize.CHARACTER_SIZE_DEFAULT
    FlowControl.FLOW_CONTROL_DEFAULT FlowControl.FLOW_CONTROL_DEFAULT
    Parity.PARITY_TYPE_DEFAULT Parity.PARITY_TYPE_DEFAULT
    StopBit.STOP_BIT_DEFAULT StopBit.STOP_BIT_DEFAULT
    [Operation.open ios_base_in, Operation.setPortName "/dev/ttyUSB1"]
    [Operation.open ios_base_in, Operation.setPortName "COM2"]
  have hopenL : ((Linux.SerialPortImpl.construct Linux.Termios.zero "/dev/ttyUSB0"
        BaudRate.BAUD_RATE_DEFAULT CharacterSize.CHARACTER_SIZE_DEFAULT
        FlowControl.FLOW_CONTROL_DEFAULT Parity.PARITY_TYPE_DEFAULT
        StopBit.STOP_BIT_DEFAULT).performAll Linux.healthyDevice [] none
        [Operation.open ios_base_in, Operation.setPortName "/dev/ttyUSB1"]).1.isOpen = true := by
    decide
  have hopenW : ((Windows.SerialPortImpl.construct Windows.DCB.zero Windows.COMMTIMEOUTS.zero
        "COM1" BaudRate.BAUD_RATE_DEFAULT CharacterSize.CHARACTER_SIZE_DEFAULT
        FlowControl.FLOW_CONTROL_DEFAULT Parity.PARITY_TYPE_DEFAULT
        StopBit.STOP_BIT_DEFAULT).performAll Windows.healthyDevice [] none
        [Operation.open ios_base_in, Operation.setPortName "COM2"]).1.isOpen = true := by
    decide
  have hmodeL : ((Linux.SerialPortImpl.construct Linux.Termios.zero "/dev/ttyUSB0"
        BaudRate.BAUD_RATE_DEFAULT CharacterSize.CHARACTER_SIZE_DEFAULT
        FlowControl.FLOW_CONTROL_DEFAULT Parity.PARITY_TYPE_DEFAULT
        StopBit.STOP_BIT_DEFAULT).performAll Linux.healthyDevice [] none
        [Operation.open ios_base_in, Operation.setPortName "/dev/ttyUSB1"]).1.openMode =
      ios_base_in := by decide
  have hmodeW : ((Windows.SerialPortImpl.construct Windows.DCB.zero Windows.COMMTIMEOUTS.zero
        "COM1" BaudRate.BAUD_RATE_DEFAULT CharacterSize.CHARACTER_SIZE_DEFAULT
        FlowControl.FLOW_CONTROL_DEFAULT Parity.PARITY_TYPE_DEFAULT
        StopBit.STOP_BIT_DEFAULT).performAll Windows.healthyDevice [] none
        [Operation.open ios_base_in, Operation.setPortName "COM2"]).1.openMode =
      ios_base_in := by decide
  exact ⟨hopenL, hmodeL ▸ (h.1 hopenL).2, hmodeW ▸ (h.2.2.1 hopenW).2⟩

end LibSerial
